import Mathlib

/-!
# NTV2VirtualDev: the virtual-device translation layer

A shallow embedding of `plugins/virtualdev/virtualdev.cpp`.

* `ULWord` values are natural numbers below `2^32`; every C++ operation that can
  leave that range is followed by an explicit `% U32`.
* `std::map` is a key-sorted association list (`NMap`), `std::multimap` a key-sorted
  list that keeps insertion order among equal keys, `std::set` the list of its
  elements in iteration order.
* What the file takes from the rest of the SDK (enumerators, register numbers, masks,
  the signal-router and register-expert queries) is gathered in the parameter
  structures `SDK` and `Regs`; the code of this file is embedded over them.
* The physical card `mCard` is a register file with a log of the calls issued to it.
-/

namespace NTV2VirtualDev

/-! ## Machine words -/

/-- The modulus of `ULWord` (32-bit unsigned). -/
def U32 : Nat := 4294967296

/-- The macro `BIT(n)`, which is `1u << n`. -/
def BIT (n : Nat) : Nat := 1 <<< n

/-- Bitwise complement of a 32-bit word, the C++ `~x` on `ULWord`. -/
def not32 (x : Nat) : Nat := 4294967295 ^^^ (x % U32)

/-! ## Containers -/

/-- A `std::map` with integer keys and values, as a key-sorted association list. -/
abbrev NMap := List (Nat × Nat)

/-- The call `m.find(k)`, giving the stored value when the key is present. -/
def NMap.find : NMap → Nat → Option Nat
  | [], _ => none
  | (k', v') :: t, k => if k = k' then some v' else NMap.find t k

/-- The assignment `m[k] = v`: overwrites the value of an existing key, otherwise adds the
key at its sorted position. -/
def NMap.insert : NMap → Nat → Nat → NMap
  | [], k, v => [(k, v)]
  | (k', v') :: t, k, v =>
    if k < k' then (k, v) :: (k', v') :: t
    else if k = k' then (k, v) :: t
    else (k', v') :: NMap.insert t k v

/-! ## RegInfo -/

/-- The class `RegInfo`: one crosspoint-select field. -/
structure RegInfo where
  mRegNum : Nat
  mNdx : Nat
  mIXpt : Nat
deriving DecidableEq, Repr

/-- The static `RegInfo::MaskForNdx (const UByte ndx)`. -/
def MaskForNdx (ndx : Nat) : Nat :=
  if ndx < 4 then [0x000000FF, 0x0000FF00, 0x00FF0000, 0xFF000000].getD ndx 0 else 0

/-- The static `RegInfo::InvertedMaskForNdx (const UByte ndx)`. -/
def InvertedMaskForNdx (ndx : Nat) : Nat :=
  if ndx < 4 then [0xFFFFFF00, 0xFFFF00FF, 0xFF00FFFF, 0x00FFFFFF].getD ndx 0 else 0

/-- The static `RegInfo::ShiftForNdx (const UByte ndx)`. -/
def ShiftForNdx (ndx : Nat) : Nat :=
  if ndx < 4 then [0, 8, 16, 24].getD ndx 0 else 0

/-- The accessor `regNum()`. -/
def RegInfo.regNum (r : RegInfo) : Nat := r.mRegNum

/-- The accessor `mask()`; the `ULWord` index is narrowed to the `UByte` parameter. -/
def RegInfo.mask (r : RegInfo) : Nat := MaskForNdx (r.mNdx % 256)

/-- The accessor `invMask()`. -/
def RegInfo.invMask (r : RegInfo) : Nat := InvertedMaskForNdx (r.mNdx % 256)

/-- The accessor `shift()`, returned as a `UByte`. -/
def RegInfo.shift (r : RegInfo) : Nat := ShiftForNdx (r.mNdx % 256) % 256

/-- The accessor `inputXpt()`. -/
def RegInfo.inputXpt (r : RegInfo) : Nat := r.mIXpt

/-- A `std::multimap<ULWord,RegInfo>`: key-sorted, insertion order kept among equal keys. -/
abbrev XptRegInfoMMap := List (Nat × RegInfo)

/-- The call `mm.insert(XptRegInfoPair(k, r))`: the new element goes after every element
whose key is not greater. -/
def XptRegInfoMMap.insert : XptRegInfoMMap → Nat → RegInfo → XptRegInfoMMap
  | [], k, r => [(k, r)]
  | (k', r') :: t, k, r =>
    if k < k' then (k, r) :: (k', r') :: t
    else (k', r') :: XptRegInfoMMap.insert t k r

/-- The elements a loop started at `mm.find(k)` visits while `it->first == k`: the
equal range of `k`, in order, `find` giving the first element of the range. A key that is
absent gives the empty list (`find` returns `end()`). The loops of the source test
`it->first` without comparing `it` to `end()`; here the walk stops at the end of the
container. -/
def XptRegInfoMMap.equalRange (mm : XptRegInfoMMap) (k : Nat) : List RegInfo :=
  (mm.filter (fun e => e.1 = k)).map (fun e => e.2)

/-! ## What the file uses from the rest of the SDK -/

/-- Enumerators and queries of the SDK that `virtualdev.cpp` uses and that are declared
elsewhere (`ntv2enums.h`, `CNTV2SignalRouter`, `CNTV2RegisterExpert`, `ntv2utils`). -/
structure SDK where
  /-- The enumerator `NTV2_XptBlack`. -/
  NTV2_XptBlack : Nat
  /-- The enumerator `NTV2_INPUT_CROSSPOINT_INVALID`. -/
  NTV2_INPUT_CROSSPOINT_INVALID : Nat
  /-- The enumerator `NTV2_XptMixer1VidRGB`. -/
  NTV2_XptMixer1VidRGB : Nat
  /-- The enumerator `NTV2WidgetType_FrameStore`. -/
  NTV2WidgetType_FrameStore : Nat
  /-- The enumerator `NTV2_CHANNEL_INVALID`. -/
  NTV2_CHANNEL_INVALID : Nat
  /-- The enumerator `NTV2CROSSPOINT_INVALID`. -/
  NTV2CROSSPOINT_INVALID : Nat
  /-- The enumerator `NTV2_REFERENCE_INPUT1`. -/
  NTV2_REFERENCE_INPUT1 : Nat
  /-- The enumerator `NTV2_REFERENCE_EXTERNAL`. -/
  NTV2_REFERENCE_EXTERNAL : Nat
  /-- The enumerator `NTV2_REFERENCE_FREERUN`. -/
  NTV2_REFERENCE_FREERUN : Nat
  /-- The enumerator `NTV2_AUDIOSYSTEM_INVALID`. -/
  NTV2_AUDIOSYSTEM_INVALID : Nat
  /-- The enumerators `NTV2WidgetType_SDIIn`, `NTV2WidgetType_SDIIn3G`,
  `NTV2WidgetType_SDIOut`, `NTV2WidgetType_SDIOut3G`, `NTV2WidgetType_SDIIn12G` and
  `NTV2WidgetType_SDIOut12G`, in that order. -/
  sdiWidgetTypes : List Nat
  /-- The set filled by `CNTV2SignalRouter::GetWidgetInputs`, in iteration order. -/
  GetWidgetInputs : Nat → List Nat
  /-- The set filled by `CNTV2SignalRouter::GetWidgetOutputs`, in iteration order. -/
  GetWidgetOutputs : Nat → List Nat
  /-- The query `CNTV2SignalRouter::WidgetIDToType`. -/
  WidgetIDToType : Nat → Nat
  /-- The query `CNTV2SignalRouter::WidgetIDToChannel`. -/
  WidgetIDToChannel : Nat → Nat
  /-- The query `CNTV2RegisterExpert::GetCrosspointSelectGroupRegisterInfo`: the register
  and nibble index that own an input crosspoint, `none` when it returns false. -/
  GetCrosspointSelectGroupRegisterInfo : Nat → Option (Nat × Nat)
  /-- The composite `NTV2InputSourceToReferenceSource (NTV2ChannelToInputSource (ch))`. -/
  ChannelToReferenceSource : Nat → Nat
  /-- The function `GetNTV2CrosspointInputForIndex`. -/
  GetNTV2CrosspointInputForIndex : Nat → Nat
  /-- The function `GetNTV2CrosspointChannelForIndex`. -/
  GetNTV2CrosspointChannelForIndex : Nat → Nat
  /-- The function `NTV2ChannelToAudioSystem`. -/
  NTV2ChannelToAudioSystem : Nat → Nat
  /-- The function `NTV2DeviceGetNumAudioSystems`, of the device ID. -/
  NTV2DeviceGetNumAudioSystems : Nat → Nat
  /-- The function `NTV2DeviceGetActiveMemorySize`, of the device ID. -/
  NTV2DeviceGetActiveMemorySize : Nat → Nat
  /-- The enumerator `DEVICE_ID_INVALID`. -/
  DEVICE_ID_INVALID : Nat
  /-- The message type `NTV2_TYPE_SETREGS`. -/
  NTV2_TYPE_SETREGS : Nat
  /-- The message type `NTV2_TYPE_GETREGS`. -/
  NTV2_TYPE_GETREGS : Nat
  /-- The message type `NTV2_TYPE_ACSTATUS`. -/
  NTV2_TYPE_ACSTATUS : Nat
  /-- The message type `NTV2_TYPE_ACXFER`. -/
  NTV2_TYPE_ACXFER : Nat
  /-- The message type `NTV2_TYPE_ACFRAMESTAMP`. -/
  NTV2_TYPE_ACFRAMESTAMP : Nat
  /-- The interrupt enumerators `eInput1` .. `eInput8`, by their number. -/
  eInput : Nat → Nat
  /-- The interrupt enumerators `eOutput1` .. `eOutput8`, by their number. -/
  eOutput : Nat → Nat
  /-- The interrupt enumerator `eVerticalInterrupt`. -/
  eVerticalInterrupt : Nat
  /-- The autocirculate command `eInitAutoCirc`. -/
  eInitAutoCirc : Nat

/-- The enumerator `NTV2_CHANNEL1`, first of a 0-based enumeration. -/
def NTV2_CHANNEL1 : Nat := 0

/-- The enumerator `NTV2_AUDIOSYSTEM_1`, first of a 0-based enumeration. -/
def NTV2_AUDIOSYSTEM_1 : Nat := 0

/-! ## The translator's mapping tables -/

/-- The instance data of `NTV2VirtualDev` that the translation uses. -/
structure VDev where
  mSimDeviceID : Nat
  mChannel : Nat
  mCardToVDevWgts : NMap
  mVDevToCardWgts : NMap
  mCardToVDevIXpts : NMap
  mVDevToCardIXpts : NMap
  mCardToVDevOXpts : NMap
  mVDevToCardOXpts : NMap
  mCardXptRegInfos : XptRegInfoMMap
  mVDevXptRegInfos : XptRegInfoMMap
  mCardToVDevChls : NMap
  mVDevToCardChls : NMap
  mCardToVDevMxrs : NMap
  mVDevToCardMxrs : NMap
  mCardToKonaACXpts : NMap
  mKonaToCardACXpts : NMap
  mCardToKonaAudSys : NMap
  mKonaToCardAudSys : NMap
  mCardToKonaDAT : NMap
  mKonaToCardDAT : NMap

/-- The tables as the constructor leaves them: every container empty, `mChannel` 0 and
`mSimDeviceID` as given. -/
def VDev.constructed (simDeviceID : Nat) : VDev :=
  { mSimDeviceID := simDeviceID, mChannel := 0,
    mCardToVDevWgts := [], mVDevToCardWgts := [],
    mCardToVDevIXpts := [], mVDevToCardIXpts := [],
    mCardToVDevOXpts := [], mVDevToCardOXpts := [],
    mCardXptRegInfos := [], mVDevXptRegInfos := [],
    mCardToVDevChls := [], mVDevToCardChls := [],
    mCardToVDevMxrs := [], mVDevToCardMxrs := [],
    mCardToKonaACXpts := [], mKonaToCardACXpts := [],
    mCardToKonaAudSys := [], mKonaToCardAudSys := [],
    mCardToKonaDAT := [], mKonaToCardDAT := [] }

/-- One element of the JSON array `mappedWidgets`. -/
structure MappedWidget where
  deviceWidgetId : Nat
  virtualWidgetId : Nat
deriving DecidableEq, Repr

/-- The loop of `SetupWidgetMapping` over `mappedWidgets`; the state is
`(mChannel, mVDevToCardWgts, mCardToVDevWgts)`. -/
def widgetLoop (sdk : SDK) : List MappedWidget → Nat × NMap × NMap → Nat × NMap × NMap
  | [], st => st
  | widMap :: rest, (ch, v2c, c2v) =>
    let cardWgt := widMap.deviceWidgetId
    let VDevWgt := widMap.virtualWidgetId
    let wgtType := sdk.WidgetIDToType cardWgt
    let ch1 :=
      if wgtType = sdk.NTV2WidgetType_FrameStore then
        let chan := sdk.WidgetIDToChannel cardWgt
        if chan < ch then chan else ch
      else ch
    widgetLoop sdk rest (ch1, v2c.insert VDevWgt cardWgt, c2v.insert cardWgt VDevWgt)

/-- The method `SetupWidgetMapping`, over the `mappedWidgets` array of `mVDjson`. -/
def SetupWidgetMapping (sdk : SDK) (mappedWidgets : List MappedWidget) (s : VDev) :
    Bool × VDev :=
  let r := widgetLoop sdk mappedWidgets (999, s.mVDevToCardWgts, s.mCardToVDevWgts)
  let ch := if r.1 = 999 then 0 else r.1
  let s1 : VDev :=
    { s with
      mChannel := ch
      mVDevToCardWgts := r.2.1
      mCardToVDevWgts := r.2.2
      mCardToVDevChls := s.mCardToVDevChls.insert ch NTV2_CHANNEL1
      mVDevToCardChls := s.mVDevToCardChls.insert NTV2_CHANNEL1 ch }
  if s1.mVDevToCardWgts.isEmpty then (false, s1) else (true, s1)

/-- The inner `while (true)` loop of the two crosspoint setups: walks the virtual and the
card pin sets in step, recording each pair in both maps, until either set is exhausted.
The state is `(cardToVDev, vDevToCard)`. -/
def zipXpts : List Nat → List Nat → NMap × NMap → NMap × NMap
  | v :: vs, c :: cs, (c2v, v2c) => zipXpts vs cs (c2v.insert c v, v2c.insert v c)
  | _, _, m => m

/-- The widget loop of `SetupOutputXptMapping`; `false` is the early `return false`. -/
def outputXptLoop (sdk : SDK) : NMap → NMap × NMap → Bool × (NMap × NMap)
  | [], m => (true, m)
  | (vw, cw) :: rest, m =>
    let vDevOxpts := (sdk.GetWidgetOutputs vw).erase sdk.NTV2_XptMixer1VidRGB
    let cardOxpts := sdk.GetWidgetOutputs cw
    if vDevOxpts.length > cardOxpts.length then (false, m)
    else if vDevOxpts.isEmpty then outputXptLoop sdk rest m
    else outputXptLoop sdk rest (zipXpts vDevOxpts cardOxpts m)

/-- The method `SetupOutputXptMapping`. -/
def SetupOutputXptMapping (sdk : SDK) (s : VDev) : Bool × VDev :=
  let r := outputXptLoop sdk s.mVDevToCardWgts (s.mCardToVDevOXpts, s.mVDevToCardOXpts)
  let s1 : VDev := { s with mCardToVDevOXpts := r.2.1, mVDevToCardOXpts := r.2.2 }
  if r.1 = false then (false, s1)
  else (!s1.mCardToVDevOXpts.isEmpty && !s1.mVDevToCardOXpts.isEmpty, s1)

/-- The widget loop of `SetupInputXptMapping`; `false` is the early `return false`. -/
def inputXptLoop (sdk : SDK) : NMap → NMap × NMap → Bool × (NMap × NMap)
  | [], m => (true, m)
  | (vw, cw) :: rest, m =>
    let vDevIxpts := sdk.GetWidgetInputs vw
    let cardIxpts := sdk.GetWidgetInputs cw
    if vDevIxpts.length ≠ cardIxpts.length then (false, m)
    else if vDevIxpts.isEmpty then inputXptLoop sdk rest m
    else inputXptLoop sdk rest (zipXpts vDevIxpts cardIxpts m)

/-- The method `SetupInputXptMapping`. -/
def SetupInputXptMapping (sdk : SDK) (s : VDev) : Bool × VDev :=
  let r := inputXptLoop sdk s.mVDevToCardWgts (s.mCardToVDevIXpts, s.mVDevToCardIXpts)
  let s1 : VDev := { s with mCardToVDevIXpts := r.2.1, mVDevToCardIXpts := r.2.2 }
  if r.1 = false then (false, s1)
  else (!s1.mCardToVDevIXpts.isEmpty && !s1.mVDevToCardIXpts.isEmpty, s1)

/-- The static `GetInputXptRegInfo`: the `RegInfo` of an input crosspoint, `none` when
the register expert returns false. -/
def GetInputXptRegInfo (sdk : SDK) (ixpt : Nat) : Option RegInfo :=
  match sdk.GetCrosspointSelectGroupRegisterInfo ixpt with
  | some (reg, ndx) => some { mRegNum := reg, mNdx := ndx, mIXpt := ixpt }
  | none => none

/-- One of the two loops of `SetupXptSelectRegMapping`: a `RegInfo` is recorded under its
register number for every key of the crosspoint map that has one. -/
def xptRegLoop (sdk : SDK) : NMap → XptRegInfoMMap → XptRegInfoMMap
  | [], mm => mm
  | (ixpt, _) :: rest, mm =>
    match GetInputXptRegInfo sdk ixpt with
    | some regInfo => xptRegLoop sdk rest (mm.insert regInfo.regNum regInfo)
    | none => xptRegLoop sdk rest mm

/-- The method `SetupXptSelectRegMapping`. -/
def SetupXptSelectRegMapping (sdk : SDK) (s : VDev) : Bool × VDev :=
  let s1 : VDev :=
    { s with
      mVDevXptRegInfos := xptRegLoop sdk s.mVDevToCardIXpts s.mVDevXptRegInfos
      mCardXptRegInfos := xptRegLoop sdk s.mCardToVDevIXpts s.mCardXptRegInfos }
  (!s1.mVDevXptRegInfos.isEmpty && !s1.mCardXptRegInfos.isEmpty, s1)

/-! ## Lookups -/

/-- The method `VDevToCardInputXpt`. -/
def VDevToCardInputXpt (sdk : SDK) (s : VDev) (inVDevInputXpt : Nat) : Nat :=
  match s.mVDevToCardIXpts.find inVDevInputXpt with
  | some x => x
  | none => sdk.NTV2_INPUT_CROSSPOINT_INVALID

/-- The method `CardToVDevInputXpt`. -/
def CardToVDevInputXpt (sdk : SDK) (s : VDev) (inCardInputXpt : Nat) : Nat :=
  match s.mCardToVDevIXpts.find inCardInputXpt with
  | some x => x
  | none => sdk.NTV2_INPUT_CROSSPOINT_INVALID

/-- The method `VDevToCardOutputXpt`. -/
def VDevToCardOutputXpt (sdk : SDK) (s : VDev) (xpt : Nat) : Nat :=
  match s.mVDevToCardOXpts.find xpt with
  | some x => x
  | none => sdk.NTV2_XptBlack

/-- The method `CardToVDevOutputXpt`. -/
def CardToVDevOutputXpt (sdk : SDK) (s : VDev) (cardXpt : Nat) : Nat :=
  match s.mCardToVDevOXpts.find cardXpt with
  | some x => x
  | none => sdk.NTV2_XptBlack

/-- The method `VDevToCardChannel`. -/
def VDevToCardChannel (sdk : SDK) (s : VDev) (ch : Nat) : Nat :=
  match s.mVDevToCardChls.find ch with
  | some x => x
  | none => sdk.NTV2_CHANNEL_INVALID

/-- The method `CardToVDevChannel`. -/
def CardToVDevChannel (sdk : SDK) (s : VDev) (ch : Nat) : Nat :=
  match s.mCardToVDevChls.find ch with
  | some x => x
  | none => sdk.NTV2_CHANNEL_INVALID

/-- The method `VDevToCardMixer`. -/
def VDevToCardMixer (s : VDev) (ch : Nat) : Nat :=
  match s.mVDevToCardMxrs.find ch with
  | some x => x
  | none => NTV2_CHANNEL1

/-- The method `CardToVDevMixer`. -/
def CardToVDevMixer (s : VDev) (ch : Nat) : Nat :=
  match s.mCardToVDevMxrs.find ch with
  | some x => x
  | none => NTV2_CHANNEL1

/-- The method `KonaToCardAudSys`. -/
def KonaToCardAudSys (s : VDev) (aud : Nat) : Nat :=
  match s.mKonaToCardAudSys.find aud with
  | some x => x
  | none => NTV2_AUDIOSYSTEM_1

/-- The method `CardToKonaAudSys`. -/
def CardToKonaAudSys (s : VDev) (aud : Nat) : Nat :=
  match s.mCardToKonaAudSys.find aud with
  | some x => x
  | none => NTV2_AUDIOSYSTEM_1

/-- The method `HasCardAudSys`. -/
def HasCardAudSys (s : VDev) (aud : Nat) : Bool := (s.mCardToKonaAudSys.find aud).isSome

/-- The method `HasKonaAudSys`. -/
def HasKonaAudSys (s : VDev) (aud : Nat) : Bool := (s.mKonaToCardAudSys.find aud).isSome

/-- The method `KonaToCardACXpt`. -/
def KonaToCardACXpt (sdk : SDK) (s : VDev) (xpt : Nat) : Nat :=
  match s.mKonaToCardACXpts.find xpt with
  | some x => x
  | none => sdk.NTV2CROSSPOINT_INVALID

/-- The method `CardToKonaACXpt`. -/
def CardToKonaACXpt (sdk : SDK) (s : VDev) (xpt : Nat) : Nat :=
  match s.mCardToKonaACXpts.find xpt with
  | some x => x
  | none => sdk.NTV2CROSSPOINT_INVALID

/-- The method `DATKonaToCardFrmOffset`; the result is `(returned bool, inOutFrameNum,
inOutCardOffsetBytes)`. -/
def DATKonaToCardFrmOffset (s : VDev) (inOutFrameNum inOutCardOffsetBytes : Nat) :
    Bool × Nat × Nat :=
  let devAddr := (0x800000 * inOutFrameNum + inOutCardOffsetBytes) % U32
  let devAddrNearest8MB := devAddr &&& 0xFF800000
  match s.mKonaToCardDAT.find devAddrNearest8MB with
  | none => (true, inOutFrameNum, inOutCardOffsetBytes)
  | some second => (true, second >>> 23, devAddr - devAddrNearest8MB)

/-- The method `DATKonaToCard`; the result is `(returned bool, byteAddress, byteCount)`. -/
def DATKonaToCard (s : VDev) (byteAddress byteCount : Nat) : Bool × Nat × Nat :=
  let devAddrNearest8MB := byteAddress &&& 0xFF800000
  match s.mKonaToCardDAT.find devAddrNearest8MB with
  | none => (true, byteAddress, byteCount)
  | some second =>
    let bytesPast8MBBoundary := byteAddress - devAddrNearest8MB
    (true, (second + bytesPast8MBBoundary) % U32, byteCount)

/-- The method `DATCardToKonaFrmOffset`; the result is `(returned bool, inOutFrameNum,
inOutCardOffsetBytes)`. -/
def DATCardToKonaFrmOffset (s : VDev) (inOutFrameNum inOutCardOffsetBytes : Nat) :
    Bool × Nat × Nat :=
  let devAddr := (0x800000 * inOutFrameNum + inOutCardOffsetBytes) % U32
  let devAddrNearest8MB := devAddr &&& 0xFF800000
  match s.mCardToKonaDAT.find devAddrNearest8MB with
  | none => (true, inOutFrameNum, inOutCardOffsetBytes)
  | some second => (true, second >>> 23, devAddr - devAddrNearest8MB)

/-- The table `Einputs`. -/
def Einputs (sdk : SDK) : List Nat :=
  [sdk.eInput 1, sdk.eInput 2, sdk.eInput 3, sdk.eInput 4, sdk.eInput 5, sdk.eInput 6,
   sdk.eInput 7, sdk.eInput 8]

/-- The method `VDevToCardInterrupt`, the `switch` as a chain of tests in source order. An
index past the end of `Einputs`, which C++ leaves undefined, reads 0 here. -/
def VDevToCardInterrupt (sdk : SDK) (s : VDev) (i : Nat) : Nat :=
  if i = sdk.eInput 1 then (Einputs sdk).getD s.mChannel 0
  else if i = sdk.eInput 2 then (Einputs sdk).getD (s.mChannel + 1) 0
  else if i = sdk.eOutput 1 ∨ i = sdk.eOutput 2 ∨ i = sdk.eOutput 3 ∨ i = sdk.eOutput 4
      ∨ i = sdk.eOutput 5 ∨ i = sdk.eOutput 6 ∨ i = sdk.eOutput 7 ∨ i = sdk.eOutput 8 then
    sdk.eVerticalInterrupt
  else i

/-- The labels of the `switch` of `VDevToCardInterrupt`, in source order; C++ requires
them to be pairwise different. -/
def interruptSwitchLabels (sdk : SDK) : List Nat :=
  [sdk.eInput 1, sdk.eInput 2, sdk.eOutput 1, sdk.eOutput 2, sdk.eOutput 3, sdk.eOutput 4,
   sdk.eOutput 5, sdk.eOutput 6, sdk.eOutput 7, sdk.eOutput 8]

/-- The method `isMyXptSelectRegister`. -/
def isMyXptSelectRegister (s : VDev) (regNum : Nat) : Bool :=
  s.mVDevXptRegInfos.any (fun e => e.1 = regNum)

/-! ## The physical card -/

/-- A structured message (`NTV2_HEADER` and what follows it): the header's type, the
fields the translator rewrites (`acCrosspoint` and `acAudioSystem` of
`AUTOCIRCULATE_STATUS`, `acCrosspoint` of `AUTOCIRCULATE_TRANSFER`, `acFrameTime` of
`FRAME_STAMP`, the latter as the unsigned value of its 64 bits) and the other content. -/
structure Message where
  fType : Nat
  acCrosspoint : Nat
  acAudioSystem : Nat
  acFrameTime : Nat
  rest : List Nat
deriving DecidableEq, Repr

/-- The method `GetType` of `NTV2_HEADER`. -/
def Message.GetType (m : Message) : Nat := m.fType

/-- An `NTV2Buffer`: the bytes of the host buffer. -/
structure NTV2Buffer where
  bytes : List Nat
deriving DecidableEq, Repr

/-- The method `GetByteCount` of `NTV2Buffer`, a `ULWord`. -/
def NTV2Buffer.GetByteCount (b : NTV2Buffer) : Nat := b.bytes.length % U32

/-- An `AUTOCIRCULATE_DATA`: the command, the crosspoint `channelSpec` and `lVal3`, which
are the fields the translator reads or rewrites, and the other content. -/
structure AUTOCIRCULATE_DATA where
  eCommand : Nat
  channelSpec : Nat
  lVal3 : Nat
  rest : List Nat
deriving DecidableEq, Repr

/-- A call issued to the physical SDK. -/
inductive Call where
  | ReadRegister (regNum mask shift : Nat)
  | WriteRegister (regNum value mask shift : Nat)
  | SetAudioPCMControl (audioSystem channelPair : Nat) (isNonPCM : Bool)
  | DmaTransfer (engine : Nat) (isRead : Bool) (frameNumber : Nat) (buffer : NTV2Buffer)
      (cardOffsetBytes byteCount numSegments segmentHostPitch segmentCardPitch : Nat)
      (synchronous : Bool)
  | NTV2Message (message : Message)
  | WaitForInterrupt (eInterrupt timeOutMs : Nat)
  | AutoCirculate (acData : AUTOCIRCULATE_DATA)
deriving DecidableEq, Repr

/-- Modelled from the spec: the physical device `mCard` ("read/write register with
mask+shift", whose implementation is in the SDK proper) is a file of 32-bit registers.
`readOK` and `writeOK` say for which registers the SDK call returns true, `calls` is the
log of the calls issued so far, oldest first. -/
structure Card where
  regs : Nat → Nat
  readOK : Nat → Bool
  writeOK : Nat → Bool
  pcmOK : Bool
  HasBiDirectionalSDI : Bool
  /-- The result of `mCard.GetDeviceID ()`. -/
  GetDeviceID : Nat
  /-- The query `mCard.GetAudioMemoryOffset (inOffsetBytes, outAbsByteOffset, inAudioSystem)`:
  the absolute byte offset, `none` when it returns false. -/
  GetAudioMemoryOffset : Nat → Nat → Option Nat
  /-- Whether `mCard.DmaTransfer` returns true. -/
  dmaOK : Bool
  /-- What `mCard.NTV2Message` returns for a message, and the message as it leaves it. -/
  NTV2MessageResult : Message → Bool × Message
  /-- What `mCard.WaitForInterrupt` returns for an interrupt and a timeout. -/
  WaitForInterruptResult : Nat → Nat → Bool
  /-- What `mCard.AutoCirculate` returns for its argument, and the argument as it leaves
  it. -/
  AutoCirculateResult : AUTOCIRCULATE_DATA → Bool × AUTOCIRCULATE_DATA
  calls : List Call

/-- Modelled from the spec: `mCard.ReadRegister (regNum, outValue, mask, shift)` applies
the mask, then the shift, to the register's value; a failing call leaves `outValue` as it
was. The result is `(returned bool, outValue, card afterwards)`. -/
def Card.ReadRegister (card : Card) (regNum outValue mask shift : Nat) : Bool × Nat × Card :=
  let card1 := { card with calls := card.calls ++ [Call.ReadRegister regNum mask shift] }
  if card.readOK regNum then (true, (card.regs regNum &&& mask) >>> shift, card1)
  else (false, outValue, card1)

/-- Modelled from the spec: `mCard.WriteRegister (regNum, value, mask, shift)` replaces the
masked bits of the register by the shifted value and leaves the other bits alone. -/
def Card.WriteRegister (card : Card) (regNum value mask shift : Nat) : Bool × Card :=
  let card1 := { card with calls := card.calls ++ [Call.WriteRegister regNum value mask shift] }
  if card.writeOK regNum then
    (true, { card1 with
      regs := fun r =>
        if r = regNum then
          ((card.regs regNum &&& not32 mask) ||| ((value <<< shift) &&& mask)) % U32
        else card.regs r })
  else (false, card1)

/-- Modelled from the spec: the SDK helper `mCard.SetAudioPCMControl (audioSystem,
channelPair, isNonPCM)`; only the call and its result are recorded, the helper's register
effect belongs to the SDK. -/
def Card.SetAudioPCMControl (card : Card) (audioSystem channelPair : Nat) (isNonPCM : Bool) :
    Bool × Card :=
  (card.pcmOK,
    { card with calls := card.calls ++ [Call.SetAudioPCMControl audioSystem channelPair isNonPCM] })

/-- Modelled from the spec: the SDK's DMA primitive `mCard.DmaTransfer`; only the call and
its result are recorded, the bytes moved belong to the SDK. -/
def Card.DmaTransfer (card : Card) (engine : Nat) (isRead : Bool) (frameNumber : Nat)
    (buffer : NTV2Buffer)
    (cardOffsetBytes byteCount numSegments segmentHostPitch segmentCardPitch : Nat)
    (synchronous : Bool) : Bool × Card :=
  (card.dmaOK,
    { card with calls := card.calls ++ [Call.DmaTransfer engine isRead frameNumber buffer
        cardOffsetBytes byteCount numSegments segmentHostPitch segmentCardPitch synchronous] })

/-- Modelled from the spec: the SDK's message primitive `mCard.NTV2Message`, which may
rewrite the message; the result is `(returned bool, message afterwards, card afterwards)`. -/
def Card.NTV2Message (card : Card) (message : Message) : Bool × Message × Card :=
  ((card.NTV2MessageResult message).1, (card.NTV2MessageResult message).2,
    { card with calls := card.calls ++ [Call.NTV2Message message] })

/-- Modelled from the spec: the SDK's primitive `mCard.WaitForInterrupt`; only the call and
its result are recorded. -/
def Card.WaitForInterrupt (card : Card) (eInterrupt timeOutMs : Nat) : Bool × Card :=
  (card.WaitForInterruptResult eInterrupt timeOutMs,
    { card with calls := card.calls ++ [Call.WaitForInterrupt eInterrupt timeOutMs] })

/-- Modelled from the spec: the SDK's primitive `mCard.AutoCirculate`, which may rewrite
its argument; the result is `(returned bool, argument afterwards, card afterwards)`. -/
def Card.AutoCirculate (card : Card) (acData : AUTOCIRCULATE_DATA) :
    Bool × AUTOCIRCULATE_DATA × Card :=
  ((card.AutoCirculateResult acData).1, (card.AutoCirculateResult acData).2,
    { card with calls := card.calls ++ [Call.AutoCirculate acData] })

/-- The method `ReadCardRegister`. -/
def ReadCardRegister (card : Card) (regInfo : RegInfo) (outValue : Nat) : Bool × Nat × Card :=
  card.ReadRegister regInfo.regNum outValue regInfo.mask regInfo.shift

/-- The method `WriteCardRegister`. -/
def WriteCardRegister (card : Card) (regInfo : RegInfo) (inValue : Nat) : Bool × Card :=
  card.WriteRegister regInfo.regNum inValue regInfo.mask regInfo.shift

/-! ## SetupMapping -/

/-- The method `GetVDevAudioMemoryOffset`: the absolute byte offset, `none` when it
returns false. -/
def GetVDevAudioMemoryOffset (sdk : SDK) (card : Card) (inOffsetBytes inAudSys : Nat) :
    Option Nat :=
  let devID := card.GetDeviceID
  if inAudSys % U32 ≥ (sdk.NTV2DeviceGetNumAudioSystems devID % U32 + 1) % U32 then none
  else
    let EIGHT_MEGABYTES := 0x800000
    let memSize := sdk.NTV2DeviceGetActiveMemorySize devID % U32
    let engineOffset := (memSize + U32 - (EIGHT_MEGABYTES * ((inAudSys + 1) % U32)) % U32) % U32
    some ((inOffsetBytes + engineOffset) % U32)

/-- The autocirculate, audio-system and DAT tables, in the order
`(mCardToKonaACXpts, mKonaToCardACXpts, mCardToKonaAudSys, mKonaToCardAudSys,
mCardToKonaDAT, mKonaToCardDAT)`. -/
abbrev ChannelTables := NMap × NMap × NMap × NMap × NMap × NMap

/-- The loop of `SetupMapping` over `mCardToVDevChls`. -/
def channelLoop (sdk : SDK) (card : Card) : NMap → ChannelTables → ChannelTables
  | [], t => t
  | (first, second) :: rest, (c2kAC, k2cAC, c2kAud, k2cAud, c2kDAT, k2cDAT) =>
    let c2kAC := c2kAC.insert (sdk.GetNTV2CrosspointInputForIndex first)
      (sdk.GetNTV2CrosspointInputForIndex second)
    let c2kAC := c2kAC.insert (sdk.GetNTV2CrosspointChannelForIndex first)
      (sdk.GetNTV2CrosspointChannelForIndex second)
    let k2cAC := k2cAC.insert (sdk.GetNTV2CrosspointInputForIndex second)
      (sdk.GetNTV2CrosspointInputForIndex first)
    let k2cAC := k2cAC.insert (sdk.GetNTV2CrosspointChannelForIndex second)
      (sdk.GetNTV2CrosspointChannelForIndex first)
    let cardAudSys := sdk.NTV2ChannelToAudioSystem first
    let konaAudSys := sdk.NTV2ChannelToAudioSystem second
    let c2kAud := c2kAud.insert cardAudSys konaAudSys
    let k2cAud := k2cAud.insert konaAudSys cardAudSys
    match card.GetAudioMemoryOffset 0 cardAudSys with
    | none => channelLoop sdk card rest (c2kAC, k2cAC, c2kAud, k2cAud, c2kDAT, k2cDAT)
    | some cardByteOffset =>
      match GetVDevAudioMemoryOffset sdk card 0 konaAudSys with
      | none => channelLoop sdk card rest (c2kAC, k2cAC, c2kAud, k2cAud, c2kDAT, k2cDAT)
      | some konaByteOffset =>
        if konaByteOffset = cardByteOffset then
          channelLoop sdk card rest (c2kAC, k2cAC, c2kAud, k2cAud, c2kDAT, k2cDAT)
        else
          channelLoop sdk card rest (c2kAC, k2cAC, c2kAud, k2cAud,
            c2kDAT.insert cardByteOffset konaByteOffset, k2cDAT.insert konaByteOffset cardByteOffset)

/-- The method `SetupMapping`, over the `mappedWidgets` array of `mVDjson`. -/
def SetupMapping (sdk : SDK) (card : Card) (mappedWidgets : List MappedWidget) (s : VDev) :
    Bool × VDev :=
  let r1 := SetupWidgetMapping sdk mappedWidgets s
  if r1.1 = false then (false, r1.2)
  else
    let r2 := SetupOutputXptMapping sdk r1.2
    if r2.1 = false then (false, r2.2)
    else
      let r3 := SetupInputXptMapping sdk r2.2
      if r3.1 = false then (false, r3.2)
      else
        let r4 := SetupXptSelectRegMapping sdk r3.2
        if r4.1 = false then (false, r4.2)
        else
          let s4 := r4.2
          let t := channelLoop sdk card s4.mCardToVDevChls
            (s4.mCardToKonaACXpts, s4.mKonaToCardACXpts, s4.mCardToKonaAudSys,
             s4.mKonaToCardAudSys, s4.mCardToKonaDAT, s4.mKonaToCardDAT)
          (true, { s4 with
            mCardToKonaACXpts := t.1
            mKonaToCardACXpts := t.2.1
            mCardToKonaAudSys := t.2.2.1
            mKonaToCardAudSys := t.2.2.2.1
            mCardToKonaDAT := t.2.2.2.2.1
            mKonaToCardDAT := t.2.2.2.2.2 })

/-- The caller's shift as the handlers apply it: `if (inShift && inShift < 31) v >>= inShift`. -/
def shiftIfRequested (v inShift : Nat) : Nat :=
  if inShift ≠ 0 ∧ inShift < 31 then v >>> inShift else v

/-! ## Crosspoint-select registers -/

/-- The `while` loop of `HandleReadXptSelectReg` over the `RegInfo`s recorded for the
register. -/
def readXptLoop (sdk : SDK) (s : VDev) (inMask : Nat) :
    List RegInfo → Nat → Card → Bool × Nat × Card
  | [], outVal, card => (true, outVal, card)
  | konaXptRegInfo :: rest, outVal, card =>
    if (konaXptRegInfo.mask &&& inMask) ≠ konaXptRegInfo.mask then
      readXptLoop sdk s inMask rest outVal card
    else
      let cardInpXpt := VDevToCardInputXpt sdk s konaXptRegInfo.inputXpt
      match sdk.GetCrosspointSelectGroupRegisterInfo cardInpXpt with
      | none => (false, outVal, card)
      | some (cardRegNum, nibbleNdx) =>
        let cardXptRegInfo : RegInfo :=
          { mRegNum := cardRegNum, mNdx := nibbleNdx, mIXpt := cardInpXpt }
        let r := ReadCardRegister card cardXptRegInfo 0
        if r.1 = false then (false, outVal, r.2.2)
        else
          let konaOutXpt := CardToVDevOutputXpt sdk s r.2.1
          let outVal1 := (outVal &&& konaXptRegInfo.invMask)
            ||| ((konaOutXpt <<< konaXptRegInfo.shift) % U32)
          readXptLoop sdk s inMask rest outVal1 r.2.2

/-- The method `HandleReadXptSelectReg`; `outVal` is the content of the caller's variable
on entry. -/
def HandleReadXptSelectReg (sdk : SDK) (s : VDev) (card : Card)
    (inRegNum outVal inMask inShift : Nat) : Bool × Nat × Card :=
  if ¬ isMyXptSelectRegister s inRegNum then card.ReadRegister inRegNum outVal inMask inShift
  else
    let r := readXptLoop sdk s inMask (s.mVDevXptRegInfos.equalRange inRegNum) outVal card
    if r.1 = false then r
    else (true, shiftIfRequested r.2.1 inShift, r.2.2)

/-- The `while` loop of `HandleWriteXptSelectReg`. -/
def writeXptLoop (sdk : SDK) (s : VDev) (inVal inMask : Nat) : List RegInfo → Card → Bool × Card
  | [], card => (true, card)
  | konaXptRegInfo :: rest, card =>
    if (konaXptRegInfo.mask &&& inMask) ≠ konaXptRegInfo.mask then
      writeXptLoop sdk s inVal inMask rest card
    else
      let konaOxpt := inVal + 0
      let cardOutXpt := VDevToCardOutputXpt sdk s konaOxpt
      let cardInpXpt := VDevToCardInputXpt sdk s konaXptRegInfo.inputXpt
      match sdk.GetCrosspointSelectGroupRegisterInfo cardInpXpt with
      | none => (false, card)
      | some (cardRegNum, nibbleNdx) =>
        let cardXptRegInfo : RegInfo :=
          { mRegNum := cardRegNum, mNdx := nibbleNdx, mIXpt := cardInpXpt }
        let r := WriteCardRegister card cardXptRegInfo cardOutXpt
        if r.1 = false then (false, r.2)
        else writeXptLoop sdk s inVal inMask rest r.2

/-- The method `HandleWriteXptSelectReg`. -/
def HandleWriteXptSelectReg (sdk : SDK) (s : VDev) (card : Card)
    (inRegNum inVal inMask inShift : Nat) : Bool × Card :=
  if ¬ isMyXptSelectRegister s inRegNum then card.WriteRegister inRegNum inVal inMask inShift
  else writeXptLoop sdk s inVal inMask (s.mVDevXptRegInfos.equalRange inRegNum) card

/-! ## Anc inserter and extractor windows -/

/-- The table `sAncInsBaseRegNum`. -/
def sAncInsBaseRegNum : List Nat := [4608, 4672, 4736, 4800, 4864, 4928, 4992, 5056]

/-- The table `sAncExtBaseRegNum`. -/
def sAncExtBaseRegNum : List Nat := [4096, 4160, 4224, 4288, 4352, 4416, 4480, 4544]

/-- The constant `sAncInsNumRegs`. -/
def sAncInsNumRegs : Nat := 19

/-- The constant `sAncExtNumRegs`. -/
def sAncExtNumRegs : Nat := 22

/-- The constant `AncInsRegOffsetPerChannel`. -/
def AncInsRegOffsetPerChannel : Nat := sAncInsBaseRegNum.getD 1 0 - sAncInsBaseRegNum.getD 0 0

/-- The constant `AncExtRegOffsetPerChannel`. -/
def AncExtRegOffsetPerChannel : Nat := sAncExtBaseRegNum.getD 1 0 - sAncExtBaseRegNum.getD 0 0

/-- The method `isMyAncInsRegister`. -/
def isMyAncInsRegister (regNum : Nat) : Bool :=
  decide (regNum ≥ sAncInsBaseRegNum.getD 0 0 ∧ regNum < sAncInsBaseRegNum.getD 0 0 + sAncInsNumRegs)

/-- The method `isMyAncExtRegister`. -/
def isMyAncExtRegister (regNum : Nat) : Bool :=
  decide (regNum ≥ sAncExtBaseRegNum.getD 0 0 ∧ regNum < sAncExtBaseRegNum.getD 0 0 + sAncExtNumRegs)

/-- The method `HandleReadAncIns`. -/
def HandleReadAncIns (s : VDev) (card : Card) (regNum outRegValue regMask regShift : Nat) :
    Bool × Nat × Card :=
  let newRegNum :=
    if regNum ≥ sAncInsBaseRegNum.getD 0 0 ∧ regNum < sAncInsBaseRegNum.getD 0 0 + sAncInsNumRegs
    then (regNum + (s.mChannel + 1) * AncInsRegOffsetPerChannel) % U32 else 0
  if newRegNum ≠ 0 then card.ReadRegister newRegNum outRegValue regMask regShift
  else (true, 0, card)

/-- The method `HandleWriteAncIns`. -/
def HandleWriteAncIns (s : VDev) (card : Card) (regNum inRegValue regMask regShift : Nat) :
    Bool × Card :=
  let newRegNum :=
    if regNum ≥ sAncInsBaseRegNum.getD 0 0 ∧ regNum < sAncInsBaseRegNum.getD 0 0 + sAncInsNumRegs
    then (regNum + (s.mChannel + 1) * AncInsRegOffsetPerChannel) % U32 else 0
  if newRegNum ≠ 0 then card.WriteRegister newRegNum inRegValue regMask regShift
  else (true, card)

/-- The method `HandleReadAncExt`. -/
def HandleReadAncExt (s : VDev) (card : Card) (regNum outRegValue regMask regShift : Nat) :
    Bool × Nat × Card :=
  let newRegNum :=
    if regNum ≥ sAncExtBaseRegNum.getD 0 0 ∧ regNum < sAncExtBaseRegNum.getD 0 0 + sAncExtNumRegs
    then (regNum + s.mChannel * AncExtRegOffsetPerChannel) % U32 else 0
  if newRegNum ≠ 0 then card.ReadRegister newRegNum outRegValue regMask regShift
  else (true, 0, card)

/-- The method `HandleWriteAncExt`. -/
def HandleWriteAncExt (s : VDev) (card : Card) (regNum inRegValue regMask regShift : Nat) :
    Bool × Card :=
  let newRegNum :=
    if regNum ≥ sAncExtBaseRegNum.getD 0 0 ∧ regNum < sAncExtBaseRegNum.getD 0 0 + sAncExtNumRegs
    then (regNum + s.mChannel * AncExtRegOffsetPerChannel) % U32 else 0
  if newRegNum ≠ 0 then card.WriteRegister newRegNum inRegValue regMask regShift
  else (true, card)

/-! ## Register numbers, masks and shifts -/

/-- Register numbers, masks and shifts of `ntv2publicinterface.h` that `virtualdev.cpp`
names. A family such as `kRegChControl n` stands for the numbered constants
`kRegCh1Control` .. `kRegCh8Control` (`n` from 1); the first of a family is the constant
the header writes without a number where it does so (`kRegOutputTimingControl`,
`kRegFlatMatteValue`, `kRegMaskSDIIn3GbpsMode`, ...). -/
structure Regs where
  kRegGlobalControl : Nat
  kRegGlobalControl2 : Nat
  kRegBoardID : Nat
  kRegChControl : Nat → Nat
  kRegChOutputFrame : Nat → Nat
  kRegChInputFrame : Nat → Nat
  kRegSDIOutControl : Nat → Nat
  kRegAudControl : Nat → Nat
  kRegAudSourceSelect : Nat → Nat
  kRegAudInputLastAddr : Nat → Nat
  kRegAudOutputLastAddr : Nat → Nat
  kRegAudDelay : Nat → Nat
  kRegAud1Detect : Nat
  kRegAudDetect2 : Nat
  kRegAudioDetect5678 : Nat
  kRegOutputTimingControlch : Nat → Nat
  kRegSDIInput3GStatus : Nat
  kRegSDIInput3GStatus2 : Nat
  kRegSDI5678Input3GStatus : Nat
  kRegMaskSDIIn3GbpsSMPTELevelBMode : Nat → Nat
  kRegShiftSDIIn3GbpsSMPTELevelBMode : Nat → Nat
  kRegMaskSDIIn3GbpsMode : Nat → Nat
  kRegShiftSDIIn3GbpsMode : Nat → Nat
  kRegMaskSDIInVPIDLinkAValid : Nat → Nat
  kRegVidProcControl : Nat → Nat
  kRegMixerCoefficient : Nat → Nat
  kRegFlatMatteValue : Nat → Nat
  kRegRXSDIStatus : Nat → Nat
  kRegRXSDICRCErrorCount : Nat → Nat
  kRegSDIInVPIDA : Nat → Nat
  kRegSDIInVPIDB : Nat → Nat
  kRegInputStatus : Nat
  kRegInputStatus2 : Nat
  kRegInput56Status : Nat
  kRegInput78Status : Nat
  kRegMaskInputFrameRate : Nat → Nat
  kRegMaskInputFrameRateHigh : Nat → Nat
  kRegShiftInputFrameRate : Nat → Nat
  kRegShiftInputFrameRateHigh : Nat → Nat
  kRegMaskInputProgressive : Nat → Nat
  kRegShiftInputProgressive : Nat → Nat
  kRegSDITransmitControl : Nat
  kRegMaskSDITransmit : Nat → Nat
  kRegShiftSDITransmit : Nat → Nat
  kRegPCMControl4321 : Nat
  kRegPCMControl8765 : Nat
  /-- The mask `kRegMaskPCMControlA⟨a⟩P⟨2p+1⟩_⟨2p+2⟩`, `a` in 1..2, `p` in 0..7. -/
  kRegMaskPCMControl : Nat → Nat → Nat
  /-- The shift `kRegShiftPCMControlA⟨a⟩P⟨2p+1⟩_⟨2p+2⟩`. -/
  kRegShiftPCMControl : Nat → Nat → Nat
  kRegMaskRefSource : Nat
  kRegShiftRefSource : Nat
  kRegMaskQuadMode : Nat
  kRegMaskQuadMode2 : Nat
  kRegMaskIndependentMode : Nat
  kRegMask425FB12 : Nat
  kRegMask425FB34 : Nat
  kRegMask425FB56 : Nat
  kRegMask425FB78 : Nat
  kK2RegMaskFrameSize : Nat

/-- A table of eight numbered constants followed by the terminating 0. -/
def perChannel (f : Nat → Nat) : List Nat := [f 1, f 2, f 3, f 4, f 5, f 6, f 7, f 8, 0]

/-- A table of four numbered constants followed by the terminating 0. -/
def perMixer (f : Nat → Nat) : List Nat := [f 1, f 2, f 3, f 4, 0]

/-- A table that alternates the constants of inputs 1 and 2, followed by the terminating 0. -/
def perInputPair (f : Nat → Nat) : List Nat := [f 1, f 2, f 1, f 2, f 1, f 2, f 1, f 2, 0]

/-- The C++ subscript `table[i]`; outside the array, where C++ gives no meaning, it is 0. -/
def idx (table : List Nat) (i : Nat) : Nat := table.getD i 0

/-- The table `gChannelToSDIOutControlRegNum`. -/
def gChannelToSDIOutControlRegNum (K : Regs) : List Nat := perChannel K.kRegSDIOutControl

/-- The table `gChannelToControlRegNum`. -/
def gChannelToControlRegNum (K : Regs) : List Nat := perChannel K.kRegChControl

/-- The table `gChannelToOutputFrameRegNum`. -/
def gChannelToOutputFrameRegNum (K : Regs) : List Nat := perChannel K.kRegChOutputFrame

/-- The table `gChannelToInputFrameRegNum`. -/
def gChannelToInputFrameRegNum (K : Regs) : List Nat := perChannel K.kRegChInputFrame

/-- The table `gAudioSystemToAudioControlRegNum`. -/
def gAudioSystemToAudioControlRegNum (K : Regs) : List Nat := perChannel K.kRegAudControl

/-- The table `gAudioSystemToSrcSelectRegNum`. -/
def gAudioSystemToSrcSelectRegNum (K : Regs) : List Nat := perChannel K.kRegAudSourceSelect

/-- The table `gChannelToAudioInLastAddrRegNum`. -/
def gChannelToAudioInLastAddrRegNum (K : Regs) : List Nat := perChannel K.kRegAudInputLastAddr

/-- The table `gChannelToAudioOutLastAddrRegNum`. -/
def gChannelToAudioOutLastAddrRegNum (K : Regs) : List Nat := perChannel K.kRegAudOutputLastAddr

/-- The table `gAudioDelayRegisterNumbers`. -/
def gAudioDelayRegisterNumbers (K : Regs) : List Nat := perChannel K.kRegAudDelay

/-- The table `gChannelToOutputTimingCtrlRegNum`. -/
def gChannelToOutputTimingCtrlRegNum (K : Regs) : List Nat := perChannel K.kRegOutputTimingControlch

/-- The table `gChannelToSDIInput3GStatusRegNum`. -/
def gChannelToSDIInput3GStatusRegNum (K : Regs) : List Nat :=
  [K.kRegSDIInput3GStatus, K.kRegSDIInput3GStatus, K.kRegSDIInput3GStatus2,
   K.kRegSDIInput3GStatus2, K.kRegSDI5678Input3GStatus, K.kRegSDI5678Input3GStatus,
   K.kRegSDI5678Input3GStatus, K.kRegSDI5678Input3GStatus, 0]

/-- The table `gChannelToSDIIn3GbModeMask`. -/
def gChannelToSDIIn3GbModeMask (K : Regs) : List Nat := perChannel K.kRegMaskSDIIn3GbpsSMPTELevelBMode

/-- The table `gChannelToSDIIn3GbModeShift`. -/
def gChannelToSDIIn3GbModeShift (K : Regs) : List Nat := perChannel K.kRegShiftSDIIn3GbpsSMPTELevelBMode

/-- The table `gIndexToVidProcControlRegNum`. -/
def gIndexToVidProcControlRegNum (K : Regs) : List Nat := perMixer K.kRegVidProcControl

/-- The table `gIndexToVidProcMixCoeffRegNum`. -/
def gIndexToVidProcMixCoeffRegNum (K : Regs) : List Nat := perMixer K.kRegMixerCoefficient

/-- The table `gIndexToVidProcFlatMatteRegNum`. -/
def gIndexToVidProcFlatMatteRegNum (K : Regs) : List Nat := perMixer K.kRegFlatMatteValue

/-- The table `gChannelToRXSDIStatusRegs`. -/
def gChannelToRXSDIStatusRegs (K : Regs) : List Nat := perChannel K.kRegRXSDIStatus

/-- The table `gChannelToRXSDICRCErrorCountRegs`. -/
def gChannelToRXSDICRCErrorCountRegs (K : Regs) : List Nat := perChannel K.kRegRXSDICRCErrorCount

/-- The table `gChannelToSDIIn3GModeMask`. -/
def gChannelToSDIIn3GModeMask (K : Regs) : List Nat := perChannel K.kRegMaskSDIIn3GbpsMode

/-- The table `gChannelToSDIIn3GModeShift`. -/
def gChannelToSDIIn3GModeShift (K : Regs) : List Nat := perChannel K.kRegShiftSDIIn3GbpsMode

/-- The table `gChannelToSDIInVPIDLinkAValidMask`. -/
def gChannelToSDIInVPIDLinkAValidMask (K : Regs) : List Nat := perChannel K.kRegMaskSDIInVPIDLinkAValid

/-- The table `gChannelToSDIInVPIDARegNum`. -/
def gChannelToSDIInVPIDARegNum (K : Regs) : List Nat := perChannel K.kRegSDIInVPIDA

/-- The table `gChannelToSDIInVPIDBRegNum`. -/
def gChannelToSDIInVPIDBRegNum (K : Regs) : List Nat := perChannel K.kRegSDIInVPIDB

/-- The table `gChannelToSDIInputStatusRegNum`. -/
def gChannelToSDIInputStatusRegNum (K : Regs) : List Nat :=
  [K.kRegInputStatus, K.kRegInputStatus, K.kRegInputStatus2, K.kRegInputStatus2,
   K.kRegInput56Status, K.kRegInput56Status, K.kRegInput78Status, K.kRegInput78Status, 0]

/-- The table `gChannelToSDIInputRateMask`. -/
def gChannelToSDIInputRateMask (K : Regs) : List Nat := perInputPair K.kRegMaskInputFrameRate

/-- The table `gChannelToSDIInputRateHighMask`. -/
def gChannelToSDIInputRateHighMask (K : Regs) : List Nat := perInputPair K.kRegMaskInputFrameRateHigh

/-- The table `gChannelToSDIInputRateShift`. -/
def gChannelToSDIInputRateShift (K : Regs) : List Nat := perInputPair K.kRegShiftInputFrameRate

/-- The table `gChannelToSDIInputRateHighShift`. -/
def gChannelToSDIInputRateHighShift (K : Regs) : List Nat := perInputPair K.kRegShiftInputFrameRateHigh

/-- The table `gChannelToSDIInputProgressiveMask`. -/
def gChannelToSDIInputProgressiveMask (K : Regs) : List Nat := perInputPair K.kRegMaskInputProgressive

/-- The table `gChannelToSDIInputProgressiveShift`. -/
def gChannelToSDIInputProgressiveShift (K : Regs) : List Nat := perInputPair K.kRegShiftInputProgressive

/-- The table `sAudioDetectRegs`. -/
def sAudioDetectRegs (K : Regs) : List Nat :=
  [K.kRegAud1Detect, K.kRegAud1Detect, K.kRegAudDetect2, K.kRegAudDetect2,
   K.kRegAudioDetect5678, K.kRegAudioDetect5678, K.kRegAudioDetect5678, K.kRegAudioDetect5678, 0]

/-- The table `sSDIXmitEnableMasks` (eight entries, no terminator). -/
def sSDIXmitEnableMasks (K : Regs) : List Nat :=
  [K.kRegMaskSDITransmit 1, K.kRegMaskSDITransmit 2, K.kRegMaskSDITransmit 3,
   K.kRegMaskSDITransmit 4, K.kRegMaskSDITransmit 5, K.kRegMaskSDITransmit 6,
   K.kRegMaskSDITransmit 7, K.kRegMaskSDITransmit 8]

/-- The table `sSDIXmitEnableShifts` (eight entries, no terminator). -/
def sSDIXmitEnableShifts (K : Regs) : List Nat :=
  [K.kRegShiftSDITransmit 1, K.kRegShiftSDITransmit 2, K.kRegShiftSDITransmit 3,
   K.kRegShiftSDITransmit 4, K.kRegShiftSDITransmit 5, K.kRegShiftSDITransmit 6,
   K.kRegShiftSDITransmit 7, K.kRegShiftSDITransmit 8]

/-- The constants `kRegMaskPCMCtrlA1` (`a = 1`) and `kRegMaskPCMCtrlA2` (`a = 2`). -/
def kRegMaskPCMCtrlA (K : Regs) (a : Nat) : Nat :=
  K.kRegMaskPCMControl a 0 ||| K.kRegMaskPCMControl a 1 ||| K.kRegMaskPCMControl a 2
    ||| K.kRegMaskPCMControl a 3 ||| K.kRegMaskPCMControl a 4 ||| K.kRegMaskPCMControl a 5
    ||| K.kRegMaskPCMControl a 6 ||| K.kRegMaskPCMControl a 7

/-! ## Global and channel control -/

/-- The method `HandleReadGlobalControl`. -/
def HandleReadGlobalControl (sdk : SDK) (K : Regs) (s : VDev) (card : Card)
    (regNum outValue mask shift : Nat) : Bool × Nat × Card :=
  let r := card.ReadRegister regNum outValue 0xFFFFFFFF 0
  if r.1 = false then (false, r.2.1, r.2.2)
  else
    let outValue := r.2.1
    if regNum = K.kRegGlobalControl then
      let outValue :=
        if (mask &&& K.kRegMaskRefSource) = K.kRegMaskRefSource then
          let val := outValue &&& K.kRegMaskRefSource
          let refSrcSDIIn := sdk.ChannelToReferenceSource s.mChannel
          let cardSDIInBits := (refSrcSDIIn <<< K.kRegShiftRefSource) % U32
          let SDIIn1Bits := (sdk.NTV2_REFERENCE_INPUT1 <<< K.kRegShiftRefSource) % U32
          let ExtRefBits := (sdk.NTV2_REFERENCE_EXTERNAL <<< K.kRegShiftRefSource) % U32
          let FreeRunBits := (sdk.NTV2_REFERENCE_FREERUN <<< K.kRegShiftRefSource) % U32
          if val = cardSDIInBits then (outValue &&& not32 K.kRegMaskRefSource) ||| SDIIn1Bits
          else if val = ExtRefBits then outValue
          else if val = FreeRunBits then outValue
          else (outValue &&& not32 K.kRegMaskRefSource) ||| FreeRunBits
        else outValue
      (true, (outValue &&& mask) >>> shift, r.2.2)
    else if regNum = K.kRegGlobalControl2 then
      let outValue := outValue &&& not32 K.kRegMaskQuadMode
      let outValue := outValue &&& not32 K.kRegMaskQuadMode2
      let outValue := outValue &&& not32 K.kRegMaskIndependentMode
      let outValue := outValue &&& not32 K.kRegMask425FB12
      let outValue := outValue &&& not32 K.kRegMask425FB34
      let outValue := outValue &&& not32 K.kRegMask425FB56
      let outValue := outValue &&& not32 K.kRegMask425FB78
      (true, (outValue &&& mask) >>> shift, r.2.2)
    else (false, outValue, r.2.2)

/-- The method `HandleReadChannelControl`. -/
def HandleReadChannelControl (K : Regs) (s : VDev) (card : Card)
    (regNum outValue mask shift : Nat) : Bool × Nat × Card :=
  let r := card.ReadRegister
    (idx (gChannelToControlRegNum K) (if regNum = K.kRegChControl 1 then s.mChannel else s.mChannel + 1))
    outValue 0xFFFFFFFF 0
  if r.1 = false then (false, r.2.1, r.2.2)
  else
    let outValue := r.2.1
    if regNum = K.kRegChControl 1 ∧ (mask &&& K.kK2RegMaskFrameSize) = K.kK2RegMaskFrameSize then
      let r2 := r.2.2.ReadRegister regNum 0 0xFFFFFFFF 0
      if r2.1 = false then (false, outValue, r2.2.2)
      else
        let outValue := (outValue &&& not32 K.kK2RegMaskFrameSize) ||| r2.2.1
        (true, (outValue &&& mask) >>> shift, r2.2.2)
    else (true, (outValue &&& mask) >>> shift, r.2.2)

/-! ## SDI transmit control -/

/-- The loop of `GetCardIOChannelFromVirtual` over `mVDevToCardWgts`: the card channel of
the first SDI widget pair whose virtual widget is on `inVirtualChan`. -/
def GetCardIOChannelFromVirtual (sdk : SDK) (inVirtualChan : Nat) : NMap → Option Nat
  | [] => none
  | (vw, cw) :: rest =>
    if sdk.WidgetIDToType vw ∈ sdk.sdiWidgetTypes ∧ sdk.WidgetIDToChannel vw = inVirtualChan
    then some (sdk.WidgetIDToChannel cw)
    else GetCardIOChannelFromVirtual sdk inVirtualChan rest

/-- The `for` loop of `HandleWriteSDITransmitControl` over the virtual channels `i`. -/
def writeSDIXmitLoop (sdk : SDK) (K : Regs) (s : VDev) (inRegNum VDRegVal inRegMask : Nat) :
    List Nat → Card → Bool × Card
  | [], card => (true, card)
  | i :: rest, card =>
    if idx (sSDIXmitEnableMasks K) i &&& inRegMask ≠ 0 then
      let VDValue := (VDRegVal &&& idx (sSDIXmitEnableMasks K) i) >>> idx (sSDIXmitEnableShifts K) i
      match GetCardIOChannelFromVirtual sdk i s.mVDevToCardWgts with
      | some cardChannel =>
        let r := card.WriteRegister inRegNum VDValue (idx (sSDIXmitEnableMasks K) cardChannel)
          (idx (sSDIXmitEnableShifts K) cardChannel)
        if r.1 = false then (false, r.2)
        else writeSDIXmitLoop sdk K s inRegNum VDRegVal inRegMask rest r.2
      | none => writeSDIXmitLoop sdk K s inRegNum VDRegVal inRegMask rest card
    else writeSDIXmitLoop sdk K s inRegNum VDRegVal inRegMask rest card

/-- The method `HandleWriteSDITransmitControl`. -/
def HandleWriteSDITransmitControl (sdk : SDK) (K : Regs) (s : VDev) (card : Card)
    (inRegNum inRegVal inRegMask inRegShift : Nat) : Bool × Card :=
  if ¬ card.HasBiDirectionalSDI then (true, card)
  else
    let VDRegVal := ((inRegVal <<< inRegShift) % U32) &&& inRegMask
    writeSDIXmitLoop sdk K s inRegNum VDRegVal inRegMask (List.range 8) card

/-- The `for` loop of `HandleReadSDITransmitControl` over the virtual channels `i`. -/
def readSDIXmitLoop (sdk : SDK) (K : Regs) (s : VDev) (inRegNum inRegMask : Nat) :
    List Nat → Nat → Card → Bool × Nat × Card
  | [], OutValue, card => (true, OutValue, card)
  | i :: rest, OutValue, card =>
    if idx (sSDIXmitEnableMasks K) i &&& inRegMask ≠ 0 then
      match GetCardIOChannelFromVirtual sdk i s.mVDevToCardWgts with
      | some cardChannel =>
        let r := card.ReadRegister inRegNum 0 (idx (sSDIXmitEnableMasks K) cardChannel)
          (idx (sSDIXmitEnableShifts K) cardChannel)
        if r.1 = false then (false, OutValue, r.2.2)
        else
          let OutValue1 :=
            if r.2.1 ≠ 0 then OutValue ||| idx (sSDIXmitEnableMasks K) i
            else OutValue &&& not32 (idx (sSDIXmitEnableMasks K) i)
          readSDIXmitLoop sdk K s inRegNum inRegMask rest OutValue1 r.2.2
      | none => readSDIXmitLoop sdk K s inRegNum inRegMask rest OutValue card
    else readSDIXmitLoop sdk K s inRegNum inRegMask rest OutValue card

/-- The method `HandleReadSDITransmitControl`; `OutValue` is the content of the caller's
variable on entry. -/
def HandleReadSDITransmitControl (sdk : SDK) (K : Regs) (s : VDev) (card : Card)
    (inRegNum OutValue inRegMask inRegShift : Nat) : Bool × Nat × Card :=
  if ¬ card.HasBiDirectionalSDI then (true, OutValue, card)
  else
    let r := readSDIXmitLoop sdk K s inRegNum inRegMask (List.range 8) OutValue card
    if r.1 = false then r
    else (true, shiftIfRequested r.2.1 inRegShift, r.2.2)

/-- The SDI-out audio-system index held in three bits of a control word, most significant
bit first: `(v & BIT(b4) ? 4 : 0) + (v & BIT(b2) ? 2 : 0) + (v & BIT(b1) ? 1 : 0)`. -/
def audSysOfBits (v b4 b2 b1 : Nat) : Nat :=
  (if v &&& BIT b4 ≠ 0 then 4 else 0) + (if v &&& BIT b2 ≠ 0 then 2 else 0)
    + (if v &&& BIT b1 ≠ 0 then 1 else 0)

/-- The three bits for an audio-system index:
`(a & 4 ? BIT(b4) : 0) | (a & 2 ? BIT(b2) : 0) | (a & 1 ? BIT(b1) : 0)`. -/
def bitsOfAudSys (a b4 b2 b1 : Nat) : Nat :=
  (if a &&& 4 ≠ 0 then BIT b4 else 0) ||| (if a &&& 2 ≠ 0 then BIT b2 else 0)
    ||| (if a &&& 1 ≠ 0 then BIT b1 else 0)

/-! ## Register reads -/

/-- The `kRegPCMControl4321` arm of the read switch. A shift count of 32 in
`0x000000FF << (cardAudSys * 8)`, which C++ leaves undefined, gives the 32-bit value 0. -/
def readPCMControl (K : Regs) (s : VDev) (card : Card)
    (regNum outValue inRegMask inRegShift : Nat) : Bool × Nat × Card :=
  let cardAudSys := KonaToCardAudSys s NTV2_AUDIOSYSTEM_1
  if cardAudSys = NTV2_AUDIOSYSTEM_1 then card.ReadRegister regNum outValue inRegMask inRegShift
  else
    let regNum1 := if cardAudSys > 3 then K.kRegPCMControl8765 else regNum
    let cardAudSys := if cardAudSys > 3 then cardAudSys - 4 else cardAudSys
    let r := card.ReadRegister regNum1 outValue 0xFFFFFFFF 0
    if r.1 = false then (false, r.2.1, r.2.2)
    else
      let outValue := r.2.1
      let outValue :=
        if inRegMask &&& kRegMaskPCMCtrlA K 1 ≠ 0 then
          let value := outValue &&& ((0x000000FF <<< (cardAudSys * 8)) % U32)
          let value := value >>> ((cardAudSys - NTV2_AUDIOSYSTEM_1) * 8)
          (outValue &&& 0xFFFFFF00) ||| value
        else outValue
      let outValue :=
        if inRegMask &&& kRegMaskPCMCtrlA K 2 ≠ 0 then
          let cardAudSys := cardAudSys + 1
          let value := outValue &&& ((0x000000FF <<< (cardAudSys * 8)) % U32)
          let value := value >>> ((cardAudSys - 1) * 8)
          (outValue &&& 0xFFFF00FF) ||| value
        else outValue
      (true, shiftIfRequested (outValue &&& inRegMask) inRegShift, r.2.2)

/-- The translation of the audio-system bits in the `kRegSDIOut1Control` arm of the read
switch, applied to the raw value of the card register. -/
def readSDIOutAudSysBits (s : VDev) (outValue : Nat) : Nat :=
  let cardAudSys := audSysOfBits outValue 18 28 30
  let outValue :=
    if HasCardAudSys s cardAudSys then
      let konaAudSys := CardToKonaAudSys s cardAudSys
      (outValue &&& (0xFFFFFFFF - BIT 30 - BIT 28 - BIT 18)) ||| bitsOfAudSys konaAudSys 18 28 30
    else outValue
  let cardAudSys := audSysOfBits outValue 19 29 31
  if HasCardAudSys s cardAudSys then
    let konaAudSys := CardToKonaAudSys s cardAudSys
    (outValue &&& (0xFFFFFFFF - BIT 31 - BIT 29 - BIT 19)) ||| bitsOfAudSys konaAudSys 19 29 31
  else outValue

/-- The mask rewriting of the `kRegInputStatus` arm of the read switch. -/
def inputStatusMask (K : Regs) (ch regMask : Nat) : Nat :=
  if regMask = K.kRegMaskInputFrameRate 1 then idx (gChannelToSDIInputRateMask K) ch
  else if regMask = K.kRegMaskInputFrameRate 2 then idx (gChannelToSDIInputRateMask K) (ch + 1)
  else if regMask = K.kRegMaskInputFrameRateHigh 1 then idx (gChannelToSDIInputRateHighMask K) ch
  else if regMask = K.kRegMaskInputFrameRateHigh 2 then idx (gChannelToSDIInputRateHighMask K) (ch + 1)
  else if regMask = K.kRegMaskInputProgressive 1 then idx (gChannelToSDIInputProgressiveMask K) ch
  else if regMask = K.kRegMaskInputProgressive 2 then idx (gChannelToSDIInputProgressiveMask K) (ch + 1)
  else regMask

/-- The shift rewriting of the `kRegInputStatus` arm of the read switch. -/
def inputStatusShift (K : Regs) (ch regShift : Nat) : Nat :=
  if regShift = K.kRegShiftInputFrameRate 1 then idx (gChannelToSDIInputRateShift K) ch
  else if regShift = K.kRegShiftInputFrameRate 2 then idx (gChannelToSDIInputRateShift K) (ch + 1)
  else if regShift = K.kRegShiftInputFrameRateHigh 1 then idx (gChannelToSDIInputRateHighShift K) ch
  else if regShift = K.kRegShiftInputFrameRateHigh 2 then idx (gChannelToSDIInputRateHighShift K) (ch + 1)
  else if regShift = K.kRegShiftInputProgressive 1 then idx (gChannelToSDIInputProgressiveShift K) ch
  else if regShift = K.kRegShiftInputProgressive 2 then idx (gChannelToSDIInputProgressiveShift K) (ch + 1)
  else regShift

/-- The first mask/shift rewriting of the `kRegSDIInput3GStatus` arm of the read switch;
`regNum` is the register number already retargeted. -/
def sdi3GStatusMaskShift (K : Regs) (ch regNum regMask regShift : Nat) : Nat × Nat :=
  if regMask = K.kRegMaskSDIIn3GbpsSMPTELevelBMode 1 then (idx (gChannelToSDIIn3GbModeMask K) ch, regShift)
  else if regMask = K.kRegMaskSDIIn3GbpsSMPTELevelBMode 2 then (idx (gChannelToSDIIn3GbModeMask K) (ch + 1), regShift)
  else if regMask = K.kRegMaskSDIIn3GbpsMode 1 then (idx (gChannelToSDIIn3GModeMask K) ch, regShift)
  else if regMask = K.kRegMaskSDIIn3GbpsMode 2 then (idx (gChannelToSDIIn3GModeMask K) (ch + 1), regShift)
  else if regMask = K.kRegMaskSDIInVPIDLinkAValid 1 then (idx (gChannelToSDIInVPIDLinkAValidMask K) ch, regShift)
  else if regMask = 0xFFFFFFFF then
    if regNum = K.kRegSDIInput3GStatus ∨ regNum = K.kRegSDIInput3GStatus2 then
      (if ch % 2 = 0 then 0xFFFFFFFF else 0xFF00, if ch % 2 = 0 then 0 else 8)
    else if regNum = K.kRegSDI5678Input3GStatus then
      ((0x000000FF <<< ((ch - 4) * 8)) % U32, (8 * (ch - 4)) % U32)
    else (regMask, regShift)
  else (regMask, regShift)

/-- The second shift rewriting of the `kRegSDIInput3GStatus` arm of the read switch. -/
def sdi3GStatusShift (K : Regs) (ch regMask regShift : Nat) : Nat :=
  if regMask = K.kRegMaskSDIIn3GbpsSMPTELevelBMode 1 ∨ regMask = K.kRegMaskSDIIn3GbpsSMPTELevelBMode 2
      ∨ regMask = K.kRegMaskSDIIn3GbpsMode 1 ∨ regMask = K.kRegMaskSDIIn3GbpsMode 2 then
    if regShift = K.kRegShiftSDIIn3GbpsSMPTELevelBMode 1 then idx (gChannelToSDIIn3GbModeShift K) ch
    else if regShift = K.kRegShiftSDIIn3GbpsSMPTELevelBMode 2 then idx (gChannelToSDIIn3GbModeShift K) (ch + 1)
    else if regShift = K.kRegShiftSDIIn3GbpsMode 1 then idx (gChannelToSDIIn3GModeShift K) ch
    else if regShift = K.kRegShiftSDIIn3GbpsMode 2 then idx (gChannelToSDIIn3GModeShift K) (ch + 1)
    else regShift
  else regShift

/-- The method `NTV2ReadRegisterRemote` (built with `NTV2_DEPRECATE_16_2` defined, so
without the two PCI-access-frame arms); `outValue` is the content of the caller's
variable on entry. The result is `(returned bool, outValue, card afterwards)`. -/
def NTV2ReadRegisterRemote (sdk : SDK) (K : Regs) (s : VDev) (card : Card)
    (inRegNum outValue inRegMask inRegShift : Nat) : Bool × Nat × Card :=
  let regNum := inRegNum
  let regMask := inRegMask
  let regShift := inRegShift
  let ch := s.mChannel
  let pass := fun (regNum regMask regShift : Nat) => card.ReadRegister regNum outValue regMask regShift
  if isMyAncExtRegister regNum then HandleReadAncExt s card regNum outValue regMask regShift
  else if isMyAncInsRegister regNum then HandleReadAncIns s card regNum outValue regMask regShift
  else if isMyXptSelectRegister s regNum then
    HandleReadXptSelectReg sdk s card inRegNum outValue inRegMask inRegShift
  else if regNum = K.kRegBoardID then
    (true, shiftIfRequested (s.mSimDeviceID &&& inRegMask) inRegShift, card)
  else if regNum = K.kRegAudControl 1 then
    pass (idx (gAudioSystemToAudioControlRegNum K) (KonaToCardAudSys s 0)) regMask regShift
  else if regNum = K.kRegAudSourceSelect 1 then
    pass (idx (gAudioSystemToSrcSelectRegNum K) (KonaToCardAudSys s 0)) regMask regShift
  else if regNum = K.kRegAudOutputLastAddr 1 then
    pass (idx (gChannelToAudioOutLastAddrRegNum K) (KonaToCardAudSys s 0)) regMask regShift
  else if regNum = K.kRegAudInputLastAddr 1 then
    pass (idx (gChannelToAudioInLastAddrRegNum K) (KonaToCardAudSys s 0)) regMask regShift
  else if regNum = K.kRegAudDelay 1 then
    pass (idx (gAudioDelayRegisterNumbers K) (KonaToCardAudSys s 0)) regMask regShift
  else if regNum = K.kRegAud1Detect then
    pass (idx (sAudioDetectRegs K) (KonaToCardAudSys s 0)) regMask regShift
  else if regNum = K.kRegAudControl 2 then
    pass (idx (gAudioSystemToAudioControlRegNum K) (KonaToCardAudSys s 1)) regMask regShift
  else if regNum = K.kRegAudSourceSelect 2 then
    pass (idx (gAudioSystemToSrcSelectRegNum K) (KonaToCardAudSys s 1)) regMask regShift
  else if regNum = K.kRegAudOutputLastAddr 2 then
    pass (idx (gChannelToAudioOutLastAddrRegNum K) (KonaToCardAudSys s 1)) regMask regShift
  else if regNum = K.kRegAudInputLastAddr 2 then
    pass (idx (gChannelToAudioInLastAddrRegNum K) (KonaToCardAudSys s 1)) regMask regShift
  else if regNum = K.kRegAudDelay 2 then
    pass (idx (gAudioDelayRegisterNumbers K) (KonaToCardAudSys s 1)) regMask regShift
  else if regNum = K.kRegAudDetect2 then
    pass (idx (sAudioDetectRegs K) (KonaToCardAudSys s 1)) regMask regShift
  else if regNum = K.kRegPCMControl4321 then
    readPCMControl K s card regNum outValue inRegMask inRegShift
  else if regNum = K.kRegGlobalControl ∨ regNum = K.kRegGlobalControl2 then
    HandleReadGlobalControl sdk K s card regNum outValue regMask regShift
  else if regNum = K.kRegChControl 1 ∨ regNum = K.kRegChControl 2 then
    HandleReadChannelControl K s card regNum outValue regMask regShift
  else if regNum = K.kRegSDITransmitControl then
    HandleReadSDITransmitControl sdk K s card regNum outValue regMask regShift
  else if regNum = K.kRegSDIOutControl 1 then
    let regNum := idx (gChannelToSDIOutControlRegNum K) (ch + 1)
    if inRegMask &&& (BIT 18 ||| BIT 19 ||| BIT 28 ||| BIT 29 ||| BIT 30 ||| BIT 31) ≠ 0 then
      let r := card.ReadRegister regNum outValue 0xFFFFFFFF 0
      if r.1 = false then (false, r.2.1, r.2.2)
      else
        (true, shiftIfRequested (readSDIOutAudSysBits s r.2.1 &&& inRegMask) inRegShift, r.2.2)
    else pass regNum regMask regShift
  else if regNum = K.kRegChOutputFrame 1 then
    pass (idx (gChannelToOutputFrameRegNum K) ch) regMask regShift
  else if regNum = K.kRegChOutputFrame 2 then
    pass (idx (gChannelToOutputFrameRegNum K) (ch + 1)) regMask regShift
  else if regNum = K.kRegChInputFrame 1 then
    pass (idx (gChannelToInputFrameRegNum K) ch) regMask regShift
  else if regNum = K.kRegChInputFrame 2 then
    pass (idx (gChannelToInputFrameRegNum K) (ch + 1)) regMask regShift
  else if regNum = K.kRegOutputTimingControlch 1 then
    pass (idx (gChannelToOutputTimingCtrlRegNum K) (ch + 1)) regMask regShift
  else if regNum = K.kRegVidProcControl 1 then
    pass (idx (gIndexToVidProcControlRegNum K) (VDevToCardMixer s NTV2_CHANNEL1)) regMask regShift
  else if regNum = K.kRegMixerCoefficient 1 then
    pass (idx (gIndexToVidProcMixCoeffRegNum K) (VDevToCardMixer s NTV2_CHANNEL1)) regMask regShift
  else if regNum = K.kRegFlatMatteValue 1 then
    pass (idx (gIndexToVidProcFlatMatteRegNum K) (VDevToCardMixer s NTV2_CHANNEL1)) regMask regShift
  else if regNum = K.kRegRXSDIStatus 1 then
    pass (idx (gChannelToRXSDIStatusRegs K) ch) regMask regShift
  else if regNum = K.kRegRXSDIStatus 2 then
    pass (idx (gChannelToRXSDIStatusRegs K) (ch + 1)) regMask regShift
  else if regNum = K.kRegRXSDICRCErrorCount 1 then
    pass (idx (gChannelToRXSDICRCErrorCountRegs K) ch) regMask regShift
  else if regNum = K.kRegSDIInVPIDA 1 then
    pass (idx (gChannelToSDIInVPIDARegNum K) ch) regMask regShift
  else if regNum = K.kRegSDIInVPIDB 1 then
    pass (idx (gChannelToSDIInVPIDBRegNum K) ch) regMask regShift
  else if regNum = K.kRegInputStatus then
    pass (idx (gChannelToSDIInputStatusRegNum K) ch) (inputStatusMask K ch regMask)
      (inputStatusShift K ch regShift)
  else if regNum = K.kRegSDIInput3GStatus then
    let regNum := idx (gChannelToSDIInput3GStatusRegNum K) ch
    let ms := sdi3GStatusMaskShift K ch regNum regMask regShift
    pass regNum ms.1 (sdi3GStatusShift K ch ms.1 ms.2)
  else pass regNum regMask regShift

/-- The labels of the `switch` of `NTV2ReadRegisterRemote`, in source order; C++ requires
them to be pairwise different. -/
def readSwitchLabels (K : Regs) : List Nat :=
  [K.kRegBoardID,
   K.kRegAudControl 1, K.kRegAudSourceSelect 1, K.kRegAudOutputLastAddr 1,
   K.kRegAudInputLastAddr 1, K.kRegAudDelay 1, K.kRegAud1Detect,
   K.kRegAudControl 2, K.kRegAudSourceSelect 2, K.kRegAudOutputLastAddr 2,
   K.kRegAudInputLastAddr 2, K.kRegAudDelay 2, K.kRegAudDetect2,
   K.kRegPCMControl4321, K.kRegGlobalControl, K.kRegGlobalControl2,
   K.kRegChControl 1, K.kRegChControl 2, K.kRegSDITransmitControl, K.kRegSDIOutControl 1,
   K.kRegChOutputFrame 1, K.kRegChOutputFrame 2, K.kRegChInputFrame 1, K.kRegChInputFrame 2,
   K.kRegOutputTimingControlch 1, K.kRegVidProcControl 1, K.kRegMixerCoefficient 1,
   K.kRegFlatMatteValue 1, K.kRegRXSDIStatus 1, K.kRegRXSDIStatus 2,
   K.kRegRXSDICRCErrorCount 1, K.kRegSDIInVPIDA 1, K.kRegSDIInVPIDB 1,
   K.kRegInputStatus, K.kRegSDIInput3GStatus]

/-! ## Register writes -/

/-- The chain of tests of the `kRegPCMControl4321` arm of the write switch for one audio
system `a` (1 or 2) over the channel pairs `p`, `NTV2_AudioChannel1_2` being pair 0: the
first pair whose mask and shift are the caller's. -/
def pcmPairOf (K : Regs) (a inRegMask inRegShift : Nat) : List Nat → Option Nat
  | [] => none
  | p :: rest =>
    if inRegMask = K.kRegMaskPCMControl a p ∧ inRegShift = K.kRegShiftPCMControl a p then some p
    else pcmPairOf K a inRegMask inRegShift rest

/-- The `kRegPCMControl4321` arm of the write switch. -/
def writePCMControl (K : Regs) (s : VDev) (card : Card)
    (regNum inRegVal inRegMask inRegShift : Nat) : Bool × Card :=
  let cardAudSys := KonaToCardAudSys s NTV2_AUDIOSYSTEM_1
  if cardAudSys = NTV2_AUDIOSYSTEM_1 then card.WriteRegister regNum inRegVal inRegMask inRegShift
  else
    match pcmPairOf K 1 inRegMask inRegShift (List.range 8) with
    | some p => card.SetAudioPCMControl cardAudSys p (decide (inRegVal ≠ 0))
    | none =>
      let cardAudSys := cardAudSys + 1
      match pcmPairOf K 2 inRegMask inRegShift (List.range 8) with
      | some p => card.SetAudioPCMControl cardAudSys p (decide (inRegVal ≠ 0))
      | none => (false, card)

/-- The value the `kRegSDIOut1Control` arm of the write switch sends to the card. -/
def writeSDIOutAudSysBits (sdk : SDK) (s : VDev) (inRegVal regMask regShift : Nat) : Nat :=
  let regVal := ((inRegVal <<< regShift) % U32) &&& regMask
  let regVal :=
    if (regMask &&& (BIT 18 ||| BIT 28 ||| BIT 30)) = (BIT 18 ||| BIT 28 ||| BIT 30) then
      let cardAudSys := sdk.NTV2_AUDIOSYSTEM_INVALID
      let konaAudSys := audSysOfBits regVal 18 28 30
      if HasKonaAudSys s konaAudSys then
        let cardAudSys := KonaToCardAudSys s cardAudSys
        (regVal &&& (0xFFFFFFFF - BIT 30 - BIT 28 - BIT 18)) ||| bitsOfAudSys cardAudSys 18 28 30
      else regVal
    else regVal
  if (regMask &&& (BIT 19 ||| BIT 29 ||| BIT 31)) = (BIT 19 ||| BIT 29 ||| BIT 31) then
    let konaAudSys := audSysOfBits regVal 19 29 31
    if HasKonaAudSys s konaAudSys then
      let cardAudSys := KonaToCardAudSys s konaAudSys
      (regVal &&& (0xFFFFFFFF - BIT 31 - BIT 29 - BIT 19)) ||| bitsOfAudSys cardAudSys 19 29 31
    else regVal
  else regVal

/-- The method `NTV2WriteRegisterRemote`. The result is `(returned bool, card afterwards)`. -/
def NTV2WriteRegisterRemote (sdk : SDK) (K : Regs) (s : VDev) (card : Card)
    (inRegNum inRegVal inRegMask inRegShift : Nat) : Bool × Card :=
  let regNum := inRegNum
  let regMask := inRegMask
  let regShift := inRegShift
  let ch := s.mChannel
  let pass := fun (regNum : Nat) => card.WriteRegister regNum inRegVal regMask regShift
  if isMyAncExtRegister inRegNum then HandleWriteAncExt s card inRegNum inRegVal inRegMask inRegShift
  else if isMyAncInsRegister inRegNum then HandleWriteAncIns s card inRegNum inRegVal inRegMask inRegShift
  else if isMyXptSelectRegister s inRegNum then
    HandleWriteXptSelectReg sdk s card inRegNum inRegVal inRegMask inRegShift
  else if regNum = K.kRegAudControl 1 then
    pass (idx (gAudioSystemToAudioControlRegNum K) (KonaToCardAudSys s 0))
  else if regNum = K.kRegAudSourceSelect 1 then
    pass (idx (gAudioSystemToSrcSelectRegNum K) (KonaToCardAudSys s 0))
  else if regNum = K.kRegAudOutputLastAddr 1 then
    pass (idx (gChannelToAudioOutLastAddrRegNum K) (KonaToCardAudSys s 0))
  else if regNum = K.kRegAudInputLastAddr 1 then
    pass (idx (gChannelToAudioInLastAddrRegNum K) (KonaToCardAudSys s 0))
  else if regNum = K.kRegAudDelay 1 then
    pass (idx (gAudioDelayRegisterNumbers K) (KonaToCardAudSys s 0))
  else if regNum = K.kRegAudControl 2 then
    pass (idx (gAudioSystemToAudioControlRegNum K) (KonaToCardAudSys s 1))
  else if regNum = K.kRegAudSourceSelect 2 then
    pass (idx (gAudioSystemToSrcSelectRegNum K) (KonaToCardAudSys s 1))
  else if regNum = K.kRegAudOutputLastAddr 2 then
    pass (idx (gChannelToAudioOutLastAddrRegNum K) (KonaToCardAudSys s 1))
  else if regNum = K.kRegAudInputLastAddr 2 then
    pass (idx (gChannelToAudioInLastAddrRegNum K) (KonaToCardAudSys s 1))
  else if regNum = K.kRegAudDelay 2 then
    pass (idx (gAudioDelayRegisterNumbers K) (KonaToCardAudSys s 1))
  else if regNum = K.kRegPCMControl4321 then
    writePCMControl K s card regNum inRegVal inRegMask inRegShift
  else if regNum = K.kRegSDITransmitControl then
    HandleWriteSDITransmitControl sdk K s card inRegNum inRegVal inRegMask inRegShift
  else if regNum = K.kRegVidProcControl 1 then
    pass (idx (gIndexToVidProcControlRegNum K) (VDevToCardMixer s NTV2_CHANNEL1))
  else if regNum = K.kRegMixerCoefficient 1 then
    pass (idx (gIndexToVidProcMixCoeffRegNum K) (VDevToCardMixer s NTV2_CHANNEL1))
  else if regNum = K.kRegFlatMatteValue 1 then
    pass (idx (gIndexToVidProcFlatMatteRegNum K) (VDevToCardMixer s NTV2_CHANNEL1))
  else if regNum = K.kRegChControl 1 then
    pass (idx (gChannelToControlRegNum K) ch)
  else if regNum = K.kRegChControl 2 then
    pass (idx (gChannelToControlRegNum K) (ch + 1))
  else if regNum = K.kRegSDIOutControl 1 then
    card.WriteRegister (idx (gChannelToSDIOutControlRegNum K) (ch + 1))
      (writeSDIOutAudSysBits sdk s inRegVal regMask regShift) 0xFFFFFFFF 0
  else pass regNum

/-- The labels of the `switch` of `NTV2WriteRegisterRemote`, in source order; C++ requires
them to be pairwise different. -/
def writeSwitchLabels (K : Regs) : List Nat :=
  [K.kRegAudControl 1, K.kRegAudSourceSelect 1, K.kRegAudOutputLastAddr 1,
   K.kRegAudInputLastAddr 1, K.kRegAudDelay 1,
   K.kRegAudControl 2, K.kRegAudSourceSelect 2, K.kRegAudOutputLastAddr 2,
   K.kRegAudInputLastAddr 2, K.kRegAudDelay 2,
   K.kRegPCMControl4321, K.kRegSDITransmitControl, K.kRegVidProcControl 1,
   K.kRegMixerCoefficient 1, K.kRegFlatMatteValue 1, K.kRegChControl 1, K.kRegChControl 2,
   K.kRegSDIOutControl 1]

/-! ## Interrupts -/

/-- The method `NTV2WaitForInterruptRemote`. -/
def NTV2WaitForInterruptRemote (sdk : SDK) (s : VDev) (card : Card)
    (eInterrupt timeOutMs : Nat) : Bool × Card :=
  card.WaitForInterrupt (VDevToCardInterrupt sdk s eInterrupt) timeOutMs

/-! ## DMA transfers -/

/-- The method `NTV2DMATransferRemote`. The result is `(returned bool, card afterwards)`. -/
def NTV2DMATransferRemote (s : VDev) (card : Card) (inDMAEngine : Nat) (inRead : Bool)
    (inFrameNum : Nat) (inOutBuffer : NTV2Buffer)
    (inCardOffsetBytes inNumSegments inSegmentHostPitch inSegmentCardPitch : Nat)
    (inSync : Bool) : Bool × Card :=
  let r := DATKonaToCardFrmOffset s inFrameNum inCardOffsetBytes
  let frameNum := r.2.1
  let cardOffsetBytes := r.2.2
  let frameNum1 := if frameNum = 0 then cardOffsetBytes / 0x800000 else frameNum
  let cardOffsetBytes1 :=
    if frameNum = 0 then cardOffsetBytes - (frameNum1 * 0x800000) % U32 else cardOffsetBytes
  card.DmaTransfer inDMAEngine inRead frameNum1 inOutBuffer cardOffsetBytes1
    inOutBuffer.GetByteCount inNumSegments inSegmentHostPitch inSegmentCardPitch inSync

/-! ## Messages -/

/-- The method `NTV2MessageRemote`; `none` is the null pointer. `NTV2Channel (x)` of the
64-bit `acFrameTime` keeps its low 32 bits. The result is `(returned bool, message
afterwards, card afterwards)`. -/
def NTV2MessageRemote (sdk : SDK) (s : VDev) (card : Card) (pMsg : Option Message) :
    Bool × Option Message × Card :=
  match pMsg with
  | none => (false, none, card)
  | some msg =>
    if msg.GetType = sdk.NTV2_TYPE_SETREGS then (false, some msg, card)
    else if msg.GetType = sdk.NTV2_TYPE_GETREGS then (false, some msg, card)
    else if msg.GetType = sdk.NTV2_TYPE_ACSTATUS then
      let msg1 := { msg with acCrosspoint := KonaToCardACXpt sdk s msg.acCrosspoint }
      let r := card.NTV2Message msg1
      let msg2 := { r.2.1 with acCrosspoint := CardToKonaACXpt sdk s r.2.1.acCrosspoint }
      let msg3 := { msg2 with acAudioSystem := CardToKonaAudSys s msg2.acAudioSystem }
      (r.1, some msg3, r.2.2)
    else if msg.GetType = sdk.NTV2_TYPE_ACXFER then
      let msg1 := { msg with acCrosspoint := KonaToCardACXpt sdk s msg.acCrosspoint }
      let r := card.NTV2Message msg1
      let msg2 := { r.2.1 with acCrosspoint := CardToKonaACXpt sdk s r.2.1.acCrosspoint }
      (r.1, some msg2, r.2.2)
    else if msg.GetType = sdk.NTV2_TYPE_ACFRAMESTAMP then
      let msg1 := { msg with acFrameTime := VDevToCardChannel sdk s (msg.acFrameTime % U32) }
      let r := card.NTV2Message msg1
      let msg2 := { r.2.1 with acFrameTime := CardToVDevChannel sdk s (r.2.1.acFrameTime % U32) }
      (r.1, some msg2, r.2.2)
    else
      let r := card.NTV2Message msg
      (r.1, some r.2.1, r.2.2)

/-! ## AutoCirculate -/

/-- The method `NTV2AutoCirculateRemote`. The result is `(returned bool, acData afterwards,
card afterwards)`. -/
def NTV2AutoCirculateRemote (sdk : SDK) (s : VDev) (card : Card) (acData : AUTOCIRCULATE_DATA) :
    Bool × AUTOCIRCULATE_DATA × Card :=
  let acData1 := { acData with channelSpec := KonaToCardACXpt sdk s acData.channelSpec }
  let acData2 :=
    if acData1.eCommand = sdk.eInitAutoCirc then
      { acData1 with lVal3 := KonaToCardAudSys s acData1.lVal3 }
    else acData1
  let r := card.AutoCirculate acData2
  let acData3 :=
    if r.2.1.eCommand = sdk.eInitAutoCirc then
      { r.2.1 with lVal3 := CardToKonaAudSys s r.2.1.lVal3 }
    else r.2.1
  let acData4 := { acData3 with channelSpec := CardToKonaACXpt sdk s acData3.channelSpec }
  (r.1, acData4, r.2.2)

/-! ## The order of the specification for DMA coordinates -/

/-- The coordinates of a DMA transfer in the order of the specification ("if the incoming
virtual frame is 0, re-derive frame = offset / 0x800000 and reduce offset modulo 8 MiB
before translation"): normalise first, then translate with `DATKonaToCardFrmOffset`. This
definition follows the words of the specification, not the source; the source's order is
in `NTV2DMATransferRemote`. -/
def specifiedDMACoordinates (s : VDev) (frame offset : Nat) : Nat × Nat :=
  let frame1 := if frame = 0 then offset / 0x800000 else frame
  let offset1 := if frame = 0 then offset % 0x800000 else offset
  let r := DATKonaToCardFrmOffset s frame1 offset1
  (r.2.1, r.2.2)

/-! ## Connect -/

/-- An `NTV2Dictionary`, the connect parameters: keys with their values. -/
abbrev NTV2Dictionary := List (String × String)

/-- The method `hasKey` of `NTV2Dictionary`. -/
def NTV2Dictionary.hasKey (d : NTV2Dictionary) (key : String) : Bool :=
  d.any (fun e => e.1 = key)

/-- The method `valueForKey` of `NTV2Dictionary`: empty when the key is absent. -/
def NTV2Dictionary.valueForKey : NTV2Dictionary → String → String
  | [], _ => ""
  | (k, v) :: rest, key => if k = key then v else NTV2Dictionary.valueForKey rest key

/-- Insertion into an `NTV2StringSet`, kept in ascending order (the lexicographic order of
the characters) without repetition. -/
def NTV2StringSet.insert : List String → String → List String
  | [], key => [key]
  | k :: rest, key =>
    if key.data < k.data then key :: k :: rest
    else if key = k then k :: rest
    else k :: NTV2StringSet.insert rest key

/-- The method `keys` of `NTV2Dictionary`: the set of the keys, in ascending order. -/
def NTV2Dictionary.keys (d : NTV2Dictionary) : List String :=
  d.foldl (fun acc e => NTV2StringSet.insert acc e.1) []

/-- One element of `virtualDevices` in the configuration document. -/
structure VirtualDeviceJson where
  id : String
  name : String
  mappedWidgets : List MappedWidget
deriving DecidableEq, Repr

/-- One element of `deviceConfigList` in the configuration document. -/
structure DeviceConfigJson where
  serial : String
  virtualDevices : List VirtualDeviceJson
deriving DecidableEq, Repr

/-- What the translator uses from its surroundings when it connects. -/
structure Host where
  /-- Modelled from the spec: `CNTV2DeviceScanner::GetFirstDeviceFromArgument` ("opens a
  device by selector"): the opened card, `none` when it returns false. -/
  GetFirstDeviceFromArgument : String → Option Card
  /-- The array `v2.deviceConfigList` of the JSON document at a path, `none` when the file
  cannot be opened. A file that does not parse, or whose entries do not have the types of
  the schema, makes the JSON library throw and is outside this model. -/
  configFile : String → Option (List DeviceConfigJson)

/-- The instance data of `NTV2VirtualDev`: the connect parameters, what `NTV2Connect`
records, the card and whether it is open, and the mapping tables. -/
structure Translator where
  mConnectParams : NTV2Dictionary
  mCP2config : String
  mDevSN : String
  mVDID : String
  mVDName : String
  mVDjson : Option VirtualDeviceJson
  /-- The result of `mCard.IsOpen ()`. -/
  mCardIsOpen : Bool
  mCard : Card
  tables : VDev

/-- The method `IsConnected`. -/
def IsConnected (t : Translator) : Bool := t.mCardIsOpen

/-- The method `HasConnectParam`. -/
def HasConnectParam (t : Translator) (key : String) : Bool := t.mConnectParams.hasKey key

/-- The loop of `NTV2Connect` over the keys of the connect parameters; `false` is an early
`return false`. -/
def connectParamLoop : List String → Translator → Bool × Translator
  | [], t => (true, t)
  | key :: rest, t =>
    let value := t.mConnectParams.valueForKey key
    if key = "cp2configpath" then
      if value.isEmpty then (false, t)
      else if !t.mCP2config.isEmpty then (false, t)
      else connectParamLoop rest { t with mCP2config := value }
    else if key = "devicesn" then
      if value.isEmpty then (false, t)
      else if !t.mDevSN.isEmpty then (false, t)
      else connectParamLoop rest { t with mDevSN := value }
    else if key = "vdid" then
      if value.isEmpty then (false, t)
      else if !t.mVDID.isEmpty then (false, t)
      else connectParamLoop rest { t with mVDID := value }
    else if key = "help" then (false, t)
    else if key = "verbose" then connectParamLoop rest t
    else connectParamLoop rest t

/-- The method `ImportVDFromJSON`. -/
def ImportVDFromJSON (host : Host) (t : Translator) : Bool × Translator :=
  match host.configFile t.mCP2config with
  | none => (false, t)
  | some devlist =>
    let vdevlist :=
      match devlist.find? (fun dev => dev.serial = t.mDevSN) with
      | some hwdev => hwdev.virtualDevices
      | none => []
    match vdevlist.find? (fun vdev => vdev.id = t.mVDID) with
    | some vdev => (true, { t with mVDjson := some vdev, mVDName := vdev.name })
    | none => (true, t)

/-- The array `mVDjson["mappedWidgets"]`, empty while `mVDjson` is null. -/
def Translator.mappedWidgets (t : Translator) : List MappedWidget :=
  match t.mVDjson with
  | some vdev => vdev.mappedWidgets
  | none => []

/-- The method `NTV2Connect`. A device that cannot be opened leaves the card closed. -/
def NTV2Connect (sdk : SDK) (host : Host) (t : Translator) : Bool × Translator :=
  let r := connectParamLoop t.mConnectParams.keys t
  if r.1 = false then (false, r.2)
  else
    let t1 := r.2
    if !HasConnectParam t1 "cp2configpath" then (false, t1)
    else if !HasConnectParam t1 "devicesn" then (false, t1)
    else if !HasConnectParam t1 "vdid" then (false, t1)
    else
      match host.GetFirstDeviceFromArgument t1.mDevSN with
      | none => (false, { t1 with mCardIsOpen := false })
      | some card =>
        let t2 : Translator :=
          { t1 with
            mCardIsOpen := true
            mCard := card
            tables := { t1.tables with mSimDeviceID := card.GetDeviceID } }
        let r3 := ImportVDFromJSON host t2
        if r3.1 = false then (false, r3.2)
        else
          let t3 := r3.2
          if t3.mCardIsOpen then
            let r4 := SetupMapping sdk t3.mCard t3.mappedWidgets t3.tables
            (r4.1, { t3 with tables := r4.2 })
          else (false, t3)

/-- The translator as the constructor leaves it for a set of connect parameters: nothing
recorded, the card closed, the tables empty. -/
def Translator.constructed (sdk : SDK) (params : NTV2Dictionary) (card : Card) : Translator :=
  { mConnectParams := params
    mCP2config := ""
    mDevSN := ""
    mVDID := ""
    mVDName := ""
    mVDjson := none
    mCardIsOpen := false
    mCard := card
    tables := VDev.constructed sdk.DEVICE_ID_INVALID }

/-! ## The methods over the instance data

The methods of the class that are not `const`, as functions of the whole instance data:
each takes the instance data before the call and returns its results and the instance
data after it. A table is read from the instance data as it is at that statement. The
`const` methods (the lookups and the register-window tests) are the functions of the
tables defined above. -/

/-- A call `mCard.ReadRegister (regNum, outValue, mask, shift)` in a method: the call acts
on the member `mCard`. -/
def Translator.mCard_ReadRegister (t : Translator) (regNum outValue mask shift : Nat) :
    Bool × Nat × Translator :=
  let r := t.mCard.ReadRegister regNum outValue mask shift
  (r.1, r.2.1, { t with mCard := r.2.2 })

/-- A call `mCard.WriteRegister (regNum, value, mask, shift)` in a method. -/
def Translator.mCard_WriteRegister (t : Translator) (regNum value mask shift : Nat) :
    Bool × Translator :=
  let r := t.mCard.WriteRegister regNum value mask shift
  (r.1, { t with mCard := r.2 })

/-- A call `mCard.SetAudioPCMControl (audioSystem, channelPair, isNonPCM)` in a method. -/
def Translator.mCard_SetAudioPCMControl (t : Translator) (audioSystem channelPair : Nat)
    (isNonPCM : Bool) : Bool × Translator :=
  let r := t.mCard.SetAudioPCMControl audioSystem channelPair isNonPCM
  (r.1, { t with mCard := r.2 })

/-- A call `mCard.DmaTransfer (...)` in a method. -/
def Translator.mCard_DmaTransfer (t : Translator) (engine : Nat) (isRead : Bool)
    (frameNumber : Nat) (buffer : NTV2Buffer)
    (cardOffsetBytes byteCount numSegments segmentHostPitch segmentCardPitch : Nat)
    (synchronous : Bool) : Bool × Translator :=
  let r := t.mCard.DmaTransfer engine isRead frameNumber buffer cardOffsetBytes byteCount
    numSegments segmentHostPitch segmentCardPitch synchronous
  (r.1, { t with mCard := r.2 })

/-- A call `mCard.NTV2Message (pInMessage)` in a method. -/
def Translator.mCard_NTV2Message (t : Translator) (message : Message) :
    Bool × Message × Translator :=
  let r := t.mCard.NTV2Message message
  (r.1, r.2.1, { t with mCard := r.2.2 })

/-- A call `mCard.WaitForInterrupt (eInterrupt, timeOutMs)` in a method. -/
def Translator.mCard_WaitForInterrupt (t : Translator) (eInterrupt timeOutMs : Nat) :
    Bool × Translator :=
  let r := t.mCard.WaitForInterrupt eInterrupt timeOutMs
  (r.1, { t with mCard := r.2 })

/-- A call `mCard.AutoCirculate (autoCircData)` in a method. -/
def Translator.mCard_AutoCirculate (t : Translator) (acData : AUTOCIRCULATE_DATA) :
    Bool × AUTOCIRCULATE_DATA × Translator :=
  let r := t.mCard.AutoCirculate acData
  (r.1, r.2.1, { t with mCard := r.2.2 })

/-- The method `ReadCardRegister`, over the instance data. -/
def Translator.ReadCardRegister (t : Translator) (regInfo : RegInfo) (outValue : Nat) :
    Bool × Nat × Translator :=
  t.mCard_ReadRegister regInfo.regNum outValue regInfo.mask regInfo.shift

/-- The method `WriteCardRegister`, over the instance data. -/
def Translator.WriteCardRegister (t : Translator) (regInfo : RegInfo) (inValue : Nat) :
    Bool × Translator :=
  t.mCard_WriteRegister regInfo.regNum inValue regInfo.mask regInfo.shift

/-- The `while` loop of `HandleReadXptSelectReg`, over the instance data; the list is the
range of the `const` iterator. -/
def Translator.readXptLoop (sdk : SDK) (inMask : Nat) :
    List RegInfo → Nat → Translator → Bool × Nat × Translator
  | [], outVal, t => (true, outVal, t)
  | konaXptRegInfo :: rest, outVal, t =>
    if (konaXptRegInfo.mask &&& inMask) ≠ konaXptRegInfo.mask then
      Translator.readXptLoop sdk inMask rest outVal t
    else
      let cardInpXpt := VDevToCardInputXpt sdk t.tables konaXptRegInfo.inputXpt
      match sdk.GetCrosspointSelectGroupRegisterInfo cardInpXpt with
      | none => (false, outVal, t)
      | some (cardRegNum, nibbleNdx) =>
        let cardXptRegInfo : RegInfo :=
          { mRegNum := cardRegNum, mNdx := nibbleNdx, mIXpt := cardInpXpt }
        let r := t.ReadCardRegister cardXptRegInfo 0
        if r.1 = false then (false, outVal, r.2.2)
        else
          let konaOutXpt := CardToVDevOutputXpt sdk r.2.2.tables r.2.1
          let outVal1 := (outVal &&& konaXptRegInfo.invMask)
            ||| ((konaOutXpt <<< konaXptRegInfo.shift) % U32)
          Translator.readXptLoop sdk inMask rest outVal1 r.2.2

/-- The method `HandleReadXptSelectReg`, over the instance data. -/
def Translator.HandleReadXptSelectReg (sdk : SDK) (t : Translator)
    (inRegNum outVal inMask inShift : Nat) : Bool × Nat × Translator :=
  if ¬ isMyXptSelectRegister t.tables inRegNum then
    t.mCard_ReadRegister inRegNum outVal inMask inShift
  else
    let r := Translator.readXptLoop sdk inMask (t.tables.mVDevXptRegInfos.equalRange inRegNum)
      outVal t
    if r.1 = false then r
    else (true, shiftIfRequested r.2.1 inShift, r.2.2)

/-- The `while` loop of `HandleWriteXptSelectReg`, over the instance data. -/
def Translator.writeXptLoop (sdk : SDK) (inVal inMask : Nat) :
    List RegInfo → Translator → Bool × Translator
  | [], t => (true, t)
  | konaXptRegInfo :: rest, t =>
    if (konaXptRegInfo.mask &&& inMask) ≠ konaXptRegInfo.mask then
      Translator.writeXptLoop sdk inVal inMask rest t
    else
      let konaOxpt := inVal + 0
      let cardOutXpt := VDevToCardOutputXpt sdk t.tables konaOxpt
      let cardInpXpt := VDevToCardInputXpt sdk t.tables konaXptRegInfo.inputXpt
      match sdk.GetCrosspointSelectGroupRegisterInfo cardInpXpt with
      | none => (false, t)
      | some (cardRegNum, nibbleNdx) =>
        let cardXptRegInfo : RegInfo :=
          { mRegNum := cardRegNum, mNdx := nibbleNdx, mIXpt := cardInpXpt }
        let r := t.WriteCardRegister cardXptRegInfo cardOutXpt
        if r.1 = false then (false, r.2)
        else Translator.writeXptLoop sdk inVal inMask rest r.2

/-- The method `HandleWriteXptSelectReg`, over the instance data. -/
def Translator.HandleWriteXptSelectReg (sdk : SDK) (t : Translator)
    (inRegNum inVal inMask inShift : Nat) : Bool × Translator :=
  if ¬ isMyXptSelectRegister t.tables inRegNum then
    t.mCard_WriteRegister inRegNum inVal inMask inShift
  else
    Translator.writeXptLoop sdk inVal inMask (t.tables.mVDevXptRegInfos.equalRange inRegNum) t

/-- The method `HandleReadAncIns`, over the instance data. -/
def Translator.HandleReadAncIns (t : Translator) (regNum outRegValue regMask regShift : Nat) :
    Bool × Nat × Translator :=
  let newRegNum :=
    if regNum ≥ sAncInsBaseRegNum.getD 0 0 ∧ regNum < sAncInsBaseRegNum.getD 0 0 + sAncInsNumRegs
    then (regNum + (t.tables.mChannel + 1) * AncInsRegOffsetPerChannel) % U32 else 0
  if newRegNum ≠ 0 then t.mCard_ReadRegister newRegNum outRegValue regMask regShift
  else (true, 0, t)

/-- The method `HandleWriteAncIns`, over the instance data. -/
def Translator.HandleWriteAncIns (t : Translator) (regNum inRegValue regMask regShift : Nat) :
    Bool × Translator :=
  let newRegNum :=
    if regNum ≥ sAncInsBaseRegNum.getD 0 0 ∧ regNum < sAncInsBaseRegNum.getD 0 0 + sAncInsNumRegs
    then (regNum + (t.tables.mChannel + 1) * AncInsRegOffsetPerChannel) % U32 else 0
  if newRegNum ≠ 0 then t.mCard_WriteRegister newRegNum inRegValue regMask regShift
  else (true, t)

/-- The method `HandleReadAncExt`, over the instance data. -/
def Translator.HandleReadAncExt (t : Translator) (regNum outRegValue regMask regShift : Nat) :
    Bool × Nat × Translator :=
  let newRegNum :=
    if regNum ≥ sAncExtBaseRegNum.getD 0 0 ∧ regNum < sAncExtBaseRegNum.getD 0 0 + sAncExtNumRegs
    then (regNum + t.tables.mChannel * AncExtRegOffsetPerChannel) % U32 else 0
  if newRegNum ≠ 0 then t.mCard_ReadRegister newRegNum outRegValue regMask regShift
  else (true, 0, t)

/-- The method `HandleWriteAncExt`, over the instance data. -/
def Translator.HandleWriteAncExt (t : Translator) (regNum inRegValue regMask regShift : Nat) :
    Bool × Translator :=
  let newRegNum :=
    if regNum ≥ sAncExtBaseRegNum.getD 0 0 ∧ regNum < sAncExtBaseRegNum.getD 0 0 + sAncExtNumRegs
    then (regNum + t.tables.mChannel * AncExtRegOffsetPerChannel) % U32 else 0
  if newRegNum ≠ 0 then t.mCard_WriteRegister newRegNum inRegValue regMask regShift
  else (true, t)

/-- The method `HandleReadGlobalControl`, over the instance data. -/
def Translator.HandleReadGlobalControl (sdk : SDK) (K : Regs) (t : Translator)
    (regNum outValue mask shift : Nat) : Bool × Nat × Translator :=
  let r := t.mCard_ReadRegister regNum outValue 0xFFFFFFFF 0
  if r.1 = false then (false, r.2.1, r.2.2)
  else
    let outValue := r.2.1
    if regNum = K.kRegGlobalControl then
      let outValue :=
        if (mask &&& K.kRegMaskRefSource) = K.kRegMaskRefSource then
          let val := outValue &&& K.kRegMaskRefSource
          let refSrcSDIIn := sdk.ChannelToReferenceSource r.2.2.tables.mChannel
          let cardSDIInBits := (refSrcSDIIn <<< K.kRegShiftRefSource) % U32
          let SDIIn1Bits := (sdk.NTV2_REFERENCE_INPUT1 <<< K.kRegShiftRefSource) % U32
          let ExtRefBits := (sdk.NTV2_REFERENCE_EXTERNAL <<< K.kRegShiftRefSource) % U32
          let FreeRunBits := (sdk.NTV2_REFERENCE_FREERUN <<< K.kRegShiftRefSource) % U32
          if val = cardSDIInBits then (outValue &&& not32 K.kRegMaskRefSource) ||| SDIIn1Bits
          else if val = ExtRefBits then outValue
          else if val = FreeRunBits then outValue
          else (outValue &&& not32 K.kRegMaskRefSource) ||| FreeRunBits
        else outValue
      (true, (outValue &&& mask) >>> shift, r.2.2)
    else if regNum = K.kRegGlobalControl2 then
      let outValue := outValue &&& not32 K.kRegMaskQuadMode
      let outValue := outValue &&& not32 K.kRegMaskQuadMode2
      let outValue := outValue &&& not32 K.kRegMaskIndependentMode
      let outValue := outValue &&& not32 K.kRegMask425FB12
      let outValue := outValue &&& not32 K.kRegMask425FB34
      let outValue := outValue &&& not32 K.kRegMask425FB56
      let outValue := outValue &&& not32 K.kRegMask425FB78
      (true, (outValue &&& mask) >>> shift, r.2.2)
    else (false, outValue, r.2.2)

/-- The method `HandleReadChannelControl`, over the instance data. -/
def Translator.HandleReadChannelControl (K : Regs) (t : Translator)
    (regNum outValue mask shift : Nat) : Bool × Nat × Translator :=
  let r := t.mCard_ReadRegister
    (idx (gChannelToControlRegNum K)
      (if regNum = K.kRegChControl 1 then t.tables.mChannel else t.tables.mChannel + 1))
    outValue 0xFFFFFFFF 0
  if r.1 = false then (false, r.2.1, r.2.2)
  else
    let outValue := r.2.1
    if regNum = K.kRegChControl 1 ∧ (mask &&& K.kK2RegMaskFrameSize) = K.kK2RegMaskFrameSize then
      let r2 := r.2.2.mCard_ReadRegister regNum 0 0xFFFFFFFF 0
      if r2.1 = false then (false, outValue, r2.2.2)
      else
        let outValue := (outValue &&& not32 K.kK2RegMaskFrameSize) ||| r2.2.1
        (true, (outValue &&& mask) >>> shift, r2.2.2)
    else (true, (outValue &&& mask) >>> shift, r.2.2)

/-- The method `GetCardIOChannelFromVirtual`, over the instance data: its loop reads
`mVDevToCardWgts` through `const` references. -/
def Translator.GetCardIOChannelFromVirtual (sdk : SDK) (t : Translator) (inVirtualChan : Nat) :
    Option Nat × Translator :=
  (NTV2VirtualDev.GetCardIOChannelFromVirtual sdk inVirtualChan t.tables.mVDevToCardWgts, t)

/-- The `for` loop of `HandleWriteSDITransmitControl`, over the instance data. -/
def Translator.writeSDIXmitLoop (sdk : SDK) (K : Regs) (inRegNum VDRegVal inRegMask : Nat) :
    List Nat → Translator → Bool × Translator
  | [], t => (true, t)
  | i :: rest, t =>
    if idx (sSDIXmitEnableMasks K) i &&& inRegMask ≠ 0 then
      let VDValue := (VDRegVal &&& idx (sSDIXmitEnableMasks K) i) >>> idx (sSDIXmitEnableShifts K) i
      let g := t.GetCardIOChannelFromVirtual sdk i
      match g.1 with
      | some cardChannel =>
        let r := g.2.mCard_WriteRegister inRegNum VDValue (idx (sSDIXmitEnableMasks K) cardChannel)
          (idx (sSDIXmitEnableShifts K) cardChannel)
        if r.1 = false then (false, r.2)
        else Translator.writeSDIXmitLoop sdk K inRegNum VDRegVal inRegMask rest r.2
      | none => Translator.writeSDIXmitLoop sdk K inRegNum VDRegVal inRegMask rest g.2
    else Translator.writeSDIXmitLoop sdk K inRegNum VDRegVal inRegMask rest t

/-- The method `HandleWriteSDITransmitControl`, over the instance data. -/
def Translator.HandleWriteSDITransmitControl (sdk : SDK) (K : Regs) (t : Translator)
    (inRegNum inRegVal inRegMask inRegShift : Nat) : Bool × Translator :=
  if ¬ t.mCard.HasBiDirectionalSDI then (true, t)
  else
    let VDRegVal := ((inRegVal <<< inRegShift) % U32) &&& inRegMask
    Translator.writeSDIXmitLoop sdk K inRegNum VDRegVal inRegMask (List.range 8) t

/-- The `for` loop of `HandleReadSDITransmitControl`, over the instance data. -/
def Translator.readSDIXmitLoop (sdk : SDK) (K : Regs) (inRegNum inRegMask : Nat) :
    List Nat → Nat → Translator → Bool × Nat × Translator
  | [], OutValue, t => (true, OutValue, t)
  | i :: rest, OutValue, t =>
    if idx (sSDIXmitEnableMasks K) i &&& inRegMask ≠ 0 then
      let g := t.GetCardIOChannelFromVirtual sdk i
      match g.1 with
      | some cardChannel =>
        let r := g.2.mCard_ReadRegister inRegNum 0 (idx (sSDIXmitEnableMasks K) cardChannel)
          (idx (sSDIXmitEnableShifts K) cardChannel)
        if r.1 = false then (false, OutValue, r.2.2)
        else
          let OutValue1 :=
            if r.2.1 ≠ 0 then OutValue ||| idx (sSDIXmitEnableMasks K) i
            else OutValue &&& not32 (idx (sSDIXmitEnableMasks K) i)
          Translator.readSDIXmitLoop sdk K inRegNum inRegMask rest OutValue1 r.2.2
      | none => Translator.readSDIXmitLoop sdk K inRegNum inRegMask rest OutValue g.2
    else Translator.readSDIXmitLoop sdk K inRegNum inRegMask rest OutValue t

/-- The method `HandleReadSDITransmitControl`, over the instance data. -/
def Translator.HandleReadSDITransmitControl (sdk : SDK) (K : Regs) (t : Translator)
    (inRegNum OutValue inRegMask inRegShift : Nat) : Bool × Nat × Translator :=
  if ¬ t.mCard.HasBiDirectionalSDI then (true, OutValue, t)
  else
    let r := Translator.readSDIXmitLoop sdk K inRegNum inRegMask (List.range 8) OutValue t
    if r.1 = false then r
    else (true, shiftIfRequested r.2.1 inRegShift, r.2.2)

/-- The `kRegPCMControl4321` arm of the read switch, over the instance data. -/
def Translator.readPCMControl (K : Regs) (t : Translator)
    (regNum outValue inRegMask inRegShift : Nat) : Bool × Nat × Translator :=
  let cardAudSys := KonaToCardAudSys t.tables NTV2_AUDIOSYSTEM_1
  if cardAudSys = NTV2_AUDIOSYSTEM_1 then t.mCard_ReadRegister regNum outValue inRegMask inRegShift
  else
    let regNum1 := if cardAudSys > 3 then K.kRegPCMControl8765 else regNum
    let cardAudSys := if cardAudSys > 3 then cardAudSys - 4 else cardAudSys
    let r := t.mCard_ReadRegister regNum1 outValue 0xFFFFFFFF 0
    if r.1 = false then (false, r.2.1, r.2.2)
    else
      let outValue := r.2.1
      let outValue :=
        if inRegMask &&& kRegMaskPCMCtrlA K 1 ≠ 0 then
          let value := outValue &&& ((0x000000FF <<< (cardAudSys * 8)) % U32)
          let value := value >>> ((cardAudSys - NTV2_AUDIOSYSTEM_1) * 8)
          (outValue &&& 0xFFFFFF00) ||| value
        else outValue
      let outValue :=
        if inRegMask &&& kRegMaskPCMCtrlA K 2 ≠ 0 then
          let cardAudSys := cardAudSys + 1
          let value := outValue &&& ((0x000000FF <<< (cardAudSys * 8)) % U32)
          let value := value >>> ((cardAudSys - 1) * 8)
          (outValue &&& 0xFFFF00FF) ||| value
        else outValue
      (true, shiftIfRequested (outValue &&& inRegMask) inRegShift, r.2.2)

/-- The method `NTV2ReadRegisterRemote`, over the instance data. The result is
`(returned bool, outValue, instance data afterwards)`. -/
def Translator.NTV2ReadRegisterRemote (sdk : SDK) (K : Regs) (t : Translator)
    (inRegNum outValue inRegMask inRegShift : Nat) : Bool × Nat × Translator :=
  let regNum := inRegNum
  let regMask := inRegMask
  let regShift := inRegShift
  let ch := t.tables.mChannel
  let pass := fun (regNum regMask regShift : Nat) => t.mCard_ReadRegister regNum outValue regMask regShift
  if isMyAncExtRegister regNum then t.HandleReadAncExt regNum outValue regMask regShift
  else if isMyAncInsRegister regNum then t.HandleReadAncIns regNum outValue regMask regShift
  else if isMyXptSelectRegister t.tables regNum then
    t.HandleReadXptSelectReg sdk inRegNum outValue inRegMask inRegShift
  else if regNum = K.kRegBoardID then
    (true, shiftIfRequested (t.tables.mSimDeviceID &&& inRegMask) inRegShift, t)
  else if regNum = K.kRegAudControl 1 then
    pass (idx (gAudioSystemToAudioControlRegNum K) (KonaToCardAudSys t.tables 0)) regMask regShift
  else if regNum = K.kRegAudSourceSelect 1 then
    pass (idx (gAudioSystemToSrcSelectRegNum K) (KonaToCardAudSys t.tables 0)) regMask regShift
  else if regNum = K.kRegAudOutputLastAddr 1 then
    pass (idx (gChannelToAudioOutLastAddrRegNum K) (KonaToCardAudSys t.tables 0)) regMask regShift
  else if regNum = K.kRegAudInputLastAddr 1 then
    pass (idx (gChannelToAudioInLastAddrRegNum K) (KonaToCardAudSys t.tables 0)) regMask regShift
  else if regNum = K.kRegAudDelay 1 then
    pass (idx (gAudioDelayRegisterNumbers K) (KonaToCardAudSys t.tables 0)) regMask regShift
  else if regNum = K.kRegAud1Detect then
    pass (idx (sAudioDetectRegs K) (KonaToCardAudSys t.tables 0)) regMask regShift
  else if regNum = K.kRegAudControl 2 then
    pass (idx (gAudioSystemToAudioControlRegNum K) (KonaToCardAudSys t.tables 1)) regMask regShift
  else if regNum = K.kRegAudSourceSelect 2 then
    pass (idx (gAudioSystemToSrcSelectRegNum K) (KonaToCardAudSys t.tables 1)) regMask regShift
  else if regNum = K.kRegAudOutputLastAddr 2 then
    pass (idx (gChannelToAudioOutLastAddrRegNum K) (KonaToCardAudSys t.tables 1)) regMask regShift
  else if regNum = K.kRegAudInputLastAddr 2 then
    pass (idx (gChannelToAudioInLastAddrRegNum K) (KonaToCardAudSys t.tables 1)) regMask regShift
  else if regNum = K.kRegAudDelay 2 then
    pass (idx (gAudioDelayRegisterNumbers K) (KonaToCardAudSys t.tables 1)) regMask regShift
  else if regNum = K.kRegAudDetect2 then
    pass (idx (sAudioDetectRegs K) (KonaToCardAudSys t.tables 1)) regMask regShift
  else if regNum = K.kRegPCMControl4321 then
    t.readPCMControl K regNum outValue inRegMask inRegShift
  else if regNum = K.kRegGlobalControl ∨ regNum = K.kRegGlobalControl2 then
    t.HandleReadGlobalControl sdk K regNum outValue regMask regShift
  else if regNum = K.kRegChControl 1 ∨ regNum = K.kRegChControl 2 then
    t.HandleReadChannelControl K regNum outValue regMask regShift
  else if regNum = K.kRegSDITransmitControl then
    t.HandleReadSDITransmitControl sdk K regNum outValue regMask regShift
  else if regNum = K.kRegSDIOutControl 1 then
    let regNum := idx (gChannelToSDIOutControlRegNum K) (ch + 1)
    if inRegMask &&& (BIT 18 ||| BIT 19 ||| BIT 28 ||| BIT 29 ||| BIT 30 ||| BIT 31) ≠ 0 then
      let r := t.mCard_ReadRegister regNum outValue 0xFFFFFFFF 0
      if r.1 = false then (false, r.2.1, r.2.2)
      else
        (true, shiftIfRequested (readSDIOutAudSysBits r.2.2.tables r.2.1 &&& inRegMask) inRegShift, r.2.2)
    else pass regNum regMask regShift
  else if regNum = K.kRegChOutputFrame 1 then
    pass (idx (gChannelToOutputFrameRegNum K) ch) regMask regShift
  else if regNum = K.kRegChOutputFrame 2 then
    pass (idx (gChannelToOutputFrameRegNum K) (ch + 1)) regMask regShift
  else if regNum = K.kRegChInputFrame 1 then
    pass (idx (gChannelToInputFrameRegNum K) ch) regMask regShift
  else if regNum = K.kRegChInputFrame 2 then
    pass (idx (gChannelToInputFrameRegNum K) (ch + 1)) regMask regShift
  else if regNum = K.kRegOutputTimingControlch 1 then
    pass (idx (gChannelToOutputTimingCtrlRegNum K) (ch + 1)) regMask regShift
  else if regNum = K.kRegVidProcControl 1 then
    pass (idx (gIndexToVidProcControlRegNum K) (VDevToCardMixer t.tables NTV2_CHANNEL1)) regMask regShift
  else if regNum = K.kRegMixerCoefficient 1 then
    pass (idx (gIndexToVidProcMixCoeffRegNum K) (VDevToCardMixer t.tables NTV2_CHANNEL1)) regMask regShift
  else if regNum = K.kRegFlatMatteValue 1 then
    pass (idx (gIndexToVidProcFlatMatteRegNum K) (VDevToCardMixer t.tables NTV2_CHANNEL1)) regMask regShift
  else if regNum = K.kRegRXSDIStatus 1 then
    pass (idx (gChannelToRXSDIStatusRegs K) ch) regMask regShift
  else if regNum = K.kRegRXSDIStatus 2 then
    pass (idx (gChannelToRXSDIStatusRegs K) (ch + 1)) regMask regShift
  else if regNum = K.kRegRXSDICRCErrorCount 1 then
    pass (idx (gChannelToRXSDICRCErrorCountRegs K) ch) regMask regShift
  else if regNum = K.kRegSDIInVPIDA 1 then
    pass (idx (gChannelToSDIInVPIDARegNum K) ch) regMask regShift
  else if regNum = K.kRegSDIInVPIDB 1 then
    pass (idx (gChannelToSDIInVPIDBRegNum K) ch) regMask regShift
  else if regNum = K.kRegInputStatus then
    pass (idx (gChannelToSDIInputStatusRegNum K) ch) (inputStatusMask K ch regMask)
      (inputStatusShift K ch regShift)
  else if regNum = K.kRegSDIInput3GStatus then
    let regNum := idx (gChannelToSDIInput3GStatusRegNum K) ch
    let ms := sdi3GStatusMaskShift K ch regNum regMask regShift
    pass regNum ms.1 (sdi3GStatusShift K ch ms.1 ms.2)
  else pass regNum regMask regShift

/-- The `kRegPCMControl4321` arm of the write switch, over the instance data. -/
def Translator.writePCMControl (K : Regs) (t : Translator)
    (regNum inRegVal inRegMask inRegShift : Nat) : Bool × Translator :=
  let cardAudSys := KonaToCardAudSys t.tables NTV2_AUDIOSYSTEM_1
  if cardAudSys = NTV2_AUDIOSYSTEM_1 then t.mCard_WriteRegister regNum inRegVal inRegMask inRegShift
  else
    match pcmPairOf K 1 inRegMask inRegShift (List.range 8) with
    | some p => t.mCard_SetAudioPCMControl cardAudSys p (decide (inRegVal ≠ 0))
    | none =>
      let cardAudSys := cardAudSys + 1
      match pcmPairOf K 2 inRegMask inRegShift (List.range 8) with
      | some p => t.mCard_SetAudioPCMControl cardAudSys p (decide (inRegVal ≠ 0))
      | none => (false, t)

/-- The method `NTV2WriteRegisterRemote`, over the instance data. The result is
`(returned bool, instance data afterwards)`. -/
def Translator.NTV2WriteRegisterRemote (sdk : SDK) (K : Regs) (t : Translator)
    (inRegNum inRegVal inRegMask inRegShift : Nat) : Bool × Translator :=
  let regNum := inRegNum
  let regMask := inRegMask
  let regShift := inRegShift
  let ch := t.tables.mChannel
  let pass := fun (regNum : Nat) => t.mCard_WriteRegister regNum inRegVal regMask regShift
  if isMyAncExtRegister inRegNum then t.HandleWriteAncExt inRegNum inRegVal inRegMask inRegShift
  else if isMyAncInsRegister inRegNum then t.HandleWriteAncIns inRegNum inRegVal inRegMask inRegShift
  else if isMyXptSelectRegister t.tables inRegNum then
    t.HandleWriteXptSelectReg sdk inRegNum inRegVal inRegMask inRegShift
  else if regNum = K.kRegAudControl 1 then
    pass (idx (gAudioSystemToAudioControlRegNum K) (KonaToCardAudSys t.tables 0))
  else if regNum = K.kRegAudSourceSelect 1 then
    pass (idx (gAudioSystemToSrcSelectRegNum K) (KonaToCardAudSys t.tables 0))
  else if regNum = K.kRegAudOutputLastAddr 1 then
    pass (idx (gChannelToAudioOutLastAddrRegNum K) (KonaToCardAudSys t.tables 0))
  else if regNum = K.kRegAudInputLastAddr 1 then
    pass (idx (gChannelToAudioInLastAddrRegNum K) (KonaToCardAudSys t.tables 0))
  else if regNum = K.kRegAudDelay 1 then
    pass (idx (gAudioDelayRegisterNumbers K) (KonaToCardAudSys t.tables 0))
  else if regNum = K.kRegAudControl 2 then
    pass (idx (gAudioSystemToAudioControlRegNum K) (KonaToCardAudSys t.tables 1))
  else if regNum = K.kRegAudSourceSelect 2 then
    pass (idx (gAudioSystemToSrcSelectRegNum K) (KonaToCardAudSys t.tables 1))
  else if regNum = K.kRegAudOutputLastAddr 2 then
    pass (idx (gChannelToAudioOutLastAddrRegNum K) (KonaToCardAudSys t.tables 1))
  else if regNum = K.kRegAudInputLastAddr 2 then
    pass (idx (gChannelToAudioInLastAddrRegNum K) (KonaToCardAudSys t.tables 1))
  else if regNum = K.kRegAudDelay 2 then
    pass (idx (gAudioDelayRegisterNumbers K) (KonaToCardAudSys t.tables 1))
  else if regNum = K.kRegPCMControl4321 then
    t.writePCMControl K regNum inRegVal inRegMask inRegShift
  else if regNum = K.kRegSDITransmitControl then
    t.HandleWriteSDITransmitControl sdk K inRegNum inRegVal inRegMask inRegShift
  else if regNum = K.kRegVidProcControl 1 then
    pass (idx (gIndexToVidProcControlRegNum K) (VDevToCardMixer t.tables NTV2_CHANNEL1))
  else if regNum = K.kRegMixerCoefficient 1 then
    pass (idx (gIndexToVidProcMixCoeffRegNum K) (VDevToCardMixer t.tables NTV2_CHANNEL1))
  else if regNum = K.kRegFlatMatteValue 1 then
    pass (idx (gIndexToVidProcFlatMatteRegNum K) (VDevToCardMixer t.tables NTV2_CHANNEL1))
  else if regNum = K.kRegChControl 1 then
    pass (idx (gChannelToControlRegNum K) ch)
  else if regNum = K.kRegChControl 2 then
    pass (idx (gChannelToControlRegNum K) (ch + 1))
  else if regNum = K.kRegSDIOutControl 1 then
    t.mCard_WriteRegister (idx (gChannelToSDIOutControlRegNum K) (ch + 1))
      (writeSDIOutAudSysBits sdk t.tables inRegVal regMask regShift) 0xFFFFFFFF 0
  else pass regNum

/-- The method `NTV2WaitForInterruptRemote`, over the instance data. -/
def Translator.NTV2WaitForInterruptRemote (sdk : SDK) (t : Translator)
    (eInterrupt timeOutMs : Nat) : Bool × Translator :=
  t.mCard_WaitForInterrupt (VDevToCardInterrupt sdk t.tables eInterrupt) timeOutMs

/-- The method `NTV2DMATransferRemote`, over the instance data. -/
def Translator.NTV2DMATransferRemote (t : Translator) (inDMAEngine : Nat) (inRead : Bool)
    (inFrameNum : Nat) (inOutBuffer : NTV2Buffer)
    (inCardOffsetBytes inNumSegments inSegmentHostPitch inSegmentCardPitch : Nat)
    (inSync : Bool) : Bool × Translator :=
  let r := DATKonaToCardFrmOffset t.tables inFrameNum inCardOffsetBytes
  let frameNum := r.2.1
  let cardOffsetBytes := r.2.2
  let frameNum1 := if frameNum = 0 then cardOffsetBytes / 0x800000 else frameNum
  let cardOffsetBytes1 :=
    if frameNum = 0 then cardOffsetBytes - (frameNum1 * 0x800000) % U32 else cardOffsetBytes
  t.mCard_DmaTransfer inDMAEngine inRead frameNum1 inOutBuffer cardOffsetBytes1
    inOutBuffer.GetByteCount inNumSegments inSegmentHostPitch inSegmentCardPitch inSync

/-- The method `NTV2MessageRemote`, over the instance data; `none` is the null pointer. -/
def Translator.NTV2MessageRemote (sdk : SDK) (t : Translator) (pMsg : Option Message) :
    Bool × Option Message × Translator :=
  match pMsg with
  | none => (false, none, t)
  | some msg =>
    if msg.GetType = sdk.NTV2_TYPE_SETREGS then (false, some msg, t)
    else if msg.GetType = sdk.NTV2_TYPE_GETREGS then (false, some msg, t)
    else if msg.GetType = sdk.NTV2_TYPE_ACSTATUS then
      let msg1 := { msg with acCrosspoint := KonaToCardACXpt sdk t.tables msg.acCrosspoint }
      let r := t.mCard_NTV2Message msg1
      let msg2 := { r.2.1 with acCrosspoint := CardToKonaACXpt sdk r.2.2.tables r.2.1.acCrosspoint }
      let msg3 := { msg2 with acAudioSystem := CardToKonaAudSys r.2.2.tables msg2.acAudioSystem }
      (r.1, some msg3, r.2.2)
    else if msg.GetType = sdk.NTV2_TYPE_ACXFER then
      let msg1 := { msg with acCrosspoint := KonaToCardACXpt sdk t.tables msg.acCrosspoint }
      let r := t.mCard_NTV2Message msg1
      let msg2 := { r.2.1 with acCrosspoint := CardToKonaACXpt sdk r.2.2.tables r.2.1.acCrosspoint }
      (r.1, some msg2, r.2.2)
    else if msg.GetType = sdk.NTV2_TYPE_ACFRAMESTAMP then
      let msg1 := { msg with acFrameTime := VDevToCardChannel sdk t.tables (msg.acFrameTime % U32) }
      let r := t.mCard_NTV2Message msg1
      let msg2 := { r.2.1 with acFrameTime := CardToVDevChannel sdk r.2.2.tables (r.2.1.acFrameTime % U32) }
      (r.1, some msg2, r.2.2)
    else
      let r := t.mCard_NTV2Message msg
      (r.1, some r.2.1, r.2.2)

/-- The method `NTV2AutoCirculateRemote`, over the instance data. -/
def Translator.NTV2AutoCirculateRemote (sdk : SDK) (t : Translator) (acData : AUTOCIRCULATE_DATA) :
    Bool × AUTOCIRCULATE_DATA × Translator :=
  let acData1 := { acData with channelSpec := KonaToCardACXpt sdk t.tables acData.channelSpec }
  let acData2 :=
    if acData1.eCommand = sdk.eInitAutoCirc then
      { acData1 with lVal3 := KonaToCardAudSys t.tables acData1.lVal3 }
    else acData1
  let r := t.mCard_AutoCirculate acData2
  let acData3 :=
    if r.2.1.eCommand = sdk.eInitAutoCirc then
      { r.2.1 with lVal3 := CardToKonaAudSys r.2.2.tables r.2.1.lVal3 }
    else r.2.1
  let acData4 := { acData3 with channelSpec := CardToKonaACXpt sdk r.2.2.tables acData3.channelSpec }
  (r.1, acData4, r.2.2)

/-- The instance data with the card `mCard` replaced by `card`. -/
def Translator.withCard (t : Translator) (card : Card) : Translator := { t with mCard := card }

/-! ## Sample data

Concrete values for the parameters, on which the code is evaluated in the examples below.
The sample router has eight FrameStores (widgets 0..7), eight SDI inputs (8..15), eight
SDI outputs (16..23) and four mixers (24..27). -/

/-- A sample signal router and register expert. -/
def sampleSDK : SDK :=
  { NTV2_XptBlack := 0
    NTV2_INPUT_CROSSPOINT_INVALID := 0xFFFFFFFF
    NTV2_XptMixer1VidRGB := 0x32
    NTV2WidgetType_FrameStore := 0
    NTV2_CHANNEL_INVALID := 8
    NTV2CROSSPOINT_INVALID := 0xFF
    NTV2_REFERENCE_INPUT1 := 1
    NTV2_REFERENCE_EXTERNAL := 0
    NTV2_REFERENCE_FREERUN := 3
    NTV2_AUDIOSYSTEM_INVALID := 8
    sdiWidgetTypes := [1, 11, 2, 12, 21, 22]
    GetWidgetInputs := fun w =>
      if w < 8 then [2 * w + 1, 2 * w + 2]
      else if w < 16 then []
      else if w < 24 then [0x40 + 2 * (w - 16), 0x41 + 2 * (w - 16)]
      else if w < 28 then [0x60 + 4 * (w - 24), 0x61 + 4 * (w - 24), 0x62 + 4 * (w - 24),
        0x63 + 4 * (w - 24)]
      else []
    GetWidgetOutputs := fun w =>
      if w < 8 then [0x08 + w, 0x88 + w]
      else if w < 16 then [0x20 + 2 * (w - 8), 0x21 + 2 * (w - 8)]
      else if w < 24 then []
      else if w < 28 then [0x30 + 3 * (w - 24), 0x31 + 3 * (w - 24), 0x32 + 3 * (w - 24)]
      else []
    WidgetIDToType := fun w =>
      if w < 8 then 0 else if w < 16 then 1 else if w < 24 then 2 else if w < 28 then 3 else 99
    WidgetIDToChannel := fun w => if w < 24 then w % 8 else if w < 28 then w - 24 else 8
    GetCrosspointSelectGroupRegisterInfo := fun ix =>
      if 1 ≤ ix ∧ ix ≤ 0x7F then some (136 + (ix - 1) / 4, (ix - 1) % 4) else none
    ChannelToReferenceSource := fun ch => [1, 2, 6, 7, 8, 9, 10, 11].getD ch 12
    GetNTV2CrosspointInputForIndex := fun ch => 0x10 + ch
    GetNTV2CrosspointChannelForIndex := fun ch => ch
    NTV2ChannelToAudioSystem := fun ch => ch
    NTV2DeviceGetNumAudioSystems := fun _ => 8
    NTV2DeviceGetActiveMemorySize := fun _ => 0x20000000
    DEVICE_ID_INVALID := 0xFFFFFFFF
    NTV2_TYPE_SETREGS := 0x72656757
    NTV2_TYPE_GETREGS := 0x72656752
    NTV2_TYPE_ACSTATUS := 0x61635374
    NTV2_TYPE_ACXFER := 0x61635866
    NTV2_TYPE_ACFRAMESTAMP := 0x73746D70
    eInput := fun n => [2, 3, 24, 25, 26, 27, 28, 29].getD (n - 1) 99
    eOutput := fun n => [0, 31, 32, 33, 34, 35, 36, 37].getD (n - 1) 98
    eVerticalInterrupt := 0
    eInitAutoCirc := 0 }

/-- A sample assignment of the register numbers, masks and shifts, with pairwise
different switch labels. -/
def sampleRegs : Regs :=
  { kRegGlobalControl := 0
    kRegGlobalControl2 := 267
    kRegBoardID := 50
    kRegChControl := fun n => idx [1, 5, 257, 260, 384, 388, 392, 396] (n - 1)
    kRegChOutputFrame := fun n => idx [3, 7, 258, 261, 385, 389, 393, 397] (n - 1)
    kRegChInputFrame := fun n => idx [4, 8, 259, 262, 386, 390, 394, 398] (n - 1)
    kRegSDIOutControl := fun n => idx [129, 130, 169, 170, 337, 475, 476, 477] (n - 1)
    kRegAudControl := fun n => idx [24, 240, 278, 279, 440, 444, 448, 452] (n - 1)
    kRegAudSourceSelect := fun n => idx [25, 241, 280, 281, 441, 445, 449, 453] (n - 1)
    kRegAudInputLastAddr := fun n => idx [27, 243, 284, 285, 443, 447, 451, 455] (n - 1)
    kRegAudOutputLastAddr := fun n => idx [26, 242, 282, 283, 442, 446, 450, 454] (n - 1)
    kRegAudDelay := fun n => idx [520, 521, 522, 523, 524, 525, 526, 527] (n - 1)
    kRegAud1Detect := 23
    kRegAudDetect2 := 289
    kRegAudioDetect5678 := 456
    kRegOutputTimingControlch := fun n => idx [14, 490, 491, 492, 493, 494, 495, 496] (n - 1)
    kRegSDIInput3GStatus := 232
    kRegSDIInput3GStatus2 := 287
    kRegSDI5678Input3GStatus := 457
    kRegMaskSDIIn3GbpsSMPTELevelBMode := fun n =>
      idx [0x2, 0x200, 0x2, 0x200, 0x2, 0x200, 0x20000, 0x2000000] (n - 1)
    kRegShiftSDIIn3GbpsSMPTELevelBMode := fun n => idx [1, 9, 1, 9, 1, 9, 17, 25] (n - 1)
    kRegMaskSDIIn3GbpsMode := fun n =>
      idx [0x1, 0x100, 0x1, 0x100, 0x1, 0x100, 0x10000, 0x1000000] (n - 1)
    kRegShiftSDIIn3GbpsMode := fun n => idx [0, 8, 0, 8, 0, 8, 16, 24] (n - 1)
    kRegMaskSDIInVPIDLinkAValid := fun n =>
      idx [0x10, 0x1000, 0x10, 0x1000, 0x10, 0x1000, 0x100000, 0x10000000] (n - 1)
    kRegVidProcControl := fun n => idx [9, 247, 353, 356] (n - 1)
    kRegMixerCoefficient := fun n => idx [11, 249, 355, 358] (n - 1)
    kRegFlatMatteValue := fun n => idx [13, 251, 357, 360] (n - 1)
    kRegRXSDIStatus := fun n => idx [2050, 2058, 2066, 2074, 2082, 2090, 2098, 2106] (n - 1)
    kRegRXSDICRCErrorCount := fun n => idx [2051, 2059, 2067, 2075, 2083, 2091, 2099, 2107] (n - 1)
    kRegSDIInVPIDA := fun n => idx [188, 192, 271, 273, 340, 478, 480, 482] (n - 1)
    kRegSDIInVPIDB := fun n => idx [189, 193, 272, 274, 341, 479, 481, 483] (n - 1)
    kRegInputStatus := 22
    kRegInputStatus2 := 288
    kRegInput56Status := 458
    kRegInput78Status := 459
    kRegMaskInputFrameRate := fun n => idx [0x7, 0x700] (n - 1)
    kRegMaskInputFrameRateHigh := fun n => idx [0x10000000, 0x20000000] (n - 1)
    kRegShiftInputFrameRate := fun n => idx [0, 8] (n - 1)
    kRegShiftInputFrameRateHigh := fun n => idx [28, 29] (n - 1)
    kRegMaskInputProgressive := fun n => idx [0x80, 0x8000] (n - 1)
    kRegShiftInputProgressive := fun n => idx [7, 15] (n - 1)
    kRegSDITransmitControl := 256
    kRegMaskSDITransmit := fun n =>
      idx [0x10000000, 0x20000000, 0x40000000, 0x80000000, 0x1000000, 0x2000000, 0x4000000,
        0x8000000] (n - 1)
    kRegShiftSDITransmit := fun n => idx [28, 29, 30, 31, 24, 25, 26, 27] (n - 1)
    kRegPCMControl4321 := 408
    kRegPCMControl8765 := 409
    kRegMaskPCMControl := fun a p => BIT (8 * (a - 1) + p)
    kRegShiftPCMControl := fun a p => 8 * (a - 1) + p
    kRegMaskRefSource := 0x0F000000
    kRegShiftRefSource := 24
    kRegMaskQuadMode := 0x8
    kRegMaskQuadMode2 := 0x1000
    kRegMaskIndependentMode := 0x1
    kRegMask425FB12 := 0x100000
    kRegMask425FB34 := 0x200000
    kRegMask425FB56 := 0x400000
    kRegMask425FB78 := 0x800000
    kK2RegMaskFrameSize := 0x300000 }

/-- A sample card: every register 0, every call succeeds, nothing logged yet. -/
def sampleCard : Card :=
  { regs := fun _ => 0
    readOK := fun _ => true
    writeOK := fun _ => true
    pcmOK := true
    HasBiDirectionalSDI := true
    GetDeviceID := 0x10
    GetAudioMemoryOffset := fun off a => some (0x20000000 - 0x800000 * (a + 1) + off)
    dmaOK := true
    NTV2MessageResult := fun m => (true, m)
    WaitForInterruptResult := fun _ _ => true
    AutoCirculateResult := fun d => (true, d)
    calls := [] }

/-- A sample `mappedWidgets`: virtual FrameStore 1 and 2 on the card's FrameStore 3 and 4,
virtual SDI input 1 on the card's SDI input 3, virtual SDI output 1 on the card's SDI
output 4. -/
def sampleWidgets : List MappedWidget :=
  [{ deviceWidgetId := 2, virtualWidgetId := 0 }, { deviceWidgetId := 3, virtualWidgetId := 1 },
   { deviceWidgetId := 10, virtualWidgetId := 8 }, { deviceWidgetId := 19, virtualWidgetId := 16 }]

/-- The tables `SetupMapping` builds from `sampleWidgets`. -/
def sampleVDev : VDev := (SetupMapping sampleSDK sampleCard sampleWidgets (VDev.constructed 0x10)).2

/-- A `mappedWidgets` that puts two virtual FrameStores on the same FrameStore of the
card. -/
def sharedWidgets : List MappedWidget :=
  [{ deviceWidgetId := 2, virtualWidgetId := 0 }, { deviceWidgetId := 2, virtualWidgetId := 1 }]

/-- The tables `SetupMapping` builds from `sharedWidgets`. -/
def sharedVDev : VDev := (SetupMapping sampleSDK sampleCard sharedWidgets (VDev.constructed 0x10)).2

/-- The sample card with other register contents. -/
def cardWithRegs (regs : Nat → Nat) : Card := { sampleCard with regs := regs }

/-- A `mappedWidgets` that puts virtual FrameStore 1 on the card's FrameStore 4, so that
the anchor is the card's channel 4 and virtual audio system 1 the card's audio system 4. -/
def widgetsOnFrameStore4 : List MappedWidget := [{ deviceWidgetId := 3, virtualWidgetId := 0 }]

/-- The tables `SetupMapping` builds from `widgetsOnFrameStore4`. -/
def vdevOnFrameStore4 : VDev :=
  (SetupMapping sampleSDK sampleCard widgetsOnFrameStore4 (VDev.constructed 0x10)).2

/-- A `mappedWidgets` that puts virtual FrameStore 1 on the card's FrameStore 3 and
virtual mixer 1 on the card's mixer 3. -/
def mixerWidgets : List MappedWidget :=
  [{ deviceWidgetId := 2, virtualWidgetId := 0 }, { deviceWidgetId := 26, virtualWidgetId := 24 }]

/-- The tables `SetupMapping` builds from `mixerWidgets`. -/
def mixerVDev : VDev :=
  (SetupMapping sampleSDK sampleCard mixerWidgets (VDev.constructed 0x10)).2

/-- A `mappedWidgets` that puts virtual FrameStore 1 on the card's FrameStore 8, so that
the anchor is the card's channel 8 (index 7). -/
def widgetsOnFrameStore8 : List MappedWidget := [{ deviceWidgetId := 7, virtualWidgetId := 0 }]

/-- The tables `SetupMapping` builds from `widgetsOnFrameStore8`. -/
def vdevOnFrameStore8 : VDev :=
  (SetupMapping sampleSDK sampleCard widgetsOnFrameStore8 (VDev.constructed 0x10)).2

/-- The sample card without bidirectional SDI and with other register contents. -/
def cardWithoutBiDirectionalSDI (regs : Nat → Nat) : Card :=
  { sampleCard with regs := regs, HasBiDirectionalSDI := false }

/-- Sample connect parameters: the three required keys. -/
def sampleParams : NTV2Dictionary :=
  [("cp2configpath", "/etc/cp2.json"), ("devicesn", "SN1"), ("vdid", "vd-1")]

/-- Sample connect parameters without `cp2configpath`. -/
def paramsWithoutConfigPath : NTV2Dictionary := [("devicesn", "SN1"), ("vdid", "vd-1")]

/-- A sample configuration document: the device `SN1` with one virtual device `vd-1` whose
`mappedWidgets` is `sampleWidgets`. -/
def sampleConfig : List DeviceConfigJson :=
  [{ serial := "SN1",
     virtualDevices := [{ id := "vd-1", name := "Virtual 1", mappedWidgets := sampleWidgets }] }]

/-- A sample host: the device `SN1` opens as `sampleCard`, the file `/etc/cp2.json` holds
`sampleConfig`. -/
def sampleHost : Host :=
  { GetFirstDeviceFromArgument := fun sn => if sn = "SN1" then some sampleCard else none
    configFile := fun path => if path = "/etc/cp2.json" then some sampleConfig else none }

/-- A sample host on which the device `SN1` opens and no configuration file can be
opened. -/
def hostWithoutConfigFile : Host :=
  { GetFirstDeviceFromArgument := fun sn => if sn = "SN1" then some sampleCard else none
    configFile := fun _ => none }

/-- The translator the constructor leaves for `sampleParams`. -/
def sampleTranslator : Translator := Translator.constructed sampleSDK sampleParams sampleCard

/-- The sample translator with the configuration path recorded and the given device serial
and virtual-device id, as `NTV2Connect` has it when it calls `ImportVDFromJSON`. -/
def translatorLookingFor (serial id : String) : Translator :=
  { sampleTranslator with mCP2config := "/etc/cp2.json", mDevSN := serial, mVDID := id }

/-! # Theorems -/

/-! ## Containers -/

theorem NMap.find_insert (m : NMap) (k v k' : Nat) :
    (m.insert k v).find k' = if k' = k then some v else m.find k' := by
  induction m with
  | nil => simp [NMap.insert, NMap.find]
  | cons e t ih =>
    obtain ⟨a, b⟩ := e
    by_cases h1 : k < a
    · simp [NMap.insert, NMap.find, h1]
    · by_cases h2 : k = a
      · subst h2
        by_cases h3 : k' = k <;> simp [NMap.insert, NMap.find, h3]
      · simp only [NMap.insert, h1, h2, if_false, NMap.find, ih]
        by_cases h3 : k' = a
        · have : k' ≠ k := by omega
          simp [h3, this, Ne.symm h2]
        · simp [h3]

theorem linked_insert (S : Nat → Nat → Prop) (hS : ∀ x x' y, S x y → S x' y → x = x')
    (A B : NMap) (h : ∀ x y, B.find x = some y → S x y ∧ A.find y = some x)
    (v c : Nat) (hvc : S v c) :
    ∀ x y, (B.insert v c).find x = some y → S x y ∧ (A.insert c v).find y = some x := by
  intro x y hxy
  rw [NMap.find_insert] at hxy
  rw [NMap.find_insert]
  by_cases hx : x = v
  · subst hx
    simp at hxy
    subst hxy
    simp [hvc]
  · simp [hx] at hxy
    obtain ⟨h1, h2⟩ := h x y hxy
    refine ⟨h1, ?_⟩
    by_cases hy : y = c
    · subst hy
      exact absurd (hS x v y h1 hvc) hx
    · simp [hy, h2]

theorem zipXpts_induction (P : NMap × NMap → Prop) :
    ∀ (vs cs : List Nat) (m : NMap × NMap), P m →
      (∀ p ∈ vs.zip cs, ∀ m : NMap × NMap, P m → P (m.1.insert p.2 p.1, m.2.insert p.1 p.2)) →
      P (zipXpts vs cs m) := by
  intro vs
  induction vs with
  | nil => intro cs m hm _; simpa [zipXpts] using hm
  | cons v vs ih =>
    intro cs m hm hstep
    cases cs with
    | nil => simpa [zipXpts] using hm
    | cons c cs =>
      obtain ⟨a, b⟩ := m
      simp only [zipXpts]
      apply ih
      · exact hstep (v, c) (by simp) (a, b) hm
      · intro p hp m' hm'
        exact hstep p (by simp [hp]) m' hm'

theorem inputXptLoop_induction (sdk : SDK) (P : NMap × NMap → Prop) :
    ∀ (wgts : NMap) (m : NMap × NMap), P m →
      (∀ w ∈ wgts, ∀ p ∈ (sdk.GetWidgetInputs w.1).zip (sdk.GetWidgetInputs w.2),
        ∀ m : NMap × NMap, P m → P (m.1.insert p.2 p.1, m.2.insert p.1 p.2)) →
      P (inputXptLoop sdk wgts m).2 := by
  intro wgts
  induction wgts with
  | nil => intro m hm _; simpa [inputXptLoop] using hm
  | cons w rest ih =>
    intro m hm hstep
    obtain ⟨vw, cw⟩ := w
    simp only [inputXptLoop]
    split
    · exact hm
    · split
      · exact ih m hm (fun w hw => hstep w (by simp [hw]))
      · apply ih
        · exact zipXpts_induction P _ _ m hm (hstep (vw, cw) (by simp))
        · exact fun w hw => hstep w (by simp [hw])

theorem outputXptLoop_induction (sdk : SDK) (P : NMap × NMap → Prop) :
    ∀ (wgts : NMap) (m : NMap × NMap), P m →
      (∀ w ∈ wgts,
        ∀ p ∈ ((sdk.GetWidgetOutputs w.1).erase sdk.NTV2_XptMixer1VidRGB).zip (sdk.GetWidgetOutputs w.2),
        ∀ m : NMap × NMap, P m → P (m.1.insert p.2 p.1, m.2.insert p.1 p.2)) →
      P (outputXptLoop sdk wgts m).2 := by
  intro wgts
  induction wgts with
  | nil => intro m hm _; simpa [outputXptLoop] using hm
  | cons w rest ih =>
    intro m hm hstep
    obtain ⟨vw, cw⟩ := w
    simp only [outputXptLoop]
    split
    · exact hm
    · split
      · exact ih m hm (fun w hw => hstep w (by simp [hw]))
      · apply ih
        · exact zipXpts_induction P _ _ m hm (hstep (vw, cw) (by simp))
        · exact fun w hw => hstep w (by simp [hw])

/-! ## Bytes of a 32-bit word -/

theorem ShiftForNdx_eq (n : Nat) (hn : n < 4) : ShiftForNdx n = 8 * n := by
  interval_cases n <;> rfl

theorem MaskForNdx_eq (n : Nat) (hn : n < 4) : MaskForNdx n = (2 ^ 8 - 1) <<< (8 * n) := by
  interval_cases n <;> rfl

theorem InvertedMaskForNdx_eq (n : Nat) (hn : n < 4) :
    InvertedMaskForNdx n = (2 ^ 32 - 1) ^^^ ((2 ^ 8 - 1) <<< (8 * n)) := by
  interval_cases n <;> rfl

theorem testBit_MaskForNdx (n i : Nat) (hn : n < 4) :
    (MaskForNdx n).testBit i = decide (8 * n ≤ i ∧ i < 8 * n + 8) := by
  rw [MaskForNdx_eq n hn, Nat.testBit_shiftLeft, Nat.testBit_two_pow_sub_one]
  rw [Bool.eq_iff_iff]
  simp
  omega

theorem testBit_InvertedMaskForNdx (n i : Nat) (hn : n < 4) :
    (InvertedMaskForNdx n).testBit i = decide (i < 32 ∧ ¬ (8 * n ≤ i ∧ i < 8 * n + 8)) := by
  rw [InvertedMaskForNdx_eq n hn, Nat.testBit_xor, Nat.testBit_shiftLeft,
    Nat.testBit_two_pow_sub_one, Nat.testBit_two_pow_sub_one]
  by_cases h1 : i < 32 <;> by_cases h2 : 8 * n ≤ i <;> by_cases h3 : i - 8 * n < 8 <;>
    simp [h1, h2, h3] <;> omega

theorem testBit_not32 (x i : Nat) :
    (not32 x).testBit i = (decide (i < 32) && !x.testBit i) := by
  have h : (4294967295 : Nat) = 2 ^ 32 - 1 := by norm_num
  have h2 : U32 = 2 ^ 32 := by norm_num [U32]
  rw [not32, h, h2, Nat.testBit_xor, Nat.testBit_two_pow_sub_one, Nat.testBit_mod_two_pow]
  by_cases hi : i < 32 <;> simp [hi]

theorem testBit_eq_false_of_lt {v k i : Nat} (hv : v < 2 ^ k) (hi : k ≤ i) : v.testBit i = false :=
  Nat.testBit_lt_two_pow (lt_of_lt_of_le hv (Nat.pow_le_pow_right (by norm_num) hi))

/-- Reading back the byte that was just placed. -/
theorem field_set_get (x v n : Nat) (hn : n < 4) (hv : v < 256) :
    (((x &&& InvertedMaskForNdx n) ||| ((v <<< ShiftForNdx n) % U32)) &&& MaskForNdx n)
      >>> ShiftForNdx n = v := by
  have h2 : U32 = 2 ^ 32 := by norm_num [U32]
  apply Nat.eq_of_testBit_eq
  intro i
  rw [ShiftForNdx_eq n hn, h2]
  simp only [Nat.testBit_shiftRight, Nat.testBit_and, Nat.testBit_or, Nat.testBit_mod_two_pow,
    Nat.testBit_shiftLeft, testBit_MaskForNdx _ _ hn, testBit_InvertedMaskForNdx _ _ hn]
  by_cases hi : i < 8
  · have h1 : 8 * n + i - 8 * n = i := by omega
    have h3 : 8 * n + i < 32 := by omega
    simp [hi, h1, h3]
  · have : v.testBit i = false := testBit_eq_false_of_lt (k := 8) (by simpa using hv) (by omega)
    simp [hi, this]

/-- Placing a byte leaves the other bytes as they were. -/
theorem field_set_get_other (x v n m : Nat) (hn : n < 4) (hm : m < 4) (hnm : n ≠ m)
    (hv : v < 256) :
    (((x &&& InvertedMaskForNdx n) ||| ((v <<< ShiftForNdx n) % U32)) &&& MaskForNdx m)
      >>> ShiftForNdx m = (x &&& MaskForNdx m) >>> ShiftForNdx m := by
  have h2 : U32 = 2 ^ 32 := by norm_num [U32]
  apply Nat.eq_of_testBit_eq
  intro i
  rw [ShiftForNdx_eq n hn, ShiftForNdx_eq m hm, h2]
  simp only [Nat.testBit_shiftRight, Nat.testBit_and, Nat.testBit_or, Nat.testBit_mod_two_pow,
    Nat.testBit_shiftLeft, testBit_MaskForNdx _ _ hm, testBit_InvertedMaskForNdx _ _ hn]
  by_cases hi : i < 8
  · have h3 : 8 * m + i < 32 := by omega
    have h4 : ¬ (8 * n ≤ 8 * m + i ∧ 8 * m + i < 8 * n + 8) := by omega
    have h5 : v.testBit (8 * m + i - 8 * n) = false ∨ ¬ (8 * m + i ≥ 8 * n) := by
      by_cases h : 8 * m + i ≥ 8 * n
      · left
        exact testBit_eq_false_of_lt (k := 8) (by simpa using hv) (by omega)
      · right; exact h
    rcases h5 with h5 | h5 <;> simp [hi, h3, h4, h5]
  · simp [hi]

/-- What a masked write of a byte leaves in the register is read back by the masked read. -/
theorem card_field_write_read (old v n : Nat) (hn : n < 4) (hv : v < 256) :
    ((((old &&& not32 (MaskForNdx n)) ||| ((v <<< ShiftForNdx n) &&& MaskForNdx n)) % U32)
      &&& MaskForNdx n) >>> ShiftForNdx n = v := by
  have h2 : U32 = 2 ^ 32 := by norm_num [U32]
  apply Nat.eq_of_testBit_eq
  intro i
  rw [ShiftForNdx_eq n hn, h2]
  simp only [Nat.testBit_shiftRight, Nat.testBit_and, Nat.testBit_or, Nat.testBit_mod_two_pow,
    Nat.testBit_shiftLeft, testBit_MaskForNdx _ _ hn, testBit_not32]
  by_cases hi : i < 8
  · have h1 : 8 * n + i - 8 * n = i := by omega
    have h3 : 8 * n + i < 32 := by omega
    simp [hi, h1, h3]
  · have : v.testBit i = false := testBit_eq_false_of_lt (k := 8) (by simpa using hv) (by omega)
    simp [hi, this]


/-! ## The crosspoint maps are mutually inverse when the pin pairing is one-to-one -/

/-- C5 (as stated, refuted): `SetupInputXptMapping` accepts the widget pairs of
`sharedWidgets`, virtual input crosspoint 1 is in the domain of the map it builds, and
`CardToVDevInputXpt (VDevToCardInputXpt 1)` is 3, not 1. -/
theorem inputXpt_roundtrip_fails_on_shared_widget :
    ¬ (∀ (sdk : SDK) (s : VDev), s.mCardToVDevIXpts = [] → s.mVDevToCardIXpts = [] →
        (SetupInputXptMapping sdk s).1 = true →
        ∀ ixptV, ((SetupInputXptMapping sdk s).2.mVDevToCardIXpts.find ixptV).isSome = true →
          CardToVDevInputXpt sdk (SetupInputXptMapping sdk s).2
            (VDevToCardInputXpt sdk (SetupInputXptMapping sdk s).2 ixptV) = ixptV) := by
  intro h
  have h1 := h sampleSDK (SetupWidgetMapping sampleSDK sharedWidgets (VDev.constructed 0x10)).2
    (by decide) (by decide) (by decide) 1 (by decide)
  revert h1
  decide

/-- C5 (amended): for every table of widget pairs in which no card input pin is paired
with two different virtual input pins, and every virtual input crosspoint `ixptV` in the
domain of the virtual-to-card input map that `SetupInputXptMapping` builds from empty
maps, `CardToVDevInputXpt (VDevToCardInputXpt (ixptV)) = ixptV`. -/
theorem inputXpt_roundtrip (sdk : SDK) (s : VDev)
    (hC : s.mCardToVDevIXpts = []) (hV : s.mVDevToCardIXpts = [])
    (hinj : ∀ w₁ ∈ s.mVDevToCardWgts, ∀ w₂ ∈ s.mVDevToCardWgts,
      ∀ p ∈ (sdk.GetWidgetInputs w₁.1).zip (sdk.GetWidgetInputs w₁.2),
      ∀ q ∈ (sdk.GetWidgetInputs w₂.1).zip (sdk.GetWidgetInputs w₂.2), p.2 = q.2 → p.1 = q.1)
    (ixptV : Nat)
    (hdom : ((SetupInputXptMapping sdk s).2.mVDevToCardIXpts.find ixptV).isSome = true) :
    CardToVDevInputXpt sdk (SetupInputXptMapping sdk s).2
      (VDevToCardInputXpt sdk (SetupInputXptMapping sdk s).2 ixptV) = ixptV := by
  let S : Nat → Nat → Prop := fun x y =>
    ∃ w ∈ s.mVDevToCardWgts, (x, y) ∈ (sdk.GetWidgetInputs w.1).zip (sdk.GetWidgetInputs w.2)
  have hS : ∀ x x' y, S x y → S x' y → x = x' := by
    rintro x x' y ⟨w₁, hw₁, h₁⟩ ⟨w₂, hw₂, h₂⟩
    exact hinj w₁ hw₁ w₂ hw₂ (x, y) h₁ (x', y) h₂ rfl
  have key := inputXptLoop_induction sdk
    (fun m => ∀ x y, m.2.find x = some y → S x y ∧ m.1.find y = some x)
    s.mVDevToCardWgts (s.mCardToVDevIXpts, s.mVDevToCardIXpts)
    (by rw [hC, hV]; intro x y h; simp [NMap.find] at h)
    (by
      intro w hw p hp m hm
      exact linked_insert S hS m.1 m.2 hm p.1 p.2 ⟨w, hw, hp⟩)
  have hmaps : (SetupInputXptMapping sdk s).2.mVDevToCardIXpts
        = (inputXptLoop sdk s.mVDevToCardWgts (s.mCardToVDevIXpts, s.mVDevToCardIXpts)).2.2
      ∧ (SetupInputXptMapping sdk s).2.mCardToVDevIXpts
        = (inputXptLoop sdk s.mVDevToCardWgts (s.mCardToVDevIXpts, s.mVDevToCardIXpts)).2.1 := by
    unfold SetupInputXptMapping
    constructor <;> (simp only []; split <;> rfl)
  obtain ⟨y, hy⟩ := Option.isSome_iff_exists.mp hdom
  rw [hmaps.1] at hy
  obtain ⟨-, hback⟩ := key ixptV y hy
  simp only [VDevToCardInputXpt, CardToVDevInputXpt, hmaps.1, hmaps.2, hy, hback]

/-- C5 (amended), on the sample tables: virtual input crosspoint 1 goes to the card's
crosspoint 5 and back. -/
theorem inputXpt_roundtrip_witness :
    CardToVDevInputXpt sampleSDK
        (SetupInputXptMapping sampleSDK
          (SetupWidgetMapping sampleSDK sampleWidgets (VDev.constructed 0x10)).2).2
        (VDevToCardInputXpt sampleSDK
          (SetupInputXptMapping sampleSDK
            (SetupWidgetMapping sampleSDK sampleWidgets (VDev.constructed 0x10)).2).2 1) = 1
      ∧ VDevToCardInputXpt sampleSDK
          (SetupInputXptMapping sampleSDK
            (SetupWidgetMapping sampleSDK sampleWidgets (VDev.constructed 0x10)).2).2 1 = 5 :=
  ⟨inputXpt_roundtrip sampleSDK
      (SetupWidgetMapping sampleSDK sampleWidgets (VDev.constructed 0x10)).2 rfl rfl
      (by decide) 1 (by decide),
    by decide⟩

/-- C6 (as stated, refuted): `SetupOutputXptMapping` accepts the widget pairs of
`sharedWidgets`, virtual output crosspoint 8 is in the domain of the map it builds, and
`CardToVDevOutputXpt (VDevToCardOutputXpt 8)` is 9, not 8. -/
theorem outputXpt_roundtrip_fails_on_shared_widget :
    ¬ (∀ (sdk : SDK) (s : VDev), s.mCardToVDevOXpts = [] → s.mVDevToCardOXpts = [] →
        (SetupOutputXptMapping sdk s).1 = true →
        ∀ oxptV, ((SetupOutputXptMapping sdk s).2.mVDevToCardOXpts.find oxptV).isSome = true →
          CardToVDevOutputXpt sdk (SetupOutputXptMapping sdk s).2
            (VDevToCardOutputXpt sdk (SetupOutputXptMapping sdk s).2 oxptV) = oxptV) := by
  intro h
  have h1 := h sampleSDK (SetupWidgetMapping sampleSDK sharedWidgets (VDev.constructed 0x10)).2
    (by decide) (by decide) (by decide) 8 (by decide)
  revert h1
  decide

/-- C6 (amended): for every table of widget pairs in which the zipped output pins (the
virtual pin set without the MixerVidRGB pin, against the card pin set, in set order) pair
no card pin with two different virtual pins and no virtual pin with two different card
pins, the two output maps that `SetupOutputXptMapping` builds from empty maps are mutually
inverse on their domains: `CardToVDevOutputXpt (VDevToCardOutputXpt (oxptV)) = oxptV` for
every `oxptV` in the domain of the virtual-to-card map, and
`VDevToCardOutputXpt (CardToVDevOutputXpt (oxptC)) = oxptC` for every `oxptC` in the domain
of the card-to-virtual map. -/
theorem outputXpt_roundtrip (sdk : SDK) (s : VDev)
    (hC : s.mCardToVDevOXpts = []) (hV : s.mVDevToCardOXpts = [])
    (hinj : ∀ w₁ ∈ s.mVDevToCardWgts, ∀ w₂ ∈ s.mVDevToCardWgts,
      ∀ p ∈ ((sdk.GetWidgetOutputs w₁.1).erase sdk.NTV2_XptMixer1VidRGB).zip
          (sdk.GetWidgetOutputs w₁.2),
      ∀ q ∈ ((sdk.GetWidgetOutputs w₂.1).erase sdk.NTV2_XptMixer1VidRGB).zip
          (sdk.GetWidgetOutputs w₂.2),
      (p.2 = q.2 → p.1 = q.1) ∧ (p.1 = q.1 → p.2 = q.2)) :
    (∀ oxptV, ((SetupOutputXptMapping sdk s).2.mVDevToCardOXpts.find oxptV).isSome = true →
      CardToVDevOutputXpt sdk (SetupOutputXptMapping sdk s).2
        (VDevToCardOutputXpt sdk (SetupOutputXptMapping sdk s).2 oxptV) = oxptV)
    ∧ (∀ oxptC, ((SetupOutputXptMapping sdk s).2.mCardToVDevOXpts.find oxptC).isSome = true →
      VDevToCardOutputXpt sdk (SetupOutputXptMapping sdk s).2
        (CardToVDevOutputXpt sdk (SetupOutputXptMapping sdk s).2 oxptC) = oxptC) := by
  let S : Nat → Nat → Prop := fun x y =>
    ∃ w ∈ s.mVDevToCardWgts,
      (x, y) ∈ ((sdk.GetWidgetOutputs w.1).erase sdk.NTV2_XptMixer1VidRGB).zip
        (sdk.GetWidgetOutputs w.2)
  have hS : ∀ x x' y, S x y → S x' y → x = x' := by
    rintro x x' y ⟨w₁, hw₁, h₁⟩ ⟨w₂, hw₂, h₂⟩
    exact (hinj w₁ hw₁ w₂ hw₂ (x, y) h₁ (x', y) h₂).1 rfl
  have hS' : ∀ y y' x, S x y → S x y' → y = y' := by
    rintro y y' x ⟨w₁, hw₁, h₁⟩ ⟨w₂, hw₂, h₂⟩
    exact (hinj w₁ hw₁ w₂ hw₂ (x, y) h₁ (x, y') h₂).2 rfl
  have key := outputXptLoop_induction sdk
    (fun m => (∀ x y, m.2.find x = some y → S x y ∧ m.1.find y = some x)
      ∧ (∀ y x, m.1.find y = some x → S x y ∧ m.2.find x = some y))
    s.mVDevToCardWgts (s.mCardToVDevOXpts, s.mVDevToCardOXpts)
    (by rw [hC, hV]; constructor <;> (intro x y h; simp [NMap.find] at h))
    (by
      intro w hw p hp m hm
      exact ⟨linked_insert S hS m.1 m.2 hm.1 p.1 p.2 ⟨w, hw, hp⟩,
        linked_insert (fun y x => S x y) hS' m.2 m.1 hm.2 p.2 p.1 ⟨w, hw, hp⟩⟩)
  have hmaps : (SetupOutputXptMapping sdk s).2.mVDevToCardOXpts
        = (outputXptLoop sdk s.mVDevToCardWgts (s.mCardToVDevOXpts, s.mVDevToCardOXpts)).2.2
      ∧ (SetupOutputXptMapping sdk s).2.mCardToVDevOXpts
        = (outputXptLoop sdk s.mVDevToCardWgts (s.mCardToVDevOXpts, s.mVDevToCardOXpts)).2.1 := by
    unfold SetupOutputXptMapping
    constructor <;> (simp only []; split <;> rfl)
  constructor
  · intro oxptV hdom
    obtain ⟨y, hy⟩ := Option.isSome_iff_exists.mp hdom
    rw [hmaps.1] at hy
    obtain ⟨-, hback⟩ := key.1 oxptV y hy
    simp only [VDevToCardOutputXpt, CardToVDevOutputXpt, hmaps.1, hmaps.2, hy, hback]
  · intro oxptC hdom
    obtain ⟨x, hx⟩ := Option.isSome_iff_exists.mp hdom
    rw [hmaps.2] at hx
    obtain ⟨-, hback⟩ := key.2 oxptC x hx
    simp only [VDevToCardOutputXpt, CardToVDevOutputXpt, hmaps.1, hmaps.2, hx, hback]

/-- C6 (amended), on the sample tables: virtual output crosspoint 32 goes to the card's
crosspoint 36 and back. -/
theorem outputXpt_roundtrip_witness :
    CardToVDevOutputXpt sampleSDK
        (SetupOutputXptMapping sampleSDK
          (SetupWidgetMapping sampleSDK sampleWidgets (VDev.constructed 0x10)).2).2
        (VDevToCardOutputXpt sampleSDK
          (SetupOutputXptMapping sampleSDK
            (SetupWidgetMapping sampleSDK sampleWidgets (VDev.constructed 0x10)).2).2 32) = 32
      ∧ VDevToCardOutputXpt sampleSDK
          (SetupOutputXptMapping sampleSDK
            (SetupWidgetMapping sampleSDK sampleWidgets (VDev.constructed 0x10)).2).2 32 = 36 :=
  ⟨(outputXpt_roundtrip sampleSDK
      (SetupWidgetMapping sampleSDK sampleWidgets (VDev.constructed 0x10)).2 rfl rfl
      (by decide)).1 32 (by decide),
    by decide⟩

/-! ## Crosspoint-select registers -/

theorem isMyXptSelectRegister_of_mem (s : VDev) (regNum : Nat) (k : RegInfo)
    (hk : k ∈ s.mVDevXptRegInfos.equalRange regNum) : isMyXptSelectRegister s regNum = true := by
  simp only [XptRegInfoMMap.equalRange, List.mem_map, List.mem_filter] at hk
  obtain ⟨e, ⟨he, hkey⟩, -⟩ := hk
  simp only [isMyXptSelectRegister, List.any_eq_true]
  exact ⟨e, he, hkey⟩

theorem writeXptLoop_none_covered (sdk : SDK) (s : VDev) (inVal inMask : Nat) :
    ∀ (l : List RegInfo) (card : Card),
      l.filter (fun k => k.mask &&& inMask = k.mask) = [] →
      writeXptLoop sdk s inVal inMask l card = (true, card) := by
  intro l
  induction l with
  | nil => intro card _; rfl
  | cons h t ih =>
    intro card hf
    by_cases hc : h.mask &&& inMask = h.mask
    · simp [List.filter, hc] at hf
    · have ht : t.filter (fun k => k.mask &&& inMask = k.mask) = [] := by
        simpa [List.filter, hc] using hf
      simp only [writeXptLoop, ne_eq, hc, not_false_eq_true, if_true]
      exact ih card ht

theorem writeXptLoop_one_covered (sdk : SDK) (s : VDev) (inVal inMask : Nat) (k : RegInfo)
    (cardRegNum nibbleNdx : Nat)
    (hphys : sdk.GetCrosspointSelectGroupRegisterInfo (VDevToCardInputXpt sdk s k.inputXpt)
      = some (cardRegNum, nibbleNdx)) :
    ∀ (l : List RegInfo) (card : Card),
      l.filter (fun k => k.mask &&& inMask = k.mask) = [k] →
      writeXptLoop sdk s inVal inMask l card
        = (card.writeOK cardRegNum,
           (card.WriteRegister cardRegNum (VDevToCardOutputXpt sdk s inVal)
              (MaskForNdx (nibbleNdx % 256)) (ShiftForNdx (nibbleNdx % 256) % 256)).2) := by
  intro l
  induction l with
  | nil => intro card hf; simp at hf
  | cons h t ih =>
    intro card hf
    by_cases hc : h.mask &&& inMask = h.mask
    · have hf' : h = k ∧ t.filter (fun k => k.mask &&& inMask = k.mask) = [] := by
        simpa [List.filter, hc] using hf
      obtain ⟨rfl, ht⟩ := hf'
      simp only [writeXptLoop, ne_eq, hc, not_true_eq_false, if_false, hphys, Nat.add_zero]
      simp only [WriteCardRegister, RegInfo.regNum, RegInfo.mask, RegInfo.shift]
      by_cases hw : card.writeOK cardRegNum = true
      · rw [writeXptLoop_none_covered sdk s inVal inMask t _ ht]
        simp [Card.WriteRegister, hw]
      · simp [Card.WriteRegister, hw]
    · have ht : t.filter (fun k => k.mask &&& inMask = k.mask) = [k] := by
        simpa [List.filter, hc] using hf
      simp only [writeXptLoop, ne_eq, hc, not_false_eq_true, if_true]
      exact ih card ht

/-- C2: a write to a known virtual crosspoint-select register whose mask fully covers
exactly one of its virtual fields `k`, with a virtual output crosspoint `oxV` as value,
issues exactly one physical write: to the register and nibble that own the card's input
crosspoint `VDevToCardInputXpt (k.inputXpt)`, with payload `VDevToCardOutputXpt (oxV)`; the
call returns what that write returns. -/
theorem xptWrite_issues_one_translated_write (sdk : SDK) (s : VDev) (card : Card)
    (inRegNum oxV inMask inShift : Nat) (k : RegInfo) (cardRegNum nibbleNdx : Nat)
    (hone : (s.mVDevXptRegInfos.equalRange inRegNum).filter
      (fun k => k.mask &&& inMask = k.mask) = [k])
    (hphys : sdk.GetCrosspointSelectGroupRegisterInfo (VDevToCardInputXpt sdk s k.inputXpt)
      = some (cardRegNum, nibbleNdx)) :
    (HandleWriteXptSelectReg sdk s card inRegNum oxV inMask inShift).2.calls
        = card.calls ++ [Call.WriteRegister cardRegNum (VDevToCardOutputXpt sdk s oxV)
            (MaskForNdx (nibbleNdx % 256)) (ShiftForNdx (nibbleNdx % 256) % 256)]
      ∧ (HandleWriteXptSelectReg sdk s card inRegNum oxV inMask inShift).1
        = card.writeOK cardRegNum := by
  have hk : k ∈ s.mVDevXptRegInfos.equalRange inRegNum := by
    have : k ∈ (s.mVDevXptRegInfos.equalRange inRegNum).filter
        (fun k => k.mask &&& inMask = k.mask) := by rw [hone]; simp
    exact (List.mem_filter.mp this).1
  have hmine := isMyXptSelectRegister_of_mem s inRegNum k hk
  simp only [HandleWriteXptSelectReg, hmine, not_true_eq_false, if_false]
  rw [writeXptLoop_one_covered sdk s oxV inMask k cardRegNum nibbleNdx hphys _ card hone]
  constructor
  · by_cases hw : card.writeOK cardRegNum = true <;> simp [Card.WriteRegister, hw]
  · rfl

/-- C2 on the sample tables, where virtual FrameStore 1 is on the card's FrameStore 3 and
virtual SDI input 1 (output crosspoint 32) on the card's SDI input 3 (output crosspoint
36): writing 32 to the byte of the FrameStore 1 input (register 136, byte 0) issues one
write of 36 to the byte of the FrameStore 3 input (register 137, byte 0). -/
theorem xptWrite_issues_one_translated_write_witness :
    (HandleWriteXptSelectReg sampleSDK sampleVDev sampleCard 136 32 0xFF 0).2.calls
      = [Call.WriteRegister 137 36 0xFF 0] := by
  have h := (xptWrite_issues_one_translated_write sampleSDK sampleVDev sampleCard 136 32 0xFF 0
    { mRegNum := 136, mNdx := 0, mIXpt := 1 } 137 0 (by decide) (by decide)).1
  simpa [sampleCard, VDevToCardOutputXpt, MaskForNdx, ShiftForNdx] using h

theorem CardToVDevOutputXpt_lt (sdk : SDK) (s : VDev)
    (hbyte : ∀ y v, s.mCardToVDevOXpts.find y = some v → v < 256)
    (hblack : sdk.NTV2_XptBlack < 256) (y : Nat) : CardToVDevOutputXpt sdk s y < 256 := by
  unfold CardToVDevOutputXpt
  cases h : s.mCardToVDevOXpts.find y with
  | none => simpa using hblack
  | some v => simpa using hbyte y v h

theorem RegInfo.mask_of_lt (k : RegInfo) (h : k.mNdx < 4) : k.mask = MaskForNdx k.mNdx := by
  have : k.mNdx % 256 = k.mNdx := Nat.mod_eq_of_lt (by omega)
  simp [RegInfo.mask, this]

theorem RegInfo.invMask_of_lt (k : RegInfo) (h : k.mNdx < 4) :
    k.invMask = InvertedMaskForNdx k.mNdx := by
  have : k.mNdx % 256 = k.mNdx := Nat.mod_eq_of_lt (by omega)
  simp [RegInfo.invMask, this]

theorem RegInfo.shift_of_lt (k : RegInfo) (h : k.mNdx < 4) : k.shift = ShiftForNdx k.mNdx := by
  have h1 : k.mNdx % 256 = k.mNdx := Nat.mod_eq_of_lt (by omega)
  have h2 : ShiftForNdx k.mNdx % 256 = ShiftForNdx k.mNdx := by
    rw [ShiftForNdx_eq _ h]; omega
  simp [RegInfo.shift, h1, h2]

/-- The loop of `HandleReadXptSelectReg` when every covered field resolves on the card:
it succeeds, leaves the registers alone, puts the translated crosspoint in the byte of each
covered field and keeps every byte that belongs to no covered field. -/
theorem readXptLoop_spec (sdk : SDK) (s : VDev) (inMask : Nat)
    (hbyte : ∀ y v, s.mCardToVDevOXpts.find y = some v → v < 256)
    (hblack : sdk.NTV2_XptBlack < 256) (regs : Nat → Nat) (readOK : Nat → Bool) :
    ∀ (l : List RegInfo) (outVal : Nat) (card : Card),
      card.regs = regs → card.readOK = readOK →
      (∀ k ∈ l, k.mNdx < 4) → (l.map RegInfo.mNdx).Nodup →
      (∀ k ∈ l, k.mask &&& inMask = k.mask → ∃ reg ndx,
        sdk.GetCrosspointSelectGroupRegisterInfo (VDevToCardInputXpt sdk s k.inputXpt)
          = some (reg, ndx) ∧ readOK reg = true) →
      (readXptLoop sdk s inMask l outVal card).1 = true
      ∧ (readXptLoop sdk s inMask l outVal card).2.2.regs = regs
      ∧ (∀ k ∈ l, k.mask &&& inMask = k.mask → ∀ reg ndx,
          sdk.GetCrosspointSelectGroupRegisterInfo (VDevToCardInputXpt sdk s k.inputXpt)
            = some (reg, ndx) →
          ((readXptLoop sdk s inMask l outVal card).2.1 &&& k.mask) >>> k.shift
            = CardToVDevOutputXpt sdk s
                ((regs reg &&& MaskForNdx (ndx % 256)) >>> (ShiftForNdx (ndx % 256) % 256)))
      ∧ (∀ m, m < 4 → (∀ k ∈ l, k.mask &&& inMask = k.mask → k.mNdx ≠ m) →
          ((readXptLoop sdk s inMask l outVal card).2.1 &&& MaskForNdx m) >>> ShiftForNdx m
            = (outVal &&& MaskForNdx m) >>> ShiftForNdx m) := by
  intro l
  induction l with
  | nil =>
    intro outVal card hr _ _ _ _
    simp [readXptLoop, hr]
  | cons h t ih =>
    intro outVal card hr hro hndx hnd hphys
    have hndxt : ∀ k ∈ t, k.mNdx < 4 := fun k hk => hndx k (by simp [hk])
    have hnd' : (∀ x ∈ t, ¬ x.mNdx = h.mNdx) ∧ (t.map RegInfo.mNdx).Nodup := by
      simpa using hnd
    have hndt : (t.map RegInfo.mNdx).Nodup := hnd'.2
    have hnotin : ∀ k ∈ t, k.mNdx ≠ h.mNdx := hnd'.1
    have hphyst : ∀ k ∈ t, k.mask &&& inMask = k.mask → ∃ reg ndx,
        sdk.GetCrosspointSelectGroupRegisterInfo (VDevToCardInputXpt sdk s k.inputXpt)
          = some (reg, ndx) ∧ readOK reg = true := fun k hk => hphys k (by simp [hk])
    have hh4 : h.mNdx < 4 := hndx h (by simp)
    by_cases hc : h.mask &&& inMask = h.mask
    · obtain ⟨reg, ndx, hget, hok⟩ := hphys h (by simp) hc
      have hok' : card.readOK reg = true := by rw [hro]; exact hok
      have hstep : readXptLoop sdk s inMask (h :: t) outVal card
          = readXptLoop sdk s inMask t
              ((outVal &&& h.invMask) ||| ((CardToVDevOutputXpt sdk s
                ((regs reg &&& MaskForNdx (ndx % 256)) >>> (ShiftForNdx (ndx % 256) % 256))
                  <<< h.shift) % U32))
              { card with calls := card.calls ++ [Call.ReadRegister reg
                  (MaskForNdx (ndx % 256)) (ShiftForNdx (ndx % 256) % 256)] } := by
        simp only [readXptLoop, ne_eq, hc, not_true_eq_false, if_false, hget]
        simp only [ReadCardRegister, Card.ReadRegister, RegInfo.regNum, hok', if_true, hr]
        simp [RegInfo.mask, RegInfo.shift]
      rw [hstep]
      obtain ⟨i1, i2, i3, i4⟩ := ih
        ((outVal &&& h.invMask) ||| ((CardToVDevOutputXpt sdk s
          ((regs reg &&& MaskForNdx (ndx % 256)) >>> (ShiftForNdx (ndx % 256) % 256))
            <<< h.shift) % U32))
        { card with calls := card.calls ++ [Call.ReadRegister reg
            (MaskForNdx (ndx % 256)) (ShiftForNdx (ndx % 256) % 256)] }
        hr hro hndxt hndt hphyst
      have hlt := CardToVDevOutputXpt_lt sdk s hbyte hblack
        ((regs reg &&& MaskForNdx (ndx % 256)) >>> (ShiftForNdx (ndx % 256) % 256))
      refine ⟨i1, i2, ?_, ?_⟩
      · intro k hk hkc reg' ndx' hget'
        rcases List.mem_cons.mp hk with rfl | hkt
        · rw [hget] at hget'
          obtain ⟨rfl, rfl⟩ : reg = reg' ∧ ndx = ndx' := by simpa using hget'
          have e := i4 k.mNdx hh4 (fun k' hk' _ => hnotin k' hk')
          rw [RegInfo.invMask_of_lt k hh4, RegInfo.shift_of_lt k hh4] at e
          rw [RegInfo.mask_of_lt k hh4, RegInfo.shift_of_lt k hh4, RegInfo.invMask_of_lt k hh4, e]
          exact field_set_get _ _ _ hh4 hlt
        · exact i3 k hkt hkc reg' ndx' hget'
      · intro m hm hnone
        have e := i4 m hm (fun k hk hkc => hnone k (by simp [hk]) hkc)
        rw [RegInfo.invMask_of_lt h hh4, RegInfo.shift_of_lt h hh4] at e
        rw [RegInfo.invMask_of_lt h hh4, RegInfo.shift_of_lt h hh4, e]
        exact field_set_get_other _ _ _ _ hh4 hm (hnone h (by simp) hc) hlt
    · have hstep : readXptLoop sdk s inMask (h :: t) outVal card
          = readXptLoop sdk s inMask t outVal card := by
        simp only [readXptLoop, ne_eq, hc, not_false_eq_true, if_true]
      rw [hstep]
      obtain ⟨i1, i2, i3, i4⟩ := ih outVal card hr hro hndxt hndt hphyst
      refine ⟨i1, i2, ?_, ?_⟩
      · intro k hk hkc reg' ndx' hget'
        rcases List.mem_cons.mp hk with rfl | hkt
        · exact absurd hkc hc
        · exact i3 k hkt hkc reg' ndx' hget'
      · intro m hm hnone
        exact i4 m hm (fun k hk hkc => hnone k (by simp [hk]) hkc)

theorem NMap.mem_of_find (m : NMap) (k v : Nat) (h : m.find k = some v) : (k, v) ∈ m := by
  induction m with
  | nil => simp [NMap.find] at h
  | cons e t ih =>
    obtain ⟨a, b⟩ := e
    by_cases hk : k = a
    · simp [NMap.find, hk] at h
      simp [hk, h]
    · simp [NMap.find, hk] at h
      exact List.mem_cons_of_mem _ (ih h)

/-- C3: for a known virtual crosspoint-select register whose recorded fields have nibble
indices 0..3, each once, and output crosspoints that fit a byte, when every field whose
mask is fully contained in the caller's mask resolves to a readable card register:
`HandleReadXptSelectReg` returns true; for each such field the byte at the field's position
of the value built by the loop is `CardToVDevOutputXpt` of the card nibble that owns
`VDevToCardInputXpt` of the field's input crosspoint, which is `NTV2_XptBlack` when that
card output crosspoint is unmapped; and the value returned is the built value shifted right
by the caller's shift when `0 < shift < 31`, unshifted otherwise. -/
theorem xptRead_translates_each_covered_field (sdk : SDK) (s : VDev) (card : Card)
    (inRegNum outVal inMask inShift : Nat)
    (hknown : isMyXptSelectRegister s inRegNum = true)
    (hndx : ∀ k ∈ s.mVDevXptRegInfos.equalRange inRegNum, k.mNdx < 4)
    (hnd : ((s.mVDevXptRegInfos.equalRange inRegNum).map RegInfo.mNdx).Nodup)
    (hbyte : ∀ e ∈ s.mCardToVDevOXpts, e.2 < 256) (hblack : sdk.NTV2_XptBlack < 256)
    (hphys : ∀ k ∈ s.mVDevXptRegInfos.equalRange inRegNum, k.mask &&& inMask = k.mask →
      (sdk.GetCrosspointSelectGroupRegisterInfo (VDevToCardInputXpt sdk s k.inputXpt)).any
        (fun p => card.readOK p.1) = true) :
    (HandleReadXptSelectReg sdk s card inRegNum outVal inMask inShift).1 = true
    ∧ (HandleReadXptSelectReg sdk s card inRegNum outVal inMask inShift).2.1
        = (if 0 < inShift ∧ inShift < 31 then
            (readXptLoop sdk s inMask (s.mVDevXptRegInfos.equalRange inRegNum) outVal card).2.1
              >>> inShift
          else (readXptLoop sdk s inMask (s.mVDevXptRegInfos.equalRange inRegNum) outVal card).2.1)
    ∧ ∀ k ∈ s.mVDevXptRegInfos.equalRange inRegNum, k.mask &&& inMask = k.mask →
        ∀ reg ndx, sdk.GetCrosspointSelectGroupRegisterInfo
            (VDevToCardInputXpt sdk s k.inputXpt) = some (reg, ndx) →
          (((readXptLoop sdk s inMask (s.mVDevXptRegInfos.equalRange inRegNum) outVal card).2.1
              &&& k.mask) >>> k.shift
            = CardToVDevOutputXpt sdk s
                ((card.regs reg &&& MaskForNdx (ndx % 256)) >>> (ShiftForNdx (ndx % 256) % 256)))
          ∧ (s.mCardToVDevOXpts.find
                ((card.regs reg &&& MaskForNdx (ndx % 256)) >>> (ShiftForNdx (ndx % 256) % 256))
              = none →
            ((readXptLoop sdk s inMask (s.mVDevXptRegInfos.equalRange inRegNum) outVal card).2.1
              &&& k.mask) >>> k.shift = sdk.NTV2_XptBlack) := by
  have hphys' : ∀ k ∈ s.mVDevXptRegInfos.equalRange inRegNum, k.mask &&& inMask = k.mask →
      ∃ reg ndx, sdk.GetCrosspointSelectGroupRegisterInfo (VDevToCardInputXpt sdk s k.inputXpt)
        = some (reg, ndx) ∧ card.readOK reg = true := by
    intro k hk hc
    have := hphys k hk hc
    cases hg : sdk.GetCrosspointSelectGroupRegisterInfo (VDevToCardInputXpt sdk s k.inputXpt) with
    | none => simp [hg] at this
    | some p => exact ⟨p.1, p.2, rfl, by simpa [hg] using this⟩
  obtain ⟨h1, -, h3, -⟩ := readXptLoop_spec sdk s inMask
    (fun y v hf => hbyte (y, v) (NMap.mem_of_find _ _ _ hf)) hblack card.regs card.readOK
    (s.mVDevXptRegInfos.equalRange inRegNum) outVal card rfl rfl hndx hnd hphys'
  refine ⟨?_, ?_, ?_⟩
  · simp [HandleReadXptSelectReg, hknown, h1]
  · simp only [HandleReadXptSelectReg, hknown, h1, shiftIfRequested]
    simp [Nat.pos_iff_ne_zero]
  · intro k hk hc reg ndx hget
    refine ⟨h3 k hk hc reg ndx hget, ?_⟩
    intro hnone
    rw [h3 k hk hc reg ndx hget]
    simp [CardToVDevOutputXpt, hnone]

/-- C3 on the sample tables: with 36 (the card's SDI input 3) in the byte of the card's
FrameStore 3 input (register 137, byte 0), a read of virtual register 136 with mask `0xFF`
returns 32 (virtual SDI input 1) in byte 0. -/
theorem xptRead_translates_each_covered_field_witness :
    (HandleReadXptSelectReg sampleSDK sampleVDev
      { sampleCard with regs := fun r => if r = 137 then 36 else 0 } 136 0 0xFF 0).1 = true
    ∧ (HandleReadXptSelectReg sampleSDK sampleVDev
      { sampleCard with regs := fun r => if r = 137 then 36 else 0 } 136 0 0xFF 0).2.1 = 32 := by
  have h := xptRead_translates_each_covered_field sampleSDK sampleVDev
    { sampleCard with regs := fun r => if r = 137 then 36 else 0 } 136 0 0xFF 0
    (by decide) (by decide) (by decide) (by decide) (by decide) (by decide)
  exact ⟨h.1, by decide⟩

theorem readXptLoop_none_covered (sdk : SDK) (s : VDev) (inMask : Nat) :
    ∀ (l : List RegInfo) (outVal : Nat) (card : Card),
      l.filter (fun k => k.mask &&& inMask = k.mask) = [] →
      readXptLoop sdk s inMask l outVal card = (true, outVal, card) := by
  intro l
  induction l with
  | nil => intro outVal card _; rfl
  | cons h t ih =>
    intro outVal card hf
    by_cases hc : h.mask &&& inMask = h.mask
    · simp [List.filter, hc] at hf
    · have ht : t.filter (fun k => k.mask &&& inMask = k.mask) = [] := by
        simpa [List.filter, hc] using hf
      simp only [readXptLoop, ne_eq, hc, not_false_eq_true, if_true]
      exact ih outVal card ht

theorem readXptLoop_one_covered (sdk : SDK) (s : VDev) (inMask : Nat) (k : RegInfo)
    (cardRegNum nibbleNdx : Nat)
    (hphys : sdk.GetCrosspointSelectGroupRegisterInfo (VDevToCardInputXpt sdk s k.inputXpt)
      = some (cardRegNum, nibbleNdx)) :
    ∀ (l : List RegInfo) (outVal : Nat) (card : Card),
      card.readOK cardRegNum = true →
      l.filter (fun k => k.mask &&& inMask = k.mask) = [k] →
      readXptLoop sdk s inMask l outVal card
        = (true,
           (outVal &&& k.invMask) ||| ((CardToVDevOutputXpt sdk s
              ((card.regs cardRegNum &&& MaskForNdx (nibbleNdx % 256))
                >>> (ShiftForNdx (nibbleNdx % 256) % 256)) <<< k.shift) % U32),
           { card with calls := card.calls ++ [Call.ReadRegister cardRegNum
              (MaskForNdx (nibbleNdx % 256)) (ShiftForNdx (nibbleNdx % 256) % 256)] }) := by
  intro l
  induction l with
  | nil => intro outVal card _ hf; simp at hf
  | cons h t ih =>
    intro outVal card hok hf
    by_cases hc : h.mask &&& inMask = h.mask
    · have hf' : h = k ∧ t.filter (fun k => k.mask &&& inMask = k.mask) = [] := by
        simpa [List.filter, hc] using hf
      obtain ⟨rfl, ht⟩ := hf'
      simp only [readXptLoop, ne_eq, hc, not_true_eq_false, if_false, hphys]
      simp only [ReadCardRegister, Card.ReadRegister, RegInfo.regNum, hok, if_true]
      rw [readXptLoop_none_covered sdk s inMask t _ _ ht]
      simp [RegInfo.mask, RegInfo.shift]
    · have ht : t.filter (fun k => k.mask &&& inMask = k.mask) = [k] := by
        simpa [List.filter, hc] using hf
      simp only [readXptLoop, ne_eq, hc, not_false_eq_true, if_true]
      exact ih outVal card hok ht

/-- C4 (as stated, refuted): on the sample tables register 136 is a known virtual
crosspoint-select register and the mask 0 contains none of its fields, yet a read with
`outValue` holding `0xFFFFFFFF` on entry returns `0xFFFFFFFF`, which is not 0 in the byte
of the field at nibble 0. -/
theorem xptRead_uncovered_not_zeroed :
    ¬ (∀ (sdk : SDK) (K : Regs) (s : VDev) (card : Card) (regNum outValue mask : Nat),
        isMyAncExtRegister regNum = false → isMyAncInsRegister regNum = false →
        isMyXptSelectRegister s regNum = true →
        (s.mVDevXptRegInfos.equalRange regNum).filter (fun k => k.mask &&& mask = k.mask) = [] →
        ∀ k ∈ s.mVDevXptRegInfos.equalRange regNum,
          (NTV2ReadRegisterRemote sdk K s card regNum outValue mask 0).2.1 &&& k.mask = 0) := by
  intro h
  have h1 := h sampleSDK sampleRegs sampleVDev sampleCard 136 0xFFFFFFFF 0
    (by decide) (by decide) (by decide) (by decide)
    { mRegNum := 136, mNdx := 0, mIXpt := 1 } (by decide)
  revert h1
  decide

/-- C4 (amended): for every known virtual crosspoint-select register outside the anc
windows and every caller mask that fully contains none of the fields recorded for it,
`NTV2ReadRegisterRemote (regNum, outValue, mask, 0)` returns true, issues no physical read
and leaves `outValue` as it was on entry: every nibble is preserved, so the
crosspoint-select nibbles are 0 exactly when they were 0 on entry. -/
theorem xptRead_uncovered_leaves_outValue (sdk : SDK) (K : Regs) (s : VDev) (card : Card)
    (regNum outValue mask : Nat)
    (hExt : isMyAncExtRegister regNum = false) (hIns : isMyAncInsRegister regNum = false)
    (hknown : isMyXptSelectRegister s regNum = true)
    (hnone : (s.mVDevXptRegInfos.equalRange regNum).filter
      (fun k => k.mask &&& mask = k.mask) = []) :
    NTV2ReadRegisterRemote sdk K s card regNum outValue mask 0 = (true, outValue, card) := by
  simp only [NTV2ReadRegisterRemote, hExt, hIns, hknown, if_true, HandleReadXptSelectReg,
    not_true_eq_false, if_false, Bool.false_eq_true]
  rw [readXptLoop_none_covered sdk s mask _ outValue card hnone]
  simp [shiftIfRequested]

/-- C4 (amended) on the sample tables: a read of register 136 with mask 0 hands back the
caller's `0x12345678`. -/
theorem xptRead_uncovered_leaves_outValue_witness :
    NTV2ReadRegisterRemote sampleSDK sampleRegs sampleVDev sampleCard 136 0x12345678 0 0
      = (true, 0x12345678, sampleCard) :=
  xptRead_uncovered_leaves_outValue sampleSDK sampleRegs sampleVDev sampleCard 136 0x12345678 0
    (by decide) (by decide) (by decide) (by decide)

/-- C1 (as stated, refuted): on the tables built from `sharedWidgets`, with a card whose
reads and writes all succeed, register 136 is a known virtual crosspoint-select register,
the mask `0xFF` covers exactly its field at nibble 0, and 8 is a virtual output crosspoint
in the domain of the virtual-to-card map; after `NTV2WriteRegisterRemote (136, 8, 0xFF, 0)`
the read `NTV2ReadRegisterRemote (136, 0xFF, 0)` returns 9 in that field, not 8. -/
theorem xpt_write_read_roundtrip_fails_on_shared_widget :
    ¬ (∀ (sdk : SDK) (K : Regs) (s : VDev) (card : Card) (regNum mask oxptV outValue : Nat)
        (k : RegInfo),
        isMyAncExtRegister regNum = false → isMyAncInsRegister regNum = false →
        isMyXptSelectRegister s regNum = true →
        (∀ r, card.readOK r = true) → (∀ r, card.writeOK r = true) →
        (s.mVDevXptRegInfos.equalRange regNum).filter (fun k => k.mask &&& mask = k.mask) = [k] →
        (s.mVDevToCardOXpts.find oxptV).isSome = true →
        ((NTV2ReadRegisterRemote sdk K s
            (NTV2WriteRegisterRemote sdk K s card regNum oxptV mask k.shift).2
            regNum outValue mask 0).2.1 &&& k.mask) >>> k.shift = oxptV) := by
  intro h
  have h1 := h sampleSDK sampleRegs sharedVDev sampleCard 136 0xFF 8 0
    { mRegNum := 136, mNdx := 0, mIXpt := 1 }
    (by decide) (by decide) (by decide) (fun _ => rfl) (fun _ => rfl) (by decide) (by decide)
  revert h1
  decide

/-- C1 (amended): for every known virtual crosspoint-select register outside the anc
windows, every mask that fully covers exactly one of its fields `k`, and every virtual
output crosspoint `oxptV` that fits a byte and that the output maps translate to the card
and back to itself (`CardToVDevOutputXpt (VDevToCardOutputXpt (oxptV)) = oxptV`, as they do
for every mapped crosspoint when the pin pairing is one-to-one), on a card whose register
for the field accepts reads and writes: after
`NTV2WriteRegisterRemote (regNum, oxptV, mask, k.shift)` the read
`NTV2ReadRegisterRemote (regNum, mask, 0)` succeeds and returns a value whose field
`(value & k.mask) >> k.shift` is `oxptV`. -/
theorem xpt_write_read_roundtrip (sdk : SDK) (K : Regs) (s : VDev) (card : Card)
    (regNum mask oxptV outValue : Nat) (k : RegInfo) (cardRegNum nibbleNdx : Nat)
    (hExt : isMyAncExtRegister regNum = false) (hIns : isMyAncInsRegister regNum = false)
    (hone : (s.mVDevXptRegInfos.equalRange regNum).filter
      (fun k => k.mask &&& mask = k.mask) = [k])
    (hk4 : k.mNdx < 4)
    (hphys : sdk.GetCrosspointSelectGroupRegisterInfo (VDevToCardInputXpt sdk s k.inputXpt)
      = some (cardRegNum, nibbleNdx))
    (hn4 : nibbleNdx < 4)
    (hread : card.readOK cardRegNum = true) (hwrite : card.writeOK cardRegNum = true)
    (hv : oxptV < 256) (hc : VDevToCardOutputXpt sdk s oxptV < 256)
    (hback : CardToVDevOutputXpt sdk s (VDevToCardOutputXpt sdk s oxptV) = oxptV) :
    (NTV2WriteRegisterRemote sdk K s card regNum oxptV mask k.shift).1 = true
    ∧ (NTV2ReadRegisterRemote sdk K s
        (NTV2WriteRegisterRemote sdk K s card regNum oxptV mask k.shift).2
        regNum outValue mask 0).1 = true
    ∧ ((NTV2ReadRegisterRemote sdk K s
        (NTV2WriteRegisterRemote sdk K s card regNum oxptV mask k.shift).2
        regNum outValue mask 0).2.1 &&& k.mask) >>> k.shift = oxptV := by
  have hk : k ∈ s.mVDevXptRegInfos.equalRange regNum := by
    have : k ∈ (s.mVDevXptRegInfos.equalRange regNum).filter
        (fun k => k.mask &&& mask = k.mask) := by rw [hone]; simp
    exact (List.mem_filter.mp this).1
  have hknown := isMyXptSelectRegister_of_mem s regNum k hk
  have hn : nibbleNdx % 256 = nibbleNdx := Nat.mod_eq_of_lt (by omega)
  have hs : ShiftForNdx nibbleNdx % 256 = ShiftForNdx nibbleNdx := by
    rw [ShiftForNdx_eq _ hn4]; omega
  have hw : NTV2WriteRegisterRemote sdk K s card regNum oxptV mask k.shift
      = (true, (card.WriteRegister cardRegNum (VDevToCardOutputXpt sdk s oxptV)
          (MaskForNdx nibbleNdx) (ShiftForNdx nibbleNdx)).2) := by
    simp only [NTV2WriteRegisterRemote, hExt, hIns, hknown, if_true, HandleWriteXptSelectReg,
      not_true_eq_false, if_false, Bool.false_eq_true]
    rw [writeXptLoop_one_covered sdk s oxptV mask k cardRegNum nibbleNdx hphys _ card hone,
      hwrite, hn, hs]
  rw [hw]
  have hreg : (card.WriteRegister cardRegNum (VDevToCardOutputXpt sdk s oxptV)
      (MaskForNdx nibbleNdx) (ShiftForNdx nibbleNdx)).2.regs cardRegNum
        = ((card.regs cardRegNum &&& not32 (MaskForNdx nibbleNdx))
            ||| ((VDevToCardOutputXpt sdk s oxptV <<< ShiftForNdx nibbleNdx)
              &&& MaskForNdx nibbleNdx)) % U32 := by
    simp [Card.WriteRegister, hwrite]
  have hrok : (card.WriteRegister cardRegNum (VDevToCardOutputXpt sdk s oxptV)
      (MaskForNdx nibbleNdx) (ShiftForNdx nibbleNdx)).2.readOK cardRegNum = true := by
    simp [Card.WriteRegister, hwrite, hread]
  have hr : NTV2ReadRegisterRemote sdk K s
      (card.WriteRegister cardRegNum (VDevToCardOutputXpt sdk s oxptV)
        (MaskForNdx nibbleNdx) (ShiftForNdx nibbleNdx)).2 regNum outValue mask 0
      = (true, (outValue &&& k.invMask) ||| ((oxptV <<< k.shift) % U32),
          { (card.WriteRegister cardRegNum (VDevToCardOutputXpt sdk s oxptV)
              (MaskForNdx nibbleNdx) (ShiftForNdx nibbleNdx)).2 with
            calls := (card.WriteRegister cardRegNum (VDevToCardOutputXpt sdk s oxptV)
              (MaskForNdx nibbleNdx) (ShiftForNdx nibbleNdx)).2.calls
                ++ [Call.ReadRegister cardRegNum (MaskForNdx nibbleNdx)
                  (ShiftForNdx nibbleNdx)] }) := by
    simp only [NTV2ReadRegisterRemote, hExt, hIns, hknown, if_true, HandleReadXptSelectReg,
      not_true_eq_false, if_false, Bool.false_eq_true]
    rw [readXptLoop_one_covered sdk s mask k cardRegNum nibbleNdx hphys _ outValue _ hrok hone,
      hreg, hn, hs, card_field_write_read _ _ _ hn4 hc, hback]
    simp [shiftIfRequested]
  rw [hr]
  refine ⟨rfl, rfl, ?_⟩
  show ((outValue &&& k.invMask ||| (oxptV <<< k.shift) % U32) &&& k.mask) >>> k.shift = oxptV
  rw [RegInfo.mask_of_lt k hk4, RegInfo.shift_of_lt k hk4, RegInfo.invMask_of_lt k hk4]
  exact field_set_get _ _ _ hk4 hv

/-- C1 (amended) on the sample tables: writing virtual crosspoint 32 to the byte of the
FrameStore 1 input (register 136, mask `0xFF`) and reading the register back gives 32 in
that byte. -/
theorem xpt_write_read_roundtrip_witness :
    ((NTV2ReadRegisterRemote sampleSDK sampleRegs sampleVDev
        (NTV2WriteRegisterRemote sampleSDK sampleRegs sampleVDev sampleCard 136 32 0xFF 0).2
        136 0 0xFF 0).2.1 &&& 0xFF) >>> 0 = 32 :=
  (xpt_write_read_roundtrip sampleSDK sampleRegs sampleVDev sampleCard 136 0xFF 32 0
    { mRegNum := 136, mNdx := 0, mIXpt := 1 } 137 0
    (by decide) (by decide) (by decide) (by decide) (by decide) (by decide) (by decide)
    (by decide) (by decide) (by decide) (by decide)).2.2

/-! ## The register switch -/

theorem ne_of_mem_take {l : List Nat} (h : l.Nodup) (j : Nat) (hj : j < l.length) :
    ∀ y ∈ l.take j, ¬ l[j] = y := by
  intro y hy heq
  obtain ⟨i, hi, rfl⟩ := List.getElem_of_mem hy
  rw [List.getElem_take] at heq
  have hij : i < j := by
    have := hi
    simp at this
    omega
  have := (List.Nodup.getElem_inj_iff h).mp heq
  omega

theorem idx_perChannel (f : Nat → Nat) (c : Nat) (hc : c < 8) :
    idx (perChannel f) c = f (c + 1) := by
  interval_cases c <;> rfl

theorem Card.ReadRegister_calls (card : Card) (regNum outValue mask shift : Nat) :
    (card.ReadRegister regNum outValue mask shift).2.2.calls
      = card.calls ++ [Call.ReadRegister regNum mask shift] := by
  unfold Card.ReadRegister
  split <;> rfl

/-- C7: with the switch labels pairwise different and the four frame registers outside the
anc windows and the crosspoint-select registers, for every anchor channel `c` with `c + 1`
a valid channel, a read of virtual `kRegCh1OutputFrame` (`kRegCh1InputFrame`) is exactly
the physical read of the OutputFrame (InputFrame) register of channel `c`, and a read of
virtual `kRegCh2OutputFrame` (`kRegCh2InputFrame`) exactly the physical read of the
register of channel `c + 1`, with the caller's mask and shift; each is one call in the
card's log. -/
theorem frame_register_reads_retargeted (sdk : SDK) (K : Regs) (s : VDev) (card : Card)
    (outValue mask shift : Nat)
    (hlabels : (readSwitchLabels K).Nodup)
    (hwin : ∀ l ∈ [K.kRegChOutputFrame 1, K.kRegChOutputFrame 2, K.kRegChInputFrame 1,
        K.kRegChInputFrame 2],
      isMyAncExtRegister l = false ∧ isMyAncInsRegister l = false
        ∧ isMyXptSelectRegister s l = false)
    (hc : s.mChannel + 1 < 8) :
    NTV2ReadRegisterRemote sdk K s card (K.kRegChOutputFrame 1) outValue mask shift
        = card.ReadRegister (K.kRegChOutputFrame (s.mChannel + 1)) outValue mask shift
    ∧ NTV2ReadRegisterRemote sdk K s card (K.kRegChOutputFrame 2) outValue mask shift
        = card.ReadRegister (K.kRegChOutputFrame (s.mChannel + 2)) outValue mask shift
    ∧ NTV2ReadRegisterRemote sdk K s card (K.kRegChInputFrame 1) outValue mask shift
        = card.ReadRegister (K.kRegChInputFrame (s.mChannel + 1)) outValue mask shift
    ∧ NTV2ReadRegisterRemote sdk K s card (K.kRegChInputFrame 2) outValue mask shift
        = card.ReadRegister (K.kRegChInputFrame (s.mChannel + 2)) outValue mask shift
    ∧ ∀ regNum, (card.ReadRegister regNum outValue mask shift).2.2.calls
        = card.calls ++ [Call.ReadRegister regNum mask shift] := by
  simp only [List.forall_mem_cons, List.not_mem_nil, false_implies, implies_true, and_true]
    at hwin
  obtain ⟨⟨a1, a2, a3⟩, ⟨b1, b2, b3⟩, ⟨c1, c2, c3⟩, ⟨d1, d2, d3⟩⟩ := hwin
  have e1 : idx (gChannelToOutputFrameRegNum K) s.mChannel = K.kRegChOutputFrame (s.mChannel + 1) :=
    idx_perChannel _ _ (by omega)
  have e2 : idx (gChannelToOutputFrameRegNum K) (s.mChannel + 1)
      = K.kRegChOutputFrame (s.mChannel + 2) := idx_perChannel _ _ hc
  have e3 : idx (gChannelToInputFrameRegNum K) s.mChannel = K.kRegChInputFrame (s.mChannel + 1) :=
    idx_perChannel _ _ (by omega)
  have e4 : idx (gChannelToInputFrameRegNum K) (s.mChannel + 1)
      = K.kRegChInputFrame (s.mChannel + 2) := idx_perChannel _ _ hc
  refine ⟨?_, ?_, ?_, ?_, fun r => Card.ReadRegister_calls card r outValue mask shift⟩
  · have h := ne_of_mem_take hlabels 20 (by simp [readSwitchLabels])
    simp only [readSwitchLabels, List.take, List.getElem_cons_succ, List.getElem_cons_zero,
      List.forall_mem_cons, List.not_mem_nil, false_implies, implies_true, and_true] at h
    simp [NTV2ReadRegisterRemote, a1, a2, a3, h, e1]
  · have h := ne_of_mem_take hlabels 21 (by simp [readSwitchLabels])
    simp only [readSwitchLabels, List.take, List.getElem_cons_succ, List.getElem_cons_zero,
      List.forall_mem_cons, List.not_mem_nil, false_implies, implies_true, and_true] at h
    simp [NTV2ReadRegisterRemote, b1, b2, b3, h, e2]
  · have h := ne_of_mem_take hlabels 22 (by simp [readSwitchLabels])
    simp only [readSwitchLabels, List.take, List.getElem_cons_succ, List.getElem_cons_zero,
      List.forall_mem_cons, List.not_mem_nil, false_implies, implies_true, and_true] at h
    simp [NTV2ReadRegisterRemote, c1, c2, c3, h, e3]
  · have h := ne_of_mem_take hlabels 23 (by simp [readSwitchLabels])
    simp only [readSwitchLabels, List.take, List.getElem_cons_succ, List.getElem_cons_zero,
      List.forall_mem_cons, List.not_mem_nil, false_implies, implies_true, and_true] at h
    simp [NTV2ReadRegisterRemote, d1, d2, d3, h, e4]

/-- C7 on the sample tables, whose anchor channel is 2: a read of virtual
`kRegCh1OutputFrame` (register 3) is one physical read of `kRegCh3OutputFrame`
(register 258). -/
theorem frame_register_reads_retargeted_witness :
    sampleVDev.mChannel = 2
    ∧ (NTV2ReadRegisterRemote sampleSDK sampleRegs sampleVDev sampleCard 3 0 0xFFFFFFFF 0).2.2.calls
        = [Call.ReadRegister 258 0xFFFFFFFF 0] := by
  have h := frame_register_reads_retargeted sampleSDK sampleRegs sampleVDev sampleCard 0
    0xFFFFFFFF 0 (by decide) (by decide) (by decide)
  refine ⟨by decide, ?_⟩
  have h1 : NTV2ReadRegisterRemote sampleSDK sampleRegs sampleVDev sampleCard 3 0 0xFFFFFFFF 0
      = sampleCard.ReadRegister 258 0 0xFFFFFFFF 0 := h.1
  rw [h1, h.2.2.2.2 258]
  rfl

/-- C8 (the code at the failing input): on the sample tables, whose anchor channel is 2,
`NTV2WriteRegisterRemote (kRegCh1OutputFrame, 5)` writes the card's `kRegCh1OutputFrame`
(register 3), not `kRegCh3OutputFrame` (register 258) to which the read is retargeted, and
the following `NTV2ReadRegisterRemote (kRegCh1OutputFrame)` returns 0, not 5. -/
theorem frame_register_write_not_retargeted :
    sampleVDev.mChannel = 2
    ∧ (NTV2WriteRegisterRemote sampleSDK sampleRegs sampleVDev sampleCard 3 5 0xFFFFFFFF 0).2.calls
        = [Call.WriteRegister 3 5 0xFFFFFFFF 0]
    ∧ (NTV2ReadRegisterRemote sampleSDK sampleRegs sampleVDev
        (NTV2WriteRegisterRemote sampleSDK sampleRegs sampleVDev sampleCard 3 5 0xFFFFFFFF 0).2
        3 0 0xFFFFFFFF 0).2.2.calls
        = [Call.WriteRegister 3 5 0xFFFFFFFF 0, Call.ReadRegister 258 0xFFFFFFFF 0]
    ∧ (NTV2ReadRegisterRemote sampleSDK sampleRegs sampleVDev
        (NTV2WriteRegisterRemote sampleSDK sampleRegs sampleVDev sampleCard 3 5 0xFFFFFFFF 0).2
        3 0 0xFFFFFFFF 0).2.1 = 0 := by
  decide

/-! ## Global control -/

theorem and_not32_and_self (x m : Nat) : (x &&& not32 m) &&& m = 0 := by
  apply Nat.eq_of_testBit_eq
  intro i
  simp only [Nat.testBit_and, testBit_not32, Nat.zero_testBit]
  cases m.testBit i <;> simp

theorem and_allOnes_and_not32 (x m : Nat) : (x &&& 0xFFFFFFFF) &&& not32 m = x &&& not32 m := by
  have h : (0xFFFFFFFF : Nat) = 2 ^ 32 - 1 := by norm_num
  apply Nat.eq_of_testBit_eq
  intro i
  simp only [Nat.testBit_and, testBit_not32, h, Nat.testBit_two_pow_sub_one]
  by_cases hi : i < 32 <;> simp [hi]

theorem allOnes_and_not32 (m : Nat) : 4294967295 &&& not32 m = not32 m := by
  have h : (4294967295 : Nat) = 2 ^ 32 - 1 := by norm_num
  apply Nat.eq_of_testBit_eq
  intro i
  simp only [Nat.testBit_and, testBit_not32, h, Nat.testBit_two_pow_sub_one]
  by_cases hi : i < 32 <;> simp [hi]

theorem not32_and_not32 (a b : Nat) : not32 a &&& not32 b = not32 (a ||| b) := by
  apply Nat.eq_of_testBit_eq
  intro i
  simp only [Nat.testBit_and, testBit_not32, Nat.testBit_or]
  by_cases hi : i < 32 <;> simp [hi]

theorem and_not32_or_and_eq_zero (x a b : Nat) (h : b &&& a = b) :
    (x &&& not32 a) &&& b = 0 := by
  apply Nat.eq_of_testBit_eq
  intro i
  have hb : b.testBit i = (b.testBit i && a.testBit i) := by
    conv_lhs => rw [← h]
    simp [Nat.testBit_and]
  simp only [Nat.testBit_and, testBit_not32, Nat.zero_testBit]
  rw [hb]
  cases a.testBit i <;> simp

theorem or_seven_absorb (a b c d e f g : Nat) :
    ∀ m ∈ [a, b, c, d, e, f, g], m &&& (a ||| b ||| c ||| d ||| e ||| f ||| g) = m := by
  intro m hm
  apply Nat.eq_of_testBit_eq
  intro i
  simp only [List.mem_cons, List.mem_singleton, List.not_mem_nil, or_false] at hm
  simp only [Nat.testBit_and, Nat.testBit_or]
  rcases hm with rfl | rfl | rfl | rfl | rfl | rfl | rfl <;> cases m.testBit i <;> simp

/-- C9: with the switch labels pairwise different and `kRegGlobalControl2` outside the anc
windows and the crosspoint-select registers, a read of virtual `kRegGlobalControl2` on a
card whose read succeeds returns, for every physical register value, caller mask and
shift, `((physical & ~bits) & mask) >> shift` where `bits` are the Quad, Quad2, Independent,
425FB12, 425FB34, 425FB56 and 425FB78 masks together; with shift 0 the value returned is 0
in each of these seven bit positions. -/
theorem read_GlobalControl2_clears_quad_bits (sdk : SDK) (K : Regs) (s : VDev) (card : Card)
    (outValue mask shift : Nat)
    (hlabels : (readSwitchLabels K).Nodup)
    (hExt : isMyAncExtRegister K.kRegGlobalControl2 = false)
    (hIns : isMyAncInsRegister K.kRegGlobalControl2 = false)
    (hXpt : isMyXptSelectRegister s K.kRegGlobalControl2 = false)
    (hread : card.readOK K.kRegGlobalControl2 = true) :
    (NTV2ReadRegisterRemote sdk K s card K.kRegGlobalControl2 outValue mask shift).1 = true
    ∧ (NTV2ReadRegisterRemote sdk K s card K.kRegGlobalControl2 outValue mask shift).2.1
        = ((card.regs K.kRegGlobalControl2
              &&& not32 (K.kRegMaskQuadMode ||| K.kRegMaskQuadMode2 ||| K.kRegMaskIndependentMode
                ||| K.kRegMask425FB12 ||| K.kRegMask425FB34 ||| K.kRegMask425FB56
                ||| K.kRegMask425FB78))
            &&& mask) >>> shift
    ∧ ∀ m ∈ [K.kRegMaskQuadMode, K.kRegMaskQuadMode2, K.kRegMaskIndependentMode,
          K.kRegMask425FB12, K.kRegMask425FB34, K.kRegMask425FB56, K.kRegMask425FB78],
        (NTV2ReadRegisterRemote sdk K s card K.kRegGlobalControl2 outValue mask 0).2.1 &&& m
          = 0 := by
  have h := ne_of_mem_take hlabels 15 (by simp [readSwitchLabels])
  simp only [readSwitchLabels, List.take, List.getElem_cons_succ, List.getElem_cons_zero,
    List.forall_mem_cons, List.not_mem_nil, false_implies, implies_true, and_true] at h
  have hval : ∀ sh, NTV2ReadRegisterRemote sdk K s card K.kRegGlobalControl2 outValue mask sh
      = (true, ((card.regs K.kRegGlobalControl2
              &&& not32 (K.kRegMaskQuadMode ||| K.kRegMaskQuadMode2 ||| K.kRegMaskIndependentMode
                ||| K.kRegMask425FB12 ||| K.kRegMask425FB34 ||| K.kRegMask425FB56
                ||| K.kRegMask425FB78))
            &&& mask) >>> sh,
          { card with calls := card.calls
              ++ [Call.ReadRegister K.kRegGlobalControl2 0xFFFFFFFF 0] }) := by
    intro sh
    simp only [NTV2ReadRegisterRemote, hExt, hIns, hXpt, h, if_false, Bool.false_eq_true,
      or_true, if_true, HandleReadGlobalControl, Card.ReadRegister, hread, Nat.shiftRight_zero]
    simp only [Nat.and_assoc, not32_and_not32, Nat.or_assoc]
    rw [← Nat.and_assoc 4294967295, allOnes_and_not32]
    simp
  refine ⟨by rw [hval], by rw [hval], ?_⟩
  intro m hm
  rw [hval 0]
  show ((card.regs K.kRegGlobalControl2 &&& not32 _) &&& mask) >>> 0 &&& m = 0
  rw [Nat.shiftRight_zero, Nat.and_assoc, Nat.and_comm mask, ← Nat.and_assoc]
  rw [and_not32_or_and_eq_zero _ _ m (or_seven_absorb _ _ _ _ _ _ _ m hm)]
  simp

/-- C9 on the sample constants: with every bit of the card's `kRegGlobalControl2` set, the
read returns `0xFF0FEFF6`, the seven mode bits cleared. -/
theorem read_GlobalControl2_clears_quad_bits_witness :
    (NTV2ReadRegisterRemote sampleSDK sampleRegs sampleVDev
      { sampleCard with regs := fun _ => 0xFFFFFFFF } 267 0 0xFFFFFFFF 0).2.1 = 0xFF0FEFF6 := by
  have h := (read_GlobalControl2_clears_quad_bits sampleSDK sampleRegs sampleVDev
    { sampleCard with regs := fun _ => 0xFFFFFFFF } 0 0xFFFFFFFF 0
    (by decide) (by decide) (by decide) (by decide) (by decide)).2.1
  rw [show sampleRegs.kRegGlobalControl2 = 267 from rfl] at h
  rw [h]
  decide

/-- C19: every lookup returns the stored value for an argument in its map and the defined
sentinel otherwise (`NTV2_CHANNEL_INVALID` for channels, `NTV2_CHANNEL1` for mixers,
`NTV2_INPUT_CROSSPOINT_INVALID` for input crosspoints, `NTV2_XptBlack` for output
crosspoints, `NTV2CROSSPOINT_INVALID` for autocirculate crosspoints); the two DAT
translations return true always and leave `(frame, offset)` unchanged when the 8 MiB base
of the address is not in their map. -/
theorem lookups_return_value_or_sentinel (sdk : SDK) (s : VDev) (x : Nat) :
    (∀ v, s.mVDevToCardChls.find x = some v → VDevToCardChannel sdk s x = v)
    ∧ (s.mVDevToCardChls.find x = none → VDevToCardChannel sdk s x = sdk.NTV2_CHANNEL_INVALID)
    ∧ (∀ v, s.mCardToVDevChls.find x = some v → CardToVDevChannel sdk s x = v)
    ∧ (s.mCardToVDevChls.find x = none → CardToVDevChannel sdk s x = sdk.NTV2_CHANNEL_INVALID)
    ∧ (∀ v, s.mVDevToCardMxrs.find x = some v → VDevToCardMixer s x = v)
    ∧ (s.mVDevToCardMxrs.find x = none → VDevToCardMixer s x = NTV2_CHANNEL1)
    ∧ (∀ v, s.mCardToVDevMxrs.find x = some v → CardToVDevMixer s x = v)
    ∧ (s.mCardToVDevMxrs.find x = none → CardToVDevMixer s x = NTV2_CHANNEL1)
    ∧ (∀ v, s.mVDevToCardIXpts.find x = some v → VDevToCardInputXpt sdk s x = v)
    ∧ (s.mVDevToCardIXpts.find x = none
        → VDevToCardInputXpt sdk s x = sdk.NTV2_INPUT_CROSSPOINT_INVALID)
    ∧ (∀ v, s.mCardToVDevIXpts.find x = some v → CardToVDevInputXpt sdk s x = v)
    ∧ (s.mCardToVDevIXpts.find x = none
        → CardToVDevInputXpt sdk s x = sdk.NTV2_INPUT_CROSSPOINT_INVALID)
    ∧ (∀ v, s.mVDevToCardOXpts.find x = some v → VDevToCardOutputXpt sdk s x = v)
    ∧ (s.mVDevToCardOXpts.find x = none → VDevToCardOutputXpt sdk s x = sdk.NTV2_XptBlack)
    ∧ (∀ v, s.mCardToVDevOXpts.find x = some v → CardToVDevOutputXpt sdk s x = v)
    ∧ (s.mCardToVDevOXpts.find x = none → CardToVDevOutputXpt sdk s x = sdk.NTV2_XptBlack)
    ∧ (∀ v, s.mKonaToCardACXpts.find x = some v → KonaToCardACXpt sdk s x = v)
    ∧ (s.mKonaToCardACXpts.find x = none → KonaToCardACXpt sdk s x = sdk.NTV2CROSSPOINT_INVALID)
    ∧ (∀ v, s.mCardToKonaACXpts.find x = some v → CardToKonaACXpt sdk s x = v)
    ∧ (s.mCardToKonaACXpts.find x = none → CardToKonaACXpt sdk s x = sdk.NTV2CROSSPOINT_INVALID)
    ∧ (∀ frame offset,
        s.mKonaToCardDAT.find (((0x800000 * frame + offset) % U32) &&& 0xFF800000) = none →
        DATKonaToCardFrmOffset s frame offset = (true, frame, offset))
    ∧ (∀ frame offset,
        s.mCardToKonaDAT.find (((0x800000 * frame + offset) % U32) &&& 0xFF800000) = none →
        DATCardToKonaFrmOffset s frame offset = (true, frame, offset))
    ∧ (∀ frame offset, (DATKonaToCardFrmOffset s frame offset).1 = true
        ∧ (DATCardToKonaFrmOffset s frame offset).1 = true) := by
  refine ⟨?_, ?_, ?_, ?_, ?_, ?_, ?_, ?_, ?_, ?_, ?_, ?_, ?_, ?_, ?_, ?_, ?_, ?_, ?_, ?_, ?_,
    ?_, ?_⟩
  all_goals first
    | (intro v h
       simp [VDevToCardChannel, CardToVDevChannel, VDevToCardMixer, CardToVDevMixer,
         VDevToCardInputXpt, CardToVDevInputXpt, VDevToCardOutputXpt, CardToVDevOutputXpt,
         KonaToCardACXpt, CardToKonaACXpt, h])
    | (intro h
       simp [VDevToCardChannel, CardToVDevChannel, VDevToCardMixer, CardToVDevMixer,
         VDevToCardInputXpt, CardToVDevInputXpt, VDevToCardOutputXpt, CardToVDevOutputXpt,
         KonaToCardACXpt, CardToKonaACXpt, h])
    | (intro frame offset h
       simp [DATKonaToCardFrmOffset, DATCardToKonaFrmOffset, h])
    | (intro frame offset
       constructor
       · unfold DATKonaToCardFrmOffset
         simp only []
         split <;> rfl
       · unfold DATCardToKonaFrmOffset
         simp only []
         split <;> rfl)

/-- C19 on the sample tables: virtual channel 0 is stored (card channel 2), virtual channel 5
is not and gives `NTV2_CHANNEL_INVALID` (8); virtual output crosspoint 32 is stored (36),
77 is not and gives `NTV2_XptBlack` (0). -/
theorem lookups_return_value_or_sentinel_witness :
    VDevToCardChannel sampleSDK sampleVDev 0 = 2
    ∧ VDevToCardChannel sampleSDK sampleVDev 5 = 8
    ∧ VDevToCardOutputXpt sampleSDK sampleVDev 32 = 36
    ∧ VDevToCardOutputXpt sampleSDK sampleVDev 77 = 0 :=
  ⟨(lookups_return_value_or_sentinel sampleSDK sampleVDev 0).1 2 (by decide),
   (lookups_return_value_or_sentinel sampleSDK sampleVDev 5).2.1 (by decide),
   (lookups_return_value_or_sentinel sampleSDK sampleVDev 32).2.2.2.2.2.2.2.2.2.2.2.2.1 36
     (by decide),
   (lookups_return_value_or_sentinel sampleSDK sampleVDev 77).2.2.2.2.2.2.2.2.2.2.2.2.2.1
     (by decide)⟩

/-! ## Device address translation -/

theorem and_8MB_base (a : Nat) (ha : a < U32) : a &&& 0xFF800000 = 0x800000 * (a / 0x800000) := by
  have h1 : (0xFF800000 : Nat) = (2 ^ 9 - 1) <<< 23 := by decide
  have h2 : 0x800000 * (a / 0x800000) = (a >>> 23) <<< 23 := by
    rw [Nat.shiftLeft_eq, Nat.shiftRight_eq_div_pow]
    norm_num
    ring
  rw [h1, h2]
  apply Nat.eq_of_testBit_eq
  intro i
  simp only [Nat.testBit_and, Nat.testBit_shiftLeft, Nat.testBit_two_pow_sub_one,
    Nat.testBit_shiftRight]
  by_cases hi : 23 ≤ i
  · have e : 23 + (i - 23) = i := by omega
    by_cases hi2 : i < 32
    · have : i - 23 < 9 := by omega
      simp [hi, e, this]
    · have ha' : a < 2 ^ 32 := by
        have : U32 = 2 ^ 32 := by norm_num [U32]
        rw [← this]; exact ha
      have hz : a.testBit i = false :=
        Nat.testBit_lt_two_pow (lt_of_lt_of_le ha'
          (Nat.pow_le_pow_right (by norm_num) (show 32 ≤ i by omega)))
      simp [hi, e, hz]
  · simp [hi]

theorem sub_8MB_base (a : Nat) (ha : a < U32) : a - (a &&& 0xFF800000) = a % 0x800000 := by
  rw [and_8MB_base a ha]
  omega

theorem shift_8MB_base (a : Nat) (ha : a < U32) : (a &&& 0xFF800000) >>> 23 = a / 0x800000 := by
  rw [and_8MB_base a ha, Nat.shiftRight_eq_div_pow]
  norm_num

/-- C12: for every `(frame, offset)`, with `addr = 0x800000 * frame + offset` as a 32-bit
word and `base = addr & 0xFF800000`: if `base` is mapped to `B` in the virtual-to-card DAT
map, `DATKonaToCardFrmOffset` yields frame `B >> 23` and offset `addr - base`, an offset
below 8 MiB, and, `B` being an 8 MiB-aligned base, these denote the byte address
`B + (addr - base)`; if `base` is not mapped, `(frame, offset)` is returned unchanged. -/
theorem DATKonaToCardFrmOffset_translates (s : VDev) (frame offset : Nat) :
    (∀ B, s.mKonaToCardDAT.find (((0x800000 * frame + offset) % U32) &&& 0xFF800000) = some B →
      DATKonaToCardFrmOffset s frame offset
          = (true, B >>> 23,
              (0x800000 * frame + offset) % U32
                - (((0x800000 * frame + offset) % U32) &&& 0xFF800000))
        ∧ (0x800000 * frame + offset) % U32
            - (((0x800000 * frame + offset) % U32) &&& 0xFF800000) < 0x800000
        ∧ (B % 0x800000 = 0 →
          0x800000 * (DATKonaToCardFrmOffset s frame offset).2.1
              + (DATKonaToCardFrmOffset s frame offset).2.2
            = B + ((0x800000 * frame + offset) % U32
                - (((0x800000 * frame + offset) % U32) &&& 0xFF800000))))
    ∧ (s.mKonaToCardDAT.find (((0x800000 * frame + offset) % U32) &&& 0xFF800000) = none →
      DATKonaToCardFrmOffset s frame offset = (true, frame, offset)) := by
  have ha : (0x800000 * frame + offset) % U32 < U32 := Nat.mod_lt _ (by norm_num [U32])
  constructor
  · intro B hB
    have hval : DATKonaToCardFrmOffset s frame offset
        = (true, B >>> 23,
            (0x800000 * frame + offset) % U32
              - (((0x800000 * frame + offset) % U32) &&& 0xFF800000)) := by
      simp [DATKonaToCardFrmOffset, hB]
    refine ⟨hval, ?_, ?_⟩
    · rw [sub_8MB_base _ ha]
      exact Nat.mod_lt _ (by norm_num)
    · intro halign
      rw [hval]
      show 0x800000 * (B >>> 23) + _ = _
      rw [Nat.shiftRight_eq_div_pow]
      norm_num
      omega
  · intro h
    simp [DATKonaToCardFrmOffset, h]

/-- C12 on the sample tables, whose DAT maps the virtual base `0x1F800000` to the card's
`0x1E800000`: frame 63 with offset `0x1234` becomes frame 61 with offset `0x1234`, the
byte address `0x1E801234`. -/
theorem DATKonaToCardFrmOffset_translates_witness :
    DATKonaToCardFrmOffset sampleVDev 63 0x1234 = (true, 61, 0x1234)
    ∧ 0x800000 * (DATKonaToCardFrmOffset sampleVDev 63 0x1234).2.1
        + (DATKonaToCardFrmOffset sampleVDev 63 0x1234).2.2 = 0x1E801234 :=
  ⟨((DATKonaToCardFrmOffset_translates sampleVDev 63 0x1234).1 0x1E800000 (by decide)).1,
   ((DATKonaToCardFrmOffset_translates sampleVDev 63 0x1234).1 0x1E800000 (by decide)).2.2
     (by decide)⟩

/-- C11 (as stated, refuted): on the sample tables the pair `(0, 0x1F800004)` has its 8 MiB
base `0x1F800000` in the domain of the virtual-to-card DAT map, and translating it to the
card and back gives `(63, 4)`, the same byte address but not the same pair. -/
theorem DAT_roundtrip_fails_for_unnormalised_pair :
    ¬ (∀ (s : VDev) (frame offset : Nat),
        (s.mKonaToCardDAT.find (((0x800000 * frame + offset) % U32) &&& 0xFF800000)).isSome
          = true →
        DATCardToKonaFrmOffset s (DATKonaToCardFrmOffset s frame offset).2.1
          (DATKonaToCardFrmOffset s frame offset).2.2 = (true, frame, offset)) := by
  intro h
  have h1 := h sampleVDev 0 0x1F800004 (by decide)
  revert h1
  decide

/-- C11 (amended): for every `(frame, offset)` whose byte address
`addr = 0x800000 * frame + offset` (as a 32-bit word) has its 8 MiB base in the domain of
the virtual-to-card DAT map, the card base `B` it maps to being an 8 MiB-aligned 32-bit
address that the card-to-virtual map takes back to that base: `DATKonaToCardFrmOffset`
followed by `DATCardToKonaFrmOffset` yields the normalised pair
`(addr / 0x800000, addr mod 0x800000)` of the same address, which is the original pair
whenever `offset < 0x800000` and `frame < 512`. -/
theorem DAT_roundtrip (s : VDev) (frame offset B : Nat)
    (hK : s.mKonaToCardDAT.find (((0x800000 * frame + offset) % U32) &&& 0xFF800000) = some B)
    (hC : s.mCardToKonaDAT.find B = some (((0x800000 * frame + offset) % U32) &&& 0xFF800000))
    (halign : B % 0x800000 = 0) (hB : B < U32) :
    DATCardToKonaFrmOffset s (DATKonaToCardFrmOffset s frame offset).2.1
        (DATKonaToCardFrmOffset s frame offset).2.2
      = (true, ((0x800000 * frame + offset) % U32) / 0x800000,
          ((0x800000 * frame + offset) % U32) % 0x800000)
    ∧ (offset < 0x800000 → frame < 512 →
      DATCardToKonaFrmOffset s (DATKonaToCardFrmOffset s frame offset).2.1
        (DATKonaToCardFrmOffset s frame offset).2.2 = (true, frame, offset)) := by
  have ha : (0x800000 * frame + offset) % U32 < U32 := Nat.mod_lt _ (by norm_num [U32])
  have hU : U32 = 4294967296 := rfl
  have h1 : DATKonaToCardFrmOffset s frame offset
      = (true, B >>> 23, ((0x800000 * frame + offset) % U32) % 0x800000) := by
    simp only [DATKonaToCardFrmOffset, hK]
    rw [sub_8MB_base _ ha]
  have hback : (0x800000 * (B >>> 23) + ((0x800000 * frame + offset) % U32) % 0x800000) % U32
      = B + ((0x800000 * frame + offset) % U32) % 0x800000 := by
    rw [Nat.shiftRight_eq_div_pow]
    norm_num
    rw [hU] at hB ⊢
    omega
  have hsum : B + ((0x800000 * frame + offset) % U32) % 0x800000 < U32 := by
    rw [hU] at hB ⊢
    omega
  have hbase : (B + ((0x800000 * frame + offset) % U32) % 0x800000) &&& 0xFF800000 = B := by
    rw [and_8MB_base _ hsum]
    omega
  have h2 : DATCardToKonaFrmOffset s (B >>> 23) (((0x800000 * frame + offset) % U32) % 0x800000)
      = (true, ((0x800000 * frame + offset) % U32) / 0x800000,
          ((0x800000 * frame + offset) % U32) % 0x800000) := by
    simp only [DATCardToKonaFrmOffset, hback, hbase, hC]
    rw [shift_8MB_base _ ha]
    simp
  rw [h1]
  refine ⟨h2, ?_⟩
  intro ho hf
  show DATCardToKonaFrmOffset s (B >>> 23) (((0x800000 * frame + offset) % U32) % 0x800000) = _
  rw [h2]
  have e : (0x800000 * frame + offset) % U32 = 0x800000 * frame + offset := by
    apply Nat.mod_eq_of_lt
    rw [hU]
    omega
  rw [e]
  congr 2
  · omega
  · omega

/-- C11 (amended) on the sample tables: `(63, 0x1234)` goes to the card and comes back. -/
theorem DAT_roundtrip_witness :
    DATCardToKonaFrmOffset sampleVDev (DATKonaToCardFrmOffset sampleVDev 63 0x1234).2.1
      (DATKonaToCardFrmOffset sampleVDev 63 0x1234).2.2 = (true, 63, 0x1234) :=
  (DAT_roundtrip sampleVDev 63 0x1234 0x1E800000 (by decide) (by decide) (by decide)
    (by decide)).2 (by decide) (by decide)

/-! ## DMA transfers and messages -/

/-- C13: for every 32-bit `cardOffset` whose 8 MiB base has no entry in the virtual-to-card
DAT map, `NTV2DMATransferRemote` with frame 0 is exactly one call of the card's DMA
primitive with frame `cardOffset / 0x800000` and offset `cardOffset mod 0x800000`, the
engine, direction, buffer, segment parameters and synchronous flag being the caller's and
the byte count the buffer's. -/
theorem DMA_frame0_normalised (s : VDev) (card : Card) (inDMAEngine : Nat) (inRead : Bool)
    (inOutBuffer : NTV2Buffer)
    (inCardOffsetBytes inNumSegments inSegmentHostPitch inSegmentCardPitch : Nat)
    (inSync : Bool)
    (h32 : inCardOffsetBytes < U32)
    (hnone : s.mKonaToCardDAT.find (inCardOffsetBytes &&& 0xFF800000) = none) :
    NTV2DMATransferRemote s card inDMAEngine inRead 0 inOutBuffer inCardOffsetBytes
        inNumSegments inSegmentHostPitch inSegmentCardPitch inSync
      = card.DmaTransfer inDMAEngine inRead (inCardOffsetBytes / 0x800000) inOutBuffer
          (inCardOffsetBytes % 0x800000) inOutBuffer.GetByteCount inNumSegments
          inSegmentHostPitch inSegmentCardPitch inSync
    ∧ (NTV2DMATransferRemote s card inDMAEngine inRead 0 inOutBuffer inCardOffsetBytes
        inNumSegments inSegmentHostPitch inSegmentCardPitch inSync).2.calls
      = card.calls ++ [Call.DmaTransfer inDMAEngine inRead (inCardOffsetBytes / 0x800000)
          inOutBuffer (inCardOffsetBytes % 0x800000) inOutBuffer.GetByteCount inNumSegments
          inSegmentHostPitch inSegmentCardPitch inSync] := by
  have hU : U32 = 4294967296 := rfl
  have e : (0x800000 * 0 + inCardOffsetBytes) % U32 = inCardOffsetBytes := by
    simpa using Nat.mod_eq_of_lt h32
  have hdat : DATKonaToCardFrmOffset s 0 inCardOffsetBytes = (true, 0, inCardOffsetBytes) := by
    simp only [DATKonaToCardFrmOffset, e, hnone]
  have hsub : inCardOffsetBytes - (inCardOffsetBytes / 0x800000 * 0x800000) % U32
      = inCardOffsetBytes % 0x800000 := by
    rw [hU] at h32 ⊢
    omega
  have hval : NTV2DMATransferRemote s card inDMAEngine inRead 0 inOutBuffer inCardOffsetBytes
        inNumSegments inSegmentHostPitch inSegmentCardPitch inSync
      = card.DmaTransfer inDMAEngine inRead (inCardOffsetBytes / 0x800000) inOutBuffer
          (inCardOffsetBytes % 0x800000) inOutBuffer.GetByteCount inNumSegments
          inSegmentHostPitch inSegmentCardPitch inSync := by
    simp only [NTV2DMATransferRemote, hdat, if_true, hsub]
  exact ⟨hval, by rw [hval]; rfl⟩

/-- C13 on the sample tables, which have no DAT entry at `0x1800000`: frame 0 with card
offset `0x1A00000` reaches the card as frame 3 with offset `0x200000`. -/
theorem DMA_frame0_normalised_witness :
    (NTV2DMATransferRemote sampleVDev sampleCard 1 true 0 { bytes := [0, 0, 0, 0] } 0x1A00000
        1 0 0 true).2.calls
      = [Call.DmaTransfer 1 true 3 { bytes := [0, 0, 0, 0] } 0x200000 4 1 0 0 true] :=
  (DMA_frame0_normalised sampleVDev sampleCard 1 true { bytes := [0, 0, 0, 0] } 0x1A00000
    1 0 0 true (by decide) (by decide)).2

/-- C14: a message whose type is `NTV2_TYPE_GETREGS` or `NTV2_TYPE_SETREGS` is refused,
whatever its content and the card's state: `NTV2MessageRemote` returns false, the message
is as it was, and the card with its log of calls is as it was. -/
theorem batched_register_messages_refused (sdk : SDK) (s : VDev) (card : Card) (msg : Message)
    (htype : msg.GetType = sdk.NTV2_TYPE_GETREGS ∨ msg.GetType = sdk.NTV2_TYPE_SETREGS) :
    NTV2MessageRemote sdk s card (some msg) = (false, some msg, card) := by
  rcases htype with h | h
  · by_cases h2 : msg.GetType = sdk.NTV2_TYPE_SETREGS
    · simp only [NTV2MessageRemote, h2, if_true]
    · simp only [NTV2MessageRemote, h, if_true, ite_self]
  · simp only [NTV2MessageRemote, h, if_true]

/-- C14 on the sample tables: a batched read of four registers is refused and nothing is
sent to the card. -/
theorem batched_register_messages_refused_witness :
    NTV2MessageRemote sampleSDK sampleVDev sampleCard
        (some { fType := 0x72656752, acCrosspoint := 0, acAudioSystem := 0, acFrameTime := 0,
                rest := [3, 7, 4, 8] })
      = (false,
          some { fType := 0x72656752, acCrosspoint := 0, acAudioSystem := 0, acFrameTime := 0,
                 rest := [3, 7, 4, 8] },
          sampleCard) :=
  batched_register_messages_refused sampleSDK sampleVDev sampleCard
    { fType := 0x72656752, acCrosspoint := 0, acAudioSystem := 0, acFrameTime := 0,
      rest := [3, 7, 4, 8] } (Or.inl rfl)

/-! ## Single-register calls and the results of the card -/

theorem Card.ReadRegister_ok (card : Card) (hread : ∀ r, card.readOK r = true)
    (regNum outValue mask shift : Nat) :
    (card.ReadRegister regNum outValue mask shift).1 = true
    ∧ ∀ r, (card.ReadRegister regNum outValue mask shift).2.2.readOK r = true := by
  simp [Card.ReadRegister, hread]

theorem Card.WriteRegister_ok (card : Card) (hwrite : ∀ r, card.writeOK r = true)
    (regNum value mask shift : Nat) :
    (card.WriteRegister regNum value mask shift).1 = true
    ∧ ∀ r, (card.WriteRegister regNum value mask shift).2.writeOK r = true := by
  simp [Card.WriteRegister, hwrite]

theorem readXptLoop_ok (sdk : SDK) (s : VDev) (inMask : Nat) :
    ∀ (l : List RegInfo) (outVal : Nat) (card : Card), (∀ r, card.readOK r = true) →
      (∀ k ∈ l, k.mask &&& inMask = k.mask →
        (sdk.GetCrosspointSelectGroupRegisterInfo
          (VDevToCardInputXpt sdk s k.inputXpt)).isSome = true) →
      (readXptLoop sdk s inMask l outVal card).1 = true := by
  intro l
  induction l with
  | nil => intro outVal card _ _; rfl
  | cons h t ih =>
    intro outVal card hread hx
    have hxt : ∀ k ∈ t, k.mask &&& inMask = k.mask →
        (sdk.GetCrosspointSelectGroupRegisterInfo
          (VDevToCardInputXpt sdk s k.inputXpt)).isSome = true :=
      fun k hk => hx k (by simp [hk])
    by_cases hc : h.mask &&& inMask = h.mask
    · obtain ⟨p, hp⟩ := Option.isSome_iff_exists.mp (hx h (by simp) hc)
      obtain ⟨reg, ndx⟩ := p
      simp only [readXptLoop, ne_eq, hc, not_true_eq_false, if_false, hp]
      have h1 := Card.ReadRegister_ok card hread reg 0
        ({ mRegNum := reg, mNdx := ndx, mIXpt := VDevToCardInputXpt sdk s h.inputXpt } : RegInfo).mask
        ({ mRegNum := reg, mNdx := ndx, mIXpt := VDevToCardInputXpt sdk s h.inputXpt } : RegInfo).shift
      simp only [ReadCardRegister, RegInfo.regNum, h1.1, Bool.true_eq_false, if_false]
      exact ih _ _ h1.2 hxt
    · simp only [readXptLoop, ne_eq, hc, not_false_eq_true, if_true]
      exact ih outVal card hread hxt

theorem writeXptLoop_ok (sdk : SDK) (s : VDev) (inVal inMask : Nat) :
    ∀ (l : List RegInfo) (card : Card), (∀ r, card.writeOK r = true) →
      (∀ k ∈ l, k.mask &&& inMask = k.mask →
        (sdk.GetCrosspointSelectGroupRegisterInfo
          (VDevToCardInputXpt sdk s k.inputXpt)).isSome = true) →
      (writeXptLoop sdk s inVal inMask l card).1 = true := by
  intro l
  induction l with
  | nil => intro card _ _; rfl
  | cons h t ih =>
    intro card hwrite hx
    have hxt : ∀ k ∈ t, k.mask &&& inMask = k.mask →
        (sdk.GetCrosspointSelectGroupRegisterInfo
          (VDevToCardInputXpt sdk s k.inputXpt)).isSome = true :=
      fun k hk => hx k (by simp [hk])
    by_cases hc : h.mask &&& inMask = h.mask
    · obtain ⟨p, hp⟩ := Option.isSome_iff_exists.mp (hx h (by simp) hc)
      obtain ⟨reg, ndx⟩ := p
      simp only [writeXptLoop, ne_eq, hc, not_true_eq_false, if_false, hp]
      have h1 := Card.WriteRegister_ok card hwrite reg (VDevToCardOutputXpt sdk s (inVal + 0))
        ({ mRegNum := reg, mNdx := ndx, mIXpt := VDevToCardInputXpt sdk s h.inputXpt } : RegInfo).mask
        ({ mRegNum := reg, mNdx := ndx, mIXpt := VDevToCardInputXpt sdk s h.inputXpt } : RegInfo).shift
      simp only [WriteCardRegister, RegInfo.regNum, h1.1, Bool.true_eq_false, if_false]
      exact ih _ h1.2 hxt
    · simp only [writeXptLoop, ne_eq, hc, not_false_eq_true, if_true]
      exact ih card hwrite hxt

theorem readSDIXmitLoop_ok (sdk : SDK) (K : Regs) (s : VDev) (inRegNum inRegMask : Nat) :
    ∀ (l : List Nat) (OutValue : Nat) (card : Card), (∀ r, card.readOK r = true) →
      (readSDIXmitLoop sdk K s inRegNum inRegMask l OutValue card).1 = true := by
  intro l
  induction l with
  | nil => intro OutValue card _; rfl
  | cons i t ih =>
    intro OutValue card hread
    simp only [readSDIXmitLoop]
    split
    · split
      · rename_i cardChannel _
        have h1 := Card.ReadRegister_ok card hread inRegNum 0
          (idx (sSDIXmitEnableMasks K) cardChannel) (idx (sSDIXmitEnableShifts K) cardChannel)
        simp only [h1.1, Bool.true_eq_false, if_false]
        exact ih _ _ h1.2
      · exact ih _ _ hread
    · exact ih _ _ hread

theorem writeSDIXmitLoop_ok (sdk : SDK) (K : Regs) (s : VDev)
    (inRegNum VDRegVal inRegMask : Nat) :
    ∀ (l : List Nat) (card : Card), (∀ r, card.writeOK r = true) →
      (writeSDIXmitLoop sdk K s inRegNum VDRegVal inRegMask l card).1 = true := by
  intro l
  induction l with
  | nil => intro card _; rfl
  | cons i t ih =>
    intro card hwrite
    simp only [writeSDIXmitLoop]
    split
    · split
      · rename_i cardChannel _
        have h1 := Card.WriteRegister_ok card hwrite inRegNum
          ((VDRegVal &&& idx (sSDIXmitEnableMasks K) i) >>> idx (sSDIXmitEnableShifts K) i)
          (idx (sSDIXmitEnableMasks K) cardChannel) (idx (sSDIXmitEnableShifts K) cardChannel)
        simp only [h1.1, Bool.true_eq_false, if_false]
        exact ih _ h1.2
      · exact ih _ hwrite
    · exact ih _ hwrite

theorem HandleReadAnc_ok (s : VDev) (card : Card) (hread : ∀ r, card.readOK r = true)
    (regNum outValue mask shift : Nat) :
    (HandleReadAncExt s card regNum outValue mask shift).1 = true
    ∧ (HandleReadAncIns s card regNum outValue mask shift).1 = true := by
  have hr := fun r o m sh => (Card.ReadRegister_ok card hread r o m sh).1
  constructor
  · unfold HandleReadAncExt
    simp only []
    split_ifs <;> first | exact hr _ _ _ _ | rfl
  · unfold HandleReadAncIns
    simp only []
    split_ifs <;> first | exact hr _ _ _ _ | rfl

theorem HandleReadXptSelectReg_ok (sdk : SDK) (s : VDev) (card : Card)
    (regNum outValue mask shift : Nat) (hread : ∀ r, card.readOK r = true)
    (hxpt : ∀ k ∈ s.mVDevXptRegInfos.equalRange regNum, k.mask &&& mask = k.mask →
      (sdk.GetCrosspointSelectGroupRegisterInfo
        (VDevToCardInputXpt sdk s k.inputXpt)).isSome = true) :
    (HandleReadXptSelectReg sdk s card regNum outValue mask shift).1 = true := by
  have hr := fun r o m sh => (Card.ReadRegister_ok card hread r o m sh).1
  have hl := readXptLoop_ok sdk s mask _ outValue card hread hxpt
  unfold HandleReadXptSelectReg
  simp only [hl, Bool.true_eq_false, if_false]
  split_ifs <;> first | exact hr _ _ _ _ | rfl

theorem readPCMControl_ok (K : Regs) (s : VDev) (card : Card)
    (regNum outValue mask shift : Nat) (hread : ∀ r, card.readOK r = true) :
    (readPCMControl K s card regNum outValue mask shift).1 = true := by
  have hr := fun r o m sh => (Card.ReadRegister_ok card hread r o m sh).1
  unfold readPCMControl
  simp only [hr, Bool.true_eq_false, if_false]
  split_ifs <;> first | exact hr _ _ _ _ | rfl

theorem HandleReadGlobalControl_ok (sdk : SDK) (K : Regs) (s : VDev) (card : Card)
    (regNum outValue mask shift : Nat) (hread : ∀ r, card.readOK r = true)
    (hreg : regNum = K.kRegGlobalControl ∨ regNum = K.kRegGlobalControl2) :
    (HandleReadGlobalControl sdk K s card regNum outValue mask shift).1 = true := by
  have hr := fun r o m sh => (Card.ReadRegister_ok card hread r o m sh).1
  unfold HandleReadGlobalControl
  simp only [hr, Bool.true_eq_false, if_false]
  by_cases h1 : regNum = K.kRegGlobalControl
  · rw [if_pos h1]
  · rw [if_neg h1, if_pos (hreg.resolve_left h1)]

theorem HandleReadChannelControl_ok (K : Regs) (s : VDev) (card : Card)
    (regNum outValue mask shift : Nat) (hread : ∀ r, card.readOK r = true) :
    (HandleReadChannelControl K s card regNum outValue mask shift).1 = true := by
  have hr := fun r o m sh => (Card.ReadRegister_ok card hread r o m sh).1
  have hr2 : ∀ a b c d e f g h,
      ((card.ReadRegister a b c d).2.2.ReadRegister e f g h).1 = true :=
    fun a b c d e f g h =>
      (Card.ReadRegister_ok _ (Card.ReadRegister_ok card hread a b c d).2 e f g h).1
  unfold HandleReadChannelControl
  simp only [hr, hr2, Bool.true_eq_false, if_false]
  split_ifs <;> rfl

theorem HandleReadSDITransmitControl_ok (sdk : SDK) (K : Regs) (s : VDev) (card : Card)
    (regNum outValue mask shift : Nat) (hread : ∀ r, card.readOK r = true) :
    (HandleReadSDITransmitControl sdk K s card regNum outValue mask shift).1 = true := by
  have hl := readSDIXmitLoop_ok sdk K s regNum mask (List.range 8) outValue card hread
  unfold HandleReadSDITransmitControl
  simp only [hl, Bool.true_eq_false, if_false]
  split_ifs <;> rfl

theorem ite_ok {α : Type} (P : α → Prop) (c : Prop) [Decidable c] (a b : α)
    (ha : c → P a) (hb : ¬ c → P b) : P (if c then a else b) := by
  by_cases h : c
  · rw [if_pos h]; exact ha h
  · rw [if_neg h]; exact hb h

theorem NTV2ReadRegisterRemote_ok (sdk : SDK) (K : Regs) (s : VDev) (card : Card)
    (regNum outValue mask shift : Nat)
    (hread : ∀ r, card.readOK r = true)
    (hxpt : ∀ k ∈ s.mVDevXptRegInfos.equalRange regNum, k.mask &&& mask = k.mask →
      (sdk.GetCrosspointSelectGroupRegisterInfo
        (VDevToCardInputXpt sdk s k.inputXpt)).isSome = true) :
    (NTV2ReadRegisterRemote sdk K s card regNum outValue mask shift).1 = true := by
  have hr := fun r o m sh => (Card.ReadRegister_ok card hread r o m sh).1
  suffices key : ∀ (P : Bool × Nat × Card → Prop), (∀ x, x.1 = true → P x) →
      P (NTV2ReadRegisterRemote sdk K s card regNum outValue mask shift) from
    key (fun x => x.1 = true) (fun _ h => h)
  intro P hP
  unfold NTV2ReadRegisterRemote
  simp only []
  repeat' (with_reducible refine ite_ok P _ _ _ (fun _ => ?_) (fun _ => ?_))
  all_goals apply hP
  all_goals first
    | exact hr _ _ _ _
    | rfl
    | (exfalso
       rename_i h
       rw [hr] at h
       exact Bool.noConfusion h)
    | exact (HandleReadAnc_ok s card hread _ _ _ _).1
    | exact (HandleReadAnc_ok s card hread _ _ _ _).2
    | exact HandleReadXptSelectReg_ok sdk s card _ _ _ _ hread hxpt
    | exact readPCMControl_ok K s card _ _ _ _ hread
    | exact HandleReadGlobalControl_ok sdk K s card _ _ _ _ hread (by assumption)
    | exact HandleReadChannelControl_ok K s card _ _ _ _ hread
    | exact HandleReadSDITransmitControl_ok sdk K s card _ _ _ _ hread

theorem HandleWriteAnc_ok (s : VDev) (card : Card) (hwrite : ∀ r, card.writeOK r = true)
    (regNum value mask shift : Nat) :
    (HandleWriteAncExt s card regNum value mask shift).1 = true
    ∧ (HandleWriteAncIns s card regNum value mask shift).1 = true := by
  have hw := fun r v m sh => (Card.WriteRegister_ok card hwrite r v m sh).1
  constructor
  · unfold HandleWriteAncExt
    simp only []
    split_ifs <;> first | exact hw _ _ _ _ | rfl
  · unfold HandleWriteAncIns
    simp only []
    split_ifs <;> first | exact hw _ _ _ _ | rfl

theorem HandleWriteXptSelectReg_ok (sdk : SDK) (s : VDev) (card : Card)
    (regNum value mask shift : Nat) (hwrite : ∀ r, card.writeOK r = true)
    (hxpt : ∀ k ∈ s.mVDevXptRegInfos.equalRange regNum, k.mask &&& mask = k.mask →
      (sdk.GetCrosspointSelectGroupRegisterInfo
        (VDevToCardInputXpt sdk s k.inputXpt)).isSome = true) :
    (HandleWriteXptSelectReg sdk s card regNum value mask shift).1 = true := by
  have hw := fun r v m sh => (Card.WriteRegister_ok card hwrite r v m sh).1
  have hl := writeXptLoop_ok sdk s value mask _ card hwrite hxpt
  unfold HandleWriteXptSelectReg
  split_ifs <;> first | exact hw _ _ _ _ | exact hl

theorem writePCMControl_ok (K : Regs) (s : VDev) (card : Card)
    (regNum value mask shift : Nat) (hwrite : ∀ r, card.writeOK r = true)
    (hpcm : card.pcmOK = true)
    (hfield : KonaToCardAudSys s NTV2_AUDIOSYSTEM_1 = NTV2_AUDIOSYSTEM_1
      ∨ (pcmPairOf K 1 mask shift (List.range 8)).isSome = true
      ∨ (pcmPairOf K 2 mask shift (List.range 8)).isSome = true) :
    (writePCMControl K s card regNum value mask shift).1 = true := by
  have hw := fun r v m sh => (Card.WriteRegister_ok card hwrite r v m sh).1
  unfold writePCMControl
  simp only []
  by_cases h0 : KonaToCardAudSys s NTV2_AUDIOSYSTEM_1 = NTV2_AUDIOSYSTEM_1
  · rw [if_pos h0]
    exact hw _ _ _ _
  · rw [if_neg h0]
    cases h1 : pcmPairOf K 1 mask shift (List.range 8) with
    | some p => exact hpcm
    | none =>
      cases h2 : pcmPairOf K 2 mask shift (List.range 8) with
      | some p => exact hpcm
      | none =>
        rcases hfield with h | h | h
        · exact absurd h h0
        · rw [h1] at h; exact absurd h (by decide)
        · rw [h2] at h; exact absurd h (by decide)

theorem HandleWriteSDITransmitControl_ok (sdk : SDK) (K : Regs) (s : VDev) (card : Card)
    (regNum value mask shift : Nat) (hwrite : ∀ r, card.writeOK r = true) :
    (HandleWriteSDITransmitControl sdk K s card regNum value mask shift).1 = true := by
  unfold HandleWriteSDITransmitControl
  simp only []
  split_ifs <;>
    first
    | rfl
    | exact writeSDIXmitLoop_ok sdk K s regNum _ mask (List.range 8) card hwrite

theorem NTV2WriteRegisterRemote_ok (sdk : SDK) (K : Regs) (s : VDev) (card : Card)
    (regNum value mask shift : Nat)
    (hwrite : ∀ r, card.writeOK r = true) (hpcm : card.pcmOK = true)
    (hxpt : ∀ k ∈ s.mVDevXptRegInfos.equalRange regNum, k.mask &&& mask = k.mask →
      (sdk.GetCrosspointSelectGroupRegisterInfo
        (VDevToCardInputXpt sdk s k.inputXpt)).isSome = true)
    (hfield : regNum = K.kRegPCMControl4321 →
      KonaToCardAudSys s NTV2_AUDIOSYSTEM_1 = NTV2_AUDIOSYSTEM_1
      ∨ (pcmPairOf K 1 mask shift (List.range 8)).isSome = true
      ∨ (pcmPairOf K 2 mask shift (List.range 8)).isSome = true) :
    (NTV2WriteRegisterRemote sdk K s card regNum value mask shift).1 = true := by
  have hw := fun r v m sh => (Card.WriteRegister_ok card hwrite r v m sh).1
  suffices key : ∀ (P : Bool × Card → Prop), (∀ x, x.1 = true → P x) →
      P (NTV2WriteRegisterRemote sdk K s card regNum value mask shift) from
    key (fun x => x.1 = true) (fun _ h => h)
  intro P hP
  unfold NTV2WriteRegisterRemote
  simp only []
  repeat' (with_reducible refine ite_ok P _ _ _ (fun _ => ?_) (fun _ => ?_))
  all_goals apply hP
  all_goals first
    | exact hw _ _ _ _
    | exact (HandleWriteAnc_ok s card hwrite _ _ _ _).1
    | exact (HandleWriteAnc_ok s card hwrite _ _ _ _).2
    | exact HandleWriteXptSelectReg_ok sdk s card _ _ _ _ hwrite hxpt
    | exact writePCMControl_ok K s card _ _ _ _ hwrite hpcm (hfield (by assumption))
    | exact HandleWriteSDITransmitControl_ok sdk K s card _ _ _ _ hwrite

/-- C15 (as stated, refuted): on the sample tables, where virtual audio system 1 is the
card's audio system 3, a write of `kRegPCMControl4321` (register 408) with the whole-register
mask returns false although the card would make every call succeed; no call reaches the
card at all. -/
theorem single_register_write_fails_without_SDK_failure :
    (∀ r, sampleCard.readOK r = true) ∧ (∀ r, sampleCard.writeOK r = true)
    ∧ sampleCard.pcmOK = true
    ∧ (NTV2WriteRegisterRemote sampleSDK sampleRegs sampleVDev sampleCard 408 1 0xFFFFFFFF 0).1
        = false
    ∧ (NTV2WriteRegisterRemote sampleSDK sampleRegs sampleVDev sampleCard 408 1 0xFFFFFFFF 0).2.calls
        = [] :=
  ⟨fun _ => rfl, fun _ => rfl, rfl, by decide, by decide⟩

/-- C15 (amended): for every register number, value, mask and shift, if the card makes every
register read, register write and `SetAudioPCMControl` call succeed, and the register
expert resolves the physical crosspoint of every crosspoint-select field the mask covers,
then `NTV2ReadRegisterRemote` returns true, and `NTV2WriteRegisterRemote` returns true
unless the register is `kRegPCMControl4321`, virtual audio system 1 is not on the card's
audio system 1, and the mask and shift are those of none of the sixteen channel-pair
fields. -/
theorem single_register_calls_succeed (sdk : SDK) (K : Regs) (s : VDev) (card : Card)
    (regNum value outValue mask shift : Nat)
    (hread : ∀ r, card.readOK r = true)
    (hwrite : ∀ r, card.writeOK r = true) (hpcm : card.pcmOK = true)
    (hxpt : ∀ k ∈ s.mVDevXptRegInfos.equalRange regNum, k.mask &&& mask = k.mask →
      (sdk.GetCrosspointSelectGroupRegisterInfo
        (VDevToCardInputXpt sdk s k.inputXpt)).isSome = true) :
    (NTV2ReadRegisterRemote sdk K s card regNum outValue mask shift).1 = true
    ∧ ((regNum = K.kRegPCMControl4321 →
        KonaToCardAudSys s NTV2_AUDIOSYSTEM_1 = NTV2_AUDIOSYSTEM_1
        ∨ (pcmPairOf K 1 mask shift (List.range 8)).isSome = true
        ∨ (pcmPairOf K 2 mask shift (List.range 8)).isSome = true) →
      (NTV2WriteRegisterRemote sdk K s card regNum value mask shift).1 = true) :=
  ⟨NTV2ReadRegisterRemote_ok sdk K s card regNum outValue mask shift hread hxpt,
   fun hfield => NTV2WriteRegisterRemote_ok sdk K s card regNum value mask shift hwrite hpcm
     hxpt hfield⟩

/-- C15 (amended) on the sample tables: a read of `kRegPCMControl4321` (register 408) with
the whole-register mask returns true, and so does a write of it with the mask and shift of
the field of audio system 1, channels 1 and 2. -/
theorem single_register_calls_succeed_witness :
    (NTV2ReadRegisterRemote sampleSDK sampleRegs sampleVDev sampleCard 408 0
        (sampleRegs.kRegMaskPCMControl 1 0) (sampleRegs.kRegShiftPCMControl 1 0)).1 = true
    ∧ (NTV2WriteRegisterRemote sampleSDK sampleRegs sampleVDev sampleCard 408 1
        (sampleRegs.kRegMaskPCMControl 1 0) (sampleRegs.kRegShiftPCMControl 1 0)).1 = true :=
  ⟨(single_register_calls_succeed sampleSDK sampleRegs sampleVDev sampleCard 408 1 0
      (sampleRegs.kRegMaskPCMControl 1 0) (sampleRegs.kRegShiftPCMControl 1 0)
      (fun _ => rfl) (fun _ => rfl) rfl (by decide)).1,
   (single_register_calls_succeed sampleSDK sampleRegs sampleVDev sampleCard 408 1 0
      (sampleRegs.kRegMaskPCMControl 1 0) (sampleRegs.kRegShiftPCMControl 1 0)
      (fun _ => rfl) (fun _ => rfl) rfl (by decide)).2 (fun _ => Or.inr (Or.inl (by decide)))⟩

/-! ## The channel, audio-system and autocirculate maps -/

theorem widgetLoop_fst_le (sdk : SDK) :
    ∀ (l : List MappedWidget) (st : Nat × NMap × NMap),
      (widgetLoop sdk l st).1 ≤ st.1
      ∧ ∀ w ∈ l, sdk.WidgetIDToType w.deviceWidgetId = sdk.NTV2WidgetType_FrameStore →
          (widgetLoop sdk l st).1 ≤ sdk.WidgetIDToChannel w.deviceWidgetId := by
  intro l
  induction l with
  | nil => intro st; exact ⟨le_refl _, fun w hw => absurd hw (List.not_mem_nil w)⟩
  | cons h t ih =>
    intro st
    obtain ⟨ch, v2c, c2v⟩ := st
    simp only [widgetLoop]
    have ih1 := ih ((if sdk.WidgetIDToType h.deviceWidgetId = sdk.NTV2WidgetType_FrameStore then
        if sdk.WidgetIDToChannel h.deviceWidgetId < ch then sdk.WidgetIDToChannel h.deviceWidgetId
        else ch
      else ch), v2c.insert h.virtualWidgetId h.deviceWidgetId,
      c2v.insert h.deviceWidgetId h.virtualWidgetId)
    refine ⟨?_, ?_⟩
    · refine le_trans ih1.1 ?_
      show (if _ then (if _ then _ else _) else _) ≤ ch
      split_ifs <;> omega
    · intro w hw hfs
      rcases List.mem_cons.mp hw with rfl | hw
      · refine le_trans ih1.1 ?_
        show (if _ then (if _ then _ else _) else _) ≤ _
        rw [if_pos hfs]
        split_ifs <;> omega
      · exact ih1.2 w hw hfs

theorem SetupXptMappings_keep (sdk : SDK) (s : VDev) :
    ((SetupOutputXptMapping sdk s).2.mChannel = s.mChannel
      ∧ (SetupOutputXptMapping sdk s).2.mCardToVDevChls = s.mCardToVDevChls
      ∧ (SetupOutputXptMapping sdk s).2.mVDevToCardChls = s.mVDevToCardChls
      ∧ (SetupOutputXptMapping sdk s).2.mCardToKonaACXpts = s.mCardToKonaACXpts
      ∧ (SetupOutputXptMapping sdk s).2.mKonaToCardACXpts = s.mKonaToCardACXpts
      ∧ (SetupOutputXptMapping sdk s).2.mCardToKonaAudSys = s.mCardToKonaAudSys
      ∧ (SetupOutputXptMapping sdk s).2.mKonaToCardAudSys = s.mKonaToCardAudSys)
    ∧ ((SetupInputXptMapping sdk s).2.mChannel = s.mChannel
      ∧ (SetupInputXptMapping sdk s).2.mCardToVDevChls = s.mCardToVDevChls
      ∧ (SetupInputXptMapping sdk s).2.mVDevToCardChls = s.mVDevToCardChls
      ∧ (SetupInputXptMapping sdk s).2.mCardToKonaACXpts = s.mCardToKonaACXpts
      ∧ (SetupInputXptMapping sdk s).2.mKonaToCardACXpts = s.mKonaToCardACXpts
      ∧ (SetupInputXptMapping sdk s).2.mCardToKonaAudSys = s.mCardToKonaAudSys
      ∧ (SetupInputXptMapping sdk s).2.mKonaToCardAudSys = s.mKonaToCardAudSys)
    ∧ ((SetupXptSelectRegMapping sdk s).2.mChannel = s.mChannel
      ∧ (SetupXptSelectRegMapping sdk s).2.mCardToVDevChls = s.mCardToVDevChls
      ∧ (SetupXptSelectRegMapping sdk s).2.mVDevToCardChls = s.mVDevToCardChls
      ∧ (SetupXptSelectRegMapping sdk s).2.mCardToKonaACXpts = s.mCardToKonaACXpts
      ∧ (SetupXptSelectRegMapping sdk s).2.mKonaToCardACXpts = s.mKonaToCardACXpts
      ∧ (SetupXptSelectRegMapping sdk s).2.mCardToKonaAudSys = s.mCardToKonaAudSys
      ∧ (SetupXptSelectRegMapping sdk s).2.mKonaToCardAudSys = s.mKonaToCardAudSys) := by
  refine ⟨?_, ?_, ?_⟩
  · unfold SetupOutputXptMapping
    simp only []
    split_ifs <;> exact ⟨rfl, rfl, rfl, rfl, rfl, rfl, rfl⟩
  · unfold SetupInputXptMapping
    simp only []
    split_ifs <;> exact ⟨rfl, rfl, rfl, rfl, rfl, rfl, rfl⟩
  · exact ⟨rfl, rfl, rfl, rfl, rfl, rfl, rfl⟩

theorem channelLoop_single (sdk : SDK) (card : Card) (a b : Nat) (d1 d2 : NMap) :
    (channelLoop sdk card [(a, b)] ([], [], [], [], d1, d2)).1
        = (NMap.insert [] (sdk.GetNTV2CrosspointInputForIndex a)
            (sdk.GetNTV2CrosspointInputForIndex b)).insert
            (sdk.GetNTV2CrosspointChannelForIndex a) (sdk.GetNTV2CrosspointChannelForIndex b)
    ∧ (channelLoop sdk card [(a, b)] ([], [], [], [], d1, d2)).2.1
        = (NMap.insert [] (sdk.GetNTV2CrosspointInputForIndex b)
            (sdk.GetNTV2CrosspointInputForIndex a)).insert
            (sdk.GetNTV2CrosspointChannelForIndex b) (sdk.GetNTV2CrosspointChannelForIndex a)
    ∧ (channelLoop sdk card [(a, b)] ([], [], [], [], d1, d2)).2.2.1
        = NMap.insert [] (sdk.NTV2ChannelToAudioSystem a) (sdk.NTV2ChannelToAudioSystem b)
    ∧ (channelLoop sdk card [(a, b)] ([], [], [], [], d1, d2)).2.2.2.1
        = NMap.insert [] (sdk.NTV2ChannelToAudioSystem b) (sdk.NTV2ChannelToAudioSystem a) := by
  simp only [channelLoop]
  split
  · exact ⟨rfl, rfl, rfl, rfl⟩
  · split
    · exact ⟨rfl, rfl, rfl, rfl⟩
    · split_ifs <;> exact ⟨rfl, rfl, rfl, rfl⟩

/-- What a successful `SetupMapping` on freshly constructed tables leaves in the channel,
autocirculate and audio-system maps: the single pair of the anchor channel and
`NTV2_CHANNEL1`. -/
theorem SetupMapping_channel_tables (sdk : SDK) (card : Card) (mw : List MappedWidget)
    (id : Nat) (hok : (SetupMapping sdk card mw (VDev.constructed id)).1 = true) :
    (SetupMapping sdk card mw (VDev.constructed id)).2.mChannel
        = (SetupWidgetMapping sdk mw (VDev.constructed id)).2.mChannel
    ∧ (SetupMapping sdk card mw (VDev.constructed id)).2.mCardToVDevChls
        = [((SetupWidgetMapping sdk mw (VDev.constructed id)).2.mChannel, NTV2_CHANNEL1)]
    ∧ (SetupMapping sdk card mw (VDev.constructed id)).2.mVDevToCardChls
        = [(NTV2_CHANNEL1, (SetupWidgetMapping sdk mw (VDev.constructed id)).2.mChannel)]
    ∧ (SetupMapping sdk card mw (VDev.constructed id)).2.mCardToKonaACXpts
        = (NMap.insert [] (sdk.GetNTV2CrosspointInputForIndex
              (SetupWidgetMapping sdk mw (VDev.constructed id)).2.mChannel)
            (sdk.GetNTV2CrosspointInputForIndex NTV2_CHANNEL1)).insert
            (sdk.GetNTV2CrosspointChannelForIndex
              (SetupWidgetMapping sdk mw (VDev.constructed id)).2.mChannel)
            (sdk.GetNTV2CrosspointChannelForIndex NTV2_CHANNEL1)
    ∧ (SetupMapping sdk card mw (VDev.constructed id)).2.mKonaToCardACXpts
        = (NMap.insert [] (sdk.GetNTV2CrosspointInputForIndex NTV2_CHANNEL1)
            (sdk.GetNTV2CrosspointInputForIndex
              (SetupWidgetMapping sdk mw (VDev.constructed id)).2.mChannel)).insert
            (sdk.GetNTV2CrosspointChannelForIndex NTV2_CHANNEL1)
            (sdk.GetNTV2CrosspointChannelForIndex
              (SetupWidgetMapping sdk mw (VDev.constructed id)).2.mChannel)
    ∧ (SetupMapping sdk card mw (VDev.constructed id)).2.mCardToKonaAudSys
        = NMap.insert [] (sdk.NTV2ChannelToAudioSystem
            (SetupWidgetMapping sdk mw (VDev.constructed id)).2.mChannel)
          (sdk.NTV2ChannelToAudioSystem NTV2_CHANNEL1)
    ∧ (SetupMapping sdk card mw (VDev.constructed id)).2.mKonaToCardAudSys
        = NMap.insert [] (sdk.NTV2ChannelToAudioSystem NTV2_CHANNEL1)
          (sdk.NTV2ChannelToAudioSystem
            (SetupWidgetMapping sdk mw (VDev.constructed id)).2.mChannel) := by
  have hw : (SetupWidgetMapping sdk mw (VDev.constructed id)).2.mCardToVDevChls
        = [((SetupWidgetMapping sdk mw (VDev.constructed id)).2.mChannel, NTV2_CHANNEL1)]
      ∧ (SetupWidgetMapping sdk mw (VDev.constructed id)).2.mVDevToCardChls
        = [(NTV2_CHANNEL1, (SetupWidgetMapping sdk mw (VDev.constructed id)).2.mChannel)]
      ∧ (SetupWidgetMapping sdk mw (VDev.constructed id)).2.mCardToKonaACXpts = []
      ∧ (SetupWidgetMapping sdk mw (VDev.constructed id)).2.mKonaToCardACXpts = []
      ∧ (SetupWidgetMapping sdk mw (VDev.constructed id)).2.mCardToKonaAudSys = []
      ∧ (SetupWidgetMapping sdk mw (VDev.constructed id)).2.mKonaToCardAudSys = [] := by
    unfold SetupWidgetMapping
    simp only []
    split_ifs <;> exact ⟨rfl, rfl, rfl, rfl, rfl, rfl⟩
  generalize ha : (SetupWidgetMapping sdk mw (VDev.constructed id)).2.mChannel = a at hw ⊢
  revert hok
  unfold SetupMapping
  simp only []
  generalize SetupWidgetMapping sdk mw (VDev.constructed id) = r1 at hw ha ⊢
  obtain ⟨w1, w2, w3, w4, w5, w6⟩ := hw
  obtain ⟨o1, o2, o3, o4, o5, o6, o7⟩ := (SetupXptMappings_keep sdk r1.2).1
  generalize SetupOutputXptMapping sdk r1.2 = r2 at o1 o2 o3 o4 o5 o6 o7 ⊢
  obtain ⟨i1, i2, i3, i4, i5, i6, i7⟩ := (SetupXptMappings_keep sdk r2.2).2.1
  generalize SetupInputXptMapping sdk r2.2 = r3 at i1 i2 i3 i4 i5 i6 i7 ⊢
  obtain ⟨x1, x2, x3, x4, x5, x6, x7⟩ := (SetupXptMappings_keep sdk r3.2).2.2
  generalize SetupXptSelectRegMapping sdk r3.2 = r4 at x1 x2 x3 x4 x5 x6 x7 ⊢
  intro hok
  by_cases h1 : r1.1 = false
  · rw [if_pos h1] at hok
    exact Bool.noConfusion hok
  rw [if_neg h1] at hok ⊢
  by_cases h2 : r2.1 = false
  · rw [if_pos h2] at hok
    exact Bool.noConfusion hok
  rw [if_neg h2] at hok ⊢
  by_cases h3 : r3.1 = false
  · rw [if_pos h3] at hok
    exact Bool.noConfusion hok
  rw [if_neg h3] at hok ⊢
  by_cases h4 : r4.1 = false
  · rw [if_pos h4] at hok
    exact Bool.noConfusion hok
  rw [if_neg h4]
  have c1 : r4.2.mChannel = a := by rw [x1, i1, o1, ha]
  have c2 : r4.2.mCardToVDevChls = [(a, NTV2_CHANNEL1)] := by rw [x2, i2, o2, w1]
  have c3 : r4.2.mVDevToCardChls = [(NTV2_CHANNEL1, a)] := by rw [x3, i3, o3, w2]
  have c4 : r4.2.mCardToKonaACXpts = [] := by rw [x4, i4, o4, w3]
  have c5 : r4.2.mKonaToCardACXpts = [] := by rw [x5, i5, o5, w4]
  have c6 : r4.2.mCardToKonaAudSys = [] := by rw [x6, i6, o6, w5]
  have c7 : r4.2.mKonaToCardAudSys = [] := by rw [x7, i7, o7, w6]
  have hl := channelLoop_single sdk card a NTV2_CHANNEL1 r4.2.mCardToKonaDAT r4.2.mKonaToCardDAT
  refine ⟨c1, c2, c3, ?_, ?_, ?_, ?_⟩
  · simp only [c2, c4, c5, c6, c7]
    exact hl.1
  · simp only [c2, c4, c5, c6, c7]
    exact hl.2.1
  · simp only [c2, c4, c5, c6, c7]
    exact hl.2.2.1
  · simp only [c2, c4, c5, c6, c7]
    exact hl.2.2.2

theorem NTV2StringSet.mem_insert (x key : String) :
    ∀ l : List String, x ∈ NTV2StringSet.insert l key ↔ x = key ∨ x ∈ l := by
  intro l
  induction l with
  | nil => simp [NTV2StringSet.insert]
  | cons k rest ih =>
    simp only [NTV2StringSet.insert]
    split_ifs with h1 h2
    · simp
    · subst h2
      simp
    · simp only [List.mem_cons, ih]
      tauto

theorem NTV2Dictionary.mem_foldl_insert (x : String) :
    ∀ (d : NTV2Dictionary) (acc : List String),
      x ∈ d.foldl (fun acc e => NTV2StringSet.insert acc e.1) acc
        ↔ x ∈ acc ∨ NTV2Dictionary.hasKey d x = true := by
  intro d
  induction d with
  | nil => intro acc; simp [NTV2Dictionary.hasKey]
  | cons e rest ih =>
    intro acc
    simp only [List.foldl_cons, ih, NTV2StringSet.mem_insert]
    have hk : NTV2Dictionary.hasKey (e :: rest) x
        = (decide (e.1 = x) || NTV2Dictionary.hasKey rest x) := by
      simp [NTV2Dictionary.hasKey]
    rw [hk]
    by_cases hx : e.1 = x
    · simp [hx]
    · have hx' : ¬ x = e.1 := fun h => hx h.symm
      simp [hx, hx']

theorem NTV2Dictionary.mem_keys (d : NTV2Dictionary) (x : String) :
    x ∈ d.keys ↔ d.hasKey x = true := by
  unfold NTV2Dictionary.keys
  rw [NTV2Dictionary.mem_foldl_insert]
  simp

/-- The loop over the keys touches nothing but the three recorded parameters. -/
theorem connectParamLoop_keeps :
    ∀ (l : List String) (t : Translator),
      (connectParamLoop l t).2.mConnectParams = t.mConnectParams
      ∧ (connectParamLoop l t).2.mCardIsOpen = t.mCardIsOpen
      ∧ (connectParamLoop l t).2.mCard = t.mCard
      ∧ (connectParamLoop l t).2.tables = t.tables := by
  intro l
  induction l with
  | nil => intro t; exact ⟨rfl, rfl, rfl, rfl⟩
  | cons key rest ih =>
    intro t
    simp only [connectParamLoop]
    split_ifs <;>
      first
      | exact ⟨rfl, rfl, rfl, rfl⟩
      | exact ih _

/-- A pass of the loop that succeeds has seen a non-empty value for each of the three
required keys it met. -/
theorem connectParamLoop_true_values :
    ∀ (l : List String) (t : Translator), (connectParamLoop l t).1 = true →
      ∀ key ∈ l, key = "cp2configpath" ∨ key = "devicesn" ∨ key = "vdid" →
        (t.mConnectParams.valueForKey key).isEmpty = false := by
  intro l
  induction l with
  | nil => intro t _ key hk; exact absurd hk (List.not_mem_nil key)
  | cons k rest ih =>
    intro t hok key hmem hreq
    simp only [connectParamLoop] at hok
    rcases List.mem_cons.mp hmem with rfl | hmem
    · rcases hreq with h | h | h
      · subst h
        simp only [if_true] at hok
        by_cases hv : (t.mConnectParams.valueForKey "cp2configpath").isEmpty = true
        · rw [if_pos hv] at hok
          exact Bool.noConfusion hok
        · simpa using hv
      · subst h
        simp only [show ¬ ("devicesn" = "cp2configpath") by decide, if_false, if_true] at hok
        by_cases hv : (t.mConnectParams.valueForKey "devicesn").isEmpty = true
        · rw [if_pos hv] at hok
          exact Bool.noConfusion hok
        · simpa using hv
      · subst h
        simp only [show ¬ ("vdid" = "cp2configpath") by decide,
          show ¬ ("vdid" = "devicesn") by decide, if_false, if_true] at hok
        by_cases hv : (t.mConnectParams.valueForKey "vdid").isEmpty = true
        · rw [if_pos hv] at hok
          exact Bool.noConfusion hok
        · simpa using hv
    · split_ifs at hok <;>
        first
        | exact Bool.noConfusion hok
        | exact ih _ hok key hmem hreq

/-- After a pass of the loop that succeeds, each of the three recorded parameters is
non-empty if it was so before or its key was met. -/
theorem connectParamLoop_true_members :
    ∀ (l : List String) (t : Translator), (connectParamLoop l t).1 = true →
      ((t.mCP2config.isEmpty = false ∨ "cp2configpath" ∈ l) →
        (connectParamLoop l t).2.mCP2config.isEmpty = false)
      ∧ ((t.mDevSN.isEmpty = false ∨ "devicesn" ∈ l) →
        (connectParamLoop l t).2.mDevSN.isEmpty = false)
      ∧ ((t.mVDID.isEmpty = false ∨ "vdid" ∈ l) →
        (connectParamLoop l t).2.mVDID.isEmpty = false) := by
  intro l
  induction l with
  | nil =>
    intro t _
    refine ⟨?_, ?_, ?_⟩ <;>
    · intro h
      rcases h with h | h
      · exact h
      · exact absurd h (List.not_mem_nil _)
  | cons k rest ih =>
    intro t hok
    simp only [connectParamLoop] at hok ⊢
    by_cases h1 : k = "cp2configpath"
    · simp only [h1, if_true] at hok ⊢
      by_cases hv : (t.mConnectParams.valueForKey "cp2configpath").isEmpty = true
      · rw [if_pos hv] at hok
        exact Bool.noConfusion hok
      rw [if_neg hv] at hok ⊢
      by_cases hm : (!t.mCP2config.isEmpty) = true
      · rw [if_pos hm] at hok
        exact Bool.noConfusion hok
      rw [if_neg hm] at hok ⊢
      have ih1 := ih _ hok
      refine ⟨fun _ => ih1.1 (Or.inl (by simpa using hv)), fun h => ih1.2.1 ?_,
        fun h => ih1.2.2 ?_⟩
      · rcases h with h | h
        · exact Or.inl h
        · exact Or.inr (by simpa using h)
      · rcases h with h | h
        · exact Or.inl h
        · exact Or.inr (by simpa using h)
    rw [if_neg h1] at hok ⊢
    by_cases h2 : k = "devicesn"
    · simp only [h2, if_true] at hok ⊢
      by_cases hv : (t.mConnectParams.valueForKey "devicesn").isEmpty = true
      · rw [if_pos hv] at hok
        exact Bool.noConfusion hok
      rw [if_neg hv] at hok ⊢
      by_cases hm : (!t.mDevSN.isEmpty) = true
      · rw [if_pos hm] at hok
        exact Bool.noConfusion hok
      rw [if_neg hm] at hok ⊢
      have ih1 := ih _ hok
      refine ⟨fun h => ih1.1 ?_, fun _ => ih1.2.1 (Or.inl (by simpa using hv)),
        fun h => ih1.2.2 ?_⟩
      · rcases h with h | h
        · exact Or.inl h
        · exact Or.inr (by simpa using h)
      · rcases h with h | h
        · exact Or.inl h
        · exact Or.inr (by simpa using h)
    rw [if_neg h2] at hok ⊢
    by_cases h3 : k = "vdid"
    · simp only [h3, if_true] at hok ⊢
      by_cases hv : (t.mConnectParams.valueForKey "vdid").isEmpty = true
      · rw [if_pos hv] at hok
        exact Bool.noConfusion hok
      rw [if_neg hv] at hok ⊢
      by_cases hm : (!t.mVDID.isEmpty) = true
      · rw [if_pos hm] at hok
        exact Bool.noConfusion hok
      rw [if_neg hm] at hok ⊢
      have ih1 := ih _ hok
      refine ⟨fun h => ih1.1 ?_, fun h => ih1.2.1 ?_,
        fun _ => ih1.2.2 (Or.inl (by simpa using hv))⟩
      · rcases h with h | h
        · exact Or.inl h
        · exact Or.inr (by simpa using h)
      · rcases h with h | h
        · exact Or.inl h
        · exact Or.inr (by simpa using h)
    rw [if_neg h3] at hok ⊢
    have hrest : ∀ key : String, key = "cp2configpath" ∨ key = "devicesn" ∨ key = "vdid" →
        key ∈ k :: rest → key ∈ rest := by
      intro key hreq hmem
      rcases List.mem_cons.mp hmem with h | h
      · rcases hreq with e | e | e
        · exact absurd (h.symm.trans e) h1
        · exact absurd (h.symm.trans e) h2
        · exact absurd (h.symm.trans e) h3
      · exact h
    by_cases h4 : k = "help"
    · rw [if_pos h4] at hok
      exact Bool.noConfusion hok
    rw [if_neg h4] at hok ⊢
    have hsame : (if k = "verbose" then connectParamLoop rest t else connectParamLoop rest t)
        = connectParamLoop rest t := ite_self _
    rw [hsame] at hok ⊢
    have ih1 := ih _ hok
    refine ⟨fun h => ih1.1 ?_, fun h => ih1.2.1 ?_, fun h => ih1.2.2 ?_⟩
    · rcases h with h | h
      · exact Or.inl h
      · exact Or.inr (hrest _ (Or.inl rfl) h)
    · rcases h with h | h
      · exact Or.inl h
      · exact Or.inr (hrest _ (Or.inr (Or.inl rfl)) h)
    · rcases h with h | h
      · exact Or.inl h
      · exact Or.inr (hrest _ (Or.inr (Or.inr rfl)) h)

/-- With the three parameters already recorded, a pass of the loop that meets one of the
three required keys or `help` returns false and changes nothing. -/
theorem connectParamLoop_refuses :
    ∀ (l : List String) (t : Translator),
      t.mCP2config.isEmpty = false → t.mDevSN.isEmpty = false → t.mVDID.isEmpty = false →
      (∃ k ∈ l, k = "cp2configpath" ∨ k = "devicesn" ∨ k = "vdid" ∨ k = "help") →
      connectParamLoop l t = (false, t) := by
  intro l
  induction l with
  | nil =>
    intro t _ _ _ h
    obtain ⟨k, hk, _⟩ := h
    exact absurd hk (List.not_mem_nil k)
  | cons k rest ih =>
    intro t c1 c2 c3 h
    simp only [connectParamLoop]
    by_cases h1 : k = "cp2configpath"
    · rw [if_pos h1]
      split_ifs <;> first | rfl | simp_all
    rw [if_neg h1]
    by_cases h2 : k = "devicesn"
    · rw [if_pos h2]
      split_ifs <;> first | rfl | simp_all
    rw [if_neg h2]
    by_cases h3 : k = "vdid"
    · rw [if_pos h3]
      split_ifs <;> first | rfl | simp_all
    rw [if_neg h3]
    by_cases h4 : k = "help"
    · rw [if_pos h4]
    rw [if_neg h4, ite_self]
    apply ih t c1 c2 c3
    obtain ⟨k', hk', hreq⟩ := h
    rcases List.mem_cons.mp hk' with e | e
    · subst e
      rcases hreq with e | e | e | e
      · exact absurd e h1
      · exact absurd e h2
      · exact absurd e h3
      · exact absurd e h4
    · exact ⟨k', e, hreq⟩

theorem ImportVDFromJSON_keeps (host : Host) (t : Translator) :
    (ImportVDFromJSON host t).2.mConnectParams = t.mConnectParams
    ∧ (ImportVDFromJSON host t).2.mCP2config = t.mCP2config
    ∧ (ImportVDFromJSON host t).2.mDevSN = t.mDevSN
    ∧ (ImportVDFromJSON host t).2.mVDID = t.mVDID
    ∧ (ImportVDFromJSON host t).2.mCardIsOpen = t.mCardIsOpen
    ∧ (ImportVDFromJSON host t).2.mCard = t.mCard := by
  unfold ImportVDFromJSON
  split
  · exact ⟨rfl, rfl, rfl, rfl, rfl, rfl⟩
  · simp only []
    split <;> exact ⟨rfl, rfl, rfl, rfl, rfl, rfl⟩

/-- A `NTV2Connect` that does not get past the parameter checks returns false with the
translator as the loop over the keys left it. -/
theorem NTV2Connect_of_bad_parameter (sdk : SDK) (host : Host) (t : Translator) (key : String)
    (hkey : key = "cp2configpath" ∨ key = "devicesn" ∨ key = "vdid")
    (hbad : t.mConnectParams.hasKey key = false
      ∨ (t.mConnectParams.valueForKey key).isEmpty = true) :
    NTV2Connect sdk host t = (false, (connectParamLoop t.mConnectParams.keys t).2) := by
  obtain ⟨k1, -, -, -⟩ := connectParamLoop_keeps t.mConnectParams.keys t
  have hvals := connectParamLoop_true_values t.mConnectParams.keys t
  unfold NTV2Connect
  simp only [HasConnectParam, k1]
  generalize connectParamLoop t.mConnectParams.keys t = r at hvals ⊢
  by_cases hr : r.1 = false
  · rw [if_pos hr]
  rw [if_neg hr]
  by_cases c1 : (!t.mConnectParams.hasKey "cp2configpath") = true
  · rw [if_pos c1]
  rw [if_neg c1]
  by_cases c2 : (!t.mConnectParams.hasKey "devicesn") = true
  · rw [if_pos c2]
  rw [if_neg c2]
  by_cases c3 : (!t.mConnectParams.hasKey "vdid") = true
  · rw [if_pos c3]
  exfalso
  have hr' : r.1 = true := by simpa using hr
  have hhas : t.mConnectParams.hasKey key = true := by
    rcases hkey with h | h | h <;> subst h
    · simpa using c1
    · simpa using c2
    · simpa using c3
  rcases hbad with hb | hb
  · rw [hhas] at hb
    exact Bool.noConfusion hb
  · have := hvals hr' key ((NTV2Dictionary.mem_keys _ _).mpr hhas) hkey
    rw [this] at hb
    exact Bool.noConfusion hb

/-- C16: for every parameter bag in which one of the keys `cp2configpath`, `devicesn`,
`vdid` is missing or has an empty value, `NTV2Connect` returns false and the card is as it
was, open or not; in particular `IsConnected ()` is false afterwards on a translator that
was not connected, as the constructor leaves it. -/
theorem connect_requires_parameters (sdk : SDK) (host : Host) (t : Translator) (key : String)
    (hkey : key = "cp2configpath" ∨ key = "devicesn" ∨ key = "vdid")
    (hbad : t.mConnectParams.hasKey key = false
      ∨ (t.mConnectParams.valueForKey key).isEmpty = true) :
    (NTV2Connect sdk host t).1 = false
    ∧ (NTV2Connect sdk host t).2.mCardIsOpen = t.mCardIsOpen
    ∧ (NTV2Connect sdk host t).2.mCard = t.mCard
    ∧ (IsConnected t = false → IsConnected (NTV2Connect sdk host t).2 = false) := by
  obtain ⟨-, k2, k3, -⟩ := connectParamLoop_keeps t.mConnectParams.keys t
  rw [NTV2Connect_of_bad_parameter sdk host t key hkey hbad]
  refine ⟨rfl, k2, k3, ?_⟩
  intro h0
  unfold IsConnected at h0 ⊢
  rw [← h0]
  exact k2

/-- C16 on a bag with no `cp2configpath`: `NTV2Connect` returns false and `IsConnected ()`
is false afterwards, although the device and the configuration file are there. -/
theorem connect_requires_parameters_witness :
    (NTV2Connect sampleSDK sampleHost
        (Translator.constructed sampleSDK paramsWithoutConfigPath sampleCard)).1 = false
    ∧ IsConnected (NTV2Connect sampleSDK sampleHost
        (Translator.constructed sampleSDK paramsWithoutConfigPath sampleCard)).2 = false :=
  ⟨(connect_requires_parameters sampleSDK sampleHost
      (Translator.constructed sampleSDK paramsWithoutConfigPath sampleCard) "cp2configpath"
      (Or.inl rfl) (Or.inl (by decide))).1,
   (connect_requires_parameters sampleSDK sampleHost
      (Translator.constructed sampleSDK paramsWithoutConfigPath sampleCard) "cp2configpath"
      (Or.inl rfl) (Or.inl (by decide))).2.2.2 rfl⟩

/-- C17 (as stated, refuted): with the three parameters given and the device `SN1`
present, but no configuration file that can be opened, `NTV2Connect` returns false on a
freshly constructed translator and `IsConnected ()` is true afterwards: the device was
opened before the file was looked for and nothing closes it. -/
theorem failed_connect_leaves_device_open :
    IsConnected sampleTranslator = false
    ∧ (NTV2Connect sampleSDK hostWithoutConfigFile sampleTranslator).1 = false
    ∧ IsConnected (NTV2Connect sampleSDK hostWithoutConfigFile sampleTranslator).2 = true := by
  decide

/-- C17 (amended): on a translator that was not connected, if `NTV2Connect` returns false
then `IsConnected ()` is false afterwards exactly when the failure occurred no later than
the opening of the physical device, that is, unless the loop over the keys succeeded, the
three required keys are present and the device opened; a failure after that, such as a
configuration file that cannot be opened, makes `NTV2Connect` return false and leaves
`IsConnected ()` true. -/
theorem failed_connect_disconnected_iff_not_opened (sdk : SDK) (host : Host) (t : Translator)
    (h0 : IsConnected t = false) :
    ((NTV2Connect sdk host t).1 = false →
      (IsConnected (NTV2Connect sdk host t).2 = false ↔
        ¬ ((connectParamLoop t.mConnectParams.keys t).1 = true
          ∧ HasConnectParam t "cp2configpath" = true
          ∧ HasConnectParam t "devicesn" = true
          ∧ HasConnectParam t "vdid" = true
          ∧ (host.GetFirstDeviceFromArgument
              (connectParamLoop t.mConnectParams.keys t).2.mDevSN).isSome = true)))
    ∧ ((connectParamLoop t.mConnectParams.keys t).1 = true →
        HasConnectParam t "cp2configpath" = true →
        HasConnectParam t "devicesn" = true →
        HasConnectParam t "vdid" = true →
        (host.GetFirstDeviceFromArgument
          (connectParamLoop t.mConnectParams.keys t).2.mDevSN).isSome = true →
        host.configFile (connectParamLoop t.mConnectParams.keys t).2.mCP2config = none →
        (NTV2Connect sdk host t).1 = false
          ∧ IsConnected (NTV2Connect sdk host t).2 = true) := by
  obtain ⟨k1, k2, _, _⟩ := connectParamLoop_keeps t.mConnectParams.keys t
  have hopen : IsConnected (NTV2Connect sdk host t).2 = true ↔
      ((connectParamLoop t.mConnectParams.keys t).1 = true
        ∧ HasConnectParam t "cp2configpath" = true
        ∧ HasConnectParam t "devicesn" = true
        ∧ HasConnectParam t "vdid" = true
        ∧ (host.GetFirstDeviceFromArgument
            (connectParamLoop t.mConnectParams.keys t).2.mDevSN).isSome = true) := by
    unfold NTV2Connect IsConnected
    unfold IsConnected at h0
    simp only [HasConnectParam, k1]
    generalize connectParamLoop t.mConnectParams.keys t = r at k2 ⊢
    have hclosed : r.2.mCardIsOpen = false := by rw [k2, h0]
    by_cases hr : r.1 = false
    · rw [if_pos hr]
      simp [hr, hclosed]
    rw [if_neg hr]
    have hr' : r.1 = true := by simpa using hr
    by_cases c1 : (!t.mConnectParams.hasKey "cp2configpath") = true
    · rw [if_pos c1]
      have : t.mConnectParams.hasKey "cp2configpath" = false := by simpa using c1
      simp [this, hclosed]
    rw [if_neg c1]
    have c1' : t.mConnectParams.hasKey "cp2configpath" = true := by simpa using c1
    by_cases c2 : (!t.mConnectParams.hasKey "devicesn") = true
    · rw [if_pos c2]
      have : t.mConnectParams.hasKey "devicesn" = false := by simpa using c2
      simp [this, hclosed]
    rw [if_neg c2]
    have c2' : t.mConnectParams.hasKey "devicesn" = true := by simpa using c2
    by_cases c3 : (!t.mConnectParams.hasKey "vdid") = true
    · rw [if_pos c3]
      have : t.mConnectParams.hasKey "vdid" = false := by simpa using c3
      simp [this, hclosed]
    rw [if_neg c3]
    have c3' : t.mConnectParams.hasKey "vdid" = true := by simpa using c3
    cases hdev : host.GetFirstDeviceFromArgument r.2.mDevSN with
    | none => simp [hr', c1', c2', c3']
    | some card =>
      simp only [hr', c1', c2', c3', Option.isSome_some, and_self, iff_true]
      have hi := fun X => (ImportVDFromJSON_keeps host X).2.2.2.2.1
      split_ifs with g1 g2
      · exact hi _
      · exact hi _
      · rw [hi] at g2
        exact absurd rfl g2
  refine ⟨?_, ?_⟩
  · intro _
    rw [← hopen]
    cases IsConnected (NTV2Connect sdk host t).2 <;> simp
  · intro a1 a2 a3 a4 a5 a6
    refine ⟨?_, hopen.mpr ⟨a1, a2, a3, a4, a5⟩⟩
    unfold NTV2Connect
    simp only [HasConnectParam, k1] at a2 a3 a4 ⊢
    generalize connectParamLoop t.mConnectParams.keys t = r at a1 a5 a6 ⊢
    obtain ⟨card, hcard⟩ := Option.isSome_iff_exists.mp a5
    simp only [a1, a2, a3, a4, hcard, Bool.true_eq_false, Bool.false_eq_true, if_false,
      Bool.not_true]
    have himp : ∀ X : Translator, X.mCP2config = r.2.mCP2config →
        (ImportVDFromJSON host X).1 = false := by
      intro X hX
      unfold ImportVDFromJSON
      simp only [hX, a6]
    rw [if_pos]
    exact himp _ rfl

/-- C17 (amended) on the sample host without a configuration file: the loop succeeds, the
keys are there and the device opens, so the failed `NTV2Connect` leaves `IsConnected ()`
true. -/
theorem failed_connect_disconnected_iff_not_opened_witness :
    (NTV2Connect sampleSDK hostWithoutConfigFile sampleTranslator).1 = false
    ∧ IsConnected (NTV2Connect sampleSDK hostWithoutConfigFile sampleTranslator).2 = true :=
  (failed_connect_disconnected_iff_not_opened sampleSDK hostWithoutConfigFile sampleTranslator
    rfl).2 (by decide) (by decide) (by decide) (by decide) (by decide) (by decide)

/-- What a successful `NTV2Connect` leaves in the translator: the parameters as they were,
the three of them recorded, and the key `cp2configpath` among them. -/
theorem NTV2Connect_true_members (sdk : SDK) (host : Host) (t : Translator)
    (hok : (NTV2Connect sdk host t).1 = true) :
    (NTV2Connect sdk host t).2.mConnectParams = t.mConnectParams
    ∧ (NTV2Connect sdk host t).2.mCP2config.isEmpty = false
    ∧ (NTV2Connect sdk host t).2.mDevSN.isEmpty = false
    ∧ (NTV2Connect sdk host t).2.mVDID.isEmpty = false
    ∧ t.mConnectParams.hasKey "cp2configpath" = true := by
  obtain ⟨k1, -, -, -⟩ := connectParamLoop_keeps t.mConnectParams.keys t
  have hmem := connectParamLoop_true_members t.mConnectParams.keys t
  revert hok
  unfold NTV2Connect
  simp only [HasConnectParam, k1]
  generalize connectParamLoop t.mConnectParams.keys t = r at k1 hmem ⊢
  by_cases hr : r.1 = false
  · rw [if_pos hr]
    intro h
    exact Bool.noConfusion h
  rw [if_neg hr]
  have hr' : r.1 = true := by simpa using hr
  by_cases c1 : (!t.mConnectParams.hasKey "cp2configpath") = true
  · rw [if_pos c1]
    intro h
    exact Bool.noConfusion h
  rw [if_neg c1]
  have c1' : t.mConnectParams.hasKey "cp2configpath" = true := by simpa using c1
  by_cases c2 : (!t.mConnectParams.hasKey "devicesn") = true
  · rw [if_pos c2]
    intro h
    exact Bool.noConfusion h
  rw [if_neg c2]
  have c2' : t.mConnectParams.hasKey "devicesn" = true := by simpa using c2
  by_cases c3 : (!t.mConnectParams.hasKey "vdid") = true
  · rw [if_pos c3]
    intro h
    exact Bool.noConfusion h
  rw [if_neg c3]
  have c3' : t.mConnectParams.hasKey "vdid" = true := by simpa using c3
  obtain ⟨m1, m2, m3⟩ := hmem hr'
  have n1 := m1 (Or.inr ((NTV2Dictionary.mem_keys _ _).mpr c1'))
  have n2 := m2 (Or.inr ((NTV2Dictionary.mem_keys _ _).mpr c2'))
  have n3 := m3 (Or.inr ((NTV2Dictionary.mem_keys _ _).mpr c3'))
  cases hdev : host.GetFirstDeviceFromArgument r.2.mDevSN with
  | none =>
    intro h
    exact Bool.noConfusion h
  | some card =>
    simp only []
    have hi := fun X => ImportVDFromJSON_keeps host X
    split_ifs
    · intro h
      exact absurd h (by simp)
    · intro _
      refine ⟨(hi _).1, ?_, ?_, ?_, c1'⟩
      · exact ((hi _).2.1).symm ▸ n1
      · exact ((hi _).2.2.1).symm ▸ n2
      · exact ((hi _).2.2.2.1).symm ▸ n3
    · intro h
      exact absurd h (by simp)

/-- C18 (as stated, refuted): on the sample host the first `NTV2Connect` of a freshly
constructed translator returns true, and a second `NTV2Connect` on the translator it
leaves returns false. -/
theorem second_connect_returns_false :
    (NTV2Connect sampleSDK sampleHost sampleTranslator).1 = true
    ∧ (NTV2Connect sampleSDK sampleHost
        (NTV2Connect sampleSDK sampleHost sampleTranslator).2).1 = false := by
  decide

/-- C18 (amended): for every translator on which `NTV2Connect` has returned true, a second
`NTV2Connect`, whatever the host then holds, returns false (the parameter `cp2configpath`
counts as specified more than once) and leaves the translator, its connection state and
all its mapping tables, exactly as the first call left it. -/
theorem second_connect_refused (sdk : SDK) (host host2 : Host) (t : Translator)
    (hok : (NTV2Connect sdk host t).1 = true) :
    NTV2Connect sdk host2 (NTV2Connect sdk host t).2 = (false, (NTV2Connect sdk host t).2)
    ∧ IsConnected (NTV2Connect sdk host2 (NTV2Connect sdk host t).2).2
        = IsConnected (NTV2Connect sdk host t).2
    ∧ (NTV2Connect sdk host2 (NTV2Connect sdk host t).2).2.tables
        = (NTV2Connect sdk host t).2.tables := by
  obtain ⟨p1, p2, p3, p4, p5⟩ := NTV2Connect_true_members sdk host t hok
  generalize (NTV2Connect sdk host t).2 = t1 at p1 p2 p3 p4 ⊢
  have hloop : connectParamLoop t1.mConnectParams.keys t1 = (false, t1) := by
    apply connectParamLoop_refuses _ _ p2 p3 p4
    refine ⟨"cp2configpath", ?_, Or.inl rfl⟩
    rw [p1]
    exact (NTV2Dictionary.mem_keys _ _).mpr p5
  have hres : NTV2Connect sdk host2 t1 = (false, t1) := by
    unfold NTV2Connect
    simp only [hloop, if_true]
  rw [hres]
  exact ⟨rfl, rfl, rfl⟩

/-- C18 (amended) on the sample host: the second `NTV2Connect` returns false and the
translator is still connected, on anchor channel 2. -/
theorem second_connect_refused_witness :
    (NTV2Connect sampleSDK sampleHost (NTV2Connect sampleSDK sampleHost sampleTranslator).2).1
        = false
    ∧ IsConnected (NTV2Connect sampleSDK sampleHost
        (NTV2Connect sampleSDK sampleHost sampleTranslator).2).2 = true
    ∧ (NTV2Connect sampleSDK sampleHost
        (NTV2Connect sampleSDK sampleHost sampleTranslator).2).2.tables.mChannel = 2 := by
  have h := second_connect_refused sampleSDK sampleHost sampleHost sampleTranslator (by decide)
  refine ⟨?_, ?_, ?_⟩
  · rw [h.1]
  · rw [h.2.1]
    decide
  · rw [h.2.2]
    decide

/-! ## Anc register windows -/

theorem isMyAncExtRegister_iff (regNum : Nat) :
    isMyAncExtRegister regNum = true ↔ 4096 ≤ regNum ∧ regNum < 4118 := by
  simp [isMyAncExtRegister, sAncExtBaseRegNum, sAncExtNumRegs]

theorem isMyAncInsRegister_iff (regNum : Nat) :
    isMyAncInsRegister regNum = true ↔ 4608 ≤ regNum ∧ regNum < 4627 := by
  simp [isMyAncInsRegister, sAncInsBaseRegNum, sAncInsNumRegs]

theorem HandleAncExt_in_window (s : VDev) (card : Card) (regNum v mask shift : Nat)
    (hc : s.mChannel < 8) (h1 : 4096 ≤ regNum) (h2 : regNum < 4118) :
    HandleReadAncExt s card regNum v mask shift
        = card.ReadRegister (regNum + s.mChannel * 64) v mask shift
    ∧ HandleWriteAncExt s card regNum v mask shift
        = card.WriteRegister (regNum + s.mChannel * 64) v mask shift := by
  have hw : regNum ≥ sAncExtBaseRegNum.getD 0 0
      ∧ regNum < sAncExtBaseRegNum.getD 0 0 + sAncExtNumRegs := by
    simp [sAncExtBaseRegNum, sAncExtNumRegs]
    omega
  have ho : AncExtRegOffsetPerChannel = 64 := by decide
  have hm : (regNum + s.mChannel * 64) % U32 = regNum + s.mChannel * 64 := by
    apply Nat.mod_eq_of_lt
    have : U32 = 4294967296 := rfl
    omega
  have hz : ¬ regNum + s.mChannel * 64 = 0 := by omega
  constructor
  · simp only [HandleReadAncExt, if_pos hw, ho, hm, ne_eq, hz, not_false_eq_true, if_true]
  · simp only [HandleWriteAncExt, if_pos hw, ho, hm, ne_eq, hz, not_false_eq_true, if_true]

theorem HandleAncIns_in_window (s : VDev) (card : Card) (regNum v mask shift : Nat)
    (hc : s.mChannel < 8) (h1 : 4608 ≤ regNum) (h2 : regNum < 4627) :
    HandleReadAncIns s card regNum v mask shift
        = card.ReadRegister (regNum + (s.mChannel + 1) * 64) v mask shift
    ∧ HandleWriteAncIns s card regNum v mask shift
        = card.WriteRegister (regNum + (s.mChannel + 1) * 64) v mask shift := by
  have hw : regNum ≥ sAncInsBaseRegNum.getD 0 0
      ∧ regNum < sAncInsBaseRegNum.getD 0 0 + sAncInsNumRegs := by
    simp [sAncInsBaseRegNum, sAncInsNumRegs]
    omega
  have ho : AncInsRegOffsetPerChannel = 64 := by decide
  have hm : (regNum + (s.mChannel + 1) * 64) % U32 = regNum + (s.mChannel + 1) * 64 := by
    apply Nat.mod_eq_of_lt
    have : U32 = 4294967296 := rfl
    omega
  have hz : ¬ regNum + (s.mChannel + 1) * 64 = 0 := by omega
  constructor
  · simp only [HandleReadAncIns, if_pos hw, ho, hm, ne_eq, hz, not_false_eq_true, if_true]
  · simp only [HandleWriteAncIns, if_pos hw, ho, hm, ne_eq, hz, not_false_eq_true, if_true]

/-- C24: for every anchor channel that is a valid channel, a read or a write of a register
in `[4096, 4096+22)` is exactly the card's read or write of register
`regNum + anchor*64`, and of a register in `[4608, 4608+19)` exactly that of register
`regNum + (anchor+1)*64`, with the caller's value, mask and shift and the card's result;
nothing is assumed about the crosspoint-select table or the switch labels, so the two
window tests come first. -/
theorem anc_windows_remapped (sdk : SDK) (K : Regs) (s : VDev) (card : Card)
    (regNum value outValue mask shift : Nat) (hc : s.mChannel < 8) :
    (4096 ≤ regNum → regNum < 4096 + 22 →
      NTV2ReadRegisterRemote sdk K s card regNum outValue mask shift
          = card.ReadRegister (regNum + s.mChannel * 64) outValue mask shift
      ∧ NTV2WriteRegisterRemote sdk K s card regNum value mask shift
          = card.WriteRegister (regNum + s.mChannel * 64) value mask shift)
    ∧ (4608 ≤ regNum → regNum < 4608 + 19 →
      NTV2ReadRegisterRemote sdk K s card regNum outValue mask shift
          = card.ReadRegister (regNum + (s.mChannel + 1) * 64) outValue mask shift
      ∧ NTV2WriteRegisterRemote sdk K s card regNum value mask shift
          = card.WriteRegister (regNum + (s.mChannel + 1) * 64) value mask shift) := by
  constructor
  · intro h1 h2
    have hE : isMyAncExtRegister regNum = true := (isMyAncExtRegister_iff regNum).mpr ⟨h1, by omega⟩
    have hh := HandleAncExt_in_window s card regNum
    constructor
    · rw [← (hh outValue mask shift hc h1 (by omega)).1]
      unfold NTV2ReadRegisterRemote
      simp only [hE, if_true]
    · rw [← (hh value mask shift hc h1 (by omega)).2]
      unfold NTV2WriteRegisterRemote
      simp only [hE, if_true]
  · intro h1 h2
    have hE : isMyAncExtRegister regNum = false := by
      cases h : isMyAncExtRegister regNum with
      | false => rfl
      | true =>
        have := (isMyAncExtRegister_iff regNum).mp h
        omega
    have hI : isMyAncInsRegister regNum = true := (isMyAncInsRegister_iff regNum).mpr ⟨h1, by omega⟩
    have hh := HandleAncIns_in_window s card regNum
    constructor
    · rw [← (hh outValue mask shift hc h1 (by omega)).1]
      unfold NTV2ReadRegisterRemote
      simp only [hE, hI, if_true, Bool.false_eq_true, if_false]
    · rw [← (hh value mask shift hc h1 (by omega)).2]
      unfold NTV2WriteRegisterRemote
      simp only [hE, hI, if_true, Bool.false_eq_true, if_false]

/-- C24 on the sample tables, whose anchor channel is 2: a read of register 4100 is one
read of the card's register 4228, and a write of register 4610 one write of the card's
register 4802. -/
theorem anc_windows_remapped_witness :
    (NTV2ReadRegisterRemote sampleSDK sampleRegs sampleVDev sampleCard 4100 0 0xFFFFFFFF 0).2.2.calls
        = [Call.ReadRegister 4228 0xFFFFFFFF 0]
    ∧ (NTV2WriteRegisterRemote sampleSDK sampleRegs sampleVDev sampleCard 4610 7 0xFF 0).2.calls
        = [Call.WriteRegister 4802 7 0xFF 0] := by
  have h1 := ((anc_windows_remapped sampleSDK sampleRegs sampleVDev sampleCard 4100 7 0
    0xFFFFFFFF 0 (by decide)).1 (by decide) (by decide)).1
  have h2 := ((anc_windows_remapped sampleSDK sampleRegs sampleVDev sampleCard 4610 7 0
    0xFF 0 (by decide)).2 (by decide) (by decide)).2
  rw [h1, h2]
  decide

/-- C25 (the code at the failing input): on the sample tables a write of register 4160,
the first anc-extractor register of the second spigot, and a write of register 4672, the
first anc-inserter register of the second spigot, are outside the two windows, so neither
window test sends them to the anc handlers; they reach the default of the switch and are
written to the card's registers 4160 and 4672. The handlers themselves would have dropped
them. -/
theorem anc_write_outside_window_passes_through :
    isMyAncExtRegister 4160 = false ∧ isMyAncInsRegister 4672 = false
    ∧ (NTV2WriteRegisterRemote sampleSDK sampleRegs sampleVDev sampleCard 4160 5 0xFFFFFFFF 0).1
        = true
    ∧ (NTV2WriteRegisterRemote sampleSDK sampleRegs sampleVDev sampleCard 4160 5 0xFFFFFFFF 0).2.calls
        = [Call.WriteRegister 4160 5 0xFFFFFFFF 0]
    ∧ (NTV2WriteRegisterRemote sampleSDK sampleRegs sampleVDev sampleCard 4672 5 0xFFFFFFFF 0).2.calls
        = [Call.WriteRegister 4672 5 0xFFFFFFFF 0]
    ∧ (HandleWriteAncExt sampleVDev sampleCard 4160 5 0xFFFFFFFF 0).1 = true
    ∧ (HandleWriteAncExt sampleVDev sampleCard 4160 5 0xFFFFFFFF 0).2.calls = []
    ∧ (HandleWriteAncIns sampleVDev sampleCard 4672 5 0xFFFFFFFF 0).1 = true
    ∧ (HandleWriteAncIns sampleVDev sampleCard 4672 5 0xFFFFFFFF 0).2.calls = [] := by
  decide

/-! ## The anchor channel -/

theorem widgetLoop_fst_mem (sdk : SDK) :
    ∀ (l : List MappedWidget) (st : Nat × NMap × NMap),
      (widgetLoop sdk l st).1 = st.1
      ∨ ∃ w ∈ l, sdk.WidgetIDToType w.deviceWidgetId = sdk.NTV2WidgetType_FrameStore
          ∧ sdk.WidgetIDToChannel w.deviceWidgetId = (widgetLoop sdk l st).1 := by
  intro l
  induction l with
  | nil => intro st; exact Or.inl rfl
  | cons h t ih =>
    intro st
    obtain ⟨ch, v2c, c2v⟩ := st
    simp only [widgetLoop]
    rcases ih ((if sdk.WidgetIDToType h.deviceWidgetId = sdk.NTV2WidgetType_FrameStore then
        if sdk.WidgetIDToChannel h.deviceWidgetId < ch then sdk.WidgetIDToChannel h.deviceWidgetId
        else ch
      else ch), v2c.insert h.virtualWidgetId h.deviceWidgetId,
      c2v.insert h.deviceWidgetId h.virtualWidgetId) with e | ⟨w, hw, hfs, hch⟩
    · by_cases hfs : sdk.WidgetIDToType h.deviceWidgetId = sdk.NTV2WidgetType_FrameStore
      · by_cases hlt : sdk.WidgetIDToChannel h.deviceWidgetId < ch
        · right
          refine ⟨h, List.mem_cons_self _ _, hfs, ?_⟩
          rw [e]
          simp [hfs, hlt]
        · left
          rw [e]
          simp [hfs, hlt]
      · left
        rw [e]
        simp [hfs]
    · right
      exact ⟨w, List.mem_cons_of_mem _ hw, hfs, hch⟩

/-- C29: for every `mappedWidgets` list whose physical FrameStores have channels below the
initial 999 (channels are 0..7), the anchor channel `mChannel` that `SetupWidgetMapping`
computes is 0 when no entry has a physical FrameStore, and otherwise the minimum of their
channels: the channel of one of them and at most the channel of each; and the channel maps
then hold `anchor -> NTV2_CHANNEL1` and `NTV2_CHANNEL1 -> anchor`. -/
theorem anchor_is_min_FrameStore_channel (sdk : SDK) (mw : List MappedWidget) (s : VDev)
    (hch : ∀ w ∈ mw, sdk.WidgetIDToType w.deviceWidgetId = sdk.NTV2WidgetType_FrameStore →
      sdk.WidgetIDToChannel w.deviceWidgetId < 999) :
    ((∀ w ∈ mw, sdk.WidgetIDToType w.deviceWidgetId ≠ sdk.NTV2WidgetType_FrameStore) →
      (SetupWidgetMapping sdk mw s).2.mChannel = 0)
    ∧ ((∃ w ∈ mw, sdk.WidgetIDToType w.deviceWidgetId = sdk.NTV2WidgetType_FrameStore) →
      (∃ w ∈ mw, sdk.WidgetIDToType w.deviceWidgetId = sdk.NTV2WidgetType_FrameStore
        ∧ sdk.WidgetIDToChannel w.deviceWidgetId = (SetupWidgetMapping sdk mw s).2.mChannel)
      ∧ ∀ w ∈ mw, sdk.WidgetIDToType w.deviceWidgetId = sdk.NTV2WidgetType_FrameStore →
        (SetupWidgetMapping sdk mw s).2.mChannel ≤ sdk.WidgetIDToChannel w.deviceWidgetId)
    ∧ CardToVDevChannel sdk (SetupWidgetMapping sdk mw s).2
        (SetupWidgetMapping sdk mw s).2.mChannel = NTV2_CHANNEL1
    ∧ VDevToCardChannel sdk (SetupWidgetMapping sdk mw s).2 NTV2_CHANNEL1
        = (SetupWidgetMapping sdk mw s).2.mChannel := by
  have hle := widgetLoop_fst_le sdk mw (999, s.mVDevToCardWgts, s.mCardToVDevWgts)
  have hmem := widgetLoop_fst_mem sdk mw (999, s.mVDevToCardWgts, s.mCardToVDevWgts)
  have hanchor : (SetupWidgetMapping sdk mw s).2.mChannel
      = if (widgetLoop sdk mw (999, s.mVDevToCardWgts, s.mCardToVDevWgts)).1 = 999 then 0
        else (widgetLoop sdk mw (999, s.mVDevToCardWgts, s.mCardToVDevWgts)).1 := by
    unfold SetupWidgetMapping
    simp only []
    split_ifs <;> rfl
  have hc2v : (SetupWidgetMapping sdk mw s).2.mCardToVDevChls
      = s.mCardToVDevChls.insert (SetupWidgetMapping sdk mw s).2.mChannel NTV2_CHANNEL1 := by
    unfold SetupWidgetMapping
    simp only []
    split_ifs <;> rfl
  have hv2c : (SetupWidgetMapping sdk mw s).2.mVDevToCardChls
      = s.mVDevToCardChls.insert NTV2_CHANNEL1 (SetupWidgetMapping sdk mw s).2.mChannel := by
    unfold SetupWidgetMapping
    simp only []
    split_ifs <;> rfl
  generalize (SetupWidgetMapping sdk mw s).2.mChannel = a at hanchor hc2v hv2c ⊢
  generalize widgetLoop sdk mw (999, s.mVDevToCardWgts, s.mCardToVDevWgts) = r at hle hmem hanchor
  refine ⟨?_, ?_, ?_, ?_⟩
  · intro hnone
    rcases hmem with e | ⟨w, hw, hfs, _⟩
    · rw [hanchor, if_pos e]
    · exact absurd hfs (hnone w hw)
  · intro hsome
    obtain ⟨w0, hw0, hfs0⟩ := hsome
    have hlt : r.1 < 999 := lt_of_le_of_lt (hle.2 w0 hw0 hfs0) (hch w0 hw0 hfs0)
    have ha : a = r.1 := by
      rw [hanchor, if_neg (by omega)]
    refine ⟨?_, ?_⟩
    · rcases hmem with e | ⟨w, hw, hfs, hc⟩
      · exact absurd e (by
          show ¬ r.1 = 999
          omega)
      · exact ⟨w, hw, hfs, by rw [ha]; exact hc⟩
    · intro w hw hfs
      rw [ha]
      exact hle.2 w hw hfs
  · simp [CardToVDevChannel, hc2v, NMap.find_insert]
  · simp [VDevToCardChannel, hv2c, NMap.find_insert]

/-- C29 on the sample `mappedWidgets`, whose physical FrameStores are on channels 2 and 3:
the anchor is channel 2, paired with virtual channel `NTV2_CHANNEL1`. -/
theorem anchor_is_min_FrameStore_channel_witness :
    (∀ w ∈ sampleWidgets,
      sampleSDK.WidgetIDToType w.deviceWidgetId = sampleSDK.NTV2WidgetType_FrameStore →
      (SetupWidgetMapping sampleSDK sampleWidgets (VDev.constructed 0x10)).2.mChannel
        ≤ sampleSDK.WidgetIDToChannel w.deviceWidgetId)
    ∧ (SetupWidgetMapping sampleSDK sampleWidgets (VDev.constructed 0x10)).2.mChannel = 2
    ∧ VDevToCardChannel sampleSDK
        (SetupWidgetMapping sampleSDK sampleWidgets (VDev.constructed 0x10)).2 NTV2_CHANNEL1
        = (SetupWidgetMapping sampleSDK sampleWidgets (VDev.constructed 0x10)).2.mChannel :=
  ⟨((anchor_is_min_FrameStore_channel sampleSDK sampleWidgets (VDev.constructed 0x10)
      (by decide)).2.1 (by decide)).2,
   by decide,
   (anchor_is_min_FrameStore_channel sampleSDK sampleWidgets (VDev.constructed 0x10)
      (by decide)).2.2.2⟩

/-! ## Mixers -/

theorem SetupMapping_keeps_mixers (sdk : SDK) (card : Card) (mw : List MappedWidget)
    (s : VDev) :
    (SetupMapping sdk card mw s).2.mVDevToCardMxrs = s.mVDevToCardMxrs
    ∧ (SetupMapping sdk card mw s).2.mCardToVDevMxrs = s.mCardToVDevMxrs := by
  have hw : (SetupWidgetMapping sdk mw s).2.mVDevToCardMxrs = s.mVDevToCardMxrs
      ∧ (SetupWidgetMapping sdk mw s).2.mCardToVDevMxrs = s.mCardToVDevMxrs := by
    unfold SetupWidgetMapping
    simp only []
    split_ifs <;> exact ⟨rfl, rfl⟩
  have ho : ∀ x : VDev, (SetupOutputXptMapping sdk x).2.mVDevToCardMxrs = x.mVDevToCardMxrs
      ∧ (SetupOutputXptMapping sdk x).2.mCardToVDevMxrs = x.mCardToVDevMxrs := by
    intro x
    unfold SetupOutputXptMapping
    simp only []
    split_ifs <;> exact ⟨rfl, rfl⟩
  have hi : ∀ x : VDev, (SetupInputXptMapping sdk x).2.mVDevToCardMxrs = x.mVDevToCardMxrs
      ∧ (SetupInputXptMapping sdk x).2.mCardToVDevMxrs = x.mCardToVDevMxrs := by
    intro x
    unfold SetupInputXptMapping
    simp only []
    split_ifs <;> exact ⟨rfl, rfl⟩
  have hx : ∀ x : VDev, (SetupXptSelectRegMapping sdk x).2.mVDevToCardMxrs = x.mVDevToCardMxrs
      ∧ (SetupXptSelectRegMapping sdk x).2.mCardToVDevMxrs = x.mCardToVDevMxrs :=
    fun x => ⟨rfl, rfl⟩
  unfold SetupMapping
  simp only []
  generalize SetupWidgetMapping sdk mw s = r1 at hw ⊢
  have o := ho r1.2
  generalize SetupOutputXptMapping sdk r1.2 = r2 at o ⊢
  have i := hi r2.2
  generalize SetupInputXptMapping sdk r2.2 = r3 at i ⊢
  have x := hx r3.2
  generalize SetupXptSelectRegMapping sdk r3.2 = r4 at x ⊢
  split_ifs
  · exact hw
  · exact ⟨o.1.trans hw.1, o.2.trans hw.2⟩
  · exact ⟨i.1.trans (o.1.trans hw.1), i.2.trans (o.2.trans hw.2)⟩
  · exact ⟨x.1.trans (i.1.trans (o.1.trans hw.1)), x.2.trans (i.2.trans (o.2.trans hw.2))⟩
  · exact ⟨x.1.trans (i.1.trans (o.1.trans hw.1)), x.2.trans (i.2.trans (o.2.trans hw.2))⟩

/-- C30 (the code, and the failing input): whatever the configuration, after mapping setup
on freshly constructed tables `VDevToCardMixer` gives `NTV2_CHANNEL1` for every argument,
the mixer maps being filled nowhere. On the sample configuration that puts virtual mixer 1
(widget 24) on the card's mixer 3 (widget 26, mixer index 2), setup succeeds and records
the widget pair, yet `VDevToCardMixer (NTV2_CHANNEL1)` is 0 and not 2, and a write and a
read of virtual `kRegVidProc1Control` (register 9) go to the card's register 9, the
VidProc-control register of mixer 1, not to register 353 of mixer 3. -/
theorem mixer_map_never_filled :
    (∀ (sdk : SDK) (card : Card) (mw : List MappedWidget) (id ch : Nat),
      VDevToCardMixer (SetupMapping sdk card mw (VDev.constructed id)).2 ch = NTV2_CHANNEL1)
    ∧ (SetupMapping sampleSDK sampleCard mixerWidgets (VDev.constructed 0x10)).1 = true
    ∧ mixerVDev.mVDevToCardWgts.find 24 = some 26
    ∧ sampleSDK.WidgetIDToChannel 24 = 0 ∧ sampleSDK.WidgetIDToChannel 26 = 2
    ∧ VDevToCardMixer mixerVDev NTV2_CHANNEL1 = 0
    ∧ sampleRegs.kRegVidProcControl 1 = 9 ∧ sampleRegs.kRegVidProcControl 3 = 353
    ∧ (NTV2WriteRegisterRemote sampleSDK sampleRegs mixerVDev sampleCard 9 5 0xFFFFFFFF 0).2.calls
        = [Call.WriteRegister 9 5 0xFFFFFFFF 0]
    ∧ (NTV2ReadRegisterRemote sampleSDK sampleRegs mixerVDev sampleCard 9 0 0xFFFFFFFF 0).2.2.calls
        = [Call.ReadRegister 9 0xFFFFFFFF 0] := by
  refine ⟨?_, by decide, by decide, by decide, by decide, by decide, by decide, by decide,
    by decide, by decide⟩
  intro sdk card mw id ch
  have h : (SetupMapping sdk card mw (VDev.constructed id)).2.mVDevToCardMxrs = [] :=
    (SetupMapping_keeps_mixers sdk card mw (VDev.constructed id)).1
  unfold VDevToCardMixer
  rw [h]
  rfl

/-! ## Slips at concrete inputs -/

/-- C21 (the code at the failing input): on the sample tables virtual audio system 0 is in
the domain of the virtual-to-card audio-system map and is the card's audio system 2. A
write of virtual `kRegSDIOut1Control` (register 129) with the DS1 mask (bits 18, 28, 30)
and value 0, which encodes virtual audio system 0, sends the card's register 170 (SDI-out
control of channel anchor+1) the value 0, which encodes audio system 0 in the DS1 bits and
not 2: the DS1 branch translates `NTV2_AUDIOSYSTEM_INVALID`, not the index it decoded. The
same write with the DS2 mask (bits 19, 29, 31) sends `BIT(29)`, which encodes 2. -/
theorem sdiOut_write_DS1_not_translated :
    HasKonaAudSys sampleVDev 0 = true ∧ KonaToCardAudSys sampleVDev 0 = 2
    ∧ audSysOfBits 0 18 28 30 = 0 ∧ audSysOfBits 0 19 29 31 = 0
    ∧ (NTV2WriteRegisterRemote sampleSDK sampleRegs sampleVDev sampleCard 129 0
        (BIT 18 ||| BIT 28 ||| BIT 30) 0).2.calls = [Call.WriteRegister 170 0 0xFFFFFFFF 0]
    ∧ (NTV2WriteRegisterRemote sampleSDK sampleRegs sampleVDev sampleCard 129 0
        (BIT 19 ||| BIT 29 ||| BIT 31) 0).2.calls
        = [Call.WriteRegister 170 (BIT 29) 0xFFFFFFFF 0]
    ∧ audSysOfBits (BIT 29) 19 29 31 = 2 := by
  decide

/-- C23 (the code at the failing input): on the sample tables, whose anchor channel is 2,
with the card's `kRegCh1Control` (register 1) holding `0x00100001` and the anchor's
`kRegCh3Control` (register 257) holding `0x00200002`, a read of virtual `kRegCh1Control`
with the whole-register mask returns `0x00100003`: the frame-size bits (mask `0x300000`)
are those of the card's `kRegCh1Control`, but bit 0 is set although it is clear in the
anchor's control register; the whole of the card's `kRegCh1Control` is OR-ed in. -/
theorem ch1Control_read_merges_whole_register :
    sampleVDev.mChannel = 2 ∧ sampleRegs.kRegChControl 1 = 1 ∧ sampleRegs.kRegChControl 3 = 257
    ∧ sampleRegs.kK2RegMaskFrameSize = 0x300000
    ∧ (NTV2ReadRegisterRemote sampleSDK sampleRegs sampleVDev
        (cardWithRegs (fun r => if r = 1 then 0x00100001 else if r = 257 then 0x00200002 else 0))
        1 0 0xFFFFFFFF 0).2.1 = 0x00100003
    ∧ (NTV2ReadRegisterRemote sampleSDK sampleRegs sampleVDev
        (cardWithRegs (fun r => if r = 1 then 0x00100001 else if r = 257 then 0x00200002 else 0))
        1 0 0xFFFFFFFF 0).2.2.calls
        = [Call.ReadRegister 257 0xFFFFFFFF 0, Call.ReadRegister 1 0xFFFFFFFF 0]
    ∧ 0x00100003 &&& 0x300000 = 0x00100001 &&& 0x300000
    ∧ 0x00100003 &&& not32 0x300000 = 3 ∧ 0x00200002 &&& not32 0x300000 = 2 := by
  decide

/-- C26 (the code at the failing input): with virtual audio system 1 on the card's audio
system 4 (index 3), the card's `kRegPCMControl4321` (register 408) holding `0xAA112233`
and `kRegPCMControl8765` (register 409) holding `0x000000BB`, a read of virtual
`kRegPCMControl4321` with the whole-register mask reads register 408 only and returns
`0xAA1100AA`: byte 0 is the byte of the card's audio system 4, but byte 1 is 0 and not
`0xBB`, the byte of the card's audio system 5, which lives in the register that is not
read. On the sample tables, where virtual audio system 1 is the card's audio system 3, the
same read of `0xDDCCBBAA` returns `0xDDCCDDCC`, the bytes of the card's audio systems 3
and 4. -/
theorem pcmControl_read_misses_next_register :
    KonaToCardAudSys vdevOnFrameStore4 NTV2_AUDIOSYSTEM_1 = 3
    ∧ sampleRegs.kRegPCMControl4321 = 408 ∧ sampleRegs.kRegPCMControl8765 = 409
    ∧ (NTV2ReadRegisterRemote sampleSDK sampleRegs vdevOnFrameStore4
        (cardWithRegs (fun r => if r = 408 then 0xAA112233 else if r = 409 then 0xBB else 0))
        408 0 0xFFFFFFFF 0).2.1 = 0xAA1100AA
    ∧ (NTV2ReadRegisterRemote sampleSDK sampleRegs vdevOnFrameStore4
        (cardWithRegs (fun r => if r = 408 then 0xAA112233 else if r = 409 then 0xBB else 0))
        408 0 0xFFFFFFFF 0).2.2.calls = [Call.ReadRegister 408 0xFFFFFFFF 0]
    ∧ KonaToCardAudSys sampleVDev NTV2_AUDIOSYSTEM_1 = 2
    ∧ (NTV2ReadRegisterRemote sampleSDK sampleRegs sampleVDev
        (cardWithRegs (fun r => if r = 408 then 0xDDCCBBAA else 0))
        408 0 0xFFFFFFFF 0).2.1 = 0xDDCCDDCC := by
  decide

/-! ## Interrupts -/

theorem Einputs_getD (sdk : SDK) (c : Nat) (hc : c < 8) :
    (Einputs sdk).getD c 0 = sdk.eInput (c + 1) := by
  interval_cases c <;> rfl

/-- C28: with the labels of the switch pairwise different, for every anchor channel `c` and
every interrupt id `i`, `VDevToCardInterrupt` sends `eInput1` to `eInput (c+1)`, entry `c`
of `Einputs`, when the table has that entry, `eInput2` to entry `c + 1` when the table has
that entry, each of `eOutput1` .. `eOutput8` to `eVerticalInterrupt`, and every id that is
no label of the switch to itself; and `NTV2WaitForInterruptRemote (i, timeOutMs)` is exactly
the card's `WaitForInterrupt` on the translated id with the same timeout: one call in the
card's log, whose result is returned. -/
theorem interrupt_ids_translated (sdk : SDK) (s : VDev) (card : Card) (i timeOutMs : Nat)
    (hlabels : (interruptSwitchLabels sdk).Nodup) :
    (s.mChannel < 8 → VDevToCardInterrupt sdk s (sdk.eInput 1) = sdk.eInput (s.mChannel + 1))
    ∧ (s.mChannel + 1 < 8 →
        VDevToCardInterrupt sdk s (sdk.eInput 2) = sdk.eInput (s.mChannel + 2))
    ∧ (∀ n, 1 ≤ n → n ≤ 8 → VDevToCardInterrupt sdk s (sdk.eOutput n) = sdk.eVerticalInterrupt)
    ∧ (i ∉ interruptSwitchLabels sdk → VDevToCardInterrupt sdk s i = i)
    ∧ NTV2WaitForInterruptRemote sdk s card i timeOutMs
        = card.WaitForInterrupt (VDevToCardInterrupt sdk s i) timeOutMs
    ∧ (NTV2WaitForInterruptRemote sdk s card i timeOutMs).1
        = card.WaitForInterruptResult (VDevToCardInterrupt sdk s i) timeOutMs
    ∧ (NTV2WaitForInterruptRemote sdk s card i timeOutMs).2.calls
        = card.calls ++ [Call.WaitForInterrupt (VDevToCardInterrupt sdk s i) timeOutMs] := by
  refine ⟨?_, ?_, ?_, ?_, rfl, rfl, rfl⟩
  · intro hc
    simp only [VDevToCardInterrupt, if_true]
    exact Einputs_getD sdk _ hc
  · intro hc
    have h := ne_of_mem_take hlabels 1 (by simp [interruptSwitchLabels])
    simp only [interruptSwitchLabels, List.take, List.getElem_cons_succ, List.getElem_cons_zero,
      List.forall_mem_cons, List.not_mem_nil, false_implies, implies_true, and_true] at h
    simp only [VDevToCardInterrupt, h, if_false, if_true]
    exact Einputs_getD sdk _ hc
  · intro n h1 h8
    have hn : n = 1 ∨ n = 2 ∨ n = 3 ∨ n = 4 ∨ n = 5 ∨ n = 6 ∨ n = 7 ∨ n = 8 := by omega
    rcases hn with rfl | rfl | rfl | rfl | rfl | rfl | rfl | rfl
    · have h := ne_of_mem_take hlabels 2 (by simp [interruptSwitchLabels])
      simp only [interruptSwitchLabels, List.take, List.getElem_cons_succ,
        List.getElem_cons_zero, List.forall_mem_cons, List.not_mem_nil, false_implies,
        implies_true, and_true] at h
      simp [VDevToCardInterrupt, h]
    · have h := ne_of_mem_take hlabels 3 (by simp [interruptSwitchLabels])
      simp only [interruptSwitchLabels, List.take, List.getElem_cons_succ,
        List.getElem_cons_zero, List.forall_mem_cons, List.not_mem_nil, false_implies,
        implies_true, and_true] at h
      simp [VDevToCardInterrupt, h]
    · have h := ne_of_mem_take hlabels 4 (by simp [interruptSwitchLabels])
      simp only [interruptSwitchLabels, List.take, List.getElem_cons_succ,
        List.getElem_cons_zero, List.forall_mem_cons, List.not_mem_nil, false_implies,
        implies_true, and_true] at h
      simp [VDevToCardInterrupt, h]
    · have h := ne_of_mem_take hlabels 5 (by simp [interruptSwitchLabels])
      simp only [interruptSwitchLabels, List.take, List.getElem_cons_succ,
        List.getElem_cons_zero, List.forall_mem_cons, List.not_mem_nil, false_implies,
        implies_true, and_true] at h
      simp [VDevToCardInterrupt, h]
    · have h := ne_of_mem_take hlabels 6 (by simp [interruptSwitchLabels])
      simp only [interruptSwitchLabels, List.take, List.getElem_cons_succ,
        List.getElem_cons_zero, List.forall_mem_cons, List.not_mem_nil, false_implies,
        implies_true, and_true] at h
      simp [VDevToCardInterrupt, h]
    · have h := ne_of_mem_take hlabels 7 (by simp [interruptSwitchLabels])
      simp only [interruptSwitchLabels, List.take, List.getElem_cons_succ,
        List.getElem_cons_zero, List.forall_mem_cons, List.not_mem_nil, false_implies,
        implies_true, and_true] at h
      simp [VDevToCardInterrupt, h]
    · have h := ne_of_mem_take hlabels 8 (by simp [interruptSwitchLabels])
      simp only [interruptSwitchLabels, List.take, List.getElem_cons_succ,
        List.getElem_cons_zero, List.forall_mem_cons, List.not_mem_nil, false_implies,
        implies_true, and_true] at h
      simp [VDevToCardInterrupt, h]
    · have h := ne_of_mem_take hlabels 9 (by simp [interruptSwitchLabels])
      simp only [interruptSwitchLabels, List.take, List.getElem_cons_succ,
        List.getElem_cons_zero, List.forall_mem_cons, List.not_mem_nil, false_implies,
        implies_true, and_true] at h
      simp [VDevToCardInterrupt, h]
  · intro hi
    simp only [interruptSwitchLabels, List.mem_cons, List.mem_singleton, List.not_mem_nil,
      or_false, not_or] at hi
    obtain ⟨a1, a2, b1, b2, b3, b4, b5, b6, b7, b8⟩ := hi
    simp [VDevToCardInterrupt, a1, a2, b1, b2, b3, b4, b5, b6, b7, b8]

/-- C28 on the sample tables, whose anchor channel is 2 and whose interrupt ids are
`eInput1 = 2`, `eInput2 = 3`, `eInput3 = 24`, `eInput4 = 25`, `eOutput1 = 0 =
eVerticalInterrupt`, `eOutput2 = 31`: `eInput1` becomes `eInput3`, `eInput2` becomes
`eInput4`, `eOutput2` becomes `eVerticalInterrupt`, id 7 stays 7, and a wait on `eInput1`
for 50 ms is one `WaitForInterrupt (eInput3, 50)` of the card. -/
theorem interrupt_ids_translated_witness :
    VDevToCardInterrupt sampleSDK sampleVDev 2 = 24
    ∧ VDevToCardInterrupt sampleSDK sampleVDev 3 = 25
    ∧ VDevToCardInterrupt sampleSDK sampleVDev 31 = 0
    ∧ VDevToCardInterrupt sampleSDK sampleVDev 7 = 7
    ∧ (NTV2WaitForInterruptRemote sampleSDK sampleVDev sampleCard 2 50).2.calls
        = [Call.WaitForInterrupt 24 50] := by
  have h := interrupt_ids_translated sampleSDK sampleVDev sampleCard 7 50 (by decide)
  have h2 := (interrupt_ids_translated sampleSDK sampleVDev sampleCard 2 50 (by decide)).2.2.2.2.2.2
  refine ⟨h.1 (by decide), h.2.1 (by decide), h.2.2.1 2 (by decide) (by decide),
    h.2.2.2.1 (by decide), ?_⟩
  rw [h2]
  decide

/-! ## PCM control writes -/

theorem pcmPairOf_none (K : Regs) (a m sh : Nat) :
    ∀ l : List Nat,
      (∀ q ∈ l, (K.kRegMaskPCMControl a q, K.kRegShiftPCMControl a q) ≠ (m, sh)) →
      pcmPairOf K a m sh l = none := by
  intro l
  induction l with
  | nil => intro _; rfl
  | cons q rest ih =>
    intro h
    have hq := h q (List.mem_cons_self _ _)
    have hne : ¬ (m = K.kRegMaskPCMControl a q ∧ sh = K.kRegShiftPCMControl a q) := by
      rintro ⟨e1, e2⟩
      exact hq (by rw [e1, e2])
    simp only [pcmPairOf, if_neg hne]
    exact ih (fun q' hq' => h q' (List.mem_cons_of_mem _ hq'))

theorem pcmPairOf_some (K : Regs) (a p : Nat) :
    ∀ l : List Nat, p ∈ l →
      (∀ q ∈ l, (K.kRegMaskPCMControl a q, K.kRegShiftPCMControl a q)
          = (K.kRegMaskPCMControl a p, K.kRegShiftPCMControl a p) → q = p) →
      pcmPairOf K a (K.kRegMaskPCMControl a p) (K.kRegShiftPCMControl a p) l = some p := by
  intro l
  induction l with
  | nil => intro hp; exact absurd hp (List.not_mem_nil p)
  | cons q rest ih =>
    intro hp hinj
    by_cases hq : K.kRegMaskPCMControl a p = K.kRegMaskPCMControl a q
        ∧ K.kRegShiftPCMControl a p = K.kRegShiftPCMControl a q
    · have e : q = p := hinj q (List.mem_cons_self _ _) (by rw [hq.1, hq.2])
      unfold pcmPairOf
      rw [if_pos hq, e]
    · simp only [pcmPairOf, if_neg hq]
      rcases List.mem_cons.mp hp with e | hp
      · exact absurd (by rw [e]; exact ⟨rfl, rfl⟩) hq
      · exact ih hp (fun q' hq' => hinj q' (List.mem_cons_of_mem _ hq'))

/-- C27: with the switch labels pairwise different, `kRegPCMControl4321` outside the anc
windows and the crosspoint-select registers, and the sixteen channel-pair fields of the
register pairwise different as `(mask, shift)`, when virtual audio system 1 maps to a
physical audio system `p` other than `NTV2_AUDIOSYSTEM_1`, for every value and every
channel pair (0..7) a write of virtual `kRegPCMControl4321` with the mask and shift of that
pair's field of audio system 1 is exactly `SetAudioPCMControl (p, pair, value != 0)`, and
with the mask and shift of its field of audio system 2 exactly
`SetAudioPCMControl (p + 1, pair, value != 0)`: the helper's result is returned and the one
call added to the card's log is that helper call, no register write. -/
theorem pcmControl_write_delegated (sdk : SDK) (K : Regs) (s : VDev) (card : Card)
    (value pair : Nat)
    (hlabels : (writeSwitchLabels K).Nodup)
    (hExt : isMyAncExtRegister K.kRegPCMControl4321 = false)
    (hIns : isMyAncInsRegister K.kRegPCMControl4321 = false)
    (hXpt : isMyXptSelectRegister s K.kRegPCMControl4321 = false)
    (hfields : ((List.range 8).map
          (fun p => (K.kRegMaskPCMControl 1 p, K.kRegShiftPCMControl 1 p))
        ++ (List.range 8).map
          (fun p => (K.kRegMaskPCMControl 2 p, K.kRegShiftPCMControl 2 p))).Nodup)
    (hmap : KonaToCardAudSys s NTV2_AUDIOSYSTEM_1 ≠ NTV2_AUDIOSYSTEM_1)
    (hpair : pair < 8) :
    NTV2WriteRegisterRemote sdk K s card K.kRegPCMControl4321 value
        (K.kRegMaskPCMControl 1 pair) (K.kRegShiftPCMControl 1 pair)
      = card.SetAudioPCMControl (KonaToCardAudSys s NTV2_AUDIOSYSTEM_1) pair
          (decide (value ≠ 0))
    ∧ NTV2WriteRegisterRemote sdk K s card K.kRegPCMControl4321 value
        (K.kRegMaskPCMControl 2 pair) (K.kRegShiftPCMControl 2 pair)
      = card.SetAudioPCMControl (KonaToCardAudSys s NTV2_AUDIOSYSTEM_1 + 1) pair
          (decide (value ≠ 0))
    ∧ ∀ a b, (card.SetAudioPCMControl a pair b).1 = card.pcmOK
        ∧ (card.SetAudioPCMControl a pair b).2.calls
            = card.calls ++ [Call.SetAudioPCMControl a pair b] := by
  have h := ne_of_mem_take hlabels 10 (by simp [writeSwitchLabels])
  simp only [writeSwitchLabels, List.take, List.getElem_cons_succ, List.getElem_cons_zero,
    List.forall_mem_cons, List.not_mem_nil, false_implies, implies_true, and_true] at h
  have hdisp : ∀ m sh, NTV2WriteRegisterRemote sdk K s card K.kRegPCMControl4321 value m sh
      = writePCMControl K s card K.kRegPCMControl4321 value m sh := by
    intro m sh
    simp [NTV2WriteRegisterRemote, hExt, hIns, hXpt, h]
  obtain ⟨hn1, hn2, hdisj⟩ := List.nodup_append.mp hfields
  have hmem : pair ∈ List.range 8 := List.mem_range.mpr hpair
  have hs1 : pcmPairOf K 1 (K.kRegMaskPCMControl 1 pair) (K.kRegShiftPCMControl 1 pair)
      (List.range 8) = some pair :=
    pcmPairOf_some K 1 pair _ hmem
      (fun q hq e => List.inj_on_of_nodup_map hn1 hq hmem e)
  have hs2 : pcmPairOf K 2 (K.kRegMaskPCMControl 2 pair) (K.kRegShiftPCMControl 2 pair)
      (List.range 8) = some pair :=
    pcmPairOf_some K 2 pair _ hmem
      (fun q hq e => List.inj_on_of_nodup_map hn2 hq hmem e)
  have hs3 : pcmPairOf K 1 (K.kRegMaskPCMControl 2 pair) (K.kRegShiftPCMControl 2 pair)
      (List.range 8) = none := by
    apply pcmPairOf_none
    intro q hq e
    exact hdisj (List.mem_map.mpr ⟨q, hq, rfl⟩) (List.mem_map.mpr ⟨pair, hmem, e.symm⟩)
  refine ⟨?_, ?_, fun a b => ⟨rfl, rfl⟩⟩
  · rw [hdisp]
    simp only [writePCMControl, if_neg hmap, hs1]
  · rw [hdisp]
    simp only [writePCMControl, if_neg hmap, hs3, hs2]

/-- C27 on the sample tables, where virtual audio system 1 is physical audio system 3
(index 2): a write of 1 to the field of pair 3 of audio system 1 is one
`SetAudioPCMControl (2, 3, true)`, a write of 0 to the field of pair 5 of audio system 2
one `SetAudioPCMControl (3, 5, false)`. -/
theorem pcmControl_write_delegated_witness :
    KonaToCardAudSys sampleVDev NTV2_AUDIOSYSTEM_1 = 2
    ∧ (NTV2WriteRegisterRemote sampleSDK sampleRegs sampleVDev sampleCard 408 1
        (BIT 3) 3).2.calls = [Call.SetAudioPCMControl 2 3 true]
    ∧ (NTV2WriteRegisterRemote sampleSDK sampleRegs sampleVDev sampleCard 408 0
        (BIT 13) 13).2.calls = [Call.SetAudioPCMControl 3 5 false] := by
  have h1 := (pcmControl_write_delegated sampleSDK sampleRegs sampleVDev sampleCard 1 3
    (by decide) (by decide) (by decide) (by decide) (by decide) (by decide) (by decide)).1
  have h2 := (pcmControl_write_delegated sampleSDK sampleRegs sampleVDev sampleCard 0 5
    (by decide) (by decide) (by decide) (by decide) (by decide) (by decide) (by decide)).2.1
  refine ⟨by decide, ?_, ?_⟩
  · have e : NTV2WriteRegisterRemote sampleSDK sampleRegs sampleVDev sampleCard 408 1 (BIT 3) 3
        = sampleCard.SetAudioPCMControl 2 3 true := h1
    rw [e]
    rfl
  · have e : NTV2WriteRegisterRemote sampleSDK sampleRegs sampleVDev sampleCard 408 0
        (BIT 13) 13 = sampleCard.SetAudioPCMControl 3 5 false := h2
    rw [e]
    rfl

/-! ## SDI-out control reads -/

theorem BIT_eq (n : Nat) : BIT n = 2 ^ n := by
  simp [BIT, Nat.shiftLeft_eq]

theorem and_BIT_ne_zero (x b : Nat) : (x &&& BIT b ≠ 0) ↔ x.testBit b = true := by
  rw [BIT_eq, Nat.and_two_pow]
  cases x.testBit b <;> simp

theorem audSysOfBits_eq (v b4 b2 b1 : Nat) :
    audSysOfBits v b4 b2 b1
      = (if v.testBit b4 = true then 4 else 0) + (if v.testBit b2 = true then 2 else 0)
        + (if v.testBit b1 = true then 1 else 0) := by
  simp only [audSysOfBits, and_BIT_ne_zero]

theorem audSys_of_testBits (a : Nat) (h : a < 8) :
    (if a.testBit 2 = true then 4 else 0) + (if a.testBit 1 = true then 2 else 0)
      + (if a.testBit 0 = true then 1 else 0) = a := by
  interval_cases a <;> decide

theorem testBit_bitsOfAudSys (a b4 b2 b1 i : Nat) :
    (bitsOfAudSys a b4 b2 b1).testBit i
      = ((a.testBit 2 && decide (b4 = i)) || (a.testBit 1 && decide (b2 = i))
          || (a.testBit 0 && decide (b1 = i))) := by
  have h4 : (a &&& 4 ≠ 0) ↔ a.testBit 2 = true := and_BIT_ne_zero a 2
  have h2 : (a &&& 2 ≠ 0) ↔ a.testBit 1 = true := and_BIT_ne_zero a 1
  have h1 : (a &&& 1 ≠ 0) ↔ a.testBit 0 = true := and_BIT_ne_zero a 0
  unfold bitsOfAudSys
  simp only [h4, h2, h1]
  generalize a.testBit 2 = t2
  generalize a.testBit 1 = t1
  generalize a.testBit 0 = t0
  cases t2 <;> cases t1 <;> cases t0 <;>
    simp [Nat.testBit_or, BIT_eq, Nat.testBit_two_pow]

theorem testBit_setAudSys (x k b4 b2 b1 i : Nat) (h42 : b4 ≠ b2) (h41 : b4 ≠ b1)
    (h21 : b2 ≠ b1) :
    ((x &&& not32 (BIT b4 ||| BIT b2 ||| BIT b1)) ||| bitsOfAudSys k b4 b2 b1).testBit i
      = if i = b4 then k.testBit 2 else if i = b2 then k.testBit 1
        else if i = b1 then k.testBit 0 else (decide (i < 32) && x.testBit i) := by
  simp only [Nat.testBit_or, Nat.testBit_and, testBit_not32, testBit_bitsOfAudSys, BIT_eq,
    Nat.testBit_two_pow]
  generalize k.testBit 2 = t2
  generalize k.testBit 1 = t1
  generalize k.testBit 0 = t0
  by_cases e4 : i = b4
  · subst e4
    simp [h42.symm, h41.symm]
  · have e4' : ¬ b4 = i := fun h => e4 h.symm
    by_cases e2 : i = b2
    · subst e2
      simp [h21.symm, e4, e4']
    · have e2' : ¬ b2 = i := fun h => e2 h.symm
      by_cases e1 : i = b1
      · subst e1
        simp [e4, e4', e2, e2']
      · have e1' : ¬ b1 = i := fun h => e1 h.symm
        simp [e4, e4', e2, e2', e1, e1', Bool.and_comm]

theorem clearDS1_eq : (0xFFFFFFFF - BIT 30 - BIT 28 - BIT 18 : Nat)
    = not32 (BIT 18 ||| BIT 28 ||| BIT 30) := by decide

theorem clearDS2_eq : (0xFFFFFFFF - BIT 31 - BIT 29 - BIT 19 : Nat)
    = not32 (BIT 19 ||| BIT 29 ||| BIT 31) := by decide

theorem lt32_and_testBit (x i : Nat) (hx : x < U32) :
    (decide (i < 32) && x.testBit i) = x.testBit i := by
  by_cases hi : i < 32
  · simp [hi]
  · have : x.testBit i = false :=
      testBit_eq_false_of_lt (k := 32) (by simpa [U32] using hx) (by omega)
    simp [this]

/-- Bit `i` of the value the `kRegSDIOut1Control` arm of the read switch builds from the
32-bit value `phys` of the card register. -/
theorem readSDIOutAudSysBits_testBit (s : VDev) (phys : Nat) (hphys : phys < U32) (i : Nat) :
    (readSDIOutAudSysBits s phys).testBit i
      = if (i = 18 ∨ i = 28 ∨ i = 30) ∧ HasCardAudSys s (audSysOfBits phys 18 28 30) = true then
          (CardToKonaAudSys s (audSysOfBits phys 18 28 30)).testBit
            (if i = 18 then 2 else if i = 28 then 1 else 0)
        else if (i = 19 ∨ i = 29 ∨ i = 31)
            ∧ HasCardAudSys s (audSysOfBits phys 19 29 31) = true then
          (CardToKonaAudSys s (audSysOfBits phys 19 29 31)).testBit
            (if i = 19 then 2 else if i = 29 then 1 else 0)
        else phys.testBit i := by
  have hmid : ∀ j, ((phys &&& (0xFFFFFFFF - BIT 30 - BIT 28 - BIT 18))
        ||| bitsOfAudSys (CardToKonaAudSys s (audSysOfBits phys 18 28 30)) 18 28 30).testBit j
      = if j = 18 then (CardToKonaAudSys s (audSysOfBits phys 18 28 30)).testBit 2
        else if j = 28 then (CardToKonaAudSys s (audSysOfBits phys 18 28 30)).testBit 1
        else if j = 30 then (CardToKonaAudSys s (audSysOfBits phys 18 28 30)).testBit 0
        else phys.testBit j := by
    intro j
    rw [clearDS1_eq, testBit_setAudSys _ _ _ _ _ _ (by decide) (by decide) (by decide),
      lt32_and_testBit _ _ hphys]
  have hlast : ∀ (x k j : Nat), ((x &&& (0xFFFFFFFF - BIT 31 - BIT 29 - BIT 19))
        ||| bitsOfAudSys k 19 29 31).testBit j
      = if j = 19 then k.testBit 2 else if j = 29 then k.testBit 1
        else if j = 31 then k.testBit 0 else (decide (j < 32) && x.testBit j) := by
    intro x k j
    rw [clearDS2_eq, testBit_setAudSys _ _ _ _ _ _ (by decide) (by decide) (by decide)]
  unfold readSDIOutAudSysBits
  simp only []
  by_cases h1 : HasCardAudSys s (audSysOfBits phys 18 28 30) = true
  · simp only [h1, if_true, and_true]
    generalize hk1 : CardToKonaAudSys s (audSysOfBits phys 18 28 30) = k1 at hmid ⊢
    generalize hm : (phys &&& (0xFFFFFFFF - BIT 30 - BIT 28 - BIT 18))
        ||| bitsOfAudSys k1 18 28 30 = mid at hmid ⊢
    have hp2 : audSysOfBits mid 19 29 31 = audSysOfBits phys 19 29 31 := by
      rw [audSysOfBits_eq, audSysOfBits_eq, hmid 19, hmid 29, hmid 31]
      simp
    rw [hp2]
    have hmid32 : ∀ j, (decide (j < 32) && mid.testBit j) = mid.testBit j := by
      intro j
      by_cases hj : j < 32
      · simp [hj]
      · have hj18 : ¬ j = 18 := by omega
        have hj28 : ¬ j = 28 := by omega
        have hj30 : ¬ j = 30 := by omega
        have : phys.testBit j = false :=
          testBit_eq_false_of_lt (k := 32) (by simpa [U32] using hphys) (by omega)
        rw [hmid j, if_neg hj18, if_neg hj28, if_neg hj30, this]
        simp
    by_cases h2 : HasCardAudSys s (audSysOfBits phys 19 29 31) = true
    · simp only [h2, if_true, and_true]
      rw [hlast, hmid32, hmid i]
      by_cases a : i = 18
      · subst a; simp
      by_cases b : i = 28
      · subst b; simp
      by_cases c : i = 30
      · subst c; simp
      by_cases d : i = 19
      · subst d; simp
      by_cases e : i = 29
      · subst e; simp
      by_cases f : i = 31
      · subst f; simp
      simp [a, b, c, d, e, f]
    · simp only [h2, if_false, and_false, Bool.false_eq_true]
      rw [hmid i]
      by_cases a : i = 18
      · subst a; simp
      by_cases b : i = 28
      · subst b; simp
      by_cases c : i = 30
      · subst c; simp
      simp [a, b, c]
  · simp only [h1, if_false, and_false, Bool.false_eq_true]
    by_cases h2 : HasCardAudSys s (audSysOfBits phys 19 29 31) = true
    · simp only [h2, if_true, and_true]
      rw [hlast, lt32_and_testBit _ _ hphys]
      by_cases d : i = 19
      · subst d; simp
      by_cases e : i = 29
      · subst e; simp
      by_cases f : i = 31
      · subst f; simp
      simp [d, e, f]
    · simp only [h2, if_false, and_false, Bool.false_eq_true]

theorem NMap.find_mem : ∀ (m : NMap) (k v : Nat), NMap.find m k = some v → (k, v) ∈ m := by
  intro m
  induction m with
  | nil => intro k v h; exact absurd h (by simp [NMap.find])
  | cons e rest ih =>
    intro k v h
    obtain ⟨k', v'⟩ := e
    simp only [NMap.find] at h
    by_cases hk : k = k'
    · rw [if_pos hk] at h
      have hv : v' = v := Option.some.inj h
      rw [hk, hv]
      exact List.mem_cons_self _ _
    · rw [if_neg hk] at h
      exact List.mem_cons_of_mem _ (ih k v h)

theorem CardToKonaAudSys_lt (s : VDev) (n : Nat) (hvirt : ∀ e ∈ s.mCardToKonaAudSys, e.2 < n) :
    ∀ a, HasCardAudSys s a = true → CardToKonaAudSys s a < n := by
  intro a ha
  unfold HasCardAudSys at ha
  unfold CardToKonaAudSys
  cases hf : s.mCardToKonaAudSys.find a with
  | none =>
    rw [hf] at ha
    exact absurd ha (by simp)
  | some v => exact hvirt _ (NMap.find_mem _ _ _ hf)

/-- C22: with the switch labels pairwise different, `kRegSDIOut1Control` outside the anc
windows and the crosspoint-select registers, `anchor + 1` a valid channel and the virtual
audio systems of the map valid (below 8), for every 32-bit value `phys` of the card's
SDI-out-control register of channel `anchor + 1` whose read succeeds and every caller mask
that has one of bits 18, 19, 28, 29, 30, 31, a read of virtual `kRegSDIOut1Control` is one
whole-register read of that card register and returns the translated value `r`, masked and
then shifted, where: bits 18/28/30 of `r` encode `CardToKonaAudSys (p1)` when the index
`p1` in bits 18/28/30 of `phys` is in the map, and are those of `phys` when it is not; bits
19/29/31 of `r` encode `CardToKonaAudSys (p2)` when the index `p2` in bits 19/29/31 of
`phys` is in the map, and are those of `phys` when it is not; every other bit of `r` is
that of `phys`. -/
theorem sdiOut_read_translates (sdk : SDK) (K : Regs) (s : VDev) (card : Card)
    (outValue mask shift phys : Nat)
    (hlabels : (readSwitchLabels K).Nodup)
    (hExt : isMyAncExtRegister (K.kRegSDIOutControl 1) = false)
    (hIns : isMyAncInsRegister (K.kRegSDIOutControl 1) = false)
    (hXpt : isMyXptSelectRegister s (K.kRegSDIOutControl 1) = false)
    (hc : s.mChannel + 1 < 8)
    (hmask : mask &&& (BIT 18 ||| BIT 19 ||| BIT 28 ||| BIT 29 ||| BIT 30 ||| BIT 31) ≠ 0)
    (hread : card.readOK (K.kRegSDIOutControl (s.mChannel + 2)) = true)
    (hreg : card.regs (K.kRegSDIOutControl (s.mChannel + 2)) = phys)
    (hphys : phys < U32)
    (hvirt : ∀ e ∈ s.mCardToKonaAudSys, e.2 < 8) :
    (NTV2ReadRegisterRemote sdk K s card (K.kRegSDIOutControl 1) outValue mask shift).1 = true
    ∧ (NTV2ReadRegisterRemote sdk K s card (K.kRegSDIOutControl 1) outValue mask shift).2.1
        = shiftIfRequested (readSDIOutAudSysBits s phys &&& mask) shift
    ∧ (NTV2ReadRegisterRemote sdk K s card (K.kRegSDIOutControl 1) outValue mask shift).2.2.calls
        = card.calls ++ [Call.ReadRegister (K.kRegSDIOutControl (s.mChannel + 2)) 0xFFFFFFFF 0]
    ∧ (HasCardAudSys s (audSysOfBits phys 18 28 30) = true →
        audSysOfBits (readSDIOutAudSysBits s phys) 18 28 30
          = CardToKonaAudSys s (audSysOfBits phys 18 28 30))
    ∧ (HasCardAudSys s (audSysOfBits phys 18 28 30) = false →
        ∀ i ∈ [18, 28, 30], (readSDIOutAudSysBits s phys).testBit i = phys.testBit i)
    ∧ (HasCardAudSys s (audSysOfBits phys 19 29 31) = true →
        audSysOfBits (readSDIOutAudSysBits s phys) 19 29 31
          = CardToKonaAudSys s (audSysOfBits phys 19 29 31))
    ∧ (HasCardAudSys s (audSysOfBits phys 19 29 31) = false →
        ∀ i ∈ [19, 29, 31], (readSDIOutAudSysBits s phys).testBit i = phys.testBit i)
    ∧ ∀ i, i ∉ [18, 19, 28, 29, 30, 31] →
        (readSDIOutAudSysBits s phys).testBit i = phys.testBit i := by
  have h := ne_of_mem_take hlabels 19 (by simp [readSwitchLabels])
  simp only [readSwitchLabels, List.take, List.getElem_cons_succ, List.getElem_cons_zero,
    List.forall_mem_cons, List.not_mem_nil, false_implies, implies_true, and_true] at h
  have e1 : idx (gChannelToSDIOutControlRegNum K) (s.mChannel + 1)
      = K.kRegSDIOutControl (s.mChannel + 2) := idx_perChannel _ _ hc
  have hall : phys &&& 0xFFFFFFFF = phys := by
    have h32 : (0xFFFFFFFF : Nat) = 2 ^ 32 - 1 := by norm_num
    rw [h32, Nat.and_pow_two_sub_one_eq_mod]
    exact Nat.mod_eq_of_lt (by simpa [U32] using hphys)
  have hrd : card.ReadRegister (K.kRegSDIOutControl (s.mChannel + 2)) outValue 0xFFFFFFFF 0
      = (true, phys, { card with calls := card.calls
          ++ [Call.ReadRegister (K.kRegSDIOutControl (s.mChannel + 2)) 0xFFFFFFFF 0] }) := by
    simp only [Card.ReadRegister, hread, if_true, hreg, hall, Nat.shiftRight_zero]
  have hval : NTV2ReadRegisterRemote sdk K s card (K.kRegSDIOutControl 1) outValue mask shift
      = (true, shiftIfRequested (readSDIOutAudSysBits s phys &&& mask) shift,
          { card with calls := card.calls
            ++ [Call.ReadRegister (K.kRegSDIOutControl (s.mChannel + 2)) 0xFFFFFFFF 0] }) := by
    simp [NTV2ReadRegisterRemote, hExt, hIns, hXpt, h, e1, hmask, hrd]
  have hb := readSDIOutAudSysBits_testBit s phys hphys
  have hv := CardToKonaAudSys_lt s 8 hvirt
  refine ⟨by rw [hval], by rw [hval], by rw [hval], ?_, ?_, ?_, ?_, ?_⟩
  · intro h1
    rw [audSysOfBits_eq, hb 18, hb 28, hb 30]
    simp only [h1, and_true, true_or, or_true, if_true]
    simpa using audSys_of_testBits _ (hv _ h1)
  · intro h1 i hi
    rw [hb i]
    simp only [List.mem_cons, List.mem_singleton, List.not_mem_nil, or_false] at hi
    rcases hi with rfl | rfl | rfl <;> simp [h1]
  · intro h2
    rw [audSysOfBits_eq, hb 19, hb 29, hb 31]
    simp only [h2, and_true, true_or, or_true, if_true]
    simpa using audSys_of_testBits _ (hv _ h2)
  · intro h2 i hi
    rw [hb i]
    simp only [List.mem_cons, List.mem_singleton, List.not_mem_nil, or_false] at hi
    rcases hi with rfl | rfl | rfl <;> simp [h2]
  · intro i hi
    rw [hb i]
    simp only [List.mem_cons, List.mem_singleton, List.not_mem_nil, or_false, not_or] at hi
    obtain ⟨a, b, c, d, e, f⟩ := hi
    simp [a, b, c, d, e, f]

/-- C22 on the sample tables, whose anchor channel is 2 and whose one physical audio
system in the map is index 2, virtual index 0: with the card's `kRegSDIOut4Control`
(register 170) holding `0xB0000005`, DS1 index 2 and DS2 index 3, a whole-register read of
virtual `kRegSDIOut1Control` (register 129) returns `0xA0000005`: DS1 index 0, the DS2 bits
and the low bits as they were. -/
theorem sdiOut_read_translates_witness :
    (NTV2ReadRegisterRemote sampleSDK sampleRegs sampleVDev
        (cardWithRegs (fun r => if r = 170 then 0xB0000005 else 0)) 129 0 0xFFFFFFFF 0).2.1
      = 0xA0000005
    ∧ audSysOfBits 0xB0000005 18 28 30 = 2
    ∧ audSysOfBits 0xA0000005 18 28 30 = 0
    ∧ audSysOfBits 0xB0000005 19 29 31 = 3
    ∧ audSysOfBits 0xA0000005 19 29 31 = 3 := by
  have h := (sdiOut_read_translates sampleSDK sampleRegs sampleVDev
    (cardWithRegs (fun r => if r = 170 then 0xB0000005 else 0)) 0 0xFFFFFFFF 0 0xB0000005
    (by decide) (by decide) (by decide) (by decide) (by decide) (by decide) (by decide)
    (by decide) (by decide) (by decide)).2.1
  refine ⟨?_, by decide, by decide, by decide, by decide⟩
  have e : (NTV2ReadRegisterRemote sampleSDK sampleRegs sampleVDev
      (cardWithRegs (fun r => if r = 170 then 0xB0000005 else 0)) 129 0 0xFFFFFFFF 0).2.1
      = shiftIfRequested (readSDIOutAudSysBits sampleVDev 0xB0000005 &&& 0xFFFFFFFF) 0 := h
  rw [e]
  decide

/-! ## RegInfo geometry -/

/-- An index that does not fit the `UByte` parameter of the helpers is narrowed on the way
to them: `RegInfo (136, 256, 1)` has the geometry of index 0 and `RegInfo (136, 259, 1)`
that of index 3. The indices of the `RegInfo`s the file builds are those that
`CNTV2RegisterExpert::GetCrosspointSelectGroupRegisterInfo` delivers. -/
theorem RegInfo_index_narrowed_to_byte :
    ({ mRegNum := 136, mNdx := 256, mIXpt := 1 } : RegInfo).mask = 0x000000FF
    ∧ ({ mRegNum := 136, mNdx := 256, mIXpt := 1 } : RegInfo).invMask = 0xFFFFFF00
    ∧ ({ mRegNum := 136, mNdx := 256, mIXpt := 1 } : RegInfo).shift = 0
    ∧ ({ mRegNum := 136, mNdx := 259, mIXpt := 1 } : RegInfo).mask = 0xFF000000
    ∧ ({ mRegNum := 136, mNdx := 259, mIXpt := 1 } : RegInfo).shift = 24 := by
  decide

/-- C33 (the code, and the failing inputs): `ImportVDFromJSON` returns true exactly when
the configuration file can be opened, whatever it holds. On the sample host, whose
configuration has the one device `SN1` with the one virtual device `vd-1`, a lookup of
serial `SN2` returns true and a lookup of `SN1` with id `vd-9` returns true, each leaving
`mVDjson` null; a lookup of `SN1` and `vd-1` records the virtual device, and a file that
cannot be opened gives false. -/
theorem ImportVDFromJSON_true_without_match :
    (∀ (host : Host) (t : Translator),
      (ImportVDFromJSON host t).1 = (host.configFile t.mCP2config).isSome)
    ∧ (ImportVDFromJSON sampleHost (translatorLookingFor "SN2" "vd-1")).1 = true
    ∧ (ImportVDFromJSON sampleHost (translatorLookingFor "SN2" "vd-1")).2.mVDjson = none
    ∧ (ImportVDFromJSON sampleHost (translatorLookingFor "SN1" "vd-9")).1 = true
    ∧ (ImportVDFromJSON sampleHost (translatorLookingFor "SN1" "vd-9")).2.mVDjson = none
    ∧ (ImportVDFromJSON sampleHost (translatorLookingFor "SN1" "vd-1")).2.mVDjson.isSome = true
    ∧ (ImportVDFromJSON hostWithoutConfigFile (translatorLookingFor "SN1" "vd-1")).1 = false := by
  refine ⟨?_, by decide, by decide, by decide, by decide, by decide, by decide⟩
  intro host t
  unfold ImportVDFromJSON
  cases host.configFile t.mCP2config with
  | none => rfl
  | some devlist =>
    simp only []
    split <;> rfl

/-! ## Table indices at the last channel -/

/-- C37 (the code at the failing input): a configuration that puts virtual FrameStore 1 on
the card's FrameStore 8 sets up with anchor channel 7. Then `anchor + 1` is 8: it is the
position of the trailing 0 of the nine-entry per-channel tables and no index of the
eight-entry `Einputs`. A read of virtual `kRegCh2OutputFrame` (register 7) or of
`kRegSDIOut1Control` (register 129) is sent to the card's register 0, the terminator of the
table, while a read of `kRegCh1OutputFrame` (register 3) goes to the register of channel 8
(397). -/
theorem anchor_7_indexes_past_tables :
    (SetupMapping sampleSDK sampleCard widgetsOnFrameStore8 (VDev.constructed 0x10)).1 = true
    ∧ vdevOnFrameStore8.mChannel = 7
    ∧ (Einputs sampleSDK).length = 8
    ∧ ¬ (vdevOnFrameStore8.mChannel + 1 < (Einputs sampleSDK).length)
    ∧ (gChannelToOutputFrameRegNum sampleRegs).length = 9
    ∧ (gChannelToOutputFrameRegNum sampleRegs)[vdevOnFrameStore8.mChannel + 1]? = some 0
    ∧ (gChannelToSDIOutControlRegNum sampleRegs)[vdevOnFrameStore8.mChannel + 1]? = some 0
    ∧ (NTV2ReadRegisterRemote sampleSDK sampleRegs vdevOnFrameStore8 sampleCard 7 0
        0xFFFFFFFF 0).2.2.calls = [Call.ReadRegister 0 0xFFFFFFFF 0]
    ∧ (NTV2ReadRegisterRemote sampleSDK sampleRegs vdevOnFrameStore8 sampleCard 129 0
        0xFF 0).2.2.calls = [Call.ReadRegister 0 0xFF 0]
    ∧ (NTV2ReadRegisterRemote sampleSDK sampleRegs vdevOnFrameStore8 sampleCard 3 0
        0xFFFFFFFF 0).2.2.calls = [Call.ReadRegister 397 0xFFFFFFFF 0] := by
  decide

/-! ## Writes of the SDI-out control register -/

/-- C38 (the code at the failing input): on the sample tables, whose anchor channel is 2,
with the card's `kRegSDIOut4Control` (register 170, channel anchor+1) holding `0xE`, a
write of value 1 with mask `0x1` and shift 0 to virtual `kRegSDIOut1Control` (register
129) is sent to the card as a whole-register write of the value 1 and leaves the register
at `0x1`: bits 1, 2 and 3, outside the caller's mask, are cleared. The same write to
register 130, which the switch passes through with the caller's mask, leaves `0xF`. -/
theorem sdiOut_write_clears_bits_outside_mask :
    (NTV2WriteRegisterRemote sampleSDK sampleRegs sampleVDev
        (cardWithRegs (fun r => if r = 170 then 0xE else 0)) 129 1 0x1 0).1 = true
    ∧ (NTV2WriteRegisterRemote sampleSDK sampleRegs sampleVDev
        (cardWithRegs (fun r => if r = 170 then 0xE else 0)) 129 1 0x1 0).2.calls
        = [Call.WriteRegister 170 1 0xFFFFFFFF 0]
    ∧ (NTV2WriteRegisterRemote sampleSDK sampleRegs sampleVDev
        (cardWithRegs (fun r => if r = 170 then 0xE else 0)) 129 1 0x1 0).2.regs 170 = 0x1
    ∧ (NTV2WriteRegisterRemote sampleSDK sampleRegs sampleVDev
        (cardWithRegs (fun r => if r = 130 then 0xE else 0)) 130 1 0x1 0).2.calls
        = [Call.WriteRegister 130 1 0x1 0]
    ∧ (NTV2WriteRegisterRemote sampleSDK sampleRegs sampleVDev
        (cardWithRegs (fun r => if r = 130 then 0xE else 0)) 130 1 0x1 0).2.regs 130 = 0xF := by
  decide

/-! ## Crosspoint-select writes over several fields -/

/-- C40 (the code at the failing input): on the sample tables the virtual crosspoint-select
register 136 has the fields of bytes 0 and 1 (input crosspoints 1 and 2), and the virtual
output crosspoints 8 and 9 are the card's 10 and 11. A write of `0x0908` with mask `0xFFFF`
and shift 0, which covers both fields with 8 in byte 0 and 9 in byte 1, writes 0 to both
nibbles of the card's register 137: each field is given `VDevToCardOutputXpt (0x0908)`,
the translation of the whole value, which is in no map. Written one field at a time, with
the field's mask and shift, the same bytes give 10 and 11. -/
theorem xptWrite_two_fields_translates_whole_value :
    VDevToCardOutputXpt sampleSDK sampleVDev 8 = 10
    ∧ VDevToCardOutputXpt sampleSDK sampleVDev 9 = 11
    ∧ VDevToCardOutputXpt sampleSDK sampleVDev 0x0908 = 0
    ∧ (NTV2WriteRegisterRemote sampleSDK sampleRegs sampleVDev sampleCard 136 0x0908
        0xFFFF 0).1 = true
    ∧ (NTV2WriteRegisterRemote sampleSDK sampleRegs sampleVDev sampleCard 136 0x0908
        0xFFFF 0).2.calls
        = [Call.WriteRegister 137 0 0xFF 0, Call.WriteRegister 137 0 0xFF00 8]
    ∧ (NTV2WriteRegisterRemote sampleSDK sampleRegs sampleVDev sampleCard 136 8
        0xFF 0).2.calls = [Call.WriteRegister 137 10 0xFF 0]
    ∧ (NTV2WriteRegisterRemote sampleSDK sampleRegs sampleVDev sampleCard 136 9
        0xFF00 8).2.calls = [Call.WriteRegister 137 11 0xFF00 8] := by
  decide

/-! ## The order of frame-0 normalisation -/

theorem below_8MB_normalised (x : Nat) (hx : x < 0x800000) :
    x / 0x800000 = 0 ∧ x - (x / 0x800000 * 0x800000) % U32 = x := by
  have h0 : x / 0x800000 = 0 := Nat.div_eq_of_lt hx
  refine ⟨h0, ?_⟩
  rw [h0]
  simp

theorem offset_normalised (o : Nat) (ho : o < U32) :
    o - (o / 0x800000 * 0x800000) % U32 = o % 0x800000 := by
  have hU : U32 = 4294967296 := rfl
  have hle : o / 0x800000 * 0x800000 ≤ o := Nat.div_mul_le_self o 0x800000
  have hm : (o / 0x800000 * 0x800000) % U32 = o / 0x800000 * 0x800000 :=
    Nat.mod_eq_of_lt (by omega)
  rw [hm]
  omega

/-- The frame and offset `NTV2DMATransferRemote` hands to the card, as a function of what
`DATKonaToCardFrmOffset` returns. -/
theorem DMA_coordinates_eq_specified (s : VDev) (frame offset : Nat) (ho : offset < U32) :
    (if (DATKonaToCardFrmOffset s frame offset).2.1 = 0 then
        (DATKonaToCardFrmOffset s frame offset).2.2 / 0x800000
      else (DATKonaToCardFrmOffset s frame offset).2.1) = (specifiedDMACoordinates s frame offset).1
    ∧ (if (DATKonaToCardFrmOffset s frame offset).2.1 = 0 then
        (DATKonaToCardFrmOffset s frame offset).2.2
          - ((DATKonaToCardFrmOffset s frame offset).2.2 / 0x800000 * 0x800000) % U32
      else (DATKonaToCardFrmOffset s frame offset).2.2)
        = (specifiedDMACoordinates s frame offset).2 := by
  have hU : U32 = 4294967296 := rfl
  have haddr : ∀ f o, (0x800000 * f + o) % U32 < U32 := fun f o => Nat.mod_lt _ (by decide)
  have hsmall : ∀ a, a < U32 → a - (a &&& 0xFF800000) < 0x800000 := by
    intro a ha
    rw [sub_8MB_base a ha]
    exact Nat.mod_lt _ (by decide)
  -- the address the specified order translates when the incoming frame is 0
  have hsame : (0x800000 * (offset / 0x800000) + offset % 0x800000) % U32
      = (0x800000 * 0 + offset) % U32 := by
    rw [Nat.div_add_mod]
    simp
  unfold specifiedDMACoordinates
  simp only []
  by_cases hf : frame = 0
  · subst hf
    simp only [if_true]
    unfold DATKonaToCardFrmOffset
    simp only [hsame]
    generalize hA : (0x800000 * 0 + offset) % U32 = a
    have ha : a < U32 := by rw [← hA]; exact haddr 0 offset
    have hao : a = offset := by
      rw [← hA]
      simp [Nat.mod_eq_of_lt ho]
    cases hfind : s.mKonaToCardDAT.find (a &&& 0xFF800000) with
    | none =>
      simp only [if_true]
      exact ⟨trivial, offset_normalised offset ho⟩
    | some B =>
      simp only []
      have hs := below_8MB_normalised _ (hsmall a ha)
      by_cases hB : B >>> 23 = 0
      · simp only [hB, if_true]
        exact ⟨hs.1, hs.2⟩
      · simp only [hB, if_false]
        exact ⟨trivial, trivial⟩
  · simp only [if_neg hf]
    unfold DATKonaToCardFrmOffset
    simp only []
    generalize hA : (0x800000 * frame + offset) % U32 = a
    have ha : a < U32 := by rw [← hA]; exact haddr frame offset
    cases hfind : s.mKonaToCardDAT.find (a &&& 0xFF800000) with
    | none =>
      simp only [if_neg hf]
      exact ⟨trivial, trivial⟩
    | some B =>
      simp only []
      have hs := below_8MB_normalised _ (hsmall a ha)
      by_cases hB : B >>> 23 = 0
      · simp only [hB, if_true]
        exact ⟨hs.1, hs.2⟩
      · simp only [hB, if_false]
        exact ⟨trivial, trivial⟩

/-- C36: for every DAT map, every frame and every 32-bit offset, the frame and offset that
`NTV2DMATransferRemote` passes to the card's DMA primitive, translating with
`DATKonaToCardFrmOffset` first and normalising a resulting frame 0 afterwards, are those of
the specified order, which normalises an incoming frame 0 first and then translates; the
other arguments of the call are the caller's. -/
theorem DMA_normalisation_order_irrelevant (s : VDev) (card : Card) (inDMAEngine : Nat)
    (inRead : Bool) (inFrameNum : Nat) (inOutBuffer : NTV2Buffer)
    (inCardOffsetBytes inNumSegments inSegmentHostPitch inSegmentCardPitch : Nat)
    (inSync : Bool) (h32 : inCardOffsetBytes < U32) :
    NTV2DMATransferRemote s card inDMAEngine inRead inFrameNum inOutBuffer inCardOffsetBytes
        inNumSegments inSegmentHostPitch inSegmentCardPitch inSync
      = card.DmaTransfer inDMAEngine inRead
          (specifiedDMACoordinates s inFrameNum inCardOffsetBytes).1 inOutBuffer
          (specifiedDMACoordinates s inFrameNum inCardOffsetBytes).2 inOutBuffer.GetByteCount
          inNumSegments inSegmentHostPitch inSegmentCardPitch inSync
    ∧ (NTV2DMATransferRemote s card inDMAEngine inRead inFrameNum inOutBuffer
        inCardOffsetBytes inNumSegments inSegmentHostPitch inSegmentCardPitch inSync).2.calls
      = card.calls ++ [Call.DmaTransfer inDMAEngine inRead
          (specifiedDMACoordinates s inFrameNum inCardOffsetBytes).1 inOutBuffer
          (specifiedDMACoordinates s inFrameNum inCardOffsetBytes).2 inOutBuffer.GetByteCount
          inNumSegments inSegmentHostPitch inSegmentCardPitch inSync] := by
  have h := DMA_coordinates_eq_specified s inFrameNum inCardOffsetBytes h32
  have e : NTV2DMATransferRemote s card inDMAEngine inRead inFrameNum inOutBuffer
        inCardOffsetBytes inNumSegments inSegmentHostPitch inSegmentCardPitch inSync
      = card.DmaTransfer inDMAEngine inRead
          (specifiedDMACoordinates s inFrameNum inCardOffsetBytes).1 inOutBuffer
          (specifiedDMACoordinates s inFrameNum inCardOffsetBytes).2 inOutBuffer.GetByteCount
          inNumSegments inSegmentHostPitch inSegmentCardPitch inSync := by
    unfold NTV2DMATransferRemote
    simp only []
    by_cases hc : (DATKonaToCardFrmOffset s inFrameNum inCardOffsetBytes).2.1 = 0
    · simp only [if_pos hc] at h
      simp only [if_pos hc]
      rw [h.2, h.1]
    · simp only [if_neg hc] at h
      simp only [if_neg hc]
      rw [h.1, h.2]
  exact ⟨e, by rw [e]; rfl⟩

/-- C36 on the sample tables, whose DAT map sends the virtual base `0x1F800000` to the
card's `0x1E800000` (frame 61): the offset `0x1F800010` with frame 0, and frame 63 with
offset `0x10`, both reach the card as frame 61, offset `0x10`; the unmapped offset
`0x1A00000` with frame 0 reaches it as frame 3, offset `0x200000`. -/
theorem DMA_normalisation_order_irrelevant_witness :
    specifiedDMACoordinates sampleVDev 0 0x1F800010 = (61, 0x10)
    ∧ (NTV2DMATransferRemote sampleVDev sampleCard 1 true 0 ⟨[1, 2]⟩ 0x1F800010 1 0 0
        true).2.calls = [Call.DmaTransfer 1 true 61 ⟨[1, 2]⟩ 0x10 2 1 0 0 true]
    ∧ (NTV2DMATransferRemote sampleVDev sampleCard 1 true 63 ⟨[1, 2]⟩ 0x10 1 0 0
        true).2.calls = [Call.DmaTransfer 1 true 61 ⟨[1, 2]⟩ 0x10 2 1 0 0 true]
    ∧ (NTV2DMATransferRemote sampleVDev sampleCard 1 true 0 ⟨[1, 2]⟩ 0x1A00000 1 0 0
        true).2.calls = [Call.DmaTransfer 1 true 3 ⟨[1, 2]⟩ 0x200000 2 1 0 0 true] := by
  have h1 := (DMA_normalisation_order_irrelevant sampleVDev sampleCard 1 true 0 ⟨[1, 2]⟩
    0x1F800010 1 0 0 true (by decide)).2
  have h2 := (DMA_normalisation_order_irrelevant sampleVDev sampleCard 1 true 63 ⟨[1, 2]⟩
    0x10 1 0 0 true (by decide)).2
  have h3 := (DMA_normalisation_order_irrelevant sampleVDev sampleCard 1 true 0 ⟨[1, 2]⟩
    0x1A00000 1 0 0 true (by decide)).2
  refine ⟨by decide, ?_, ?_, ?_⟩
  · rw [h1]
    decide
  · rw [h2]
    decide
  · rw [h3]
    decide

/-! ## Autocirculate-status messages -/

theorem NMap.mem_of_mem_insert (e : Nat × Nat) (k v : Nat) :
    ∀ m : NMap, e ∈ m.insert k v → e = (k, v) ∨ e ∈ m := by
  intro m
  induction m with
  | nil =>
    intro h
    simp only [NMap.insert, List.mem_singleton] at h
    exact Or.inl h
  | cons x t ih =>
    obtain ⟨a, b⟩ := x
    intro h
    simp only [NMap.insert] at h
    by_cases h1 : k < a
    · rw [if_pos h1] at h
      rcases List.mem_cons.mp h with h | h
      · exact Or.inl h
      · exact Or.inr h
    · rw [if_neg h1] at h
      by_cases h2 : k = a
      · rw [if_pos h2] at h
        rcases List.mem_cons.mp h with h | h
        · exact Or.inl h
        · exact Or.inr (List.mem_cons_of_mem _ h)
      · rw [if_neg h2] at h
        rcases List.mem_cons.mp h with h | h
        · exact Or.inr (by rw [h]; exact List.mem_cons_self _ _)
        · rcases ih h with h | h
          · exact Or.inl h
          · exact Or.inr (List.mem_cons_of_mem _ h)

/-- After a successful mapping setup on freshly constructed tables, the input and output
autocirculate crosspoints of a channel being different, every entry of the
virtual-to-card autocirculate map has its inverse in the card-to-virtual map. -/
theorem SetupMapping_ACXpts_inverse (sdk : SDK) (card : Card) (mw : List MappedWidget)
    (id : Nat) (hok : (SetupMapping sdk card mw (VDev.constructed id)).1 = true)
    (hac : ∀ ch, sdk.GetNTV2CrosspointInputForIndex ch ≠ sdk.GetNTV2CrosspointChannelForIndex ch) :
    ∀ e ∈ (SetupMapping sdk card mw (VDev.constructed id)).2.mKonaToCardACXpts,
      (SetupMapping sdk card mw (VDev.constructed id)).2.mCardToKonaACXpts.find e.2
        = some e.1 := by
  obtain ⟨_, _, _, t4, t5, _, _⟩ := SetupMapping_channel_tables sdk card mw id hok
  generalize (SetupWidgetMapping sdk mw (VDev.constructed id)).2.mChannel = a at t4 t5
  have ha := hac a
  intro e he
  rw [t5] at he
  rw [t4, NMap.find_insert, NMap.find_insert]
  rcases NMap.mem_of_mem_insert e _ _ _ he with h | h
  · rw [h]
    simp
  · rcases NMap.mem_of_mem_insert e _ _ _ h with h | h
    · rw [h]
      simp [ha, NMap.find]
    · exact absurd h (List.not_mem_nil e)

/-- C32: with the message type `NTV2_TYPE_ACSTATUS` different from `NTV2_TYPE_SETREGS` and
`NTV2_TYPE_GETREGS`, for every autocirculate-status message `msg`: the card's
`NTV2Message` is called once, with `sent`, the message whose `acCrosspoint` is
`KonaToCardACXpt (msg.acCrosspoint)`; the card's result is returned; and the caller's
message afterwards is `left`, the message as the card left it, with `acCrosspoint` replaced
by `CardToKonaACXpt (left.acCrosspoint)` and `acAudioSystem` by `CardToKonaAudSys
(left.acAudioSystem)`. When every entry of the virtual-to-card autocirculate map has its
inverse in the card-to-virtual map, `msg.acCrosspoint` is in the map and the card leaves
`acCrosspoint` as sent, the caller's `acCrosspoint` afterwards is the original one. -/
theorem acStatus_message_translated (sdk : SDK) (s : VDev) (card : Card)
    (msg sent left : Message)
    (htype : msg.GetType = sdk.NTV2_TYPE_ACSTATUS)
    (hset : sdk.NTV2_TYPE_ACSTATUS ≠ sdk.NTV2_TYPE_SETREGS)
    (hget : sdk.NTV2_TYPE_ACSTATUS ≠ sdk.NTV2_TYPE_GETREGS)
    (hsent : sent = { msg with acCrosspoint := KonaToCardACXpt sdk s msg.acCrosspoint })
    (hleft : left = (card.NTV2MessageResult sent).2) :
    (NTV2MessageRemote sdk s card (some msg)).1 = (card.NTV2MessageResult sent).1
    ∧ (NTV2MessageRemote sdk s card (some msg)).2.2.calls
        = card.calls ++ [Call.NTV2Message sent]
    ∧ (NTV2MessageRemote sdk s card (some msg)).2.1
        = some { left with
            acCrosspoint := CardToKonaACXpt sdk s left.acCrosspoint
            acAudioSystem := CardToKonaAudSys s left.acAudioSystem }
    ∧ ((∀ e ∈ s.mKonaToCardACXpts, s.mCardToKonaACXpts.find e.2 = some e.1) →
        (s.mKonaToCardACXpts.find msg.acCrosspoint).isSome = true →
        left.acCrosspoint = sent.acCrosspoint →
        (NTV2MessageRemote sdk s card (some msg)).2.1.map Message.acCrosspoint
          = some msg.acCrosspoint) := by
  have h1 : ¬ msg.GetType = sdk.NTV2_TYPE_SETREGS := by rw [htype]; exact hset
  have h2 : ¬ msg.GetType = sdk.NTV2_TYPE_GETREGS := by rw [htype]; exact hget
  have hval : NTV2MessageRemote sdk s card (some msg)
      = ((card.NTV2MessageResult sent).1,
          some { left with
            acCrosspoint := CardToKonaACXpt sdk s left.acCrosspoint
            acAudioSystem := CardToKonaAudSys s left.acAudioSystem },
          (card.NTV2Message sent).2.2) := by
    rw [hleft, hsent]
    simp only [NTV2MessageRemote, if_neg h1, if_neg h2, if_pos htype, Card.NTV2Message]
  refine ⟨by rw [hval], by rw [hval]; rfl, by rw [hval], ?_⟩
  intro hinv hdom hsame
  rw [hval]
  simp only [Option.map_some']
  cases hf : s.mKonaToCardACXpts.find msg.acCrosspoint with
  | none =>
    rw [hf] at hdom
    exact absurd hdom (by simp)
  | some y =>
    have hmem := NMap.mem_of_find _ _ _ hf
    have hback : s.mCardToKonaACXpts.find y = some msg.acCrosspoint := hinv _ hmem
    have hs : sent.acCrosspoint = y := by
      rw [hsent]
      simp only [KonaToCardACXpt, hf]
    rw [hsame, hs]
    simp only [CardToKonaACXpt, hback]

/-- C32 on the sample tables, whose anchor channel is 2, and the sample card, which leaves
a message as it gets it: a status message with `acCrosspoint` `0x10`, the input crosspoint
of channel 1, reaches the card with `0x12`, that of channel 3, and comes back with `0x10`;
its `acAudioSystem` 2 comes back as 0. -/
theorem acStatus_message_translated_witness :
    (NTV2MessageRemote sampleSDK sampleVDev sampleCard
        (some { fType := 0x61635374, acCrosspoint := 0x10, acAudioSystem := 2,
                acFrameTime := 0, rest := [] })).2.2.calls
      = [Call.NTV2Message { fType := 0x61635374, acCrosspoint := 0x12, acAudioSystem := 2,
                            acFrameTime := 0, rest := [] }]
    ∧ (NTV2MessageRemote sampleSDK sampleVDev sampleCard
        (some { fType := 0x61635374, acCrosspoint := 0x10, acAudioSystem := 2,
                acFrameTime := 0, rest := [] })).2.1.map Message.acCrosspoint = some 0x10
    ∧ (NTV2MessageRemote sampleSDK sampleVDev sampleCard
        (some { fType := 0x61635374, acCrosspoint := 0x10, acAudioSystem := 2,
                acFrameTime := 0, rest := [] })).2.1.map Message.acAudioSystem = some 0 := by
  have h := acStatus_message_translated sampleSDK sampleVDev sampleCard
    { fType := 0x61635374, acCrosspoint := 0x10, acAudioSystem := 2, acFrameTime := 0,
      rest := [] }
    { fType := 0x61635374, acCrosspoint := 0x12, acAudioSystem := 2, acFrameTime := 0,
      rest := [] }
    { fType := 0x61635374, acCrosspoint := 0x12, acAudioSystem := 2, acFrameTime := 0,
      rest := [] }
    (by decide) (by decide) (by decide) (by decide) (by decide)
  refine ⟨?_, h.2.2.2 (by decide) (by decide) (by decide), ?_⟩
  · rw [h.2.1]
    decide
  · rw [h.2.2.1]
    decide

/-! ## The tables after a host call -/

theorem Translator.withCard_withCard (t : Translator) (c1 c2 : Card) :
    (t.withCard c1).withCard c2 = t.withCard c2 := rfl

theorem Translator.withCard_mCard (t : Translator) : t.withCard t.mCard = t := rfl

theorem Translator.tables_withCard (t : Translator) (card : Card) :
    (t.withCard card).tables = t.tables := rfl

theorem Translator.mCard_withCard (t : Translator) (card : Card) :
    (t.withCard card).mCard = card := rfl

theorem mCard_ReadRegister_on_instance (t : Translator) (regNum outValue mask shift : Nat) :
    t.mCard_ReadRegister regNum outValue mask shift
      = ((t.mCard.ReadRegister regNum outValue mask shift).1,
         (t.mCard.ReadRegister regNum outValue mask shift).2.1,
         t.withCard (t.mCard.ReadRegister regNum outValue mask shift).2.2) := rfl

theorem mCard_WriteRegister_on_instance (t : Translator) (regNum value mask shift : Nat) :
    t.mCard_WriteRegister regNum value mask shift
      = ((t.mCard.WriteRegister regNum value mask shift).1,
         t.withCard (t.mCard.WriteRegister regNum value mask shift).2) := rfl

theorem readXptLoop_on_instance (sdk : SDK) (inMask : Nat) :
    ∀ (l : List RegInfo) (outVal : Nat) (t : Translator),
      Translator.readXptLoop sdk inMask l outVal t
        = ((readXptLoop sdk t.tables inMask l outVal t.mCard).1,
           (readXptLoop sdk t.tables inMask l outVal t.mCard).2.1,
           t.withCard (readXptLoop sdk t.tables inMask l outVal t.mCard).2.2) := by
  intro l
  induction l with
  | nil =>
    intro outVal t
    rfl
  | cons k rest ih =>
    intro outVal t
    simp only [Translator.readXptLoop, readXptLoop]
    by_cases hm : (k.mask &&& inMask) ≠ k.mask
    · rw [if_pos hm, if_pos hm]
      exact ih outVal t
    · rw [if_neg hm, if_neg hm]
      cases hg : sdk.GetCrosspointSelectGroupRegisterInfo (VDevToCardInputXpt sdk t.tables k.inputXpt) with
      | none => rfl
      | some p =>
        obtain ⟨cardRegNum, nibbleNdx⟩ := p
        simp only [Translator.ReadCardRegister, ReadCardRegister, mCard_ReadRegister_on_instance]
        split
        · rfl
        · rw [ih]
          rfl

theorem HandleReadXptSelectReg_on_instance (sdk : SDK) (t : Translator)
    (inRegNum outVal inMask inShift : Nat) :
    t.HandleReadXptSelectReg sdk inRegNum outVal inMask inShift
      = ((HandleReadXptSelectReg sdk t.tables t.mCard inRegNum outVal inMask inShift).1,
         (HandleReadXptSelectReg sdk t.tables t.mCard inRegNum outVal inMask inShift).2.1,
         t.withCard
           (HandleReadXptSelectReg sdk t.tables t.mCard inRegNum outVal inMask inShift).2.2) := by
  unfold Translator.HandleReadXptSelectReg HandleReadXptSelectReg
  by_cases h : ¬ isMyXptSelectRegister t.tables inRegNum
  · rw [if_pos h, if_pos h]
    rfl
  · rw [if_neg h, if_neg h]
    simp only [readXptLoop_on_instance]
    split <;> rfl

theorem writeXptLoop_on_instance (sdk : SDK) (inVal inMask : Nat) :
    ∀ (l : List RegInfo) (t : Translator),
      Translator.writeXptLoop sdk inVal inMask l t
        = ((writeXptLoop sdk t.tables inVal inMask l t.mCard).1,
           t.withCard (writeXptLoop sdk t.tables inVal inMask l t.mCard).2) := by
  intro l
  induction l with
  | nil =>
    intro t
    rfl
  | cons k rest ih =>
    intro t
    simp only [Translator.writeXptLoop, writeXptLoop]
    by_cases hm : (k.mask &&& inMask) ≠ k.mask
    · rw [if_pos hm, if_pos hm]
      exact ih t
    · rw [if_neg hm, if_neg hm]
      cases hg : sdk.GetCrosspointSelectGroupRegisterInfo (VDevToCardInputXpt sdk t.tables k.inputXpt) with
      | none => rfl
      | some p =>
        obtain ⟨cardRegNum, nibbleNdx⟩ := p
        simp only [Translator.WriteCardRegister, WriteCardRegister, mCard_WriteRegister_on_instance]
        split
        · rfl
        · rw [ih]
          rfl

theorem HandleWriteXptSelectReg_on_instance (sdk : SDK) (t : Translator)
    (inRegNum inVal inMask inShift : Nat) :
    t.HandleWriteXptSelectReg sdk inRegNum inVal inMask inShift
      = ((HandleWriteXptSelectReg sdk t.tables t.mCard inRegNum inVal inMask inShift).1,
         t.withCard
           (HandleWriteXptSelectReg sdk t.tables t.mCard inRegNum inVal inMask inShift).2) := by
  unfold Translator.HandleWriteXptSelectReg HandleWriteXptSelectReg
  by_cases h : ¬ isMyXptSelectRegister t.tables inRegNum
  · rw [if_pos h, if_pos h]
    rfl
  · rw [if_neg h, if_neg h]
    exact writeXptLoop_on_instance sdk inVal inMask _ t

theorem HandleReadAnc_on_instance (t : Translator) (regNum outRegValue regMask regShift : Nat) :
    t.HandleReadAncIns regNum outRegValue regMask regShift
      = ((HandleReadAncIns t.tables t.mCard regNum outRegValue regMask regShift).1,
         (HandleReadAncIns t.tables t.mCard regNum outRegValue regMask regShift).2.1,
         t.withCard (HandleReadAncIns t.tables t.mCard regNum outRegValue regMask regShift).2.2)
    ∧ t.HandleReadAncExt regNum outRegValue regMask regShift
      = ((HandleReadAncExt t.tables t.mCard regNum outRegValue regMask regShift).1,
         (HandleReadAncExt t.tables t.mCard regNum outRegValue regMask regShift).2.1,
         t.withCard
           (HandleReadAncExt t.tables t.mCard regNum outRegValue regMask regShift).2.2) := by
  constructor
  · unfold Translator.HandleReadAncIns HandleReadAncIns
    simp only []
    split_ifs <;> rfl
  · unfold Translator.HandleReadAncExt HandleReadAncExt
    simp only []
    split_ifs <;> rfl

theorem HandleWriteAnc_on_instance (t : Translator) (regNum inRegValue regMask regShift : Nat) :
    t.HandleWriteAncIns regNum inRegValue regMask regShift
      = ((HandleWriteAncIns t.tables t.mCard regNum inRegValue regMask regShift).1,
         t.withCard (HandleWriteAncIns t.tables t.mCard regNum inRegValue regMask regShift).2)
    ∧ t.HandleWriteAncExt regNum inRegValue regMask regShift
      = ((HandleWriteAncExt t.tables t.mCard regNum inRegValue regMask regShift).1,
         t.withCard
           (HandleWriteAncExt t.tables t.mCard regNum inRegValue regMask regShift).2) := by
  constructor
  · unfold Translator.HandleWriteAncIns HandleWriteAncIns
    simp only []
    split_ifs <;> rfl
  · unfold Translator.HandleWriteAncExt HandleWriteAncExt
    simp only []
    split_ifs <;> rfl

theorem HandleReadGlobalControl_on_instance (sdk : SDK) (K : Regs) (t : Translator)
    (regNum outValue mask shift : Nat) :
    t.HandleReadGlobalControl sdk K regNum outValue mask shift
      = ((HandleReadGlobalControl sdk K t.tables t.mCard regNum outValue mask shift).1,
         (HandleReadGlobalControl sdk K t.tables t.mCard regNum outValue mask shift).2.1,
         t.withCard
           (HandleReadGlobalControl sdk K t.tables t.mCard regNum outValue mask shift).2.2) := by
  unfold Translator.HandleReadGlobalControl HandleReadGlobalControl
  simp only [mCard_ReadRegister_on_instance, Translator.tables_withCard,
    Translator.mCard_withCard]
  split_ifs <;> rfl

theorem HandleReadChannelControl_on_instance (K : Regs) (t : Translator)
    (regNum outValue mask shift : Nat) :
    t.HandleReadChannelControl K regNum outValue mask shift
      = ((HandleReadChannelControl K t.tables t.mCard regNum outValue mask shift).1,
         (HandleReadChannelControl K t.tables t.mCard regNum outValue mask shift).2.1,
         t.withCard
           (HandleReadChannelControl K t.tables t.mCard regNum outValue mask shift).2.2) := by
  unfold Translator.HandleReadChannelControl HandleReadChannelControl
  simp only [mCard_ReadRegister_on_instance, Translator.tables_withCard,
    Translator.mCard_withCard]
  split_ifs <;> rfl

theorem writeSDIXmitLoop_on_instance (sdk : SDK) (K : Regs) (inRegNum VDRegVal inRegMask : Nat) :
    ∀ (l : List Nat) (t : Translator),
      Translator.writeSDIXmitLoop sdk K inRegNum VDRegVal inRegMask l t
        = ((writeSDIXmitLoop sdk K t.tables inRegNum VDRegVal inRegMask l t.mCard).1,
           t.withCard
             (writeSDIXmitLoop sdk K t.tables inRegNum VDRegVal inRegMask l t.mCard).2) := by
  intro l
  induction l with
  | nil =>
    intro t
    rfl
  | cons i rest ih =>
    intro t
    simp only [Translator.writeSDIXmitLoop, writeSDIXmitLoop, Translator.GetCardIOChannelFromVirtual]
    by_cases hm : idx (sSDIXmitEnableMasks K) i &&& inRegMask ≠ 0
    · rw [if_pos hm, if_pos hm]
      cases hg : GetCardIOChannelFromVirtual sdk i t.tables.mVDevToCardWgts with
      | none => exact ih t
      | some cardChannel =>
        simp only [mCard_WriteRegister_on_instance]
        split
        · rfl
        · rw [ih]
          rfl
    · rw [if_neg hm, if_neg hm]
      exact ih t

theorem HandleWriteSDITransmitControl_on_instance (sdk : SDK) (K : Regs) (t : Translator)
    (inRegNum inRegVal inRegMask inRegShift : Nat) :
    t.HandleWriteSDITransmitControl sdk K inRegNum inRegVal inRegMask inRegShift
      = ((HandleWriteSDITransmitControl sdk K t.tables t.mCard inRegNum inRegVal inRegMask
            inRegShift).1,
         t.withCard (HandleWriteSDITransmitControl sdk K t.tables t.mCard inRegNum inRegVal
            inRegMask inRegShift).2) := by
  unfold Translator.HandleWriteSDITransmitControl HandleWriteSDITransmitControl
  by_cases h : ¬ t.mCard.HasBiDirectionalSDI
  · rw [if_pos h, if_pos h]
    rfl
  · rw [if_neg h, if_neg h]
    exact writeSDIXmitLoop_on_instance sdk K inRegNum _ inRegMask _ t

theorem readSDIXmitLoop_on_instance (sdk : SDK) (K : Regs) (inRegNum inRegMask : Nat) :
    ∀ (l : List Nat) (OutValue : Nat) (t : Translator),
      Translator.readSDIXmitLoop sdk K inRegNum inRegMask l OutValue t
        = ((readSDIXmitLoop sdk K t.tables inRegNum inRegMask l OutValue t.mCard).1,
           (readSDIXmitLoop sdk K t.tables inRegNum inRegMask l OutValue t.mCard).2.1,
           t.withCard
             (readSDIXmitLoop sdk K t.tables inRegNum inRegMask l OutValue t.mCard).2.2) := by
  intro l
  induction l with
  | nil =>
    intro OutValue t
    rfl
  | cons i rest ih =>
    intro OutValue t
    simp only [Translator.readSDIXmitLoop, readSDIXmitLoop, Translator.GetCardIOChannelFromVirtual]
    by_cases hm : idx (sSDIXmitEnableMasks K) i &&& inRegMask ≠ 0
    · rw [if_pos hm, if_pos hm]
      cases hg : GetCardIOChannelFromVirtual sdk i t.tables.mVDevToCardWgts with
      | none => exact ih OutValue t
      | some cardChannel =>
        simp only [mCard_ReadRegister_on_instance]
        split
        · rfl
        · rw [ih]
          rfl
    · rw [if_neg hm, if_neg hm]
      exact ih OutValue t

theorem HandleReadSDITransmitControl_on_instance (sdk : SDK) (K : Regs) (t : Translator)
    (inRegNum OutValue inRegMask inRegShift : Nat) :
    t.HandleReadSDITransmitControl sdk K inRegNum OutValue inRegMask inRegShift
      = ((HandleReadSDITransmitControl sdk K t.tables t.mCard inRegNum OutValue inRegMask
            inRegShift).1,
         (HandleReadSDITransmitControl sdk K t.tables t.mCard inRegNum OutValue inRegMask
            inRegShift).2.1,
         t.withCard (HandleReadSDITransmitControl sdk K t.tables t.mCard inRegNum OutValue
            inRegMask inRegShift).2.2) := by
  unfold Translator.HandleReadSDITransmitControl HandleReadSDITransmitControl
  by_cases h : ¬ t.mCard.HasBiDirectionalSDI
  · rw [if_pos h, if_pos h]
    rfl
  · rw [if_neg h, if_neg h]
    simp only [readSDIXmitLoop_on_instance]
    split <;> rfl

theorem readPCMControl_on_instance (K : Regs) (t : Translator)
    (regNum outValue inRegMask inRegShift : Nat) :
    t.readPCMControl K regNum outValue inRegMask inRegShift
      = ((readPCMControl K t.tables t.mCard regNum outValue inRegMask inRegShift).1,
         (readPCMControl K t.tables t.mCard regNum outValue inRegMask inRegShift).2.1,
         t.withCard
           (readPCMControl K t.tables t.mCard regNum outValue inRegMask inRegShift).2.2) := by
  unfold Translator.readPCMControl readPCMControl
  simp only [mCard_ReadRegister_on_instance, Translator.tables_withCard,
    Translator.mCard_withCard]
  split_ifs <;> rfl

theorem writePCMControl_on_instance (K : Regs) (t : Translator)
    (regNum inRegVal inRegMask inRegShift : Nat) :
    t.writePCMControl K regNum inRegVal inRegMask inRegShift
      = ((writePCMControl K t.tables t.mCard regNum inRegVal inRegMask inRegShift).1,
         t.withCard
           (writePCMControl K t.tables t.mCard regNum inRegVal inRegMask inRegShift).2) := by
  unfold Translator.writePCMControl writePCMControl
  simp only []
  split
  · rfl
  · cases pcmPairOf K 1 inRegMask inRegShift (List.range 8) with
    | some p => rfl
    | none =>
      cases pcmPairOf K 2 inRegMask inRegShift (List.range 8) with
      | some p => rfl
      | none => rfl

theorem ite_rel2 {α β : Type} (P : α → β → Prop) (c : Prop) [Decidable c] (a b : α) (a' b' : β)
    (ha : c → P a a') (hb : ¬ c → P b b') :
    P (if c then a else b) (if c then a' else b') := by
  by_cases h : c
  · rw [if_pos h, if_pos h]; exact ha h
  · rw [if_neg h, if_neg h]; exact hb h

/-- The method `NTV2ReadRegisterRemote` over the instance data returns what the method over
the tables and the card returns, and leaves the instance data as it was but for the card. -/
theorem NTV2ReadRegisterRemote_on_instance (sdk : SDK) (K : Regs) (t : Translator)
    (regNum outValue mask shift : Nat) :
    t.NTV2ReadRegisterRemote sdk K regNum outValue mask shift
      = ((NTV2ReadRegisterRemote sdk K t.tables t.mCard regNum outValue mask shift).1,
         (NTV2ReadRegisterRemote sdk K t.tables t.mCard regNum outValue mask shift).2.1,
         t.withCard
           (NTV2ReadRegisterRemote sdk K t.tables t.mCard regNum outValue mask shift).2.2) := by
  suffices key : ∀ (P : Bool × Nat × Translator → Bool × Nat × Card → Prop),
      (∀ x y, x = (y.1, y.2.1, t.withCard y.2.2) → P x y) →
      P (t.NTV2ReadRegisterRemote sdk K regNum outValue mask shift)
        (NTV2ReadRegisterRemote sdk K t.tables t.mCard regNum outValue mask shift) from
    key (fun x y => x = (y.1, y.2.1, t.withCard y.2.2)) (fun _ _ h => h)
  intro P hP
  unfold Translator.NTV2ReadRegisterRemote NTV2ReadRegisterRemote
  simp only []
  repeat' (with_reducible refine ite_rel2 P _ _ _ _ _ (fun _ => ?_) (fun _ => ?_))
  all_goals with_reducible refine hP _ _ ?_
  all_goals first
    | exact (HandleReadAnc_on_instance t _ _ _ _).1
    | exact (HandleReadAnc_on_instance t _ _ _ _).2
    | exact HandleReadXptSelectReg_on_instance sdk t _ _ _ _
    | exact readPCMControl_on_instance K t _ _ _ _
    | exact HandleReadGlobalControl_on_instance sdk K t _ _ _ _
    | exact HandleReadChannelControl_on_instance K t _ _ _ _
    | exact HandleReadSDITransmitControl_on_instance sdk K t _ _ _ _
    | exact mCard_ReadRegister_on_instance t _ _ _ _
    | (simp only [mCard_ReadRegister_on_instance, Translator.tables_withCard]
       split_ifs <;> rfl)
    | rfl

/-- The method `NTV2WriteRegisterRemote` over the instance data returns what the method over
the tables and the card returns, and leaves the instance data as it was but for the card. -/
theorem NTV2WriteRegisterRemote_on_instance (sdk : SDK) (K : Regs) (t : Translator)
    (regNum value mask shift : Nat) :
    t.NTV2WriteRegisterRemote sdk K regNum value mask shift
      = ((NTV2WriteRegisterRemote sdk K t.tables t.mCard regNum value mask shift).1,
         t.withCard
           (NTV2WriteRegisterRemote sdk K t.tables t.mCard regNum value mask shift).2) := by
  suffices key : ∀ (P : Bool × Translator → Bool × Card → Prop),
      (∀ x y, x = (y.1, t.withCard y.2) → P x y) →
      P (t.NTV2WriteRegisterRemote sdk K regNum value mask shift)
        (NTV2WriteRegisterRemote sdk K t.tables t.mCard regNum value mask shift) from
    key (fun x y => x = (y.1, t.withCard y.2)) (fun _ _ h => h)
  intro P hP
  unfold Translator.NTV2WriteRegisterRemote NTV2WriteRegisterRemote
  simp only []
  repeat' (with_reducible refine ite_rel2 P _ _ _ _ _ (fun _ => ?_) (fun _ => ?_))
  all_goals with_reducible refine hP _ _ ?_
  all_goals first
    | exact (HandleWriteAnc_on_instance t _ _ _ _).1
    | exact (HandleWriteAnc_on_instance t _ _ _ _).2
    | exact HandleWriteXptSelectReg_on_instance sdk t _ _ _ _
    | exact writePCMControl_on_instance K t _ _ _ _
    | exact HandleWriteSDITransmitControl_on_instance sdk K t _ _ _ _
    | exact mCard_WriteRegister_on_instance t _ _ _ _

/-- The methods `NTV2WaitForInterruptRemote` and `NTV2DMATransferRemote` over the instance
data return what the methods over the tables and the card return, and leave the instance
data as it was but for the card. -/
theorem interrupt_and_DMA_on_instance (sdk : SDK) (t : Translator) :
    (∀ eInterrupt timeOutMs,
      t.NTV2WaitForInterruptRemote sdk eInterrupt timeOutMs
        = ((NTV2WaitForInterruptRemote sdk t.tables t.mCard eInterrupt timeOutMs).1,
           t.withCard (NTV2WaitForInterruptRemote sdk t.tables t.mCard eInterrupt timeOutMs).2))
    ∧ (∀ engine isRead frameNum buffer cardOffsetBytes numSegments hostPitch cardPitch sync,
      t.NTV2DMATransferRemote engine isRead frameNum buffer cardOffsetBytes numSegments
          hostPitch cardPitch sync
        = ((NTV2DMATransferRemote t.tables t.mCard engine isRead frameNum buffer
              cardOffsetBytes numSegments hostPitch cardPitch sync).1,
           t.withCard (NTV2DMATransferRemote t.tables t.mCard engine isRead frameNum buffer
              cardOffsetBytes numSegments hostPitch cardPitch sync).2)) :=
  ⟨fun _ _ => rfl, fun _ _ _ _ _ _ _ _ _ => rfl⟩

/-- The method `NTV2MessageRemote` over the instance data returns what the method over the
tables and the card returns, and leaves the instance data as it was but for the card. -/
theorem NTV2MessageRemote_on_instance (sdk : SDK) (t : Translator) (pMsg : Option Message) :
    t.NTV2MessageRemote sdk pMsg
      = ((NTV2MessageRemote sdk t.tables t.mCard pMsg).1,
         (NTV2MessageRemote sdk t.tables t.mCard pMsg).2.1,
         t.withCard (NTV2MessageRemote sdk t.tables t.mCard pMsg).2.2) := by
  cases pMsg with
  | none => rfl
  | some msg =>
    simp only [Translator.NTV2MessageRemote, NTV2MessageRemote]
    split_ifs <;> rfl

/-- The method `NTV2AutoCirculateRemote` over the instance data returns what the method over
the tables and the card returns, and leaves the instance data as it was but for the card. -/
theorem NTV2AutoCirculateRemote_on_instance (sdk : SDK) (t : Translator)
    (acData : AUTOCIRCULATE_DATA) :
    t.NTV2AutoCirculateRemote sdk acData
      = ((NTV2AutoCirculateRemote sdk t.tables t.mCard acData).1,
         (NTV2AutoCirculateRemote sdk t.tables t.mCard acData).2.1,
         t.withCard (NTV2AutoCirculateRemote sdk t.tables t.mCard acData).2.2) := rfl

/-- C34: for every state of the instance data, connected or not, and every call of
`NTV2ReadRegisterRemote`, `NTV2WriteRegisterRemote`, `NTV2DMATransferRemote`,
`NTV2WaitForInterruptRemote`, `NTV2AutoCirculateRemote` or `NTV2MessageRemote` with any
arguments, the instance data after the call has the tables it had before the call: the
anchor channel `mChannel`, the simulated device ID, and every map and multimap (widget,
input and output crosspoint, channel, mixer, autocirculate crosspoint, audio system, DAT,
and the two crosspoint-register multimaps). -/
theorem tables_unchanged_by_host_calls (sdk : SDK) (K : Regs) (t : Translator) :
    (∀ regNum outValue mask shift,
      (t.NTV2ReadRegisterRemote sdk K regNum outValue mask shift).2.2.tables = t.tables)
    ∧ (∀ regNum value mask shift,
      (t.NTV2WriteRegisterRemote sdk K regNum value mask shift).2.tables = t.tables)
    ∧ (∀ engine isRead frameNum buffer cardOffsetBytes numSegments hostPitch cardPitch sync,
      (t.NTV2DMATransferRemote engine isRead frameNum buffer cardOffsetBytes numSegments
        hostPitch cardPitch sync).2.tables = t.tables)
    ∧ (∀ eInterrupt timeOutMs,
      (t.NTV2WaitForInterruptRemote sdk eInterrupt timeOutMs).2.tables = t.tables)
    ∧ (∀ acData, (t.NTV2AutoCirculateRemote sdk acData).2.2.tables = t.tables)
    ∧ (∀ pMsg, (t.NTV2MessageRemote sdk pMsg).2.2.tables = t.tables) := by
  refine ⟨?_, ?_, ?_, ?_, ?_, ?_⟩
  · intro regNum outValue mask shift
    rw [NTV2ReadRegisterRemote_on_instance]
    rfl
  · intro regNum value mask shift
    rw [NTV2WriteRegisterRemote_on_instance]
    rfl
  · intro engine isRead frameNum buffer cardOffsetBytes numSegments hostPitch cardPitch sync
    rw [(interrupt_and_DMA_on_instance sdk t).2]
    rfl
  · intro eInterrupt timeOutMs
    rw [(interrupt_and_DMA_on_instance sdk t).1]
    rfl
  · intro acData
    rw [NTV2AutoCirculateRemote_on_instance]
    rfl
  · intro pMsg
    rw [NTV2MessageRemote_on_instance]
    rfl

/-- The sample translator before and after `NTV2Connect` on the sample host: the
constructor leaves the anchor channel 0 and the channel map empty, `NTV2Connect` sets them
to 2 and to the one entry 0 to 2. A write of 5 to the virtual `kRegCh1Control` (register 1)
on the connected translator returns true, is sent to the card as one write to register 257
and leaves register 257 at 5; the anchor channel and the channel map afterwards are those
of the connected translator. -/
theorem host_call_on_connected_translator :
    sampleTranslator.tables.mChannel = 0
    ∧ sampleTranslator.tables.mVDevToCardChls = []
    ∧ (NTV2Connect sampleSDK sampleHost sampleTranslator).1 = true
    ∧ (NTV2Connect sampleSDK sampleHost sampleTranslator).2.tables.mChannel = 2
    ∧ (NTV2Connect sampleSDK sampleHost sampleTranslator).2.tables.mVDevToCardChls = [(0, 2)]
    ∧ ((NTV2Connect sampleSDK sampleHost sampleTranslator).2.NTV2WriteRegisterRemote
        sampleSDK sampleRegs 1 5 0xFFFFFFFF 0).1 = true
    ∧ ((NTV2Connect sampleSDK sampleHost sampleTranslator).2.NTV2WriteRegisterRemote
        sampleSDK sampleRegs 1 5 0xFFFFFFFF 0).2.mCard.calls
        = [Call.WriteRegister 257 5 0xFFFFFFFF 0]
    ∧ ((NTV2Connect sampleSDK sampleHost sampleTranslator).2.NTV2WriteRegisterRemote
        sampleSDK sampleRegs 1 5 0xFFFFFFFF 0).2.mCard.regs 257 = 5
    ∧ ((NTV2Connect sampleSDK sampleHost sampleTranslator).2.NTV2WriteRegisterRemote
        sampleSDK sampleRegs 1 5 0xFFFFFFFF 0).2.tables.mChannel = 2
    ∧ ((NTV2Connect sampleSDK sampleHost sampleTranslator).2.NTV2WriteRegisterRemote
        sampleSDK sampleRegs 1 5 0xFFFFFFFF 0).2.tables.mVDevToCardChls = [(0, 2)] := by
  decide

/-! ## SDI transmit-control reads -/

theorem testBit_or_BIT (x k i : Nat) : (x ||| BIT k).testBit i = (x.testBit i || decide (k = i)) := by
  rw [Nat.testBit_or, BIT_eq, Nat.testBit_two_pow]

theorem testBit_and_not32_BIT (x k i : Nat) (hi : i < 32) :
    (x &&& not32 (BIT k)).testBit i = (x.testBit i && !decide (k = i)) := by
  rw [Nat.testBit_and, testBit_not32, BIT_eq, Nat.testBit_two_pow]
  simp [hi]

theorem masked_bit_ne_zero (x k : Nat) : ((x &&& BIT k) >>> k ≠ 0) ↔ x.testBit k = true := by
  rw [BIT_eq, Nat.and_two_pow, Nat.shiftRight_eq_div_pow]
  cases x.testBit k <;> simp

theorem idx_ne_of_nodup (l : List Nat) (h : l.Nodup) (a b : Nat) (ha : a < l.length)
    (hb : b < l.length) (hab : a ≠ b) : idx l a ≠ idx l b := by
  unfold idx
  rw [List.getD_eq_getElem _ _ ha, List.getD_eq_getElem _ _ hb]
  intro e
  exact hab ((List.Nodup.getElem_inj_iff h).mp e)

/-- The loop of `HandleReadSDITransmitControl` when the reads of the register succeed and
the eight transmit masks are eight different single bits of a 32-bit word: it succeeds, and
the transmit bit of each virtual spigot of the list that is in the caller's mask and has a
card spigot is set exactly when the masked and shifted read of the card spigot's bit is not
0; every other transmit bit is as in `OutValue`. -/
theorem readSDIXmitLoop_bits (sdk : SDK) (K : Regs) (s : VDev) (inRegNum inRegMask : Nat)
    (regs : Nat → Nat)
    (hbits : ∀ n ∈ List.range 8, idx (sSDIXmitEnableMasks K) n = BIT (idx (sSDIXmitEnableShifts K) n))
    (hlt : ∀ n ∈ List.range 8, idx (sSDIXmitEnableShifts K) n < 32)
    (hnodup : (sSDIXmitEnableShifts K).Nodup) :
    ∀ (l : List Nat) (OutValue : Nat) (card : Card),
      card.regs = regs → card.readOK inRegNum = true → (∀ n ∈ l, n < 8) → l.Nodup →
      (readSDIXmitLoop sdk K s inRegNum inRegMask l OutValue card).1 = true
      ∧ ∀ i, i < 8 →
          (readSDIXmitLoop sdk K s inRegNum inRegMask l OutValue card).2.1.testBit
              (idx (sSDIXmitEnableShifts K) i)
            = if i ∈ l ∧ idx (sSDIXmitEnableMasks K) i &&& inRegMask ≠ 0 then
                match GetCardIOChannelFromVirtual sdk i s.mVDevToCardWgts with
                | some j => decide ((regs inRegNum &&& idx (sSDIXmitEnableMasks K) j)
                    >>> idx (sSDIXmitEnableShifts K) j ≠ 0)
                | none => OutValue.testBit (idx (sSDIXmitEnableShifts K) i)
              else OutValue.testBit (idx (sSDIXmitEnableShifts K) i) := by
  have hlen : (sSDIXmitEnableShifts K).length = 8 := rfl
  intro l
  induction l with
  | nil =>
    intro OutValue card _ _ _ _
    refine ⟨rfl, ?_⟩
    intro i _
    simp [readSDIXmitLoop]
  | cons n t ih =>
    intro OutValue card hregs hread hl8 hnd
    have hn8 : n < 8 := hl8 n (List.mem_cons_self _ _)
    have ht8 : ∀ m ∈ t, m < 8 := fun m hm => hl8 m (List.mem_cons_of_mem _ hm)
    have hnt : n ∉ t := (List.nodup_cons.mp hnd).1
    have htnd : t.Nodup := (List.nodup_cons.mp hnd).2
    have hmn : idx (sSDIXmitEnableMasks K) n = BIT (idx (sSDIXmitEnableShifts K) n) :=
      hbits n (List.mem_range.mpr hn8)
    simp only [readSDIXmitLoop]
    by_cases hc : idx (sSDIXmitEnableMasks K) n &&& inRegMask ≠ 0
    · rw [if_pos hc]
      cases hg : GetCardIOChannelFromVirtual sdk n s.mVDevToCardWgts with
      | none =>
        simp only []
        obtain ⟨i1, i2⟩ := ih OutValue card hregs hread ht8 htnd
        refine ⟨i1, ?_⟩
        intro i hi
        rw [i2 i hi]
        by_cases hin : i = n
        · subst hin
          simp only [hnt, false_and, if_false, List.mem_cons, true_or, true_and, hc, ne_eq,
            not_false_eq_true, if_true, hg]
        · simp only [List.mem_cons, hin, false_or]
      | some j =>
        simp only []
        have hrd : card.ReadRegister inRegNum 0 (idx (sSDIXmitEnableMasks K) j)
            (idx (sSDIXmitEnableShifts K) j)
            = (true, (regs inRegNum &&& idx (sSDIXmitEnableMasks K) j)
                >>> idx (sSDIXmitEnableShifts K) j,
               { card with calls := card.calls ++ [Call.ReadRegister inRegNum
                  (idx (sSDIXmitEnableMasks K) j) (idx (sSDIXmitEnableShifts K) j)] }) := by
          simp only [Card.ReadRegister, hread, if_true, hregs]
        rw [hrd]
        simp only [Bool.true_eq_false, if_false]
        obtain ⟨i1, i2⟩ := ih
          (if (regs inRegNum &&& idx (sSDIXmitEnableMasks K) j)
                >>> idx (sSDIXmitEnableShifts K) j ≠ 0
            then OutValue ||| idx (sSDIXmitEnableMasks K) n
            else OutValue &&& not32 (idx (sSDIXmitEnableMasks K) n))
          { card with calls := card.calls ++ [Call.ReadRegister inRegNum
              (idx (sSDIXmitEnableMasks K) j) (idx (sSDIXmitEnableShifts K) j)] }
          hregs hread ht8 htnd
        refine ⟨i1, ?_⟩
        intro i hi
        rw [i2 i hi]
        have hilt : idx (sSDIXmitEnableShifts K) i < 32 := hlt i (List.mem_range.mpr hi)
        by_cases hin : i = n
        · subst hin
          simp only [hnt, false_and, if_false, List.mem_cons, true_or, true_and, hc, ne_eq,
            not_false_eq_true, if_true, hg]
          rw [hmn]
          by_cases hv0 : (regs inRegNum &&& idx (sSDIXmitEnableMasks K) j)
              >>> idx (sSDIXmitEnableShifts K) j = 0
          · rw [if_neg (not_not.mpr hv0), testBit_and_not32_BIT _ _ _ hilt]
            simp [hv0]
          · rw [if_pos hv0, testBit_or_BIT]
            simp [hv0]
        · have hsh : idx (sSDIXmitEnableShifts K) n ≠ idx (sSDIXmitEnableShifts K) i :=
            idx_ne_of_nodup _ hnodup n i (by rw [hlen]; exact hn8) (by rw [hlen]; exact hi)
              (fun e => hin e.symm)
          have hkeep : (if (regs inRegNum &&& idx (sSDIXmitEnableMasks K) j)
                >>> idx (sSDIXmitEnableShifts K) j ≠ 0
              then OutValue ||| idx (sSDIXmitEnableMasks K) n
              else OutValue &&& not32 (idx (sSDIXmitEnableMasks K) n)).testBit
                (idx (sSDIXmitEnableShifts K) i)
              = OutValue.testBit (idx (sSDIXmitEnableShifts K) i) := by
            rw [hmn]
            by_cases hv0 : (regs inRegNum &&& idx (sSDIXmitEnableMasks K) j)
                >>> idx (sSDIXmitEnableShifts K) j = 0
            · rw [if_neg (not_not.mpr hv0), testBit_and_not32_BIT _ _ _ hilt]
              simp [hsh]
            · rw [if_pos hv0, testBit_or_BIT]
              simp [hsh]
          rw [hkeep]
          simp only [List.mem_cons, hin, false_or]
    · rw [if_neg hc]
      obtain ⟨i1, i2⟩ := ih OutValue card hregs hread ht8 htnd
      refine ⟨i1, ?_⟩
      intro i hi
      rw [i2 i hi]
      by_cases hin : i = n
      · subst hin
        simp only [hnt, false_and, if_false, List.mem_cons, true_or, true_and, hc, if_false]
      · simp only [List.mem_cons, hin, false_or]

/-- C31: with the switch labels pairwise different, `kRegSDITransmitControl` outside the anc
windows and the crosspoint-select registers, and the eight transmit masks eight different
single bits of a 32-bit word (each mask `BIT` of its shift): on a card with bidirectional
SDI whose read of the register succeeds, for every virtual spigot `i` in 0..7 whose
transmit bit is in the caller's mask and for which `GetCardIOChannelFromVirtual` finds the
card spigot `j` in 0..7, the read succeeds, its result is the result for shift 0 shifted as
the caller asks, and in the result for shift 0 the transmit bit of spigot `i` is the
transmit bit of spigot `j` in the card's `kRegSDITransmitControl`; on a card without
bidirectional SDI the read returns true with `outValue` and the card as they were, so no
call is issued. -/
theorem sdiTransmit_read_takes_paired_bits (sdk : SDK) (K : Regs) (s : VDev) (card : Card)
    (outValue mask shift i j : Nat)
    (hlabels : (readSwitchLabels K).Nodup)
    (hExt : isMyAncExtRegister K.kRegSDITransmitControl = false)
    (hIns : isMyAncInsRegister K.kRegSDITransmitControl = false)
    (hXpt : isMyXptSelectRegister s K.kRegSDITransmitControl = false)
    (hbits : ∀ n ∈ List.range 8,
      idx (sSDIXmitEnableMasks K) n = BIT (idx (sSDIXmitEnableShifts K) n))
    (hlt : ∀ n ∈ List.range 8, idx (sSDIXmitEnableShifts K) n < 32)
    (hnodup : (sSDIXmitEnableShifts K).Nodup)
    (hread : card.readOK K.kRegSDITransmitControl = true) :
    (card.HasBiDirectionalSDI = true → i < 8 →
      idx (sSDIXmitEnableMasks K) i &&& mask ≠ 0 →
      GetCardIOChannelFromVirtual sdk i s.mVDevToCardWgts = some j → j < 8 →
        (NTV2ReadRegisterRemote sdk K s card K.kRegSDITransmitControl outValue mask shift).1
          = true
        ∧ (NTV2ReadRegisterRemote sdk K s card K.kRegSDITransmitControl outValue mask shift).2.1
          = shiftIfRequested
              (NTV2ReadRegisterRemote sdk K s card K.kRegSDITransmitControl outValue mask 0).2.1
              shift
        ∧ (NTV2ReadRegisterRemote sdk K s card K.kRegSDITransmitControl outValue mask
              0).2.1.testBit (idx (sSDIXmitEnableShifts K) i)
          = (card.regs K.kRegSDITransmitControl).testBit (idx (sSDIXmitEnableShifts K) j))
    ∧ (card.HasBiDirectionalSDI = false →
        NTV2ReadRegisterRemote sdk K s card K.kRegSDITransmitControl outValue mask shift
          = (true, outValue, card)) := by
  have h := ne_of_mem_take hlabels 18 (by simp [readSwitchLabels])
  simp only [readSwitchLabels, List.take, List.getElem_cons_succ, List.getElem_cons_zero,
    List.forall_mem_cons, List.not_mem_nil, false_implies, implies_true, and_true] at h
  have hdisp : ∀ sh, NTV2ReadRegisterRemote sdk K s card K.kRegSDITransmitControl outValue
        mask sh
      = HandleReadSDITransmitControl sdk K s card K.kRegSDITransmitControl outValue mask sh := by
    intro sh
    simp [NTV2ReadRegisterRemote, hExt, hIns, hXpt, h]
  constructor
  · intro hbidi hi hin hpair hj
    obtain ⟨l1, l2⟩ := readSDIXmitLoop_bits sdk K s K.kRegSDITransmitControl mask card.regs
      hbits hlt hnodup (List.range 8) outValue card rfl hread
      (fun n hn => List.mem_range.mp hn) (List.nodup_range 8)
    have hval : ∀ sh, HandleReadSDITransmitControl sdk K s card K.kRegSDITransmitControl
          outValue mask sh
        = (true, shiftIfRequested (readSDIXmitLoop sdk K s K.kRegSDITransmitControl mask
              (List.range 8) outValue card).2.1 sh,
            (readSDIXmitLoop sdk K s K.kRegSDITransmitControl mask
              (List.range 8) outValue card).2.2) := by
      intro sh
      simp only [HandleReadSDITransmitControl, hbidi, not_true_eq_false, if_false, l1,
        Bool.true_eq_false]
    have hz : ∀ v, shiftIfRequested v 0 = v := by
      intro v
      simp [shiftIfRequested]
    rw [hdisp, hdisp, hval, hval, hz]
    refine ⟨rfl, rfl, ?_⟩
    rw [l2 i hi, if_pos ⟨List.mem_range.mpr hi, hin⟩, hpair]
    simp only []
    rw [hbits j (List.mem_range.mpr hj)]
    rw [Bool.eq_iff_iff]
    simp only [decide_eq_true_eq]
    exact masked_bit_ne_zero _ _
  · intro hbidi
    rw [hdisp]
    simp [HandleReadSDITransmitControl, hbidi]

/-- C31 on the sample tables, where the SDI widget of virtual spigot 1 is on the card's
spigot 3: with the transmit bit of spigot 3 (bit 30) set in the card's register 256, a
read with the mask of spigot 1 (bit 28) returns bit 28 set; on the card without
bidirectional SDI the same read returns the caller's `0x1234` and issues no call. -/
theorem sdiTransmit_read_takes_paired_bits_witness :
    GetCardIOChannelFromVirtual sampleSDK 0 sampleVDev.mVDevToCardWgts = some 2
    ∧ (NTV2ReadRegisterRemote sampleSDK sampleRegs sampleVDev
        (cardWithRegs (fun r => if r = 256 then 0x40000000 else 0)) 256 0 0x10000000 0).2.1
        = 0x10000000
    ∧ (NTV2ReadRegisterRemote sampleSDK sampleRegs sampleVDev
        (cardWithRegs (fun r => if r = 256 then 0x40000000 else 0)) 256 0 0x10000000
          0).2.1.testBit 28 = true
    ∧ (NTV2ReadRegisterRemote sampleSDK sampleRegs sampleVDev
        (cardWithoutBiDirectionalSDI (fun r => if r = 256 then 0x40000000 else 0)) 256 0x1234
          0x10000000 0).2.1 = 0x1234
    ∧ (NTV2ReadRegisterRemote sampleSDK sampleRegs sampleVDev
        (cardWithoutBiDirectionalSDI (fun r => if r = 256 then 0x40000000 else 0)) 256 0x1234
          0x10000000 0).2.2.calls = [] := by
  have h := sdiTransmit_read_takes_paired_bits sampleSDK sampleRegs sampleVDev
    (cardWithRegs (fun r => if r = 256 then 0x40000000 else 0)) 0 0x10000000 0 0 2
    (by decide) (by decide) (by decide) (by decide) (by decide) (by decide) (by decide)
    (by decide)
  have h2 := (sdiTransmit_read_takes_paired_bits sampleSDK sampleRegs sampleVDev
    (cardWithoutBiDirectionalSDI (fun r => if r = 256 then 0x40000000 else 0)) 0x1234
    0x10000000 0 0 2
    (by decide) (by decide) (by decide) (by decide) (by decide) (by decide) (by decide)
    (by decide)).2 (by decide)
  have h3 := (h.1 (by decide) (by decide) (by decide) (by decide) (by decide)).2.2
  refine ⟨by decide, by decide, ?_, ?_, ?_⟩
  · exact h3.trans (by decide)
  · exact congrArg (fun x => x.2.1) h2
  · exact congrArg (fun x => x.2.2.calls) h2

/-! ## Reads and the caller's variable -/

/-- C39 (the claim at its failing inputs): on the sample tables, a read of
`kRegSDITransmitControl` (register 256) on a card without bidirectional SDI returns true
and the value that was in `outValue` on entry, `0x1234` for one call and 0 for the other;
and a read of the crosspoint-select register 136 with mask `0x0F`, which covers none of
its fields, returns the caller's `0x1234`, or 0, shifted by nothing. No call reaches the
card in either case. -/
theorem read_returns_callers_outValue :
    (NTV2ReadRegisterRemote sampleSDK sampleRegs sampleVDev
        (cardWithoutBiDirectionalSDI (fun _ => 0)) 256 0x1234 0xFFFFFFFF 0).1 = true
    ∧ (NTV2ReadRegisterRemote sampleSDK sampleRegs sampleVDev
        (cardWithoutBiDirectionalSDI (fun _ => 0)) 256 0x1234 0xFFFFFFFF 0).2.1 = 0x1234
    ∧ (NTV2ReadRegisterRemote sampleSDK sampleRegs sampleVDev
        (cardWithoutBiDirectionalSDI (fun _ => 0)) 256 0 0xFFFFFFFF 0).2.1 = 0
    ∧ (NTV2ReadRegisterRemote sampleSDK sampleRegs sampleVDev
        (cardWithoutBiDirectionalSDI (fun _ => 0)) 256 0x1234 0xFFFFFFFF 0).2.2.calls = []
    ∧ isMyXptSelectRegister sampleVDev 136 = true
    ∧ (NTV2ReadRegisterRemote sampleSDK sampleRegs sampleVDev sampleCard 136 0x1234 0x0F 0).1
        = true
    ∧ (NTV2ReadRegisterRemote sampleSDK sampleRegs sampleVDev sampleCard 136 0x1234 0x0F 0).2.1
        = 0x1234
    ∧ (NTV2ReadRegisterRemote sampleSDK sampleRegs sampleVDev sampleCard 136 0 0x0F 0).2.1 = 0
    ∧ (NTV2ReadRegisterRemote sampleSDK sampleRegs sampleVDev sampleCard 136 0x1234 0x0F
        0).2.2.calls = [] := by
  decide

theorem Card.ReadRegister_indep (card : Card) (hread : ∀ r, card.readOK r = true)
    (outValue regNum mask shift : Nat) :
    card.ReadRegister regNum outValue mask shift
      = (true, (card.regs regNum &&& mask) >>> shift,
          { card with calls := card.calls ++ [Call.ReadRegister regNum mask shift] }) := by
  simp only [Card.ReadRegister, hread, if_true]

theorem ite_rel {α : Type} (P : α → α → Prop) (c : Prop) [Decidable c] (a a' b b' : α)
    (ha : c → P a a') (hb : ¬ c → P b b') :
    P (if c then a else b) (if c then a' else b') := by
  by_cases h : c
  · rw [if_pos h, if_pos h]; exact ha h
  · rw [if_neg h, if_neg h]; exact hb h

theorem HandleReadAnc_indep (s : VDev) (card : Card) (hread : ∀ r, card.readOK r = true)
    (regNum o1 o2 mask shift : Nat) :
    HandleReadAncExt s card regNum o1 mask shift = HandleReadAncExt s card regNum o2 mask shift
    ∧ HandleReadAncIns s card regNum o1 mask shift
        = HandleReadAncIns s card regNum o2 mask shift := by
  have h1 := Card.ReadRegister_indep card hread o1
  have h2 := Card.ReadRegister_indep card hread o2
  constructor
  · unfold HandleReadAncExt
    simp only [h1, h2]
  · unfold HandleReadAncIns
    simp only [h1, h2]

theorem readPCMControl_indep (K : Regs) (s : VDev) (card : Card)
    (hread : ∀ r, card.readOK r = true) (regNum o1 o2 mask shift : Nat) :
    readPCMControl K s card regNum o1 mask shift = readPCMControl K s card regNum o2 mask shift := by
  have h1 := Card.ReadRegister_indep card hread o1
  have h2 := Card.ReadRegister_indep card hread o2
  unfold readPCMControl
  simp only [h1, h2]

theorem HandleReadGlobalControl_indep (sdk : SDK) (K : Regs) (s : VDev) (card : Card)
    (hread : ∀ r, card.readOK r = true) (regNum o1 o2 mask shift : Nat) :
    HandleReadGlobalControl sdk K s card regNum o1 mask shift
      = HandleReadGlobalControl sdk K s card regNum o2 mask shift := by
  have h1 := Card.ReadRegister_indep card hread o1
  have h2 := Card.ReadRegister_indep card hread o2
  unfold HandleReadGlobalControl
  simp only [h1, h2]

theorem HandleReadChannelControl_indep (K : Regs) (s : VDev) (card : Card)
    (hread : ∀ r, card.readOK r = true) (regNum o1 o2 mask shift : Nat) :
    HandleReadChannelControl K s card regNum o1 mask shift
      = HandleReadChannelControl K s card regNum o2 mask shift := by
  have h1 := Card.ReadRegister_indep card hread o1
  have h2 := Card.ReadRegister_indep card hread o2
  unfold HandleReadChannelControl
  simp only [h1, h2]

/-- C39: for every register number that is neither a crosspoint-select register of the
virtual device nor `kRegSDITransmitControl`, every mask and shift, and every card whose
register reads succeed, two calls of `NTV2ReadRegisterRemote` that differ only in the
content of `outValue` on entry return the same result, the same `outValue` and leave the
card in the same state. -/
theorem read_independent_of_outValue (sdk : SDK) (K : Regs) (s : VDev) (card : Card)
    (regNum outValue1 outValue2 mask shift : Nat)
    (hread : ∀ r, card.readOK r = true)
    (hXpt : isMyXptSelectRegister s regNum = false)
    (hSDI : regNum ≠ K.kRegSDITransmitControl) :
    NTV2ReadRegisterRemote sdk K s card regNum outValue1 mask shift
      = NTV2ReadRegisterRemote sdk K s card regNum outValue2 mask shift := by
  have h1 := Card.ReadRegister_indep card hread outValue1
  have h2 := Card.ReadRegister_indep card hread outValue2
  suffices key : ∀ (P : Bool × Nat × Card → Bool × Nat × Card → Prop), (∀ x, P x x) →
      P (NTV2ReadRegisterRemote sdk K s card regNum outValue1 mask shift)
        (NTV2ReadRegisterRemote sdk K s card regNum outValue2 mask shift) from
    key (fun x y => x = y) (fun _ => rfl)
  intro P hP
  unfold NTV2ReadRegisterRemote
  simp only []
  repeat' (with_reducible refine ite_rel P _ _ _ _ _ (fun _ => ?_) (fun _ => ?_))
  all_goals first
    | (with_reducible exact hP _)
    | (rw [h1, h2]
       with_reducible exact hP _)
    | (exfalso
       rename_i h
       rw [hXpt] at h
       exact Bool.noConfusion h)
    | (exfalso
       rename_i h
       exact hSDI h)
    | (rw [(HandleReadAnc_indep s card hread _ outValue1 outValue2 _ _).1]
       with_reducible exact hP _)
    | (rw [(HandleReadAnc_indep s card hread _ outValue1 outValue2 _ _).2]
       with_reducible exact hP _)
    | (rw [readPCMControl_indep K s card hread _ outValue1 outValue2]
       with_reducible exact hP _)
    | (rw [HandleReadGlobalControl_indep sdk K s card hread _ outValue1 outValue2]
       with_reducible exact hP _)
    | (rw [HandleReadChannelControl_indep K s card hread _ outValue1 outValue2]
       with_reducible exact hP _)

/-- C39 on the sample tables and the sample card, all of whose registers are 0: a read of
`kRegCh1OutputFrame` (register 3) returns the same for `outValue` `0x1234` and 0 on entry,
the value 0 of the card's register. -/
theorem read_independent_of_outValue_witness :
    NTV2ReadRegisterRemote sampleSDK sampleRegs sampleVDev sampleCard 3 0x1234 0xFFFFFFFF 0
      = NTV2ReadRegisterRemote sampleSDK sampleRegs sampleVDev sampleCard 3 0 0xFFFFFFFF 0
    ∧ (NTV2ReadRegisterRemote sampleSDK sampleRegs sampleVDev sampleCard 3 0x1234 0xFFFFFFFF
        0).2.1 = 0 :=
  ⟨read_independent_of_outValue sampleSDK sampleRegs sampleVDev sampleCard 3 0x1234 0
      0xFFFFFFFF 0 (fun _ => rfl) (by decide) (by decide),
   by decide⟩

end NTV2VirtualDev
